import Mathlib

/-!
# RTSP server request dispatcher (`gst/rtsp-server/rtsp-client.c`)

A shallow embedding of the request handlers of `rtsp-client.c` and the
properties of the specification that concern them.

C strings are lists of characters (the terminating NUL is not part of the
list).  Objects that the C code reaches through pointers (the session pool,
sessions, session media) are values that are passed and returned explicitly.
-/

namespace RtspServer

/-- A NUL-terminated C string, without its terminator. -/
abbrev CString := List Char

/-! ## `santize_uri` -/

/-- The `for (i = 0; i < len; i++)` loop of `santize_uri`, with `n` iterations
still to run.  `buf` is the buffer of `uri->abspath`, which both `s` and `d`
point into; `i` is the read index and `d` the write offset. -/
def santize_loop : Nat → Nat → CString → Nat → Bool → CString × Nat
  | 0, _, buf, d, _ => (buf, d)
  | n + 1, i, buf, d, prev_slash =>
    let c := buf.getD i '\x00'
    let have_slash := c == '/'
    -- *d = s[i];
    let buf := buf.set d c
    -- if (!have_slash || !prev_slash) d++;
    let d := if !have_slash || !prev_slash then d + 1 else d
    santize_loop n (i + 1) buf d have_slash

/-- `santize_uri`: remove duplicate and trailing '/' from `uri->abspath`,
in place.  The result is the buffer up to the NUL written at `*d`. -/
def santize_uri (abspath : CString) : CString :=
  let len := abspath.length
  let r := santize_loop len 0 abspath 0 false
  let buf := r.1
  let d := r.2
  -- len = d - uri->abspath;
  let len := d
  -- if (len > 1 && *(d-1) == '/') d--;
  let d := if len > 1 && buf.getD (d - 1) '\x00' == '/' then d - 1 else d
  -- *d = '\0';
  buf.take d

/-! ### The specification's description of sanitizing -/

/-- Replace every maximal run of '/' by a single '/' (the specification's
wording): on a '/', emit one '/' and skip the rest of the run. -/
def collapseSlashes : CString → CString
  | [] => []
  | c :: rest =>
    if c = '/' then '/' :: collapseSlashes (rest.dropWhile (· == '/'))
    else c :: collapseSlashes rest
termination_by l => l.length
decreasing_by
  all_goals simp_wf
  · exact Nat.lt_succ_of_le (List.dropWhile_suffix _).length_le

/-- Delete the final '/' of a string that is longer than one character and
ends in '/' (the specification's wording). -/
def stripTrailingSlash (p : CString) : CString :=
  if 1 < p.length ∧ p.getLast? = some '/' then p.dropLast else p

/-- The specification's sanitizer: collapse runs, then strip one trailing '/'. -/
def sanitizeSpec (p : CString) : CString :=
  stripTrailingSlash (collapseSlashes p)

/-- The characters `santize_loop` keeps, as a function of the list still to
read and of `prev_slash` (used to state the loop invariant). -/
def keptChars : Bool → CString → CString
  | _, [] => []
  | prev_slash, c :: rest =>
    if !(c == '/') || !prev_slash then c :: keptChars (c == '/') rest
    else keptChars (c == '/') rest

/-! ## Library functions on C strings -/

/-- `strstr (hay, needle)`: the offset of the first occurrence of `needle` in
`hay`, or `none` for a NULL result. -/
def strstr : CString → CString → Option Nat
  | [], needle => if needle.isEmpty then some 0 else none
  | c :: rest, needle =>
    if needle.isPrefixOf (c :: rest) then some 0
    else (strstr rest needle).map (· + 1)

/-- `isspace` in the C locale. -/
def isspace (c : Char) : Bool :=
  c == ' ' || c == '\t' || c == '\n' || c == '\x0b' || c == '\x0c' || c == '\r'

/-- The value of a string of decimal digits. -/
def digitsValue (ds : CString) : Nat :=
  ds.foldl (fun acc c => 10 * acc + (c.toNat - '0'.toNat)) 0

/-- `sscanf (s, "%u", &v) == 1`, with the value stored in the `guint`.
The `%u` directive skips white space and then matches an optionally signed
decimal integer (the subject sequence of `strtoul` in base 10); `none` is a
matching failure (return value 0 or EOF).  The stored value is reduced modulo
`2^32`; for a number that does not fit the `guint` ISO C leaves the value
undefined. -/
def sscanf_u (s : CString) : Option Nat :=
  let s := s.dropWhile isspace
  let neg := s.head? == some '-'
  let s := if s.head? == some '+' || s.head? == some '-' then s.tail else s
  let digits := s.takeWhile Char.isDigit
  if digits.isEmpty then none
  else
    let v := digitsValue digits
    some ((if neg then 2 ^ 32 - v % 2 ^ 32 else v) % 2 ^ 32)

/-- The pieces of a non-empty string between the delimiters: the first piece
and the remaining ones. -/
def strsplit_pieces (delim : Char) : CString → CString × List CString
  | [] => ([], [])
  | c :: rest =>
    let r := strsplit_pieces delim rest
    if c == delim then ([], r.1 :: r.2) else (c :: r.1, r.2)

/-- `g_strsplit (string, delim, 0)` for a one-character delimiter: the empty
string gives the empty vector. -/
def g_strsplit (string : CString) (delim : Char) : List CString :=
  if string.isEmpty then []
  else (strsplit_pieces delim string).1 :: (strsplit_pieces delim string).2

/-- `printf ("%u", v)` for a `guint`. -/
def fmt_u (v : Nat) : CString := Nat.toDigits 10 v

/-- `printf ("%d", v)` when the argument passed is the `guint` `v`: its bits
are read as a `gint`. -/
def fmt_d (v : Nat) : CString :=
  if v % 2 ^ 32 < 2 ^ 31 then Nat.toDigits 10 (v % 2 ^ 32)
  else '-' :: Nat.toDigits 10 (2 ^ 32 - v % 2 ^ 32)

/-! ## Data model -/

/-- `GstRTSPMethod`. -/
inductive GstRTSPMethod
  | INVALID | DESCRIBE | ANNOUNCE | GET_PARAMETER | OPTIONS | PAUSE | PLAY
  | RECORD | REDIRECT | SETUP | SET_PARAMETER | TEARDOWN
  deriving DecidableEq

/-- The bit of a method in a `GstRTSPMethod` mask. -/
def GstRTSPMethod.bit : GstRTSPMethod → Nat
  | .INVALID => 0
  | .DESCRIBE => 1 <<< 0
  | .ANNOUNCE => 1 <<< 1
  | .GET_PARAMETER => 1 <<< 2
  | .OPTIONS => 1 <<< 3
  | .PAUSE => 1 <<< 4
  | .PLAY => 1 <<< 5
  | .RECORD => 1 <<< 6
  | .REDIRECT => 1 <<< 7
  | .SETUP => 1 <<< 8
  | .SET_PARAMETER => 1 <<< 9
  | .TEARDOWN => 1 <<< 10

/-- `GstRTSPHeaderField`, the fields the handlers use. -/
inductive GstRTSPHeaderField
  | ACCEPT | CONTENT_BASE | CONTENT_TYPE | CSEQ | PUBLIC | RTP_INFO | SESSION
  | TRANSPORT | USER_AGENT | WWW_AUTHENTICATE | LOCATION | BLOCKSIZE | KEYMGMT | ALLOW
  deriving DecidableEq

/-- `GstRTSPStatusCode`. -/
abbrev GstRTSPStatusCode := Nat

def GST_RTSP_STS_OK : GstRTSPStatusCode := 200
def GST_RTSP_STS_BAD_REQUEST : GstRTSPStatusCode := 400
def GST_RTSP_STS_NOT_FOUND : GstRTSPStatusCode := 404
def GST_RTSP_STS_SESSION_NOT_FOUND : GstRTSPStatusCode := 454
def GST_RTSP_STS_UNSUPPORTED_TRANSPORT : GstRTSPStatusCode := 461
def GST_RTSP_STS_NOT_IMPLEMENTED : GstRTSPStatusCode := 501
def GST_RTSP_STS_SERVICE_UNAVAILABLE : GstRTSPStatusCode := 503
def GST_RTSP_STS_RTSP_VERSION_NOT_SUPPORTED : GstRTSPStatusCode := 505

def GST_RTSP_VERSION_1_0 : Nat := 0x10

/-- `GstRTSPTransMode`, `GstRTSPProfile` and `GstRTSPLowerTrans` bits. -/
def GST_RTSP_TRANS_RTP : Nat := 1 <<< 0
def GST_RTSP_TRANS_RDT : Nat := 1 <<< 1
def GST_RTSP_PROFILE_AVP : Nat := 1 <<< 0
def GST_RTSP_PROFILE_SAVP : Nat := 1 <<< 1
def GST_RTSP_LOWER_TRANS_UDP : Nat := 1 <<< 0
def GST_RTSP_LOWER_TRANS_UDP_MCAST : Nat := 1 <<< 1
def GST_RTSP_LOWER_TRANS_TCP : Nat := 1 <<< 2
def GST_RTSP_LOWER_TRANS_HTTP : Nat := 1 <<< 4

/-- `GstRTSPUrl` of the RTSP library: the fields the handlers and the sink
read.  `query` is NULL (`none`) for a URL without a query part; `transports`
is the mask of lower transports the URL scheme allows; `user` and `passwd`
are NULL for a URL without credentials. -/
structure GstRTSPUrl where
  host : CString
  port : Nat
  abspath : CString
  query : Option CString
  transports : Nat := 0
  user : Option CString := none
  passwd : Option CString := none
  deriving DecidableEq

/-- A request `GstRTSPMessage`: method, uri and version of the request line
and the headers in order. -/
structure GstRTSPRequest where
  method : GstRTSPMethod
  uri : CString
  version : Nat
  headers : List (GstRTSPHeaderField × CString)
  deriving DecidableEq

/-- A response `GstRTSPMessage`: the status code, the request it was
initialised from by `gst_rtsp_message_init_response` (which takes over the
headers of the request it echoes), the headers the handler added afterwards
and the body. -/
structure GstRTSPResponse where
  code : GstRTSPStatusCode
  request : GstRTSPRequest
  headers : List (GstRTSPHeaderField × CString)
  body : Option CString
  deriving DecidableEq

/-- `GstRTSPRange` of the RTSP library: a pair of `gint`. -/
structure GstRTSPRange where
  min : Int
  max : Int
  deriving DecidableEq

/-- `GstRTSPTransport` of the RTSP library: the fields the handler and the
sink read or write; `params` stands for the remaining ones (ports, ssrc, ...).
`gst_rtsp_transport_init` sets the interleaved channels to -1. -/
structure GstRTSPTransport where
  trans : Nat
  profile : Nat
  lower_transport : Nat
  destination : CString
  params : CString
  interleaved : GstRTSPRange := ⟨-1, -1⟩
  deriving DecidableEq

/-- Modelled from the spec: `GstRTSPMediaStream` (rtsp-media.h), of which the
handlers read the `seqnum` and `timestamp` properties of the stream's
payloader (both `guint`). -/
structure GstRTSPMediaStream where
  seqnum : Nat
  timestamp : Nat
  deriving DecidableEq

/-- Modelled from the spec: `GstRTSPMedia` (rtsp-media.h), a preparable media
object exposing its streams: the streams, the result `gst_rtsp_media_prepare`
has on it, and the text of the SDP `gst_rtsp_sdp_from_media` builds from it
(`none` when it builds none). -/
structure GstRTSPMedia where
  streams : List GstRTSPMediaStream
  prepares : Bool
  sdp : Option CString
  deriving DecidableEq

/-- Modelled from the spec: `GstRTSPMediaFactory` (rtsp-media-factory.h): the
media `gst_rtsp_media_factory_construct` gives (`none` for NULL). -/
structure GstRTSPMediaFactory where
  media : Option GstRTSPMedia
  deriving DecidableEq

/-- Modelled from the spec: the play state of a session media (4.3). -/
inductive MediaState
  | Init | Playing | Paused | Stopped
  deriving DecidableEq

/-- Modelled from the spec: `GstRTSPSessionMedia` (rtsp-session.h): the url it
is managed under, the media, its play state and the transports configured for
its streams (stream index, client transport). -/
structure GstRTSPSessionMedia where
  url : GstRTSPUrl
  media : GstRTSPMedia
  state : MediaState
  transports : List (Nat × GstRTSPTransport)
  deriving DecidableEq

/-- Modelled from the spec: `GstRTSPSession` (rtsp-session.h): the session id
and the session media, one per stream url. -/
structure GstRTSPSession where
  sessionid : CString
  medias : List GstRTSPSessionMedia
  deriving DecidableEq

/-- Modelled from the spec: `GstRTSPSessionPool` (rtsp-session-pool.h): the
sessions it owns and the outcomes of its coming `create` calls, in order
(`none`: the pool refuses to create a session; `some id`: the id the pool
generates). -/
structure GstRTSPSessionPool where
  sessions : List GstRTSPSession
  fresh : List (Option CString)
  deriving DecidableEq

/-- Modelled from the spec: `GstRTSPMediaMapping` (rtsp-media-mapping.h),
media factories keyed by url path. -/
abbrev GstRTSPMediaMapping := List (CString × GstRTSPMediaFactory)

/-- What a handler does to the outside, in order: messages sent on the
connection and calls into the session pool, the media mapping and the media. -/
inductive Event
  | send (response : GstRTSPResponse)
  | find_factory (uri : GstRTSPUrl)
  | factory_construct (uri : GstRTSPUrl)
  | media_prepare (uri : GstRTSPUrl)
  | pool_find (sessid : CString)
  | pool_create
  | pool_remove (sessid : CString)
  | manage_media (sessid : CString) (uri : GstRTSPUrl)
  | get_media (sessid : CString) (uri : GstRTSPUrl)
  | get_stream (sessid : CString) (uri : GstRTSPUrl) (streamid : Nat)
  | set_transport (sessid : CString) (uri : GstRTSPUrl) (streamid : Nat)
      (ct : GstRTSPTransport)
  | media_play (sessid : CString) (uri : GstRTSPUrl)
  | media_pause (sessid : CString) (uri : GstRTSPUrl)
  | media_stop (sessid : CString) (uri : GstRTSPUrl)
  | connection_close
  deriving DecidableEq

/-- `GstRTSPClient` (rtsp-client.h), by the fields the handlers use: the peer
address as `inet_ntoa` prints it, the session pool and the media mapping; and
the trace of what happened on the connection and on the collaborators so far. -/
structure GstRTSPClient where
  address : CString
  session_pool : GstRTSPSessionPool
  media_mapping : GstRTSPMediaMapping
  trace : List Event
  deriving DecidableEq

/-- Functions of the RTSP library that the handlers call and whose code is
not part of the dispatcher: they are parameters of the model. -/
structure RtspLib where
  /-- `gst_rtsp_url_parse`; `none` for a result other than `GST_RTSP_OK`. -/
  url_parse : CString → Option GstRTSPUrl
  /-- `gst_rtsp_url_get_request_uri` -/
  url_get_request_uri : GstRTSPUrl → CString
  /-- `gst_rtsp_transport_parse` on a freshly initialised transport; `none`
  for a result other than `GST_RTSP_OK`. -/
  transport_parse : CString → Option GstRTSPTransport
  /-- `gst_rtsp_transport_as_text` -/
  transport_as_text : GstRTSPTransport → CString
  /-- The server transport `gst_rtsp_session_stream_set_transport` returns. -/
  server_transport : GstRTSPMediaStream → GstRTSPTransport → GstRTSPTransport
  /-- `gst_rtsp_options_as_text` -/
  options_as_text : Nat → CString

/-! ## Messages -/

/-- `gst_rtsp_message_get_header (msg, field, &value, indx)`: the value of
the `indx`-th header with this field; `none` for `GST_RTSP_ENOTIMPL`. -/
def gst_rtsp_message_get_header (headers : List (GstRTSPHeaderField × CString))
    (field : GstRTSPHeaderField) (indx : Nat) : Option CString :=
  ((headers.filter (fun h => h.1 = field)).map (fun h => h.2)).get? indx

/-- `gst_rtsp_message_remove_header (msg, field, -1)`: remove every header
with this field from the request. -/
def gst_rtsp_message_remove_header (request : GstRTSPRequest)
    (field : GstRTSPHeaderField) : GstRTSPRequest :=
  { request with headers := request.headers.filter (fun h => h.1 ≠ field) }

/-- `gst_rtsp_message_init_response (&response, code,
gst_rtsp_status_as_text (code), request)`. -/
def gst_rtsp_message_init_response (code : GstRTSPStatusCode)
    (request : GstRTSPRequest) : GstRTSPResponse :=
  { code := code, request := request, headers := [], body := none }

/-- `gst_rtsp_message_add_header` on a response. -/
def gst_rtsp_message_add_header (response : GstRTSPResponse)
    (field : GstRTSPHeaderField) (value : CString) : GstRTSPResponse :=
  { response with headers := response.headers ++ [(field, value)] }

/-- `gst_rtsp_message_take_body` on a response. -/
def gst_rtsp_message_take_body (response : GstRTSPResponse) (data : CString) :
    GstRTSPResponse :=
  { response with body := some data }

/-! ## Session pool, sessions and media (collaborators) -/

/-- Modelled from the spec: `gst_rtsp_session_pool_find` (rtsp-session-pool.c),
`find(id) -> Session | NotFound`. -/
def gst_rtsp_session_pool_find (pool : GstRTSPSessionPool) (sessid : CString) :
    Option GstRTSPSession :=
  pool.sessions.find? (fun s => s.sessionid = sessid)

/-- Modelled from the spec: `gst_rtsp_session_pool_create`
(rtsp-session-pool.c), `create() -> Session`, which can fail.  The outcome is
the next one of `pool.fresh`; a new session has no media. -/
def gst_rtsp_session_pool_create (pool : GstRTSPSessionPool) :
    GstRTSPSessionPool × Option GstRTSPSession :=
  match pool.fresh with
  | [] => (pool, none)
  | none :: rest => ({ pool with fresh := rest }, none)
  | some id :: rest =>
    ({ sessions := { sessionid := id, medias := [] } :: pool.sessions, fresh := rest },
      some { sessionid := id, medias := [] })

/-- Modelled from the spec: `gst_rtsp_session_pool_remove`
(rtsp-session-pool.c), `remove(session)`. -/
def gst_rtsp_session_pool_remove (pool : GstRTSPSessionPool)
    (session : GstRTSPSession) : GstRTSPSessionPool :=
  { pool with sessions := pool.sessions.filter (fun s => s.sessionid ≠ session.sessionid) }

/-- Replace the first element that satisfies `p`. -/
def replaceFirst {α : Type} (p : α → Bool) (new : α) : List α → List α
  | [] => []
  | x :: xs => if p x then new :: xs else x :: replaceFirst p new xs

/-- The pool after the session object `gst_rtsp_session_pool_find` gives for
this id was changed into `session` (the C code changes the object the pool
holds through the pointer). -/
def pool_store (pool : GstRTSPSessionPool) (session : GstRTSPSession) :
    GstRTSPSessionPool :=
  { pool with sessions :=
      replaceFirst (fun s => s.sessionid = session.sessionid) session pool.sessions }

/-- Modelled from the spec: `gst_rtsp_session_get_media` (rtsp-session.c),
the session's mapping from stream url to session media; the url is compared
by its path. -/
def gst_rtsp_session_get_media (session : GstRTSPSession) (uri : GstRTSPUrl) :
    Option GstRTSPSessionMedia :=
  session.medias.find? (fun m => m.url.abspath = uri.abspath)

/-- Modelled from the spec: `gst_rtsp_session_manage_media` (rtsp-session.c):
bind the media to the session under the url, in state `Init` and with no
stream transport yet. -/
def gst_rtsp_session_manage_media (session : GstRTSPSession) (uri : GstRTSPUrl)
    (media : GstRTSPMedia) : GstRTSPSession :=
  { session with medias :=
      { url := uri, media := media, state := MediaState.Init, transports := [] }
        :: session.medias }

/-- The session after the session media `gst_rtsp_session_get_media` gives
for this url was changed into `media`. -/
def session_store (session : GstRTSPSession) (media : GstRTSPSessionMedia) :
    GstRTSPSession :=
  { session with medias :=
      replaceFirst (fun m => m.url.abspath = media.url.abspath) media session.medias }

/-- Modelled from the spec: `gst_rtsp_media_n_streams` (rtsp-media.c), the
stream count of the media. -/
def gst_rtsp_media_n_streams (media : GstRTSPMedia) : Nat :=
  media.streams.length

/-- Modelled from the spec: `gst_rtsp_media_get_stream` (rtsp-media.c), the
stream with this index, NULL (`none`) outside the range `0..N-1`. -/
def gst_rtsp_media_get_stream (media : GstRTSPMedia) (idx : Nat) :
    Option GstRTSPMediaStream :=
  media.streams.get? idx

/-- Modelled from the spec: `gst_rtsp_session_media_get_stream`
(rtsp-session.c), `get_stream(index)`, which fails if the index is outside
the dense range `0..N-1` of the media's streams. -/
def gst_rtsp_session_media_get_stream (media : GstRTSPSessionMedia)
    (idx : Nat) : Option GstRTSPMediaStream :=
  gst_rtsp_media_get_stream media.media idx

/-- Modelled from the spec: what `gst_rtsp_session_stream_set_transport`
(rtsp-session.c) leaves in the session media: the client transport of the
stream. -/
def session_media_set_transport (media : GstRTSPSessionMedia) (idx : Nat)
    (ct : GstRTSPTransport) : GstRTSPSessionMedia :=
  { media with transports := (idx, ct) :: media.transports.filter (fun t => t.1 ≠ idx) }

/-- Modelled from the spec: `gst_rtsp_media_mapping_find_factory`
(rtsp-media-mapping.c), a media factory keyed by url path. -/
def gst_rtsp_media_mapping_find_factory (mapping : GstRTSPMediaMapping)
    (uri : GstRTSPUrl) : Option GstRTSPMediaFactory :=
  mapping.lookup uri.abspath

/-- Modelled from the spec: `gst_rtsp_media_factory_construct`
(rtsp-media-factory.c). -/
def gst_rtsp_media_factory_construct (factory : GstRTSPMediaFactory)
    (_uri : GstRTSPUrl) : Option GstRTSPMedia :=
  factory.media

/-- Modelled from the spec: `gst_rtsp_media_prepare` (rtsp-media.c). -/
def gst_rtsp_media_prepare (media : GstRTSPMedia) : Bool :=
  media.prepares

/-- Modelled from the spec: `gst_rtsp_sdp_from_media` (rtsp-sdp.c) followed by
`gst_sdp_message_as_text`. -/
def gst_rtsp_sdp_from_media (media : GstRTSPMedia) : Option CString :=
  media.sdp

/-! ## The handlers of `rtsp-client.c` -/

/-- Append an event to the client's trace. -/
def GstRTSPClient.log (client : GstRTSPClient) (e : Event) : GstRTSPClient :=
  { client with trace := client.trace ++ [e] }

/-- `handle_response`: send the response on the connection. -/
def handle_response (client : GstRTSPClient) (response : GstRTSPResponse) :
    GstRTSPClient :=
  client.log (Event.send response)

/-- `handle_generic_response` -/
def handle_generic_response (client : GstRTSPClient) (code : GstRTSPStatusCode)
    (request : GstRTSPRequest) : GstRTSPClient :=
  handle_response client (gst_rtsp_message_init_response code request)

/-- `find_media`: the media for the uri, or `none` (NULL) after an error
response was sent. -/
def find_media (client : GstRTSPClient) (uri : GstRTSPUrl)
    (request : GstRTSPRequest) : GstRTSPClient × Option GstRTSPMedia :=
  let client := client.log (Event.find_factory uri)
  match gst_rtsp_media_mapping_find_factory client.media_mapping uri with
  | none =>
    -- no_factory
    (handle_generic_response client GST_RTSP_STS_NOT_FOUND request, none)
  | some factory =>
    let client := client.log (Event.factory_construct uri)
    match gst_rtsp_media_factory_construct factory uri with
    | none =>
      -- no_media
      (handle_generic_response client GST_RTSP_STS_SERVICE_UNAVAILABLE request, none)
    | some media =>
      let client := client.log (Event.media_prepare uri)
      if !gst_rtsp_media_prepare media then
        -- no_prepare
        (handle_generic_response client GST_RTSP_STS_SERVICE_UNAVAILABLE request, none)
      else
        (client, some media)

/-- `ensure_session`: the session named by the request, or `none` (NULL)
after an error response was sent. -/
def ensure_session (client : GstRTSPClient) (request : GstRTSPRequest) :
    GstRTSPClient × Option GstRTSPSession :=
  match gst_rtsp_message_get_header request.headers GstRTSPHeaderField.SESSION 0 with
  | some sessid =>
    let client := client.log (Event.pool_find sessid)
    match gst_rtsp_session_pool_find client.session_pool sessid with
    | none =>
      -- session_not_found
      (handle_generic_response client GST_RTSP_STS_SESSION_NOT_FOUND request, none)
    | some session => (client, some session)
  | none =>
    -- service_unavailable
    (handle_generic_response client GST_RTSP_STS_SERVICE_UNAVAILABLE request, none)

/-- The client after `gst_rtsp_session_media_play`, `_pause` or `_stop` set
the play state of a media of a session of the pool. -/
def set_media_state (client : GstRTSPClient) (session : GstRTSPSession)
    (media : GstRTSPSessionMedia) (state : MediaState) : GstRTSPClient :=
  { client with session_pool :=
      pool_store client.session_pool (session_store session { media with state := state }) }

/-- `handle_teardown_response` -/
def handle_teardown_response (client : GstRTSPClient) (uri : GstRTSPUrl)
    (request : GstRTSPRequest) : GstRTSPClient × Bool :=
  match ensure_session client request with
  | (client, none) =>
    -- no_session: error was sent already
    (client, false)
  | (client, some session) =>
    let client := client.log (Event.get_media session.sessionid uri)
    match gst_rtsp_session_get_media session uri with
    | none =>
      -- not_found
      (handle_generic_response client GST_RTSP_STS_NOT_FOUND request, false)
    | some media =>
      -- gst_rtsp_session_media_stop (media);
      let client := client.log (Event.media_stop session.sessionid uri)
      let client := set_media_state client session media MediaState.Stopped
      -- gst_rtsp_session_pool_remove (client->session_pool, session);
      let client := client.log (Event.pool_remove session.sessionid)
      let pool := gst_rtsp_session_pool_remove client.session_pool session
      let client := { client with session_pool := pool }
      -- remove the session id from the request
      let request := gst_rtsp_message_remove_header request GstRTSPHeaderField.SESSION
      let response := gst_rtsp_message_init_response GST_RTSP_STS_OK request
      (handle_response client response, false)

/-- `handle_pause_response` -/
def handle_pause_response (client : GstRTSPClient) (uri : GstRTSPUrl)
    (request : GstRTSPRequest) : GstRTSPClient × Bool :=
  match ensure_session client request with
  | (client, none) =>
    -- no_session
    (client, false)
  | (client, some session) =>
    let client := client.log (Event.get_media session.sessionid uri)
    match gst_rtsp_session_get_media session uri with
    | none =>
      -- not_found
      (handle_generic_response client GST_RTSP_STS_NOT_FOUND request, false)
    | some media =>
      -- gst_rtsp_session_media_pause (media);
      let client := client.log (Event.media_pause session.sessionid uri)
      let client := set_media_state client session media MediaState.Paused
      let response := gst_rtsp_message_init_response GST_RTSP_STS_OK request
      (handle_response client response, false)

/-- One entry of the RTP-Info header:
`"url=%s/stream=%d;seq=%u;rtptime=%u", uristr, i, seqnum, timestamp`. -/
def rtpinfo_entry (uristr : CString) (i seqnum timestamp : Nat) : CString :=
  "url=".toList ++ uristr ++ "/stream=".toList ++ fmt_d i ++ ";seq=".toList
    ++ fmt_u seqnum ++ ";rtptime=".toList ++ fmt_u timestamp

/-- The `for (i = 0; i < n_streams; i++)` loop of `handle_play_response`,
with `n` iterations still to run from index `i`. -/
def rtpinfo_loop (lib : RtspLib) (uri : GstRTSPUrl) (media : GstRTSPMedia) :
    Nat → Nat → CString → CString
  | 0, _, rtpinfo => rtpinfo
  | n + 1, i, rtpinfo =>
    -- stream = gst_rtsp_media_get_stream (media->media, i), with i < n_streams
    let stream := (gst_rtsp_media_get_stream media i).getD { seqnum := 0, timestamp := 0 }
    let seqnum := stream.seqnum
    let timestamp := stream.timestamp
    let rtpinfo := if i > 0 then rtpinfo ++ ", ".toList else rtpinfo
    let uristr := lib.url_get_request_uri uri
    let rtpinfo := rtpinfo ++ rtpinfo_entry uristr i seqnum timestamp
    rtpinfo_loop lib uri media n (i + 1) rtpinfo

/-- `handle_play_response` -/
def handle_play_response (lib : RtspLib) (client : GstRTSPClient) (uri : GstRTSPUrl)
    (request : GstRTSPRequest) : GstRTSPClient × Bool :=
  match ensure_session client request with
  | (client, none) =>
    -- no_session: error was sent
    (client, false)
  | (client, some session) =>
    let client := client.log (Event.get_media session.sessionid uri)
    match gst_rtsp_session_get_media session uri with
    | none =>
      -- not_found
      (handle_generic_response client GST_RTSP_STS_NOT_FOUND request, false)
    | some media =>
      -- grab RTPInfo from the payloaders now
      let n_streams := gst_rtsp_media_n_streams media.media
      let rtpinfo := rtpinfo_loop lib uri media.media n_streams 0 []
      let response := gst_rtsp_message_init_response GST_RTSP_STS_OK request
      let response := gst_rtsp_message_add_header response GstRTSPHeaderField.RTP_INFO rtpinfo
      let client := handle_response client response
      -- start playing after sending the request
      let client := client.log (Event.media_play session.sessionid uri)
      let client := set_media_state client session media MediaState.Playing
      (client, false)

/-- The loop of `handle_setup_response` over the alternatives of the
Transport header: the transport of the first one that parses
(`have_transport = TRUE; break;`), `none` when the loop ends with
`have_transport` still FALSE. -/
def parse_transports (lib : RtspLib) : List CString → Option GstRTSPTransport
  | [] => none
  | t :: rest =>
    match lib.transport_parse t with
    | some ct => some ct
    | none => parse_transports lib rest

/-- The lower transports `handle_setup_response` supports. -/
def supported : Nat :=
  GST_RTSP_LOWER_TRANS_UDP ||| GST_RTSP_LOWER_TRANS_UDP_MCAST ||| GST_RTSP_LOWER_TRANS_TCP

/-- `handle_setup_response`, lines 416-443: get the session media and the
stream, set the transport and respond. -/
def handle_setup_stream (lib : RtspLib) (client : GstRTSPClient) (uri : GstRTSPUrl)
    (request : GstRTSPRequest) (streamid : Nat) (ct : GstRTSPTransport)
    (session : GstRTSPSession) (need_session : Bool) : GstRTSPClient × Bool :=
  -- get a handle to the configuration of the media in the session
  let client := client.log (Event.get_media session.sessionid uri)
  match gst_rtsp_session_get_media session uri with
  | none =>
    -- not_found
    (handle_generic_response client GST_RTSP_STS_NOT_FOUND request, false)
  | some media =>
    -- get a handle to the stream in the media
    let client := client.log (Event.get_stream session.sessionid uri streamid)
    match gst_rtsp_session_media_get_stream media streamid with
    | none =>
      -- no_stream
      (handle_generic_response client GST_RTSP_STS_NOT_FOUND request, false)
    | some stream =>
      -- setup the server transport from the client transport
      let client := client.log (Event.set_transport session.sessionid uri streamid ct)
      let st := lib.server_transport stream ct
      let session := session_store session (session_media_set_transport media streamid ct)
      let client := { client with session_pool := pool_store client.session_pool session }
      -- serialize the server transport
      let trans_str := lib.transport_as_text st
      -- construct the response now
      let response := gst_rtsp_message_init_response GST_RTSP_STS_OK request
      let response :=
        if need_session then
          gst_rtsp_message_add_header response GstRTSPHeaderField.SESSION session.sessionid
        else response
      let response := gst_rtsp_message_add_header response GstRTSPHeaderField.TRANSPORT trans_str
      (handle_response client response, true)

/-- `handle_setup_response`, lines 408-415: for a new session, find the media
and let the session manage it; then go on with lines 416-443. -/
def handle_setup_media (lib : RtspLib) (client : GstRTSPClient) (uri : GstRTSPUrl)
    (request : GstRTSPRequest) (streamid : Nat) (ct : GstRTSPTransport)
    (session : GstRTSPSession) (need_session : Bool) : GstRTSPClient × Bool :=
  if need_session then
    match find_media client uri request with
    | (client, some m) =>
      -- media = gst_rtsp_session_manage_media (session, uri, m);
      let client := client.log (Event.manage_media session.sessionid uri)
      let session := gst_rtsp_session_manage_media session uri m
      let client := { client with session_pool := pool_store client.session_pool session }
      handle_setup_stream lib client uri request streamid ct session need_session
    | (client, none) =>
      handle_setup_stream lib client uri request streamid ct session need_session
  else
    handle_setup_stream lib client uri request streamid ct session need_session

/-- `handle_setup_response`, lines 391-406: find the session of the request
or create one. -/
def handle_setup_session (lib : RtspLib) (client : GstRTSPClient) (uri : GstRTSPUrl)
    (request : GstRTSPRequest) (streamid : Nat) (ct : GstRTSPTransport) :
    GstRTSPClient × Bool :=
  match gst_rtsp_message_get_header request.headers GstRTSPHeaderField.SESSION 0 with
  | some sessid =>
    -- we had a session in the request, find it again
    let client := client.log (Event.pool_find sessid)
    match gst_rtsp_session_pool_find client.session_pool sessid with
    | none =>
      -- session_not_found
      (handle_generic_response client GST_RTSP_STS_SESSION_NOT_FOUND request, false)
    | some session => handle_setup_media lib client uri request streamid ct session false
  | none =>
    let client := client.log Event.pool_create
    match gst_rtsp_session_pool_create client.session_pool with
    | (pool, none) =>
      -- service_unavailable
      (handle_generic_response { client with session_pool := pool }
        GST_RTSP_STS_SERVICE_UNAVAILABLE request, false)
    | (pool, some session) =>
      handle_setup_media lib { client with session_pool := pool } uri request streamid ct
        session true

/-- `handle_setup_response`, lines 352-389: parse the Transport header and
check that the transport can be handled. -/
def handle_setup_transport (lib : RtspLib) (client : GstRTSPClient) (uri : GstRTSPUrl)
    (request : GstRTSPRequest) (streamid : Nat) : GstRTSPClient × Bool :=
  match gst_rtsp_message_get_header request.headers GstRTSPHeaderField.TRANSPORT 0 with
  | none =>
    -- no_transport
    (handle_generic_response client GST_RTSP_STS_UNSUPPORTED_TRANSPORT request, false)
  | some transport =>
    let transports := g_strsplit transport ','
    match parse_transports lib transports with
    | none =>
      -- we have not found anything usable, error out
      (handle_generic_response client GST_RTSP_STS_UNSUPPORTED_TRANSPORT request, false)
    | some ct =>
      -- ct->destination = g_strdup (inet_ntoa (client->address.sin_addr));
      let ct := { ct with destination := client.address }
      -- we have a valid transport, check if we can handle it
      if ct.trans ≠ GST_RTSP_TRANS_RTP then
        (handle_generic_response client GST_RTSP_STS_UNSUPPORTED_TRANSPORT request, false)
      else if ct.profile ≠ GST_RTSP_PROFILE_AVP then
        (handle_generic_response client GST_RTSP_STS_UNSUPPORTED_TRANSPORT request, false)
      else if ct.lower_transport &&& supported = 0 then
        (handle_generic_response client GST_RTSP_STS_UNSUPPORTED_TRANSPORT request, false)
      else
        handle_setup_session lib client uri request streamid ct

/-- The text `"/stream="`. -/
def stream_marker : CString := "/stream=".toList

/-- `handle_setup_response`.  The result is `none` when the handler has no
defined behaviour: `strstr` is called on a NULL `uri->query`. -/
def handle_setup_response (lib : RtspLib) (client : GstRTSPClient) (uri : GstRTSPUrl)
    (request : GstRTSPRequest) : Option (GstRTSPClient × Bool) :=
  let bad_request : GstRTSPClient × Bool :=
    (handle_generic_response client GST_RTSP_STS_BAD_REQUEST request, false)
  -- pos, the uri with `*pos = '\0'` written, and the text at pos + strlen ("/stream=")
  let found : Option (Option (GstRTSPUrl × CString)) :=
    match strstr uri.abspath stream_marker with
    | some pos =>
      some (some ({ uri with abspath := uri.abspath.take pos },
        uri.abspath.drop (pos + stream_marker.length)))
    | none =>
      match uri.query with
      | none => none
      | some query =>
        match strstr query stream_marker with
        | some pos =>
          some (some ({ uri with query := some (query.take pos) },
            query.drop (pos + stream_marker.length)))
        | none => some none
  match found with
  | none => none
  | some none => some bad_request
  | some (some (uri, text)) =>
    match sscanf_u text with
    | none => some bad_request
    | some streamid => some (handle_setup_transport lib client uri request streamid)

/-- `handle_describe_response`.  The loop over the Accept headers,
`for (i = 0; i++; )`, has the condition `i++`, which is 0 on entry: its body
never runs. -/
def handle_describe_response (client : GstRTSPClient) (uri : GstRTSPUrl)
    (request : GstRTSPRequest) : GstRTSPClient × Bool :=
  match find_media client uri request with
  | (client, none) =>
    -- no_media: error reply is already sent
    (client, false)
  | (client, some media) =>
    match gst_rtsp_sdp_from_media media with
    | none =>
      -- no_sdp
      (handle_generic_response client GST_RTSP_STS_SERVICE_UNAVAILABLE request, false)
    | some sdp =>
      let response := gst_rtsp_message_init_response GST_RTSP_STS_OK request
      let response := gst_rtsp_message_add_header response GstRTSPHeaderField.CONTENT_TYPE
        "application/sdp".toList
      -- g_strdup_printf ("rtsp://%s:%u%s/", uri->host, uri->port, uri->abspath)
      let str := "rtsp://".toList ++ uri.host ++ ":".toList ++ fmt_u uri.port
        ++ uri.abspath ++ "/".toList
      let response := gst_rtsp_message_add_header response GstRTSPHeaderField.CONTENT_BASE str
      let response := gst_rtsp_message_take_body response sdp
      (handle_response client response, true)

/-- `handle_options_response` -/
def handle_options_response (lib : RtspLib) (client : GstRTSPClient) (_uri : GstRTSPUrl)
    (request : GstRTSPRequest) : GstRTSPClient :=
  let options := GstRTSPMethod.DESCRIBE.bit ||| GstRTSPMethod.OPTIONS.bit |||
    GstRTSPMethod.PLAY.bit ||| GstRTSPMethod.SETUP.bit ||| GstRTSPMethod.TEARDOWN.bit
  let str := lib.options_as_text options
  let response := gst_rtsp_message_init_response GST_RTSP_STS_OK request
  let response := gst_rtsp_message_add_header response GstRTSPHeaderField.PUBLIC str
  handle_response client response

/-- One iteration of the `while (TRUE)` loop of `handle_client`, after
`gst_rtsp_connection_receive` gave the request.  `none` when the handler has
no defined behaviour. -/
def handle_request (lib : RtspLib) (client : GstRTSPClient) (request : GstRTSPRequest) :
    Option GstRTSPClient :=
  if request.version ≠ GST_RTSP_VERSION_1_0 then
    -- we can only handle 1.0 requests
    some (handle_generic_response client GST_RTSP_STS_RTSP_VERSION_NOT_SUPPORTED request)
  else
    -- we always try to parse the url first
    match lib.url_parse request.uri with
    | none => some (handle_generic_response client GST_RTSP_STS_BAD_REQUEST request)
    | some uri =>
      -- sanitize the uri
      let uri := { uri with abspath := santize_uri uri.abspath }
      -- now see what is asked and dispatch to a dedicated handler
      match request.method with
      | .OPTIONS => some (handle_options_response lib client uri request)
      | .DESCRIBE => some (handle_describe_response client uri request).1
      | .SETUP => (handle_setup_response lib client uri request).map (·.1)
      | .PLAY => some (handle_play_response lib client uri request).1
      | .PAUSE => some (handle_pause_response client uri request).1
      | .TEARDOWN => some (handle_teardown_response client uri request).1
      | .ANNOUNCE | .GET_PARAMETER | .RECORD | .REDIRECT | .SET_PARAMETER =>
        some (handle_generic_response client GST_RTSP_STS_NOT_IMPLEMENTED request)
      | .INVALID => some (handle_generic_response client GST_RTSP_STS_BAD_REQUEST request)

/-- `handle_client`, on the outcomes of the successive
`gst_rtsp_connection_receive` calls (`none`: the receive failed).  The loop
ends at the first failed receive, where the connection is closed; the result
is `none` when a handler has no defined behaviour. -/
def handle_client (lib : RtspLib) (client : GstRTSPClient) :
    List (Option GstRTSPRequest) → Option GstRTSPClient
  | [] => some client
  | none :: _ =>
    -- receive_failed
    some (client.log Event.connection_close)
  | some request :: rest =>
    match handle_request lib client request with
    | none => none
    | some client => handle_client lib client rest

/-- The responses sent on the connection, in order. -/
def responses (trace : List Event) : List GstRTSPResponse :=
  trace.filterMap (fun e => match e with | Event.send r => some r | _ => none)

/-- The test `handle_setup_response` makes on the parsed transport: transport
RTP, profile AVP and a lower transport among UDP, UDP multicast and TCP. -/
def Supported (ct : GstRTSPTransport) : Prop :=
  ct.trans = GST_RTSP_TRANS_RTP ∧ ct.profile = GST_RTSP_PROFILE_AVP
    ∧ ct.lower_transport &&& supported ≠ 0

instance instDecidableSupported (ct : GstRTSPTransport) : Decidable (Supported ct) := by
  unfold Supported; infer_instance

/-- What the events of a SETUP for the url `uri`, the stream `streamid` and
the transport `ct` look like: the calls into the mapping, the session and the
media name `uri` and `streamid`, the transport set is `ct`, and no response
is 461. -/
def SetupEvent (uri : GstRTSPUrl) (streamid : Nat) (ct : GstRTSPTransport) : Event → Prop
  | .send r => r.code ≠ GST_RTSP_STS_UNSUPPORTED_TRANSPORT
  | .find_factory u => u = uri
  | .factory_construct u => u = uri
  | .media_prepare u => u = uri
  | .manage_media _ u => u = uri
  | .get_media _ u => u = uri
  | .get_stream _ u n => u = uri ∧ n = streamid
  | .set_transport _ u n t => u = uri ∧ n = streamid ∧ t = ct
  | _ => True

/-! ## Concrete instances, used to evaluate the handlers -/

/-- A transport as `gst_rtsp_transport_parse` fills it in. -/
def exampleTransport (trans profile lower : Nat) (params : String) : GstRTSPTransport :=
  { trans := trans, profile := profile, lower_transport := lower, destination := [],
    params := params.toList }

/-- An instance of `gst_rtsp_options_as_text`: the names of the methods of the
mask, separated by ", ". -/
def exampleOptionsText (options : Nat) : CString :=
  (", ".intercalate
    (([(GstRTSPMethod.OPTIONS, "OPTIONS"), (GstRTSPMethod.DESCRIBE, "DESCRIBE"),
       (GstRTSPMethod.ANNOUNCE, "ANNOUNCE"), (GstRTSPMethod.GET_PARAMETER, "GET_PARAMETER"),
       (GstRTSPMethod.PAUSE, "PAUSE"), (GstRTSPMethod.PLAY, "PLAY"),
       (GstRTSPMethod.RECORD, "RECORD"), (GstRTSPMethod.REDIRECT, "REDIRECT"),
       (GstRTSPMethod.SETUP, "SETUP"), (GstRTSPMethod.SET_PARAMETER, "SET_PARAMETER"),
       (GstRTSPMethod.TEARDOWN, "TEARDOWN")].filter
        (fun p => options &&& p.1.bit != 0)).map (fun p => p.2))).toList

/-- An instance of the library functions: `rtsp://host<path>[?<query>]` urls
(port 554) and four transport texts parse, everything else fails to parse. -/
def exampleLib : RtspLib where
  url_parse := fun s =>
    if "rtsp://host".toList.isPrefixOf s then
      let p := s.drop 11
      some { host := "host".toList, port := 554,
             abspath := p.takeWhile (fun c => c != '?'),
             query := if p.contains '?' then some ((p.dropWhile (fun c => c != '?')).drop 1)
                      else none }
    else none
  url_get_request_uri := fun u =>
    "rtsp://".toList ++ u.host ++ ":".toList ++ Nat.toDigits 10 u.port ++ u.abspath
  transport_parse := fun s =>
    if s = "RTP/AVP;unicast;client_port=5000-5001".toList then
      some (exampleTransport GST_RTSP_TRANS_RTP GST_RTSP_PROFILE_AVP GST_RTSP_LOWER_TRANS_UDP
        "client_port=5000-5001")
    else if s = "RTP/AVP/TCP;interleaved=0-1".toList then
      some (exampleTransport GST_RTSP_TRANS_RTP GST_RTSP_PROFILE_AVP GST_RTSP_LOWER_TRANS_TCP
        "interleaved=0-1")
    else if s = "RTP/SAVP;unicast;client_port=5000-5001".toList then
      some (exampleTransport GST_RTSP_TRANS_RTP GST_RTSP_PROFILE_SAVP GST_RTSP_LOWER_TRANS_UDP
        "client_port=5000-5001")
    else if s = "x-real-rdt/udp;client_port=5000".toList then
      some (exampleTransport GST_RTSP_TRANS_RDT GST_RTSP_PROFILE_AVP GST_RTSP_LOWER_TRANS_UDP
        "client_port=5000")
    else none
  transport_as_text := fun t => t.params ++ ";destination=".toList ++ t.destination
  server_transport := fun _ ct => { ct with params := ct.params ++ ";server_port=6000-6001".toList }
  options_as_text := exampleOptionsText

/-- A media with two streams. -/
def exampleMedia : GstRTSPMedia :=
  { streams := [{ seqnum := 100, timestamp := 9000 }, { seqnum := 7, timestamp := 42 }],
    prepares := true, sdp := some "v=0".toList }

/-- A client whose pool is empty and will hand out the id "s1", and whose
mapping has a factory for "/test". -/
def exampleClient : GstRTSPClient :=
  { address := "10.0.0.1".toList,
    session_pool := { sessions := [], fresh := [some "s1".toList] },
    media_mapping := [("/test".toList, { media := some exampleMedia })],
    trace := [] }

/-- A client whose pool holds the session "s0", which has no media, and whose
mapping has a factory for "/test". -/
def exampleClientIdle : GstRTSPClient :=
  { address := "10.0.0.1".toList,
    session_pool := { sessions := [{ sessionid := "s0".toList, medias := [] }],
                      fresh := [some "s1".toList] },
    media_mapping := [("/test".toList, { media := some exampleMedia })],
    trace := [] }

/-- The url `rtsp://host<path>`, as parsed. -/
def exampleUrl (path : String) : GstRTSPUrl :=
  { host := "host".toList, port := 554, abspath := path.toList, query := none }

/-- A request of version 1.0. -/
def exampleRequest (method : GstRTSPMethod) (uri : String)
    (headers : List (GstRTSPHeaderField × String)) : GstRTSPRequest :=
  { method := method, uri := uri.toList, version := GST_RTSP_VERSION_1_0,
    headers := headers.map (fun h => (h.1, h.2.toList)) }

/-- No two adjacent characters are both '/'. -/
def NoDoubleSlash (l : CString) : Prop :=
  List.Chain' (fun a b => ¬ (a = '/' ∧ b = '/')) l

/-- The trace of `c'` extends the trace of `c` by events that satisfy `P`. -/
def TraceExt (P : Event → Prop) (c c' : GstRTSPClient) : Prop :=
  ∃ evs, c'.trace = c.trace ++ evs ∧ ∀ e ∈ evs, P e

/-- The calls of a SETUP into the mapping, the session and the media name the
url `uri` and the stream `streamid`. -/
def SetupCall (uri : GstRTSPUrl) (streamid : Nat) : Event → Prop
  | .find_factory u => u = uri
  | .factory_construct u => u = uri
  | .media_prepare u => u = uri
  | .manage_media _ u => u = uri
  | .get_media _ u => u = uri
  | .get_stream _ u n => u = uri ∧ n = streamid
  | .set_transport _ u n _ => u = uri ∧ n = streamid
  | _ => True

/-- The client after the response `code` to `request` was sent and nothing
else happened. -/
def answered (client : GstRTSPClient) (code : GstRTSPStatusCode) (request : GstRTSPRequest) :
    GstRTSPClient :=
  { client with trace := client.trace ++ [Event.send ⟨code, request, [], none⟩] }

/-- The SETUP of stream 0 of "/test" over UDP, without a Session header. -/
def exampleSetup : GstRTSPRequest :=
  exampleRequest .SETUP "rtsp://host/test/stream=0"
    [(.TRANSPORT, "RTP/AVP;unicast;client_port=5000-5001")]

/-- The client `exampleClient` after `exampleSetup`. -/
def exampleAfterSetup : GstRTSPClient :=
  ((handle_setup_response exampleLib exampleClient (exampleUrl "/test/stream=0")
    exampleSetup).getD (exampleClient, false)).1

/-- The client `exampleClient` after `exampleSetup` for "/test/stream=+1". -/
def exampleAfterSetupPlus : GstRTSPClient :=
  ((handle_setup_response exampleLib exampleClient (exampleUrl "/test/stream=+1")
    exampleSetup).getD (exampleClient, false)).1

/-- The request `exampleSetup` with the header `Session: s0`. -/
def exampleSetupIdle : GstRTSPRequest :=
  exampleRequest .SETUP "rtsp://host/test/stream=0"
    [(.TRANSPORT, "RTP/AVP;unicast;client_port=5000-5001"), (.SESSION, "s0")]

/-- An RTP-Info entry as the specification writes it, with the numbers in
decimal: `url=<uristr>/stream=<i>;seq=<seqnum>;rtptime=<timestamp>`. -/
def rtpinfo_text (uristr : CString) (i seqnum timestamp : Nat) : CString :=
  "url=".toList ++ uristr ++ "/stream=".toList ++ Nat.toDigits 10 i ++ ";seq=".toList
    ++ Nat.toDigits 10 seqnum ++ ";rtptime=".toList ++ Nat.toDigits 10 timestamp

/-- The RTP-Info entries of the streams, in index order from 0. -/
def rtpinfo_entries (uristr : CString) (streams : List GstRTSPMediaStream) : List CString :=
  streams.enum.map (fun p => rtpinfo_text uristr p.1 p.2.seqnum p.2.timestamp)

/-- A session "s1" that has the media of "/test". -/
def exampleSessionTest : GstRTSPSession :=
  { sessionid := "s1".toList,
    medias := [{ url := exampleUrl "/test", media := exampleMedia, state := MediaState.Init,
                 transports := [] }] }

/-- A client whose pool holds `exampleSessionTest`. -/
def exampleClientReady : GstRTSPClient :=
  { address := "10.0.0.1".toList,
    session_pool := { sessions := [exampleSessionTest], fresh := [] },
    media_mapping := [("/test".toList, { media := some exampleMedia })],
    trace := [] }

/-- A property of the session pool that the pool operations keep. -/
structure PoolInvariant (P : GstRTSPSessionPool → Prop) : Prop where
  store : ∀ pool session, P pool → P (pool_store pool session)
  create : ∀ pool, P pool → P (gst_rtsp_session_pool_create pool).1
  remove : ∀ pool session, P pool → P (gst_rtsp_session_pool_remove pool session)

/-- The pool has no session with the id `sessid` and will not create one:
ids are unique for the lifetime of the pool. -/
def SessionGone (sessid : CString) (pool : GstRTSPSessionPool) : Prop :=
  gst_rtsp_session_pool_find pool sessid = none ∧ ∀ o ∈ pool.fresh, o ≠ some sessid

/-! # The RTSP client sink (`gstrtspsink.c`) -/

/-- `GstRTSPResult`: `GST_RTSP_OK` is 0, the errors are negative. -/
abbrev GstRTSPResult := Int

def GST_RTSP_OK : GstRTSPResult := 0
def GST_RTSP_ERROR : GstRTSPResult := -1
def GST_RTSP_EINVAL : GstRTSPResult := -2
def GST_RTSP_EINTR : GstRTSPResult := -3
def GST_RTSP_EEOF : GstRTSPResult := -11
def GST_RTSP_ETIMEOUT : GstRTSPResult := -14

def GST_RTSP_STS_MOVED_PERMANENTLY : GstRTSPStatusCode := 301
def GST_RTSP_STS_MOVE_TEMPORARILY : GstRTSPStatusCode := 302
def GST_RTSP_STS_UNAUTHORIZED : GstRTSPStatusCode := 401
def GST_RTSP_STS_METHOD_NOT_ALLOWED : GstRTSPStatusCode := 405
def GST_RTSP_STS_NOT_ACCEPTABLE : GstRTSPStatusCode := 406

/-- `GstRTSPAuthMethod` -/
def GST_RTSP_AUTH_NONE : Nat := 0x0
def GST_RTSP_AUTH_BASIC : Nat := 0x1
def GST_RTSP_AUTH_DIGEST : Nat := 0x2
def GST_RTSP_AUTH_MAX : Nat := GST_RTSP_AUTH_DIGEST

def GST_RTSP_PROFILE_AVPF : Nat := 1 <<< 2
def GST_RTSP_PROFILE_SAVPF : Nat := 1 <<< 3
def GST_RTSP_LOWER_TRANS_UNKNOWN : Nat := 0

/-- `GstRTSPState` -/
def GST_RTSP_STATE_INVALID : Nat := 0
def GST_RTSP_STATE_INIT : Nat := 1
def GST_RTSP_STATE_READY : Nat := 2
def GST_RTSP_STATE_SEEKING : Nat := 3
def GST_RTSP_STATE_PLAYING : Nat := 4
def GST_RTSP_STATE_RECORDING : Nat := 5

/-- The commands sent to the loop of the sink to notify it of events. -/
def CMD_OPEN : Nat := 1 <<< 0
def CMD_RECORD : Nat := 1 <<< 1
def CMD_PAUSE : Nat := 1 <<< 2
def CMD_CLOSE : Nat := 1 <<< 3
def CMD_WAIT : Nat := 1 <<< 4
def CMD_RECONNECT : Nat := 1 <<< 5
def CMD_LOOP : Nat := 1 <<< 6

/-- A `GstRTSPMessage` as the sink sends and receives it: a request, a
response, a data message of an interleaved channel, or a message of another
type (invalid, HTTP request, HTTP response). -/
inductive GstRTSPMessage
  | request (method : GstRTSPMethod) (uri : CString)
      (headers : List (GstRTSPHeaderField × CString))
  | response (code : GstRTSPStatusCode) (reason : CString)
      (headers : List (GstRTSPHeaderField × CString)) (body : Option CString)
  | data (channel : Nat) (body : CString)
  | other
  deriving DecidableEq

/-- The headers of a message. -/
def GstRTSPMessage.headers : GstRTSPMessage → List (GstRTSPHeaderField × CString)
  | .request _ _ headers => headers
  | .response _ _ headers _ => headers
  | _ => []

/-- `gst_rtsp_message_add_header` / `gst_rtsp_message_take_header` on a
message of the sink. -/
def GstRTSPMessage.add_header (msg : GstRTSPMessage) (field : GstRTSPHeaderField)
    (value : CString) : GstRTSPMessage :=
  match msg with
  | .request method uri headers => .request method uri (headers ++ [(field, value)])
  | .response code reason headers body => .response code reason (headers ++ [(field, value)]) body
  | m => m

/-- `request->type_data.request.method`: the method of a request message. -/
def GstRTSPMessage.method : GstRTSPMessage → GstRTSPMethod
  | .request method _ _ => method
  | _ => GstRTSPMethod.INVALID

/-- `GstRTSPConnection` of the RTSP library, by what the sink reads and sets:
the url, the credentials installed by `gst_rtsp_connection_set_auth` (method,
user, password) and the parameters given to
`gst_rtsp_connection_set_auth_param` since the last
`gst_rtsp_connection_clear_auth_params`, in call order. -/
structure GstRTSPConnection where
  url : GstRTSPUrl
  auth : Option (Nat × CString × CString)
  auth_params : List (CString × Option CString)
  deriving DecidableEq

/-- `GstRTSPConnInfo` -/
structure GstRTSPConnInfo where
  location : Option CString
  url : Option GstRTSPUrl
  url_str : Option CString
  connection : Option GstRTSPConnection
  connected : Bool
  flushing : Bool := false
  deriving DecidableEq

/-! ## Parsing a `WWW-Authenticate` header -/

/-- `g_ascii_isspace`: space, tab, line feed, form feed, carriage return. -/
def g_ascii_isspace (c : Char) : Bool :=
  c = ' ' || c = '\t' || c = '\n' || c = '\x0c' || c = '\r'

/-- `g_ascii_tolower` -/
def g_ascii_tolower (c : Char) : Char :=
  if 'A' ≤ c ∧ c ≤ 'Z' then Char.ofNat (c.toNat + 32) else c

/-- `g_ascii_strncasecmp (s, lit, n) == 0` for a literal `lit` of `n` lower
case characters: the first `n` characters of `s` are those of `lit`, up to
case. -/
def g_ascii_strncasecmp_eq (s : CString) (lit : CString) : Bool :=
  (s.take lit.length).map g_ascii_tolower = lit

/-- `gst_rtsp_sink_skip_lws` -/
def gst_rtsp_sink_skip_lws (s : CString) : CString :=
  s.dropWhile g_ascii_isspace

/-- `gst_rtsp_sink_unskip_lws (s, start)`, on the text from `start` up to
`s`: that text without the white space at its end. -/
def gst_rtsp_sink_unskip_lws (text : CString) : CString :=
  (text.reverse.dropWhile g_ascii_isspace).reverse

/-- `gst_rtsp_sink_skip_commas` -/
def gst_rtsp_sink_skip_commas (s : CString) : CString :=
  s.dropWhile (fun c => g_ascii_isspace c || c = ',')

/-- The `while (*s)` loop of `gst_rtsp_sink_skip_item`: how far `s` advances. -/
def skip_item_loop : Bool → CString → Nat
  | _, [] => 0
  | quoted, c :: rest =>
    if c = '"' then 1 + skip_item_loop (!quoted) rest
    else if quoted then
      if c = '\\' then
        match rest with
        | [] => 1
        | _ :: rest' => 2 + skip_item_loop quoted rest'
      else 1 + skip_item_loop quoted rest
    else if c = ',' then 0
    else 1 + skip_item_loop quoted rest

/-- `gst_rtsp_sink_skip_item (s)`: the item at the start of `s`, that is the
text from `s` up to the returned pointer. -/
def gst_rtsp_sink_skip_item (s : CString) : CString :=
  gst_rtsp_sink_unskip_lws (s.take (skip_item_loop false s))

/-- The loop of `gst_rtsp_decode_quoted_string`, from `src`: the characters
written at `dst`. -/
def decode_quoted_loop : CString → CString
  | [] => []
  | c :: rest =>
    if c = '"' then []
    else if c = '\\' then
      match rest with
      | [] => [c]
      | d :: rest' => d :: decode_quoted_loop rest'
    else c :: decode_quoted_loop rest

/-- `gst_rtsp_decode_quoted_string`: the text left in place of the quoted
string. -/
def gst_rtsp_decode_quoted_string (quoted_string : CString) : CString :=
  decode_quoted_loop (quoted_string.drop 1)

/-- The first loop of `gst_rtsp_sink_parse_digest_challenge`, after the
leading commas were skipped: the items of the header, in order.  Every round
takes at least one character, so `fuel` = the length of the header is
enough. -/
def digest_items : Nat → CString → List CString
  | 0, _ => []
  | fuel + 1, header =>
    if header = [] then []
    else
      let item := gst_rtsp_sink_skip_item header
      item :: digest_items fuel (gst_rtsp_sink_skip_commas (header.drop item.length))

/-- `strchr (item, '=')` and what follows in the second loop of
`gst_rtsp_sink_parse_digest_challenge`: the name and the value handed to
`gst_rtsp_connection_set_auth_param`, or `none` when the item is dropped
(empty name). -/
def digest_item_param (item : CString) : Option (CString × Option CString) :=
  if item.contains '=' then
    let name := gst_rtsp_sink_unskip_lws (item.takeWhile (fun c => c != '='))
    if name = [] then none
    else
      let value := gst_rtsp_sink_skip_lws ((item.dropWhile (fun c => c != '=')).drop 1)
      let value := if value.head? = some '"' then gst_rtsp_decode_quoted_string value else value
      some (name, some value)
  else some (item, none)

/-- `gst_rtsp_connection_clear_auth_params` -/
def gst_rtsp_connection_clear_auth_params (conn : Option GstRTSPConnection) :
    Option GstRTSPConnection :=
  conn.map (fun c => { c with auth_params := [] })

/-- `gst_rtsp_connection_set_auth_param` -/
def gst_rtsp_connection_set_auth_param (conn : Option GstRTSPConnection) (param : CString)
    (value : Option CString) : Option GstRTSPConnection :=
  conn.map (fun c => { c with auth_params := c.auth_params ++ [(param, value)] })

/-- The second loop of `gst_rtsp_sink_parse_digest_challenge`, over the items. -/
def digest_params : List CString → Option GstRTSPConnection → Bool →
    Option GstRTSPConnection × Bool
  | [], conn, stale => (conn, stale)
  | item :: rest, conn, stale =>
    match digest_item_param item with
    | none => digest_params rest conn stale
    | some (name, value) =>
      let stale := if value ≠ none ∧ name = "stale".toList ∧ value = some "TRUE".toList
        then true else stale
      digest_params rest (gst_rtsp_connection_set_auth_param conn name value) stale

/-- `gst_rtsp_sink_parse_digest_challenge (conn, header, &stale)`: the
connection with the parameters of the challenge, and `*stale`. -/
def gst_rtsp_sink_parse_digest_challenge (conn : Option GstRTSPConnection)
    (header : CString) : Option GstRTSPConnection × Bool :=
  let conn := gst_rtsp_connection_clear_auth_params conn
  let header := gst_rtsp_sink_skip_commas header
  digest_params (digest_items header.length header) conn false

/-- `gst_rtsp_sink_parse_auth_hdr (hdr, &methods, conn, &stale)`: the new
`*methods`, the connection and the new `*stale`. -/
def gst_rtsp_sink_parse_auth_hdr (hdr : CString) (methods : Nat)
    (conn : Option GstRTSPConnection) (stale : Bool) :
    Nat × Option GstRTSPConnection × Bool :=
  -- Skip whitespace at the start of the string
  let start := hdr.dropWhile g_ascii_isspace
  if g_ascii_strncasecmp_eq start "basic".toList then
    (methods ||| GST_RTSP_AUTH_BASIC, conn, stale)
  else if g_ascii_strncasecmp_eq start "digest ".toList then
    let r := gst_rtsp_sink_parse_digest_challenge conn (start.drop 7)
    (methods ||| GST_RTSP_AUTH_DIGEST, r.1, r.2)
  else (methods, conn, stale)

/-! ## The sink and its connection -/

/-- `GstRTSPStreamContext`, by what the SETUP of the stream reads and sets:
the profiles, the caps (NULL or not), the server ports and the multicast
address (port and number of ports) of the stream, the text
`gst_rtsp_sink_stream_make_keymgmt` makes for it, the connection info and the
transport configured on the stream. -/
structure GstRTSPStreamContext where
  index : Nat
  profiles : Nat
  caps : Bool
  server_port : GstRTSPRange
  multicast_address : Option (Nat × Int)
  keymgmt : Option CString
  conninfo : GstRTSPConnInfo
  stream_transport : Option GstRTSPTransport
  /-- The property `pt` of the payloader of the stream. -/
  payloader_pt : Nat := 96
  /-- Whether `context->stream` is not NULL. -/
  stream : Bool := true
  /-- The retransmission payload type set on the stream. -/
  retransmission_pt : Nat := 0
  joined : Bool := false
  deriving DecidableEq

/-- What the sink does to the outside, in order: messages given to
`gst_rtsp_connection_send` (with the result), connects and closes of a
connection, calls of `gst_rtsp_sink_try_send`, passes of its label `again`
(where the request is about to be sent), calls of
`gst_rtsp_connection_set_auth` (with the result) and of
`gst_rtsp_sink_create_transports_string`, transports configured on a stream,
and element errors and warnings posted (the error code and the message
format). -/
inductive SinkEvent
  | send (message : GstRTSPMessage) (res : GstRTSPResult)
  | connect (res : GstRTSPResult)
  | close
  | try_send (request : GstRTSPMessage)
  | again (request : GstRTSPMessage)
  | set_auth (method : Nat) (user pass : CString) (res : GstRTSPResult)
  | create_transports (index : Nat) (protocols profiles : Nat)
  | stream_transport (index : Nat) (transport : GstRTSPTransport)
  | element_error (text : String)
  | element_warning (text : String)
  deriving DecidableEq

/-- `GstProgressType`, the type of a progress message. -/
inductive GstProgressType
  | START
  | CONTINUE
  | COMPLETE
  | CANCELED
  | ERROR
  deriving DecidableEq

/-- What the sink does around its command loop, in order: progress messages
posted with `GST_ELEMENT_PROGRESS` (type, code and text), calls of
`gst_rtsp_sink_connection_flush`, calls of `gst_task_start` on the task of
the sink, and the states set on the internal bin with
`gst_rtsp_sink_set_state` or `gst_element_set_state`.  The progress messages
of `gst_rtsp_conninfo_connect` and `gst_rtsp_sink_setup_streams`, which are
modelled without their parameter `async`, are left out. -/
inductive LoopEvent
  | progress (type : GstProgressType) (code text : String)
  | connection_flush (flush : Bool)
  | task_start
  | set_state (state : String)
  deriving DecidableEq

/-- `GstRTSPSink`, by the fields the modelled functions use, followed by the
peer: the results of the successive `gst_rtsp_connection_send` and
`gst_rtsp_connection_connect` calls (when the list is used up the call
succeeds), the outcomes of the successive `gst_rtsp_connection_receive` calls
(the result and the message read; when the list is used up the receive times
out), and the trace of what the sink did so far. -/
structure GstRTSPSink where
  conninfo : GstRTSPConnInfo
  contexts : List GstRTSPStreamContext
  interleaved : Bool
  udp_reconnect : Bool
  free_channel : Int
  cur_protocols : Nat
  methods : Nat
  need_redirect : Bool
  state : Nat
  tried_url_auth : Bool
  user_id : Option CString
  user_pw : Option CString
  user_agent : Option CString
  rtp_blocksize : Int
  content_base : Option CString
  server_ip : CString
  sdp : Option CString
  from_sdp : Bool
  send_results : List GstRTSPResult
  connect_results : List GstRTSPResult
  inbox : List (GstRTSPResult × GstRTSPMessage)
  trace : List SinkEvent
  control : Option CString := none
  protocols : Nat := GST_RTSP_LOWER_TRANS_UDP ||| GST_RTSP_LOWER_TRANS_UDP_MCAST
    ||| GST_RTSP_LOWER_TRANS_TCP
  profiles : Nat := GST_RTSP_PROFILE_AVP
  open_error : Bool := false
  next_dyn_pt : Nat := 96
  pending_cmd : Nat := CMD_WAIT
  busy_cmd : Nat := CMD_WAIT
  /-- Whether `sink->task` is not NULL. -/
  task : Bool := false
  prop_proxy_id : Option CString := none
  prop_proxy_pw : Option CString := none
  proxy_user : Option CString := none
  proxy_passwd : Option CString := none
  proxy_host : Option CString := none
  proxy_port : Nat := 0
  /-- Whether `sink->rtpbin` is not NULL. -/
  rtpbin : Bool := false
  loop_trace : List LoopEvent := []
  deriving DecidableEq

/-- Functions of the RTSP and SDP libraries that the sink calls, and the
handlers the application connected to the `handle-request` signal: they are
parameters of the model. -/
structure SinkLib where
  /-- `gst_rtsp_url_parse`, `gst_rtsp_url_get_request_uri`,
  `gst_rtsp_transport_parse` -/
  rtsp : RtspLib
  /-- `gst_rtsp_message_init_response (&response, code, reason, request)` -/
  message_init_response : GstRTSPStatusCode → CString → GstRTSPMessage → GstRTSPMessage
  /-- The emission of `handle-request` with the request and the prepared
  response: the response as the handlers leave it. -/
  handle_request_signal : GstRTSPMessage → GstRTSPMessage → GstRTSPMessage
  /-- The result of `gst_rtsp_connection_create` for the url. -/
  connection_create : GstRTSPUrl → GstRTSPResult
  /-- The result of `gst_rtsp_connection_set_auth` for the method, the user
  and the password, on a connection that is not NULL. -/
  connection_set_auth : Nat → CString → CString → GstRTSPResult
  /-- `gst_sdp_message_parse_uri` on a new SDP message; `none` for a negative
  result. -/
  sdp_parse_uri : CString → Option CString
  /-- `gst_rtsp_options_from_text` -/
  options_from_text : CString → Nat
  /-- The text of the remote address of the socket of a connection to the
  url. -/
  remote_address : GstRTSPUrl → CString
  /-- Whether `gst_element_factory_make ("rtpbin", NULL)` gives an element. -/
  make_rtpbin : Bool
  /-- Whether the state change of the rtpbin to PAUSED does not fail. -/
  start_rtpbin : Bool
  /-- The result of `gst_rtsp_stream_join_bin` for the stream of the index
  given. -/
  stream_join_bin : Nat → Bool

/-- Append an event to the trace of the sink. -/
def GstRTSPSink.log (sink : GstRTSPSink) (e : SinkEvent) : GstRTSPSink :=
  { sink with trace := sink.trace ++ [e] }

/-- `a & ~b`: the bits of `a` that are not bits of `b`. -/
def and_not (a b : Nat) : Nat := a ^^^ (a &&& b)

/-- `gst_rtsp_sink_connection_send`; `conn` tells whether the connection is
not NULL. -/
def gst_rtsp_sink_connection_send (sink : GstRTSPSink) (conn : Bool)
    (message : GstRTSPMessage) : GstRTSPSink × GstRTSPResult :=
  if conn then
    let ret := sink.send_results.headD GST_RTSP_OK
    (({ sink with send_results := sink.send_results.tail }).log (SinkEvent.send message ret), ret)
  else
    (sink, GST_RTSP_ERROR)

/-- `gst_rtsp_conninfo_connect (sink, info, async)`: the sink, `*info` and
the result.  A url that fails to parse gives `GST_RTSP_EINVAL`.  The options
set on a new connection (TLS, tunnelling, proxy) are not part of the model. -/
def gst_rtsp_conninfo_connect (lib : SinkLib) (sink : GstRTSPSink) (info : GstRTSPConnInfo) :
    GstRTSPSink × GstRTSPConnInfo × GstRTSPResult :=
  let created : GstRTSPConnInfo × GstRTSPResult :=
    match info.connection with
    | some _ => (info, GST_RTSP_OK)
    | none =>
      let url := match info.url with
        | some url => some url
        | none => info.location.bind lib.rtsp.url_parse
      match url with
      | none =>
        -- parse_error
        (info, GST_RTSP_EINVAL)
      | some url =>
        let info := { info with url := some url }
        -- create connection
        let res := lib.connection_create url
        if res < 0 then
          -- could_not_create
          (info, res)
        else
          ({ info with connection := some { url := url, auth := none, auth_params := [] },
                       url_str := some (lib.rtsp.url_get_request_uri url) }, GST_RTSP_OK)
  if created.2 < 0 then (sink, created.1, created.2)
  else
    let info := created.1
    if !info.connected then
      -- connect
      let res := sink.connect_results.headD GST_RTSP_OK
      let sink := ({ sink with connect_results := sink.connect_results.tail }).log
        (SinkEvent.connect res)
      if res < 0 then
        -- could_not_connect
        (sink, info, res)
      else
        (sink, { info with connected := true }, GST_RTSP_OK)
    else (sink, info, GST_RTSP_OK)

/-- `gst_rtsp_conninfo_close (sink, info, free)` -/
def gst_rtsp_conninfo_close (sink : GstRTSPSink) (info : GstRTSPConnInfo) (free : Bool) :
    GstRTSPSink × GstRTSPConnInfo × GstRTSPResult :=
  let r : GstRTSPSink × GstRTSPConnInfo :=
    if info.connected then (sink.log SinkEvent.close, { info with connected := false })
    else (sink, info)
  let info := if free ∧ r.2.connection.isSome then { r.2 with connection := none } else r.2
  (r.1, info, GST_RTSP_OK)

/-- `gst_rtsp_conninfo_reconnect (sink, info, async)` -/
def gst_rtsp_conninfo_reconnect (lib : SinkLib) (sink : GstRTSPSink) (info : GstRTSPConnInfo) :
    GstRTSPSink × GstRTSPConnInfo × GstRTSPResult :=
  let r := gst_rtsp_conninfo_close sink info false
  gst_rtsp_conninfo_connect lib r.1 r.2.1

/-- `gst_rtsp_conninfo_reconnect (sink, &sink->conninfo, FALSE)`: the sink
with its connection info as the reconnect leaves it, and the result. -/
def sink_reconnect (lib : SinkLib) (sink : GstRTSPSink) : GstRTSPSink × GstRTSPResult :=
  let rc := gst_rtsp_conninfo_reconnect lib sink sink.conninfo
  ({ rc.1 with conninfo := rc.2.1 }, rc.2.2)

/-- `gst_rtsp_sink_init_request`: `gst_rtsp_message_init_request` followed by
the User-Agent header, if one is configured. -/
def gst_rtsp_sink_init_request (sink : GstRTSPSink) (method : GstRTSPMethod) (uri : CString) :
    GstRTSPMessage :=
  let msg := GstRTSPMessage.request method uri []
  match sink.user_agent with
  | some user_agent => msg.add_header GstRTSPHeaderField.USER_AGENT user_agent
  | none => msg

/-- `gst_rtsp_sink_handle_request`: prepare the OK reply, let the application
parse and reply, send the response. -/
def gst_rtsp_sink_handle_request (lib : SinkLib) (sink : GstRTSPSink) (conn : Bool)
    (request : GstRTSPMessage) : GstRTSPSink × GstRTSPResult :=
  -- default implementation, send OK
  let response := lib.message_init_response GST_RTSP_STS_OK "OK".toList request
  -- let app parse and reply
  let response := lib.handle_request_signal request response
  let r := gst_rtsp_sink_connection_send sink conn response
  if r.2 < 0 then
    -- send_error
    (r.1, r.2)
  else (r.1, GST_RTSP_OK)

/-! ## `gst_rtsp_sink_try_send` -/

/-- What `gst_rtsp_sink_try_send` and `gst_rtsp_sink_send` leave: the sink,
the result, the content of `*response` (`none`: an unset message) and the
status code stored in `*code`, if one was stored. -/
structure SendResult where
  sink : GstRTSPSink
  res : GstRTSPResult
  response : Option GstRTSPMessage
  code : Option GstRTSPStatusCode
  deriving DecidableEq

/-- The exit `send_error` of `gst_rtsp_sink_try_send`. -/
def try_send_send_error (sink : GstRTSPSink) (res : GstRTSPResult)
    (response : Option GstRTSPMessage) : SendResult :=
  let sink := if res ≠ GST_RTSP_EINTR then
      sink.log (SinkEvent.element_error "WRITE: Could not send message. (%s)")
    else sink
  { sink := sink, res := res, response := response, code := none }

/-- The `default` case of the exit `receive_error` of
`gst_rtsp_sink_try_send`. -/
def try_send_receive_error (sink : GstRTSPSink) (res : GstRTSPResult)
    (response : Option GstRTSPMessage) : SendResult :=
  let sink := if res ≠ GST_RTSP_EINTR then
      sink.log (SinkEvent.element_error "READ: Could not receive message. (%s)")
    else sink
  { sink := sink, res := res, response := response, code := none }

/-- `gst_rtsp_sink_try_send` from the label `next`, for a `response` that is
not NULL: the receive loop, on the outcomes of the receives that are still to
come.  `try_` is the local `try`, `want_code` tells whether `code` is not
NULL, `response` is the content of `*response`. -/
def try_send_next (lib : SinkLib) (conn : Bool) (request : GstRTSPMessage) (want_code : Bool)
    (inbox : List (GstRTSPResult × GstRTSPMessage)) (sink : GstRTSPSink) (try_ : Nat)
    (response : Option GstRTSPMessage) : SendResult :=
    if !conn then
      -- gst_rtsp_sink_connection_receive without connection
      try_send_receive_error sink GST_RTSP_ERROR response
    else
      match inbox with
      | [] =>
        try_send_receive_error sink GST_RTSP_ETIMEOUT response
      | (res, message) :: rest =>
        let sink := { sink with inbox := rest }
        let response := some message
        if res < 0 then
          -- receive_error
          if res = GST_RTSP_EEOF ∧ try_ = 0 ∧ !sink.interleaved ∧ sink.udp_reconnect then
            -- if reconnect succeeds, try again
            let rc := sink_reconnect lib sink
            if rc.2 = 0 then
              -- again:
              let s := gst_rtsp_sink_connection_send (rc.1.log (SinkEvent.again request)) conn
                request
              if s.2 < 0 then try_send_send_error s.1 s.2 response
              else try_send_next lib conn request want_code rest s.1 (try_ + 1) response
            else
              -- only try once after reconnect, then fallthrough and error out
              try_send_receive_error rc.1 rc.2 response
          else try_send_receive_error sink res response
        else
          match message with
          | .request _ _ _ =>
            let h := gst_rtsp_sink_handle_request lib sink conn message
            if h.2 = GST_RTSP_EEOF then
              -- server_eof
              { sink := h.1.log (SinkEvent.element_warning "READ: The server closed the connection."),
                res := h.2, response := none, code := none }
            else if h.2 < 0 then
              -- handle_request_failed
              { sink := h.1, res := h.2, response := none, code := none }
            else try_send_next lib conn request want_code rest h.1 try_ response
          | .response thecode _ headers _ =>
            -- if the caller wanted the result code, we store it
            let code := if want_code then some thecode else none
            if thecode ≠ GST_RTSP_STS_OK then
              { sink := sink, res := GST_RTSP_OK, response := response, code := code }
            else
              -- store new content base if any
              let sink := match gst_rtsp_message_get_header headers
                  GstRTSPHeaderField.CONTENT_BASE 0 with
                | some content_base => { sink with content_base := some content_base }
                | none => sink
              { sink := sink, res := GST_RTSP_OK, response := response, code := code }
          | .data _ _ =>
            -- we ignore data messages
            try_send_next lib conn request want_code rest sink try_ response
          | .other =>
            try_send_next lib conn request want_code rest sink try_ response

/-- `gst_rtsp_sink_try_send (sink, conn, request, response, code)`:
`want_response` and `want_code` tell whether `response` and `code` are not
NULL, `response` is the content of `*response` at the call. -/
def gst_rtsp_sink_try_send (lib : SinkLib) (sink : GstRTSPSink) (conn : Bool)
    (request : GstRTSPMessage) (want_response : Bool) (response : Option GstRTSPMessage)
    (want_code : Bool) : SendResult :=
  let sink := sink.log (SinkEvent.try_send request)
  -- again:
  let s := gst_rtsp_sink_connection_send (sink.log (SinkEvent.again request)) conn request
  if s.2 < 0 then try_send_send_error s.1 s.2 response
  else if !want_response then
    -- See if we should handle the response
    { sink := s.1, res := GST_RTSP_OK, response := response, code := none }
  else try_send_next lib conn request want_code s.1.inbox s.1 0 response

/-! ## `gst_rtsp_sink_setup_auth` and `gst_rtsp_sink_send` -/

/-- `gst_rtsp_connection_set_auth (conn, method, user, pass)`: the library
gives `GST_RTSP_EINVAL` for a NULL connection, and stores the method and the
credentials when the result is `GST_RTSP_OK`. -/
def gst_rtsp_connection_set_auth (lib : SinkLib) (conn : Option GstRTSPConnection)
    (method : Nat) (user pass : CString) : Option GstRTSPConnection × GstRTSPResult :=
  match conn with
  | none => (none, GST_RTSP_EINVAL)
  | some c =>
    let res := lib.connection_set_auth method user pass
    (some (if res = GST_RTSP_OK then { c with auth := some (method, user, pass) } else c), res)

/-- The loop `for (method = GST_RTSP_AUTH_MAX; method != GST_RTSP_AUTH_NONE;
method >>= 1)` of `gst_rtsp_sink_setup_auth`, over the values `method` still
has to take: the sink and the value of `method` after the loop. -/
def setup_auth_methods (lib : SinkLib) (avail_methods : Nat) (user pass : CString) :
    List Nat → GstRTSPSink → GstRTSPSink × Nat
  | [], sink => (sink, GST_RTSP_AUTH_NONE)
  | method :: rest, sink =>
    -- Check if this method is available on the server
    if method &&& avail_methods = 0 then setup_auth_methods lib avail_methods user pass rest sink
    else
      -- Pass the credentials to the connection to try on the next request
      let r := gst_rtsp_connection_set_auth lib sink.conninfo.connection method user pass
      let sink := ({ sink with conninfo := { sink.conninfo with connection := r.1 } }).log
        (SinkEvent.set_auth method user pass r.2)
      if r.2 = GST_RTSP_OK ∨ r.2 = GST_RTSP_EINVAL then (sink, method)
      else setup_auth_methods lib avail_methods user pass rest sink

/-- The values of `method` in the loop of `gst_rtsp_sink_setup_auth`:
`GST_RTSP_AUTH_MAX`, then one shift to the right at a time, down to
`GST_RTSP_AUTH_NONE`. -/
def auth_methods : List Nat := [GST_RTSP_AUTH_MAX, GST_RTSP_AUTH_MAX >>> 1]

/-- `gst_rtsp_sink_setup_auth`, the choice of the credentials: those of the
url of the connection if it has both and they were not tried yet (they count
as tried from then on), else the properties `user-id` and `user-pw`. -/
def setup_auth_credentials (sink : GstRTSPSink) :
    GstRTSPSink × Option CString × Option CString :=
  match sink.conninfo.connection.map (fun c => c.url) with
  | some url =>
    if !sink.tried_url_auth ∧ url.user ≠ none ∧ url.passwd ≠ none then
      ({ sink with tried_url_auth := true }, url.user, url.passwd)
    else (sink, sink.user_id, sink.user_pw)
  | none => (sink, sink.user_id, sink.user_pw)

/-- `gst_rtsp_sink_setup_auth`, the available methods: `avail_methods`, the
connection and `stale` after the `WWW-Authenticate` header of index 0, if
there is one, went through `gst_rtsp_sink_parse_auth_hdr`. -/
def setup_auth_challenge (sink : GstRTSPSink) (response : GstRTSPMessage) :
    Nat × Option GstRTSPConnection × Bool :=
  match gst_rtsp_message_get_header response.headers GstRTSPHeaderField.WWW_AUTHENTICATE 0 with
  | some hdr =>
    gst_rtsp_sink_parse_auth_hdr hdr GST_RTSP_AUTH_NONE sink.conninfo.connection false
  | none => (GST_RTSP_AUTH_NONE, sink.conninfo.connection, false)

/-- `gst_rtsp_sink_setup_auth`, from the choice of the credentials on: the
credentials are passed to the connection with the strongest available method
it takes. -/
def setup_auth_install (lib : SinkLib) (avail_methods : Nat) (sink : GstRTSPSink) :
    GstRTSPSink × Bool :=
  -- Do we have username and password available?
  let creds := setup_auth_credentials sink
  match creds.2.1, creds.2.2 with
  | some user, some pass =>
    -- Try to configure for each available authentication method, strongest to weakest
    let r := setup_auth_methods lib avail_methods user pass auth_methods creds.1
    if r.2 = GST_RTSP_AUTH_NONE then
      -- no_auth_available
      (r.1.log (SinkEvent.element_error
        "OPEN_READ: No supported authentication protocol was found"), false)
    else (r.1, true)
  | _, _ =>
    -- no_user_pass
    (creds.1, false)

/-- `gst_rtsp_sink_setup_auth (sink, response)` -/
def gst_rtsp_sink_setup_auth (lib : SinkLib) (sink : GstRTSPSink) (response : GstRTSPMessage) :
    GstRTSPSink × Bool :=
  -- Identify the available auth methods and see if any are supported
  let parsed := setup_auth_challenge sink response
  let avail_methods := parsed.1
  let stale := parsed.2.2
  let sink := { sink with conninfo := { sink.conninfo with connection := parsed.2.1 } }
  if avail_methods = GST_RTSP_AUTH_NONE then
    -- no_auth_available
    (sink.log (SinkEvent.element_error
      "OPEN_READ: No supported authentication protocol was found"), false)
  else
    -- if the response indicates that the session data are stale
    setup_auth_install lib avail_methods
      (if stale then { sink with tried_url_auth := false } else sink)

/-- `gst_rtsp_sink_uri_set_uri (handler, uri, NULL)` -/
def gst_rtsp_sink_uri_set_uri (lib : SinkLib) (sink : GstRTSPSink) (uri : CString) :
    GstRTSPSink × Bool :=
  -- same URI, we're fine
  if sink.conninfo.location = some uri then (sink, true)
  else
    let parsed : Option (Option GstRTSPUrl × Option CString) :=
      if "rtsp-sdp://".toList.isPrefixOf uri then
        (lib.sdp_parse_uri uri).map (fun sdp => (none, some sdp))
      else (lib.rtsp.url_parse uri).map (fun newurl => (some newurl, none))
    match parsed with
    | none =>
      -- invalid_sdp, parse_error
      (sink, false)
    | some (newurl, sdp) =>
      -- if worked, free previous and store new url object along with the original location
      ({ sink with
          conninfo := { sink.conninfo with
            location := some uri, url := newurl,
            url_str := newurl.map lib.rtsp.url_get_request_uri },
          sdp := sdp, from_sdp := sdp.isSome }, true)

/-- The loop `do ... while (retry == TRUE)` of `gst_rtsp_sink_send`: the
locals when the loop is left, and whether it was left by `goto error`. -/
structure SendLoopExit where
  sink : GstRTSPSink
  error : Bool
  int_code : GstRTSPStatusCode
  res : GstRTSPResult
  response : Option GstRTSPMessage
  method : GstRTSPMethod
  deriving DecidableEq

/-- The `switch (int_code)` in the loop of `gst_rtsp_sink_send`: the sink and
`retry`. -/
def send_switch (lib : SinkLib) (sink : GstRTSPSink) (int_code : GstRTSPStatusCode)
    (response : Option GstRTSPMessage) : GstRTSPSink × Bool :=
  if int_code = GST_RTSP_STS_UNAUTHORIZED then
    match response with
    | some response => gst_rtsp_sink_setup_auth lib sink response
    | none => (sink, false)
  else (sink, false)

/-- The loop of `gst_rtsp_sink_send`.  `count` is the local `count`; `fuel`
bounds the number of rounds of the model: with `fuel + count > 9` the loop is
left before the fuel is used up. -/
def send_loop (lib : SinkLib) (conn : Bool) (request : GstRTSPMessage) (want_response : Bool) :
    Nat → Nat → GstRTSPSink → GstRTSPStatusCode → GstRTSPResult → Option GstRTSPMessage →
    GstRTSPMethod → SendLoopExit
  | 0, _, sink, int_code, res, response, method =>
    { sink := sink, error := false, int_code := int_code, res := res, response := response,
      method := method }
  | fuel + 1, count, sink, int_code, res, response, method =>
    -- make sure we don't loop forever
    if count > 8 then
      { sink := sink, error := false, int_code := int_code, res := res, response := response,
        method := method }
    else
      -- save method so we can disable it when the server complains
      let method := request.method
      let r := gst_rtsp_sink_try_send lib sink conn request want_response response true
      let int_code := r.code.getD int_code
      if r.res < 0 then
        { sink := r.sink, error := true, int_code := int_code, res := r.res,
          response := r.response, method := method }
      else
        let a := send_switch lib r.sink int_code r.response
        if a.2 then
          -- Try the request/response again after configuring the auth info
          send_loop lib conn request want_response fuel (count + 1) a.1 int_code r.res
            r.response method
        else
          { sink := a.1, error := false, int_code := int_code, res := r.res,
            response := r.response, method := method }

/-- The exit `error_response` of `gst_rtsp_sink_send`. -/
def send_error_response (lib : SinkLib) (sink : GstRTSPSink) (response : GstRTSPMessage)
    (method : GstRTSPMethod) : SendResult :=
  match response with
  | .response code _ headers _ =>
    if code = GST_RTSP_STS_NOT_FOUND then
      { sink := sink.log (SinkEvent.element_error "NOT_FOUND: %s"), res := GST_RTSP_ERROR,
        response := none, code := none }
    else if code = GST_RTSP_STS_UNAUTHORIZED then
      { sink := sink.log (SinkEvent.element_error "NOT_AUTHORIZED: %s"), res := GST_RTSP_ERROR,
        response := none, code := none }
    else if code = GST_RTSP_STS_MOVED_PERMANENTLY ∨ code = GST_RTSP_STS_MOVE_TEMPORARILY then
      match gst_rtsp_message_get_header headers GstRTSPHeaderField.LOCATION 0 with
      | none =>
        -- if we don't have a Location Header, we must error
        { sink := sink, res := GST_RTSP_ERROR, response := none, code := none }
      | some new_location =>
        -- save current transports
        let transports := match sink.conninfo.url with
          | some url => url.transports
          | none => GST_RTSP_LOWER_TRANS_UNKNOWN
        let sink := (gst_rtsp_sink_uri_set_uri lib sink new_location).1
        -- set old transports
        let sink := match sink.conninfo.url with
          | some url =>
            if transports ≠ GST_RTSP_LOWER_TRANS_UNKNOWN then
              { sink with conninfo :=
                  { sink.conninfo with url := some { url with transports := transports } } }
            else sink
          | none => sink
        { sink := { sink with need_redirect := true, state := GST_RTSP_STATE_INIT },
          res := GST_RTSP_OK, response := some response, code := none }
    else if code = GST_RTSP_STS_NOT_ACCEPTABLE ∨ code = GST_RTSP_STS_NOT_IMPLEMENTED
        ∨ code = GST_RTSP_STS_METHOD_NOT_ALLOWED then
      { sink := { sink with methods := and_not sink.methods method.bit },
        res := GST_RTSP_OK, response := some response, code := none }
    else
      { sink := sink.log (SinkEvent.element_error "READ: Got error response: %d (%s)."),
        res := GST_RTSP_ERROR, response := none, code := none }
  | _ =>
    -- not reached: `int_code` is set together with a response message
    { sink := sink, res := GST_RTSP_ERROR, response := none, code := none }

/-- The loop of `gst_rtsp_sink_send` from the initial values of the locals
(`*response` is an empty message at the call): the locals when the loop is
left. -/
def send_loop_exit (lib : SinkLib) (sink : GstRTSPSink) (conn : Bool)
    (request : GstRTSPMessage) (want_response : Bool) : SendLoopExit :=
  send_loop lib conn request want_response 10 0 sink GST_RTSP_STS_OK GST_RTSP_ERROR
    none GstRTSPMethod.INVALID

/-- `gst_rtsp_sink_send (sink, conn, request, response, code)`:
`want_response` and `want_code` tell whether `response` and `code` are not
NULL; `*response` is an empty message at the call. -/
def gst_rtsp_sink_send (lib : SinkLib) (sink : GstRTSPSink) (conn : Bool)
    (request : GstRTSPMessage) (want_response want_code : Bool) : SendResult :=
  let l := send_loop_exit lib sink conn request want_response
  if l.error then
    -- error
    { sink := l.sink, res := l.res, response := l.response, code := none }
  else if want_code then
    -- If the user requested the code, let them handle errors
    { sink := l.sink, res := l.res, response := l.response, code := some l.int_code }
  else if l.int_code ≠ GST_RTSP_STS_OK then
    match l.response with
    | some response => send_error_response lib l.sink response l.method
    | none =>
      -- not reached: `int_code` is set together with a response message
      { sink := l.sink, res := GST_RTSP_ERROR, response := none, code := none }
  else
    { sink := l.sink, res := l.res, response := l.response, code := none }

/-! ## `gst_rtsp_sink_create_transports_string` and `gst_rtsp_sink_setup_streams` -/

/-- The value of a `gint` after an arithmetic operation: the result modulo
2^32, in the range of `gint`. -/
def wrap32 (v : Int) : Int := (v + 2 ^ 31) % 2 ^ 32 - 2 ^ 31

/-- `%d` of a `gint`. -/
def fmt_int (v : Int) : CString :=
  if v < 0 then '-' :: Nat.toDigits 10 v.natAbs else Nat.toDigits 10 v.natAbs

/-- The loop `while (profiles != 0)` of
`gst_rtsp_sink_create_transports_string`: `result` and `first` when the loop
is left.  Every round that does not leave the loop clears one of the four
profile bits, so five rounds are enough. -/
def create_transports_loop (sink : GstRTSPSink) (context : GstRTSPStreamContext)
    (protocols : Nat) : Nat → Nat → CString → Bool → CString × Bool
  | 0, _, result, first => (result, first)
  | fuel + 1, profiles, result, first =>
    if profiles = 0 then (result, first)
    else
      let result := if !first then result ++ ",RTP".toList else result
      let profile : Option (CString × Nat) :=
        if profiles &&& GST_RTSP_PROFILE_SAVPF ≠ 0 then
          some ("/SAVPF".toList, and_not profiles GST_RTSP_PROFILE_SAVPF)
        else if profiles &&& GST_RTSP_PROFILE_SAVP ≠ 0 then
          some ("/SAVP".toList, and_not profiles GST_RTSP_PROFILE_SAVP)
        else if profiles &&& GST_RTSP_PROFILE_AVPF ≠ 0 then
          some ("/AVPF".toList, and_not profiles GST_RTSP_PROFILE_AVPF)
        else if profiles &&& GST_RTSP_PROFILE_AVP ≠ 0 then
          some ("/AVP".toList, and_not profiles GST_RTSP_PROFILE_AVP)
        else none
      match profile with
      | none =>
        -- Unimplemented profile(s)
        (result, first)
      | some (name, profiles) =>
        let result := result ++ name
        let result :=
          if protocols &&& GST_RTSP_LOWER_TRANS_UDP ≠ 0 then
            result ++ "/UDP;unicast;client_port=".toList ++ fmt_int context.server_port.min
              ++ "-".toList ++ fmt_int context.server_port.max
          else if protocols &&& GST_RTSP_LOWER_TRANS_UDP_MCAST ≠ 0 then
            match context.multicast_address with
            | some (port, n_ports) =>
              result ++ "/UDP;multicast;client_port=".toList ++ fmt_int port
                ++ "-".toList ++ fmt_int (wrap32 (port + n_ports - 1))
            | none => result
          else if protocols &&& GST_RTSP_LOWER_TRANS_TCP ≠ 0 then
            result ++ "/TCP;unicast;interleaved=".toList ++ fmt_int sink.free_channel
              ++ "-".toList ++ fmt_int (wrap32 (sink.free_channel + 1))
          else result
        let result := result ++ ";mode=RECORD".toList
        create_transports_loop sink context protocols fuel profiles result false

/-- `gst_rtsp_sink_create_transports_string (sink, context, family, protocols,
profiles, &transports)`: the result and `*transports`. -/
def gst_rtsp_sink_create_transports_string (sink : GstRTSPSink)
    (context : GstRTSPStreamContext) (protocols profiles : Nat) :
    GstRTSPResult × Option CString :=
  -- the default RTSP transports
  let r := create_transports_loop sink context protocols 5 profiles "RTP".toList true
  if r.2 then
    -- No valid transport could be constructed
    (GST_RTSP_ERROR, none)
  else (GST_RTSP_OK, some r.1)

/-- `protocol_masks` -/
def protocol_masks : List Nat :=
  [GST_RTSP_LOWER_TRANS_UDP, GST_RTSP_LOWER_TRANS_UDP_MCAST, GST_RTSP_LOWER_TRANS_TCP, 0]

/-- `profile_masks` -/
def profile_masks : List Nat :=
  [GST_RTSP_PROFILE_SAVPF, GST_RTSP_PROFILE_SAVP, GST_RTSP_PROFILE_AVPF, GST_RTSP_PROFILE_AVP, 0]

/-- The loop `while (masks[i] && !(allowed & masks[i])) i++`, on the masks
from index `i` on: the index after the loop. -/
def skip_masks_loop (allowed : Nat) : List Nat → Nat → Nat
  | [], i => i
  | m :: rest, i =>
    if m ≠ 0 ∧ allowed &&& m = 0 then skip_masks_loop allowed rest (i + 1) else i

/-- `while (masks[i] && !(allowed & masks[i])) i++` -/
def skip_masks (masks : List Nat) (allowed : Nat) (i : Nat) : Nat :=
  skip_masks_loop allowed (masks.drop i) i

/-- How the body of the loop over the streams of
`gst_rtsp_sink_setup_streams` is left: by going on with the next stream, or
by returning from the function at an error label.  `out_of_fuel` is the model
giving up, which does not happen (the negotiation of one stream makes at most
twelve offers). -/
inductive SetupExit
  | next
  | failed
  | out_of_fuel
  deriving DecidableEq

/-- The state when the body of the loop over the streams is left. -/
structure SetupStream where
  sink : GstRTSPSink
  context : GstRTSPStreamContext
  protocols : Nat
  res : GstRTSPResult
  exit : SetupExit
  deriving DecidableEq

/-- An error exit of `gst_rtsp_sink_setup_streams` that posts an element
error and returns `res`. -/
def setup_streams_error (sink : GstRTSPSink) (context : GstRTSPStreamContext)
    (protocols : Nat) (res : GstRTSPResult) (text : String) : SetupStream :=
  { sink := sink.log (SinkEvent.element_error text), context := context,
    protocols := protocols, res := res, exit := SetupExit.failed }

/-- `gst_rtsp_sink_setup_streams`, for one stream, after the SETUP was
answered 200: parse the response transport, update the allowed transports
for the other streams and configure the stream transport. -/
def setup_stream_response (lib : SinkLib) (sink : GstRTSPSink)
    (context : GstRTSPStreamContext) (protocols : Nat) (res : GstRTSPResult)
    (response : Option GstRTSPMessage) : SetupStream :=
  match gst_rtsp_message_get_header ((response.map (fun m => m.headers)).getD [])
      GstRTSPHeaderField.TRANSPORT 0 with
  | none =>
    -- no_transport
    setup_streams_error sink context protocols GST_RTSP_ERROR
      "SETTINGS: Server did not select transport."
  | some resptrans =>
    -- parse transport, go to next stream on parse error
    match lib.rtsp.transport_parse resptrans with
    | none =>
      { sink := sink, context := context, protocols := protocols, res := res,
        exit := SetupExit.next }
    | some transport =>
      -- update allowed transports for other streams
      let u : GstRTSPSink × Nat × GstRTSPTransport :=
        if transport.lower_transport = GST_RTSP_LOWER_TRANS_TCP then
          -- update free channels
          let free_channel := max transport.interleaved.min sink.free_channel
          let free_channel := max transport.interleaved.max free_channel
          ({ sink with interleaved := true, free_channel := wrap32 (free_channel + 1) },
            GST_RTSP_LOWER_TRANS_TCP, transport)
        else if transport.lower_transport = GST_RTSP_LOWER_TRANS_UDP_MCAST then
          -- only allow multicast for other streams
          (sink, GST_RTSP_LOWER_TRANS_UDP_MCAST, transport)
        else if transport.lower_transport = GST_RTSP_LOWER_TRANS_UDP then
          -- only allow unicast for other streams; the server destination if
          -- the server gave none (a NULL destination is the empty text)
          (sink, GST_RTSP_LOWER_TRANS_UDP,
            if transport.destination = [] then { transport with destination := sink.server_ip }
            else transport)
        else (sink, protocols, transport)
      -- Configuring the stream transport
      { sink := u.1.log (SinkEvent.stream_transport context.index u.2.2),
        context := { context with stream_transport := some u.2.2 },
        protocols := u.2.1, res := res, exit := SetupExit.next }

/-- The SETUP request of `gst_rtsp_sink_setup_streams` for the transports
string. -/
def setup_request (sink : GstRTSPSink) (context : GstRTSPStreamContext) (location : CString)
    (cur_profile : Nat) (transports : CString) : GstRTSPMessage :=
  -- create SETUP request
  let request := gst_rtsp_sink_init_request sink GstRTSPMethod.SETUP location
  -- select transport
  let request := request.add_header GstRTSPHeaderField.TRANSPORT transports
  -- set up keys
  let request :=
    if cur_profile = GST_RTSP_PROFILE_SAVP ∨ cur_profile = GST_RTSP_PROFILE_SAVPF then
      match context.keymgmt with
      | some hval => request.add_header GstRTSPHeaderField.KEYMGMT hval
      | none => request
    else request
  -- if the user wants a non default RTP packet size we add the blocksize parameter
  if sink.rtp_blocksize > 0 then
    request.add_header GstRTSPHeaderField.BLOCKSIZE (fmt_int sink.rtp_blocksize)
  else request

/-- `gst_rtsp_sink_setup_streams`, for one stream, from the label
`next_protocol` (`at_retry = false`) or `retry` (`at_retry = true`) up to the
end of the body of the loop over the streams.  `conn` tells whether the
connection of the stream is not NULL. -/
def setup_stream_loop (lib : SinkLib) (conn : Bool) (profiles : Nat) (location : CString) :
    Nat → Bool → Nat → Nat → Nat → GstRTSPResult → GstRTSPSink → GstRTSPStreamContext →
    SetupStream
  | 0, _, _, _, protocols, res, sink, context =>
    { sink := sink, context := context, protocols := protocols, res := res,
      exit := SetupExit.out_of_fuel }
  | fuel + 1, false, profile_mask, mask, protocols, res, sink, context =>
    -- next_protocol: first selectable profile
    let profile_mask := skip_masks profile_masks profiles profile_mask
    if profile_masks.getD profile_mask 0 = 0 then
      -- no_profiles
      setup_streams_error sink context protocols GST_RTSP_ERROR
        "READ: Could not connect to server, no profiles left"
    else
      -- first selectable protocol
      let mask := skip_masks protocol_masks protocols mask
      if protocol_masks.getD mask 0 = 0 then
        -- no_protocols
        setup_streams_error sink context protocols GST_RTSP_ERROR
          "READ: Could not connect to server, no protocols left"
      else
        setup_stream_loop lib conn profiles location fuel true profile_mask mask protocols res
          sink context
  | fuel + 1, true, profile_mask, mask, protocols, _, sink, context =>
    -- retry: create a string with first transport in line
    let cur_profile := profiles &&& profile_masks.getD profile_mask 0
    let sink := sink.log (SinkEvent.create_transports context.index
      (protocols &&& protocol_masks.getD mask 0) cur_profile)
    let t := gst_rtsp_sink_create_transports_string sink context
      (protocols &&& protocol_masks.getD mask 0) cur_profile
    match t.2 with
    | none =>
      -- setup_transport_failed
      setup_streams_error sink context protocols GST_RTSP_ERROR
        "SETTINGS: Could not setup transport."
    | some transports =>
      if t.1 < 0 then
        -- setup_transport_failed
        setup_streams_error sink context protocols GST_RTSP_ERROR
          "SETTINGS: Could not setup transport."
      else if transports = [] then
        -- no transports found
        setup_stream_loop lib conn profiles location fuel false 0 (mask + 1) protocols t.1
          sink context
      else
        let request := setup_request sink context location cur_profile transports
        -- handle the code ourselves
        let r := gst_rtsp_sink_send lib sink conn request true true
        if r.res < 0 then
          -- send_error
          if r.res ≠ GST_RTSP_EINTR then
            setup_streams_error r.sink context protocols r.res
              "WRITE: Could not send message. (%s)"
          else
            { sink := r.sink, context := context, protocols := protocols, res := r.res,
              exit := SetupExit.failed }
        else if r.code = some GST_RTSP_STS_OK then
          setup_stream_response lib r.sink context protocols r.res r.response
        else if r.code = some GST_RTSP_STS_UNSUPPORTED_TRANSPORT then
          -- Try another profile. If no more, move to the next protocol
          let profile_mask := skip_masks profile_masks profiles (profile_mask + 1)
          if profile_masks.getD profile_mask 0 ≠ 0 then
            setup_stream_loop lib conn profiles location fuel true profile_mask mask protocols
              r.res r.sink context
          else
            -- select next available protocol, give up on this stream if none
            -- Reset profiles to try:
            let profile_mask := 0
            let mask := skip_masks protocol_masks protocols (mask + 1)
            if protocol_masks.getD mask 0 = 0 then
              { sink := r.sink, context := context, protocols := protocols, res := r.res,
                exit := SetupExit.next }
            else
              setup_stream_loop lib conn profiles location fuel true profile_mask mask
                protocols r.res r.sink context
        else
          -- response_error
          setup_streams_error r.sink context protocols GST_RTSP_ERROR "WRITE: Error (%d): %s"

/-- The body of the loop over the streams of `gst_rtsp_sink_setup_streams`.
When the sink has no connection the stream is connected on its own: the
stream is skipped when `gst_rtsp_conninfo_connect` gives `GST_RTSP_OK` (the
test is `!gst_rtsp_conninfo_connect (...)`). -/
def setup_stream (lib : SinkLib) (sink : GstRTSPSink) (context : GstRTSPStreamContext)
    (protocols : Nat) (res : GstRTSPResult) : SetupStream :=
  let profiles := context.profiles
  if !context.caps then
    -- skipping stream, no caps
    { sink := sink, context := context, protocols := protocols, res := res,
      exit := SetupExit.next }
  else
    match context.conninfo.location with
    | none =>
      -- skip setup if we have no URL for it
      { sink := sink, context := context, protocols := protocols, res := res,
        exit := SetupExit.next }
    | some location =>
      match sink.conninfo.connection with
      | none =>
        let c := gst_rtsp_conninfo_connect lib sink context.conninfo
        let context := { context with conninfo := c.2.1 }
        if c.2.2 = 0 then
          -- skipping stream, failed to connect
          { sink := c.1, context := context, protocols := protocols, res := res,
            exit := SetupExit.next }
        else
          setup_stream_loop lib context.conninfo.connection.isSome profiles location 16 false
            0 0 protocols res c.1 context
      | some _ =>
        setup_stream_loop lib true profiles location 16 false 0 0 protocols res sink context

/-- The loop over the streams of `gst_rtsp_sink_setup_streams`: the sink, the
local `protocols`, `res`, and how the loop was left (`next`: at its end). -/
def setup_streams_loop (lib : SinkLib) :
    List GstRTSPStreamContext → List GstRTSPStreamContext → GstRTSPSink → Nat → GstRTSPResult →
    GstRTSPSink × Nat × GstRTSPResult × SetupExit
  | [], _, sink, protocols, res => (sink, protocols, res, SetupExit.next)
  | context :: rest, done, sink, protocols, res =>
    let s := setup_stream lib sink context protocols res
    let sink := { s.sink with contexts := done ++ s.context :: rest }
    match s.exit with
    | SetupExit.next => setup_streams_loop lib rest (done ++ [s.context]) sink s.protocols s.res
    | e => (sink, s.protocols, s.res, e)

/-- `gst_rtsp_sink_setup_streams (sink, async)` -/
def gst_rtsp_sink_setup_streams (lib : SinkLib) (sink : GstRTSPSink) :
    GstRTSPSink × GstRTSPResult :=
  -- we initially allow all configured lower transports. based on the URL
  -- transports and the replies from the server we narrow them down.
  let protocols := match sink.conninfo.connection with
    | some connection => connection.url.transports &&& sink.cur_protocols
    | none => sink.cur_protocols
  if protocols = 0 then
    -- no_protocols
    (sink.log (SinkEvent.element_error "READ: Could not connect to server, no protocols left"),
      GST_RTSP_ERROR)
  else if sink.contexts = [] then
    -- no_streams
    (sink.log (SinkEvent.element_error "SETTINGS: SDP contains no streams"), GST_RTSP_ERROR)
  else
    let l := setup_streams_loop lib sink.contexts [] sink protocols GST_RTSP_ERROR
    match l.2.2.2 with
    | SetupExit.next =>
      -- store the transport protocol that was configured
      ({ l.1 with cur_protocols := l.2.1 }, l.2.2.1)
    | _ => (l.1, l.2.2.1)

/-! ## Concrete instances, used to evaluate the sink -/

/-- An instance of the library functions of the sink: the urls of
`exampleLib`, three transport texts, a `gst_rtsp_message_init_response` that
copies the CSeq header of the request, no handler of `handle-request`, a
`gst_rtsp_connection_set_auth` that refuses a user name with a colon, a
`gst_rtsp_options_from_text` that knows two lists of methods, a server at
10.0.0.2, and an rtpbin and streams that start. -/
def exampleSinkLib : SinkLib where
  rtsp :=
    { exampleLib with
      transport_parse := fun s =>
        if s = "RTP/AVP/UDP;unicast;client_port=5000-5001;server_port=6000-6001".toList then
          some (exampleTransport GST_RTSP_TRANS_RTP GST_RTSP_PROFILE_AVP
            GST_RTSP_LOWER_TRANS_UDP "client_port=5000-5001;server_port=6000-6001")
        else if s = "RTP/AVP/UDP;multicast;destination=224.0.0.1;port=5000-5001".toList then
          some (exampleTransport GST_RTSP_TRANS_RTP GST_RTSP_PROFILE_AVP
            GST_RTSP_LOWER_TRANS_UDP_MCAST "port=5000-5001")
        else if s = "RTP/AVP/TCP;unicast;interleaved=0-1".toList then
          some { exampleTransport GST_RTSP_TRANS_RTP GST_RTSP_PROFILE_AVP
                  GST_RTSP_LOWER_TRANS_TCP "" with interleaved := ⟨0, 1⟩ }
        else none }
  message_init_response := fun code reason request =>
    GstRTSPMessage.response code reason
      (request.headers.filter (fun h => h.1 = GstRTSPHeaderField.CSEQ)) none
  handle_request_signal := fun _ response => response
  connection_create := fun _ => GST_RTSP_OK
  connection_set_auth := fun _ user _ =>
    if user.contains ':' then GST_RTSP_EINVAL else GST_RTSP_OK
  sdp_parse_uri := fun _ => none
  options_from_text := fun s =>
    if s = "OPTIONS, ANNOUNCE, SETUP, RECORD, TEARDOWN".toList then
      GstRTSPMethod.OPTIONS.bit ||| GstRTSPMethod.ANNOUNCE.bit ||| GstRTSPMethod.SETUP.bit
        ||| GstRTSPMethod.RECORD.bit ||| GstRTSPMethod.TEARDOWN.bit
    else if s = "OPTIONS, ANNOUNCE, SETUP, RECORD, PAUSE, TEARDOWN".toList then
      GstRTSPMethod.OPTIONS.bit ||| GstRTSPMethod.ANNOUNCE.bit ||| GstRTSPMethod.SETUP.bit
        ||| GstRTSPMethod.RECORD.bit ||| GstRTSPMethod.PAUSE.bit ||| GstRTSPMethod.TEARDOWN.bit
    else 0
  remote_address := fun _ => "10.0.0.2".toList
  make_rtpbin := true
  start_rtpbin := true
  stream_join_bin := fun _ => true

/-- The url `rtsp://host/test` of a connection that allows UDP, UDP multicast
and TCP, with the credentials given. -/
def exampleSinkUrl (user passwd : Option String) : GstRTSPUrl :=
  { host := "host".toList, port := 554, abspath := "/test".toList, query := none,
    transports := GST_RTSP_LOWER_TRANS_UDP ||| GST_RTSP_LOWER_TRANS_UDP_MCAST
      ||| GST_RTSP_LOWER_TRANS_TCP,
    user := user.map String.toList, passwd := passwd.map String.toList }

/-- A stream with the profiles given, with caps and without connection of
its own, to be set up at `rtsp://host/test/stream=<index>`. -/
def exampleContext (index profiles : Nat) : GstRTSPStreamContext :=
  { index := index, profiles := profiles, caps := true, server_port := ⟨5000, 5001⟩,
    multicast_address := none, keymgmt := none,
    conninfo := { location := some ("rtsp://host/test/stream=".toList ++ Nat.toDigits 10 index),
                  url := none, url_str := none, connection := none, connected := false },
    stream_transport := none }

/-- A sink connected to `rtsp://host/test`, with the property credentials
"user" and "secret", the allowed lower transports `cur_protocols`, the streams
given, and a peer from which the messages of `inbox` arrive without error. -/
def exampleSink (cur_protocols : Nat) (contexts : List GstRTSPStreamContext)
    (inbox : List GstRTSPMessage) : GstRTSPSink :=
  { conninfo := { location := some "rtsp://host/test".toList,
                  url := some (exampleSinkUrl none none),
                  url_str := some "rtsp://host:554/test".toList,
                  connection := some { url := exampleSinkUrl none none, auth := none,
                                       auth_params := [] },
                  connected := true },
    contexts := contexts, interleaved := false, udp_reconnect := true, free_channel := 0,
    cur_protocols := cur_protocols,
    methods := GstRTSPMethod.OPTIONS.bit ||| GstRTSPMethod.ANNOUNCE.bit
      ||| GstRTSPMethod.SETUP.bit ||| GstRTSPMethod.RECORD.bit ||| GstRTSPMethod.TEARDOWN.bit,
    need_redirect := false, state := GST_RTSP_STATE_READY, tried_url_auth := false,
    user_id := some "user".toList, user_pw := some "secret".toList, user_agent := none,
    rtp_blocksize := 0, content_base := none, server_ip := "10.0.0.2".toList, sdp := none,
    from_sdp := false, send_results := [], connect_results := [],
    inbox := inbox.map (fun m => (GST_RTSP_OK, m)), trace := [] }

/-- A response without body. -/
def exampleResponse (code : GstRTSPStatusCode) (reason : String)
    (headers : List (GstRTSPHeaderField × String)) : GstRTSPMessage :=
  GstRTSPMessage.response code reason.toList (headers.map (fun h => (h.1, h.2.toList))) none

/-- The offers in a trace: the arguments (stream, lower transport, profile)
of the calls of `gst_rtsp_sink_create_transports_string`, in order. -/
def offers (trace : List SinkEvent) : List (Nat × Nat × Nat) :=
  trace.filterMap (fun e => match e with
    | SinkEvent.create_transports index protocols profiles => some (index, protocols, profiles)
    | _ => none)

/-- The messages given to `gst_rtsp_connection_send` in a trace, in order. -/
def sent (trace : List SinkEvent) : List GstRTSPMessage :=
  trace.filterMap (fun e => match e with
    | SinkEvent.send message _ => some message
    | _ => none)

/-! ## Notions used to state the properties of the sink -/

/-- The events `evs` are what happened between the sink `s` and the sink
`s'`. -/
def SinkTrace (s s' : GstRTSPSink) (evs : List SinkEvent) : Prop :=
  s'.trace = s.trace ++ evs

/-- The configuration and the protocol state of the sink that sending a
request leaves alone. -/
def SinkKeeps (s s' : GstRTSPSink) : Prop :=
  s'.methods = s.methods ∧ s'.need_redirect = s.need_redirect ∧ s'.state = s.state
    ∧ s'.interleaved = s.interleaved ∧ s'.udp_reconnect = s.udp_reconnect
    ∧ s'.cur_protocols = s.cur_protocols ∧ s'.free_channel = s.free_channel

/-- The event is a call of `gst_rtsp_sink_try_send`. -/
def SinkEvent.is_try_send : SinkEvent → Bool
  | .try_send _ => true
  | _ => false

/-- The event is a pass of the label `again` of `gst_rtsp_sink_try_send`. -/
def SinkEvent.is_again : SinkEvent → Bool
  | .again _ => true
  | _ => false

/-- The event is a `gst_rtsp_connection_connect`. -/
def SinkEvent.is_connect : SinkEvent → Bool
  | .connect _ => true
  | _ => false

/-- The event is one of the transfer of a request: a message sent, a close or
a connect of the connection, a pass of `again`, an error or a warning. -/
def SinkEvent.is_transfer : SinkEvent → Bool
  | .send _ _ => true
  | .connect _ => true
  | .close => true
  | .again _ => true
  | .element_error _ => true
  | .element_warning _ => true
  | _ => false

/-- The message is a request. -/
def GstRTSPMessage.is_request : GstRTSPMessage → Bool
  | .request _ _ _ => true
  | _ => false

/-- The message is a request or a data message. -/
def GstRTSPMessage.is_request_or_data : GstRTSPMessage → Bool
  | .request _ _ _ => true
  | .data _ _ => true
  | _ => false

/-- The reply `gst_rtsp_sink_handle_request` sends to a request of the
server. -/
def server_request_reply (lib : SinkLib) (request : GstRTSPMessage) : GstRTSPMessage :=
  lib.handle_request_signal request
    (lib.message_init_response GST_RTSP_STS_OK "OK".toList request)

/-- Between the sink `s` and the sink `s'` only events of the transfer of a
request happened, of which at most `n_again` passes of `again` and at most
`n_connect` connects, and the configuration and the protocol state were left
alone. -/
def SinkStep (n_again n_connect : Nat) (s s' : GstRTSPSink) : Prop :=
  ∃ evs, SinkTrace s s' evs ∧ (∀ e ∈ evs, e.is_transfer = true)
    ∧ evs.countP SinkEvent.is_again ≤ n_again ∧ evs.countP SinkEvent.is_connect ≤ n_connect
    ∧ SinkKeeps s s'

/-- What a result of `gst_rtsp_sink_try_send` for a `response` that is not
NULL looks like: an error, or `GST_RTSP_OK` with a response message in
`*response` and its status code in `*code`. -/
def SendResult.well (want_code : Bool) (r : SendResult) : Prop :=
  r.res < 0 ∨ (r.res = GST_RTSP_OK ∧ ∃ code reason headers body,
    r.response = some (GstRTSPMessage.response code reason headers body)
      ∧ r.code = if want_code then some code else none)

/-- The event belongs to the negotiation of `gst_rtsp_sink_setup_streams`: an
offer made or a transport configured. -/
def SinkEvent.is_setup : SinkEvent → Bool
  | .create_transports _ _ _ => true
  | .stream_transport _ _ => true
  | _ => false

/-- Between the sink `s` and the sink `s'` at most `n` calls of
`gst_rtsp_sink_try_send` were made and no event of the negotiation of
`gst_rtsp_sink_setup_streams` happened, and the configuration and the
protocol state were left alone. -/
def SendStep (n : Nat) (s s' : GstRTSPSink) : Prop :=
  ∃ evs, SinkTrace s s' evs ∧ evs.countP SinkEvent.is_try_send ≤ n
    ∧ (∀ e ∈ evs, e.is_setup = false) ∧ SinkKeeps s s'

/-- The locals `int_code`, `res`, `response` and `method` of
`gst_rtsp_sink_send` agree: either no status was stored yet, or the last
`gst_rtsp_sink_try_send` gave `GST_RTSP_OK` and `*response` is a response
message with the status `int_code`. -/
def SendLocals (request : GstRTSPMessage) (int_code : GstRTSPStatusCode)
    (res : GstRTSPResult) (response : Option GstRTSPMessage) (method : GstRTSPMethod) : Prop :=
  int_code = GST_RTSP_STS_OK
    ∨ (res = GST_RTSP_OK ∧ method = request.method
        ∧ ∃ reason headers body,
            response = some (GstRTSPMessage.response int_code reason headers body))

/-! ## Notions used to state how `gst_rtsp_sink_setup_streams` fixes the lower transport -/

/-- How `gst_rtsp_sink_setup_streams` is left: `next` when it returns after
the loop over the streams, where `cur_protocols` is stored; `failed` when it
returns at an error label. -/
def setup_streams_exit (lib : SinkLib) (sink : GstRTSPSink) : SetupExit :=
  let protocols := match sink.conninfo.connection with
    | some connection => connection.url.transports &&& sink.cur_protocols
    | none => sink.cur_protocols
  if protocols = 0 then SetupExit.failed
  else if sink.contexts = [] then SetupExit.failed
  else (setup_streams_loop lib sink.contexts [] sink protocols GST_RTSP_ERROR).2.2.2

/-- The lower transport that the event fixes for the other streams: the
event is the configuration of a stream after a 200 response whose transport
has the lower transport TCP, UDP multicast or UDP. -/
def SinkEvent.fixes_transport : SinkEvent → Option Nat
  | .stream_transport _ transport =>
    if transport.lower_transport = GST_RTSP_LOWER_TRANS_TCP
        ∨ transport.lower_transport = GST_RTSP_LOWER_TRANS_UDP_MCAST
        ∨ transport.lower_transport = GST_RTSP_LOWER_TRANS_UDP then
      some transport.lower_transport
    else none
  | _ => none

/-- The negotiation in a trace, in order: `Sum.inl (stream, lower transport,
profile)` for an offer (a call of `gst_rtsp_sink_create_transports_string`)
and `Sum.inr (stream, lower transport)` for a response transport that was
configured. -/
def negotiation (trace : List SinkEvent) : List ((Nat × Nat × Nat) ⊕ (Nat × Nat)) :=
  trace.filterMap (fun e => match e with
    | SinkEvent.create_transports index protocols profiles =>
      some (Sum.inl (index, protocols, profiles))
    | SinkEvent.stream_transport index transport =>
      some (Sum.inr (index, transport.lower_transport))
    | _ => none)

/-- The lower transport fixed after the events, when `lock` was fixed before
them. -/
def last_fixed : Option Nat → List SinkEvent → Option Nat
  | lock, [] => lock
  | lock, e :: rest =>
    last_fixed (match e.fixes_transport with
      | some T => some T
      | none => lock) rest

/-- Every offer among the events is for the lower transport that was fixed
last before it, if one was fixed; `lock` is the one fixed before the
events. -/
def offers_fixed : Option Nat → List SinkEvent → Prop
  | _, [] => True
  | lock, e :: rest =>
    (∀ index protocols profiles T, e = SinkEvent.create_transports index protocols profiles →
        lock = some T → protocols = T)
      ∧ offers_fixed (match e.fixes_transport with
          | some T => some T
          | none => lock) rest

/-- The local `protocols` of `gst_rtsp_sink_setup_streams` agrees with the
lower transport fixed: it is that transport, one of UDP, UDP multicast and
TCP. -/
def Locked (lock : Option Nat) (protocols : Nat) : Prop :=
  ∀ T, lock = some T → protocols = T
    ∧ (T = GST_RTSP_LOWER_TRANS_UDP ∨ T = GST_RTSP_LOWER_TRANS_UDP_MCAST
        ∨ T = GST_RTSP_LOWER_TRANS_TCP)

/-- Between the sink `s` with the local `protocols = p` and the sink `s'`
with `protocols = p'` of `gst_rtsp_sink_setup_streams`: every offer was for
the lower transport fixed before it, `p'` is the lower transport fixed last,
a fixed TCP left the sink interleaved, and `cur_protocols` was left alone. -/
def SetupStep (s : GstRTSPSink) (p : Nat) (s' : GstRTSPSink) (p' : Nat) : Prop :=
  ∃ evs, SinkTrace s s' evs
    ∧ (∀ lock, Locked lock p → offers_fixed lock evs ∧ Locked (last_fixed lock evs) p')
    ∧ (s.interleaved = true → s'.interleaved = true)
    ∧ ((∃ e ∈ evs, e.fixes_transport = some GST_RTSP_LOWER_TRANS_TCP) → s'.interleaved = true)
    ∧ s'.cur_protocols = s.cur_protocols

/-- The body of the loop over the streams was left as `SetupStep` says, and
not because the model gave up. -/
def SetupStreamOk (sink : GstRTSPSink) (protocols : Nat) (s : SetupStream) : Prop :=
  SetupStep sink protocols s.sink s.protocols ∧ s.exit ≠ SetupExit.out_of_fuel

/-! ## Notions used to state the properties of the challenge parser -/

/-- The text `s` with every double quote and every backslash preceded by a
backslash. -/
def escape_quoted : CString → CString
  | [] => []
  | c :: rest =>
    if c = '"' ∨ c = '\\' then '\\' :: c :: escape_quoted rest else c :: escape_quoted rest

/-- RFC 2617 quoting of the text `s`: a double quote, the text with its
double quotes and backslashes escaped, a closing double quote. -/
def quoted_string (s : CString) : CString :=
  '"' :: escape_quoted s ++ ['"']

/-- The pieces of a text between the commas that lie outside double-quoted
strings, where inside quotes a backslash escapes the next character.
`quoted` tells whether the scan is inside quotes, `piece` is the piece read so
far. -/
def split_commas : Bool → CString → CString → List CString
  | _, piece, [] => [piece]
  | quoted, piece, c :: rest =>
    if c = '"' then split_commas (!quoted) (piece ++ [c]) rest
    else if quoted then
      if c = '\\' then
        match rest with
        | [] => [piece ++ [c]]
        | d :: rest' => split_commas quoted (piece ++ [c, d]) rest'
      else split_commas quoted (piece ++ [c]) rest
    else if c = ',' then piece :: split_commas false [] rest
    else split_commas quoted (piece ++ [c]) rest

/-- A text without the white space around it. -/
def trim_lws (s : CString) : CString :=
  gst_rtsp_sink_unskip_lws (gst_rtsp_sink_skip_lws s)

/-- The items of a challenge text, as the claim words them: the text is split
at the commas outside double-quoted strings, the white space around each
piece is trimmed and empty pieces are dropped. -/
def challenge_items (text : CString) : List CString :=
  ((split_commas false [] text).map trim_lws).filter (fun item => item ≠ [])

/-! ## Notions used to state the form of the transports string -/

/-- The lower transport part of an alternative of the transports string: the
first of UDP unicast, UDP multicast (for a stream with a multicast address)
and TCP that is in `protocols`, with its parameters. -/
def transport_lower (sink : GstRTSPSink) (context : GstRTSPStreamContext) (protocols : Nat) :
    CString :=
  if protocols &&& GST_RTSP_LOWER_TRANS_UDP ≠ 0 then
    "/UDP;unicast;client_port=".toList ++ fmt_int context.server_port.min
      ++ "-".toList ++ fmt_int context.server_port.max
  else if protocols &&& GST_RTSP_LOWER_TRANS_UDP_MCAST ≠ 0 then
    match context.multicast_address with
    | some (port, n_ports) =>
      "/UDP;multicast;client_port=".toList ++ fmt_int port
        ++ "-".toList ++ fmt_int (wrap32 (port + n_ports - 1))
    | none => []
  else if protocols &&& GST_RTSP_LOWER_TRANS_TCP ≠ 0 then
    "/TCP;unicast;interleaved=".toList ++ fmt_int sink.free_channel
      ++ "-".toList ++ fmt_int (wrap32 (sink.free_channel + 1))
  else []

/-- Append an event to the trace of the command loop. -/
def GstRTSPSink.note (sink : GstRTSPSink) (e : LoopEvent) : GstRTSPSink :=
  { sink with loop_trace := sink.loop_trace ++ [e] }

/-- `GST_ELEMENT_PROGRESS (sink, type, code, (text))` -/
def GST_ELEMENT_PROGRESS (sink : GstRTSPSink) (type : GstProgressType) (code text : String) :
    GstRTSPSink :=
  sink.note (LoopEvent.progress type code text)

/-- `gst_rtsp_sink_loop_start_cmd (sink, cmd)` -/
def gst_rtsp_sink_loop_start_cmd (sink : GstRTSPSink) (cmd : Nat) : GstRTSPSink :=
  if cmd = CMD_OPEN then
    GST_ELEMENT_PROGRESS sink GstProgressType.START "open" "Opening Stream"
  else if cmd = CMD_RECORD then
    GST_ELEMENT_PROGRESS sink GstProgressType.START "request" "Sending RECORD request"
  else if cmd = CMD_PAUSE then
    GST_ELEMENT_PROGRESS sink GstProgressType.START "request" "Sending PAUSE request"
  else if cmd = CMD_CLOSE then
    GST_ELEMENT_PROGRESS sink GstProgressType.START "close" "Closing Stream"
  else sink

/-- `gst_rtsp_sink_loop_complete_cmd (sink, cmd)` -/
def gst_rtsp_sink_loop_complete_cmd (sink : GstRTSPSink) (cmd : Nat) : GstRTSPSink :=
  if cmd = CMD_OPEN then
    GST_ELEMENT_PROGRESS sink GstProgressType.COMPLETE "open" "Opened Stream"
  else if cmd = CMD_RECORD then
    GST_ELEMENT_PROGRESS sink GstProgressType.COMPLETE "request" "Sent RECORD request"
  else if cmd = CMD_PAUSE then
    GST_ELEMENT_PROGRESS sink GstProgressType.COMPLETE "request" "Sent PAUSE request"
  else if cmd = CMD_CLOSE then
    GST_ELEMENT_PROGRESS sink GstProgressType.COMPLETE "close" "Closed Stream"
  else sink

/-- `gst_rtsp_sink_loop_cancel_cmd (sink, cmd)` -/
def gst_rtsp_sink_loop_cancel_cmd (sink : GstRTSPSink) (cmd : Nat) : GstRTSPSink :=
  if cmd = CMD_OPEN then
    GST_ELEMENT_PROGRESS sink GstProgressType.CANCELED "open" "Open canceled"
  else if cmd = CMD_RECORD then
    GST_ELEMENT_PROGRESS sink GstProgressType.CANCELED "request" "RECORD canceled"
  else if cmd = CMD_PAUSE then
    GST_ELEMENT_PROGRESS sink GstProgressType.CANCELED "request" "PAUSE canceled"
  else if cmd = CMD_CLOSE then
    GST_ELEMENT_PROGRESS sink GstProgressType.CANCELED "close" "Close canceled"
  else sink

/-- `gst_rtsp_sink_loop_error_cmd (sink, cmd)` -/
def gst_rtsp_sink_loop_error_cmd (sink : GstRTSPSink) (cmd : Nat) : GstRTSPSink :=
  if cmd = CMD_OPEN then
    GST_ELEMENT_PROGRESS sink GstProgressType.ERROR "open" "Open failed"
  else if cmd = CMD_RECORD then
    GST_ELEMENT_PROGRESS sink GstProgressType.ERROR "request" "RECORD failed"
  else if cmd = CMD_PAUSE then
    GST_ELEMENT_PROGRESS sink GstProgressType.ERROR "request" "PAUSE failed"
  else if cmd = CMD_CLOSE then
    GST_ELEMENT_PROGRESS sink GstProgressType.ERROR "close" "Close failed"
  else sink

/-- `gst_rtsp_sink_loop_end_cmd (sink, cmd, ret)` -/
def gst_rtsp_sink_loop_end_cmd (sink : GstRTSPSink) (cmd : Nat) (ret : GstRTSPResult) :
    GstRTSPSink :=
  if ret = GST_RTSP_OK then gst_rtsp_sink_loop_complete_cmd sink cmd
  else if ret = GST_RTSP_EINTR then gst_rtsp_sink_loop_cancel_cmd sink cmd
  else gst_rtsp_sink_loop_error_cmd sink cmd

/-- `gst_rtsp_sink_connection_flush (sink, flush)`: the connection of the
sink and the connections of the streams that are not NULL get the flushing
state `flush`. -/
def gst_rtsp_sink_connection_flush (sink : GstRTSPSink) (flush : Bool) : GstRTSPSink :=
  let sink := sink.note (LoopEvent.connection_flush flush)
  let sink :=
    if sink.conninfo.connection.isSome ∧ sink.conninfo.flushing ≠ flush then
      { sink with conninfo := { sink.conninfo with flushing := flush } }
    else sink
  { sink with contexts := sink.contexts.map (fun (stream : GstRTSPStreamContext) =>
      if stream.conninfo.connection.isSome ∧ stream.conninfo.flushing ≠ flush then
        { stream with conninfo := { stream.conninfo with flushing := flush } }
      else stream) }

/-- `gst_rtsp_sink_loop_send_cmd`, the replacement of the pending command:
the previous request is cancelled and `cmd` becomes the pending command,
unless the sink was reconnecting. -/
def loop_send_cmd_pending (sink : GstRTSPSink) (cmd : Nat) : GstRTSPSink :=
  let old := sink.pending_cmd
  -- ignore, we were reconnecting
  let cmd := if old = CMD_RECONNECT then CMD_RECONNECT else cmd
  let sink :=
    if old ≠ CMD_WAIT then
      -- cancel previous request
      gst_rtsp_sink_loop_cancel_cmd { sink with pending_cmd := CMD_WAIT } old
    else sink
  { sink with pending_cmd := cmd }

/-- `gst_rtsp_sink_loop_send_cmd`, from the comment `interrupt if allowed`
on: the sink and `flushed`. -/
def loop_send_cmd_interrupt (sink : GstRTSPSink) (mask : Nat) : GstRTSPSink × Bool :=
  let f : GstRTSPSink × Bool :=
    if sink.busy_cmd &&& mask ≠ 0 then (gst_rtsp_sink_connection_flush sink true, true)
    else (sink, false)
  (if f.1.task then f.1.note LoopEvent.task_start else f.1, f.2)

/-- `gst_rtsp_sink_loop_send_cmd (sink, cmd, mask)`: the sink and `flushed`. -/
def gst_rtsp_sink_loop_send_cmd (sink : GstRTSPSink) (cmd mask : Nat) : GstRTSPSink × Bool :=
  -- start new request
  let sink := gst_rtsp_sink_loop_start_cmd sink cmd
  let sink := loop_send_cmd_pending sink cmd
  -- interrupt if allowed
  loop_send_cmd_interrupt sink mask

/-- `gst_rtsp_sink_set_state (sink, state)` -/
def gst_rtsp_sink_set_state (sink : GstRTSPSink) (state : String) : GstRTSPSink :=
  sink.note (LoopEvent.set_state state)

/-! ## The streams of the sink -/

/-- The exit `no_free_pt` of `gst_rtsp_sink_create_stream`. -/
def create_stream_no_free_pt (sink : GstRTSPSink) (context : GstRTSPStreamContext) :
    GstRTSPSink × GstRTSPStreamContext × Bool :=
  (sink.log (SinkEvent.element_error "NO_SPACE_LEFT: Ran out of dynamic payload types."),
    context, false)

/-- `gst_rtsp_sink_create_stream (sink, context, payloader, pad)`, from the
choice of `aux_pt` on: `pt` is the payload type chosen for the payloader. -/
def create_stream_aux (sink : GstRTSPSink) (context : GstRTSPStreamContext) (pt : Nat) :
    GstRTSPSink × GstRTSPStreamContext × Bool :=
  let aux_pt := sink.next_dyn_pt
  if aux_pt > 127 then create_stream_no_free_pt sink context
  else
    let sink := { sink with next_dyn_pt := sink.next_dyn_pt + 1 }
    (sink, { context with payloader_pt := pt, profiles := sink.profiles,
                          retransmission_pt := aux_pt }, true)

/-- `gst_rtsp_sink_create_stream (sink, context, payloader, pad)`: the sink,
the context with the payload type set on its payloader and the profiles and
the retransmission payload type of the new stream, and whether a stream is
returned. -/
def gst_rtsp_sink_create_stream (sink : GstRTSPSink) (context : GstRTSPStreamContext) :
    GstRTSPSink × GstRTSPStreamContext × Bool :=
  let pt := context.payloader_pt
  if pt ≥ 96 ∧ pt ≤ sink.next_dyn_pt then
    -- Payloader has a dynamic PT, but one that's already used
    let pt := sink.next_dyn_pt
    if pt > 127 then create_stream_no_free_pt sink context
    else create_stream_aux { sink with next_dyn_pt := sink.next_dyn_pt + 1 } context pt
  else
    -- Keeping existing pt
    create_stream_aux sink context pt

/-- `get_aggregate_control (sink)` -/
def get_aggregate_control (sink : GstRTSPSink) : CString :=
  match sink.control with
  | some control => control
  | none =>
    match sink.content_base with
    | some content_base => content_base
    | none =>
      match sink.conninfo.url_str with
      | some url_str => url_str
      | none => "/".toList

/-- `gst_rtsp_sink_configure_manager (sink)` -/
def gst_rtsp_sink_configure_manager (lib : SinkLib) (sink : GstRTSPSink) : GstRTSPSink × Bool :=
  let made : Option GstRTSPSink :=
    if sink.rtpbin then some sink
    else if lib.make_rtpbin then some { sink with rtpbin := true }
    else none
  match made with
  | none =>
    -- no_rtpbin
    (sink, false)
  | some sink =>
    if !lib.start_rtpbin then
      -- start_manager_failure
      (sink, false)
    else (sink, true)

/-- The loop over the streams of `gst_rtsp_sink_collect_streams`: the sink
and whether the loop was left at its end.  The streams are those present when
the waits for the preroll return. -/
def collect_streams_loop (lib : SinkLib) (base : CString) (has_slash : Bool) :
    List GstRTSPStreamContext → List GstRTSPStreamContext → GstRTSPSink → GstRTSPSink × Bool
  | [], _, sink => (sink, true)
  | context :: rest, done, sink =>
    if context.stream then
      collect_streams_loop lib base has_slash rest (done ++ [context]) sink
    else
      -- Creating stream object
      let c := gst_rtsp_sink_create_stream sink context
      let context := { c.2.1 with stream := c.2.2 }
      -- concatenate the two strings, insert / when not present (the index is
      -- printed with %d)
      let context := { context with conninfo := { context.conninfo with
        location := some (base ++ (if has_slash then [] else "/".toList) ++ "stream=".toList
          ++ fmt_int (wrap32 context.index)) } }
      if !(context.stream && lib.stream_join_bin context.index) then
        -- join_bin_failed
        (({ c.1 with contexts := done ++ context :: rest }).log
          (SinkEvent.element_error "READ: Could not start stream %d"), false)
      else
        let context := { context with joined := true }
        collect_streams_loop lib base has_slash rest (done ++ [context])
          { c.1 with contexts := done ++ context :: rest }

/-- `gst_rtsp_sink_collect_streams (sink)` -/
def gst_rtsp_sink_collect_streams (lib : SinkLib) (sink : GstRTSPSink) : GstRTSPSink × Bool :=
  let m := gst_rtsp_sink_configure_manager lib sink
  if !m.2 then (m.1, false)
  else
    let base := get_aggregate_control m.1
    -- check if the base ends with /
    let has_slash := "/".toList.isSuffixOf base
    collect_streams_loop lib base has_slash m.1.contexts [] m.1

/-- `gst_rtsp_sink_cleanup (sink)` -/
def gst_rtsp_sink_cleanup (sink : GstRTSPSink) : GstRTSPSink :=
  let sink := sink.note (LoopEvent.set_state "NULL")
  -- Clean up any left over stream objects
  let sink := { sink with contexts := sink.contexts.map (fun (context : GstRTSPStreamContext) =>
    { context with stream_transport := none,
                   joined := if context.stream then false else context.joined,
                   stream := false }) }
  { sink with
    rtpbin := false, content_base := none, control := none,
    -- don't clear the SDP when it was used in the url
    sdp := if sink.sdp.isSome ∧ !sink.from_sdp then none else sink.sdp,
    server_ip := [], next_dyn_pt := 96 }

/-! ## Open, record, pause and close -/

/-- The loop over the headers of `gst_rtsp_sink_parse_methods`: the methods
collected.  `fuel` bounds the number of rounds of the model; a round that
finds a header needs one more header of the field than the round before. -/
def parse_methods_loop (lib : SinkLib) (headers : List (GstRTSPHeaderField × CString)) :
    Nat → GstRTSPHeaderField → Nat → Nat → Nat
  | 0, _, _, methods => methods
  | fuel + 1, field, indx, methods =>
    let r : GstRTSPHeaderField × Option CString :=
      match gst_rtsp_message_get_header headers field indx with
      | some respoptions => (field, some respoptions)
      | none =>
        if indx = 0 then
          -- if no Allow header was found then try the Public header...
          (GstRTSPHeaderField.PUBLIC,
            gst_rtsp_message_get_header headers GstRTSPHeaderField.PUBLIC indx)
        else (field, none)
    match r.2 with
    | none => methods
    | some respoptions =>
      parse_methods_loop lib headers fuel r.1 (indx + 1)
        (methods ||| lib.options_from_text respoptions)

/-- `gst_rtsp_sink_parse_methods (sink, response)` -/
def gst_rtsp_sink_parse_methods (lib : SinkLib) (sink : GstRTSPSink)
    (response : Option GstRTSPMessage) : GstRTSPSink × Bool :=
  let headers := (response.map (fun m => m.headers)).getD []
  -- reset supported methods; try Allow Header first
  let methods := parse_methods_loop lib headers (headers.length + 1) GstRTSPHeaderField.ALLOW
    0 0
  -- neither Allow nor Public are required, assume the server supports at least SETUP
  let methods := if methods = 0 then GstRTSPMethod.SETUP.bit else methods
  -- Even if the server replied, and didn't say it supports RECORD|ANNOUNCE, try anyway
  let methods := methods ||| (GstRTSPMethod.ANNOUNCE.bit ||| GstRTSPMethod.RECORD.bit)
  let sink := { sink with methods := methods }
  if sink.methods &&& GstRTSPMethod.SETUP.bit = 0 then
    -- no_setup
    (sink.log (SinkEvent.element_error "OPEN_READ: Server does not support SETUP."), false)
  else (sink, true)

/-- The exit `cleanup_error` of `gst_rtsp_sink_connect_to_server` and of
`gst_rtsp_sink_record`. -/
def connect_cleanup_error (sink : GstRTSPSink) (res : GstRTSPResult) :
    GstRTSPSink × GstRTSPResult :=
  if sink.conninfo.connection.isSome then
    -- free connection
    let c := gst_rtsp_conninfo_close sink sink.conninfo true
    ({ c.1 with conninfo := c.2.1 }, res)
  else (sink, res)

/-- `gst_rtsp_sink_connect_to_server (sink, async)`.  A NULL uri makes
`gst_rtsp_message_init_request` give `GST_RTSP_EINVAL`. -/
def gst_rtsp_sink_connect_to_server (lib : SinkLib) (sink : GstRTSPSink) (async : Bool) :
    GstRTSPSink × GstRTSPResult :=
  let sink := { sink with need_redirect := false }
  -- can't continue without a valid url
  if sink.conninfo.url = none then
    -- no_url
    connect_cleanup_error
      (sink.log (SinkEvent.element_error "NOT_FOUND: No valid RTSP URL was provided"))
      GST_RTSP_EINVAL
  else
    let sink := { sink with tried_url_auth := false }
    let c := gst_rtsp_conninfo_connect lib sink sink.conninfo
    let sink := { c.1 with conninfo := c.2.1 }
    if c.2.2 < 0 then
      -- connect_failed
      connect_cleanup_error
        (if c.2.2 ≠ GST_RTSP_EINTR then
          sink.log (SinkEvent.element_error "OPEN_READ_WRITE: Failed to connect. (%s)")
        else sink) c.2.2
    else
      let sink := { sink with server_ip :=
        match sink.conninfo.connection with
        | some connection => lib.remote_address connection.url
        | none => sink.server_ip }
      -- create OPTIONS
      match sink.conninfo.url_str with
      | none =>
        -- create_request_failed
        connect_cleanup_error
          (sink.log (SinkEvent.element_error "INIT: Could not create request. (%s)"))
          GST_RTSP_EINVAL
      | some url_str =>
        let request := gst_rtsp_sink_init_request sink GstRTSPMethod.OPTIONS url_str
        -- send OPTIONS
        let sink :=
          if async then
            GST_ELEMENT_PROGRESS sink GstProgressType.CONTINUE "open" "Retrieving server options"
          else sink
        let r := gst_rtsp_sink_send lib sink sink.conninfo.connection.isSome request true false
        if r.res < 0 then
          -- send_error
          connect_cleanup_error r.sink r.res
        else
          -- parse OPTIONS
          let m := gst_rtsp_sink_parse_methods lib r.sink r.response
          if !m.2 then
            -- methods_error
            connect_cleanup_error m.1 GST_RTSP_ERROR
          else (m.1, r.res)

/-- `gst_rtsp_sink_open (sink, async)` -/
def gst_rtsp_sink_open (lib : SinkLib) (sink : GstRTSPSink) (async : Bool) :
    GstRTSPSink × GstRTSPResult :=
  let sink := { sink with methods := GstRTSPMethod.SETUP.bit ||| GstRTSPMethod.RECORD.bit
    ||| GstRTSPMethod.PAUSE.bit ||| GstRTSPMethod.TEARDOWN.bit }
  let c := gst_rtsp_sink_connect_to_server lib sink async
  let sink :=
    if c.2 < 0 then
      -- open_failed
      { c.1 with open_error := true }
    else
      -- Collect all our input streams and create stream objects
      (gst_rtsp_sink_collect_streams lib c.1).1
  -- done
  (if async then gst_rtsp_sink_loop_end_cmd sink CMD_OPEN c.2 else sink, c.2)

/-- `gst_rtsp_sink_ensure_open (sink, async)` -/
def gst_rtsp_sink_ensure_open (lib : SinkLib) (sink : GstRTSPSink) (async : Bool) :
    GstRTSPSink × GstRTSPResult :=
  if sink.state < GST_RTSP_STATE_READY then
    if sink.open_error then
      -- the stream was in error
      (sink, GST_RTSP_ERROR)
    else
      gst_rtsp_sink_open lib
        (if async then gst_rtsp_sink_loop_start_cmd sink CMD_OPEN else sink) async
  else (sink, GST_RTSP_OK)

/-- `gst_rtsp_sink_record (sink, async)`.  The SDP in the body of the
ANNOUNCE request is not part of the model. -/
def gst_rtsp_sink_record (lib : SinkLib) (sink : GstRTSPSink) (async : Bool) :
    GstRTSPSink × GstRTSPResult :=
  if sink.conninfo.connection = none then (sink, GST_RTSP_ERROR)
  else
    -- send ANNOUNCE request
    match sink.conninfo.url_str with
    | none =>
      -- create_request_failed
      connect_cleanup_error
        (sink.log (SinkEvent.element_error "INIT: Could not create request. (%s)"))
        GST_RTSP_EINVAL
    | some url_str =>
      let request := (gst_rtsp_sink_init_request sink GstRTSPMethod.ANNOUNCE url_str).add_header
        GstRTSPHeaderField.CONTENT_TYPE "application/sdp".toList
      let sink :=
        if async then
          GST_ELEMENT_PROGRESS sink GstProgressType.CONTINUE "record" "Sending server stream info"
        else sink
      let r := gst_rtsp_sink_send lib sink sink.conninfo.connection.isSome request true false
      if r.res < 0 then
        -- send_error
        connect_cleanup_error r.sink r.res
      else
        -- send setup for all streams
        let s := gst_rtsp_sink_setup_streams lib r.sink
        if s.2 < 0 then
          -- setup_failed
          connect_cleanup_error s.1 s.2
        else
          match s.1.conninfo.url_str with
          | none =>
            -- create_request_failed
            connect_cleanup_error
              (s.1.log (SinkEvent.element_error "INIT: Could not create request. (%s)"))
              GST_RTSP_EINVAL
          | some url_str =>
            let request := gst_rtsp_sink_init_request s.1 GstRTSPMethod.RECORD url_str
            let sink :=
              if async then
                GST_ELEMENT_PROGRESS s.1 GstProgressType.CONTINUE "record" "Starting recording"
              else s.1
            let r := gst_rtsp_sink_send lib sink sink.conninfo.connection.isSome request true
              false
            if r.res < 0 then
              -- send_error
              connect_cleanup_error r.sink r.res
            else (gst_rtsp_sink_set_state r.sink "PLAYING", r.res)

/-- The loop over the streams of `gst_rtsp_sink_pause`: the sink, `res`, and
whether the loop was left by `goto send_error`.  The aggregate control url
`control` is never NULL, so the request goes to it and the loop is left after
the first request. -/
def pause_streams (lib : SinkLib) (async : Bool) (control : CString) :
    List GstRTSPStreamContext → GstRTSPSink → GstRTSPResult →
    GstRTSPSink × GstRTSPResult × Bool
  | [], sink, res => (sink, res, false)
  | stream :: rest, sink, res =>
    let conn : Option GstRTSPConnection :=
      match sink.conninfo.connection with
      | some conn => some conn
      | none => stream.conninfo.connection
    match conn with
    | none => pause_streams lib async control rest sink res
    | some _ =>
      let sink :=
        if async then
          GST_ELEMENT_PROGRESS sink GstProgressType.CONTINUE "request" "Sending PAUSE request"
        else sink
      let request := gst_rtsp_sink_init_request sink GstRTSPMethod.PAUSE control
      let r := gst_rtsp_sink_send lib sink true request true false
      if r.res < 0 then
        -- send_error
        (if r.res ≠ GST_RTSP_EINTR then
          r.sink.log (SinkEvent.element_error "WRITE: Could not send message. (%s)")
        else r.sink, r.res, true)
      else
        -- exit early when we did agregate control
        (r.sink, r.res, false)

/-- `gst_rtsp_sink_pause (sink, async)` -/
def gst_rtsp_sink_pause (lib : SinkLib) (sink : GstRTSPSink) (async : Bool) :
    GstRTSPSink × GstRTSPResult :=
  let o := gst_rtsp_sink_ensure_open lib sink async
  let r : GstRTSPSink × GstRTSPResult :=
    if o.2 < 0 then
      -- open_failed
      o
    else if o.1.methods &&& GstRTSPMethod.PAUSE.bit = 0 then
      -- not_supported
      o
    else if o.1.state = GST_RTSP_STATE_READY then
      -- was_paused
      o
    else if o.1.conninfo.connection = none ∨ !o.1.conninfo.connected then
      -- no_connection
      ({ o.1 with state := GST_RTSP_STATE_READY }, o.2)
    else
      -- construct a control url
      let control := get_aggregate_control o.1
      let l := pause_streams lib async control o.1.contexts o.1 o.2
      if l.2.2 then (l.1, l.2.1)
      else
        -- change element states now
        let sink := gst_rtsp_sink_set_state l.1 "PAUSED"
        ({ sink with state := GST_RTSP_STATE_READY }, l.2.1)
  -- done
  (if async then gst_rtsp_sink_loop_end_cmd r.1 CMD_PAUSE r.2 else r.1, r.2)

/-- The loop of `gst_rtsp_sink_close` that sends TEARDOWN: the sink and
`res`.  The aggregate control url `control` is never NULL, so the request
goes to it and the loop is left after the first stream with a connection. -/
def close_streams (lib : SinkLib) (async : Bool) (control : CString) :
    List GstRTSPStreamContext → GstRTSPSink → GstRTSPResult → GstRTSPSink × GstRTSPResult
  | [], sink, res => (sink, res)
  | context :: rest, sink, res =>
    let info : Option GstRTSPConnInfo :=
      if sink.conninfo.connection.isSome then some sink.conninfo
      else if context.conninfo.connection.isSome then some context.conninfo
      else none
    match info with
    | none => close_streams lib async control rest sink res
    | some info =>
      if !info.connected then
        -- next: early exit when we did aggregate control
        (sink, res)
      else
        -- do TEARDOWN
        let request := gst_rtsp_sink_init_request sink GstRTSPMethod.TEARDOWN control
        let sink :=
          if async then
            GST_ELEMENT_PROGRESS sink GstProgressType.CONTINUE "close" "Closing stream"
          else sink
        let r := gst_rtsp_sink_send lib sink true request true false
        if r.res < 0 then
          -- send_error
          (if r.res ≠ GST_RTSP_EINTR then
            r.sink.log (SinkEvent.element_error "WRITE: Could not send message. (%s)")
          else r.sink, r.res)
        else (r.sink, r.res)

/-- The loop of `gst_rtsp_sink_close` that closes the connections of the
streams. -/
def close_stream_connections :
    List GstRTSPStreamContext → List GstRTSPStreamContext → GstRTSPSink → GstRTSPSink
  | [], done, sink => { sink with contexts := done }
  | stream :: rest, done, sink =>
    let c := gst_rtsp_conninfo_close sink stream.conninfo true
    close_stream_connections rest (done ++ [{ stream with conninfo := c.2.1 }]) c.1

/-- `gst_rtsp_sink_close (sink, async, only_close)` -/
def gst_rtsp_sink_close (lib : SinkLib) (sink : GstRTSPSink) (async only_close : Bool) :
    GstRTSPSink × GstRTSPResult :=
  let sink := gst_rtsp_sink_set_state sink "NULL"
  let t : GstRTSPSink × GstRTSPResult :=
    if sink.state < GST_RTSP_STATE_READY then
      -- not ready, doing cleanup
      (sink, GST_RTSP_OK)
    else if only_close then (sink, GST_RTSP_OK)
    else
      -- construct a control url
      let control := get_aggregate_control sink
      if sink.methods &&& (GstRTSPMethod.RECORD.bit ||| GstRTSPMethod.TEARDOWN.bit) = 0 then
        -- not_supported
        (sink, GST_RTSP_OK)
      else
        -- stop streaming
        let sink := { sink with contexts := sink.contexts.map (fun (context : GstRTSPStreamContext) =>
          if context.joined then { context with joined := false } else context) }
        close_streams lib async control sink.contexts sink GST_RTSP_OK
  -- close: close connections
  let c := gst_rtsp_conninfo_close t.1 t.1.conninfo true
  let sink := { c.1 with conninfo := c.2.1 }
  let sink := close_stream_connections sink.contexts [] sink
  -- cleanup
  let sink := gst_rtsp_sink_cleanup sink
  let sink := { sink with state := GST_RTSP_STATE_INVALID }
  (if async then gst_rtsp_sink_loop_end_cmd sink CMD_CLOSE t.2 else sink, t.2)

/-! ## The proxy of the sink -/

/-- `strchr (s, c)`: the offset of the first `c` in the text, if there is
one. -/
def strchr (s : CString) (c : Char) : Option Nat :=
  if c ∈ s then some (s.indexOf c) else none

/-- `g_strndup (str, n)` for a length that is not negative. -/
def g_strndup (str : CString) (n : Nat) : CString := str.take n

/-- `strtoul (s, &end, 10)` stored in a `guint`, for a text that does not
start with white space or a sign: the value of the leading digits, at most
`ULONG_MAX`, modulo `2^32`. -/
def strtoul_guint (s : CString) : Nat :=
  min ((s.takeWhile Char.isDigit).foldl (fun n c => 10 * n + (c.toNat - '0'.toNat)) 0)
    (2 ^ 64 - 1) % 2 ^ 32

/-- `gst_rtsp_sink_set_proxy (rtsp, proxy)`: the sink and the result, or
`none` when `g_strndup` is called with a negative length, for which the
behaviour is not defined.  The pointers `p`, `at` and `col` are offsets in
`proxy`. -/
def gst_rtsp_sink_set_proxy (rtsp : GstRTSPSink) (proxy : Option CString) :
    Option (GstRTSPSink × Bool) :=
  let rtsp := { rtsp with proxy_user := none, proxy_passwd := none, proxy_host := none,
                          proxy_port := 0 }
  match proxy with
  | none => some (rtsp, true)
  | some proxy =>
    -- we allow http:// in front but ignore it
    let p := if "http://".toList.isPrefixOf proxy then 7 else 0
    let u : Option (Option (GstRTSPSink × Nat)) :=
      match (strchr (proxy.drop p) '@').map (fun i => p + i) with
      | some at_ =>
        -- look for user:passwd
        match strchr proxy ':' with
        | none => some none
        | some col =>
          if col > at_ then some none
          else if col < p then none
          else
            let rtsp := { rtsp with proxy_user := some (g_strndup (proxy.drop p) (col - p)) }
            let col := col + 1
            let rtsp := { rtsp with
              proxy_passwd := some (g_strndup (proxy.drop col) (at_ - col)) }
            -- move to host
            some (some (rtsp, at_ + 1))
      | none =>
        let rtsp :=
          match rtsp.prop_proxy_id with
          | some id => if id ≠ [] then { rtsp with proxy_user := some id } else rtsp
          | none => rtsp
        let rtsp :=
          match rtsp.prop_proxy_pw with
          | some pw => if pw ≠ [] then { rtsp with proxy_passwd := some pw } else rtsp
          | none => rtsp
        some (some (rtsp, p))
    match u with
    | none => none
    | some none => some (rtsp, false)
    | some (some (rtsp, p)) =>
      match strchr (proxy.drop p) ':' with
      | some col =>
        -- everything before the colon is the hostname
        some ({ rtsp with proxy_host := some (g_strndup (proxy.drop p) col),
                          proxy_port := strtoul_guint (proxy.drop (p + col + 1)) }, true)
      | none =>
        some ({ rtsp with proxy_host := some (proxy.drop p), proxy_port := 8080 }, true)

/-! ## Notions used to state the choice of the credentials -/

/-- The challenge of a response as `gst_rtsp_sink_setup_auth` reads it: the
methods its `WWW-Authenticate` header of index 0 offers, and whether it is a
Digest challenge that tells that the session data are stale. -/
def response_challenge (response : GstRTSPMessage) : Nat × Bool :=
  match gst_rtsp_message_get_header response.headers GstRTSPHeaderField.WWW_AUTHENTICATE 0 with
  | some hdr =>
    ((gst_rtsp_sink_parse_auth_hdr hdr GST_RTSP_AUTH_NONE none false).1,
     (gst_rtsp_sink_parse_auth_hdr hdr GST_RTSP_AUTH_NONE none false).2.2)
  | none => (GST_RTSP_AUTH_NONE, false)

/-- The credentials passed to `gst_rtsp_connection_set_auth` in a trace, in
order. -/
def credentials_passed (trace : List SinkEvent) : List (CString × CString) :=
  trace.filterMap (fun e => match e with
    | SinkEvent.set_auth _ user pass _ => some (user, pass)
    | _ => none)

/-- The sink `exampleSink` without streams, on a connection whose url has the
credentials "alice" and "wonder". -/
def exampleUrlSink (inbox : List GstRTSPMessage) : GstRTSPSink :=
  let sink := exampleSink GST_RTSP_LOWER_TRANS_UDP [] inbox
  { sink with conninfo := { sink.conninfo with
      url := some (exampleSinkUrl (some "alice") (some "wonder")),
      connection := some { url := exampleSinkUrl (some "alice") (some "wonder"), auth := none,
                           auth_params := [] } } }

/-! ## Notions used to state the properties of the command loop -/

/-- The commands for which `gst_rtsp_sink_loop_cancel_cmd` posts a progress
message. -/
def cancel_notified (cmd : Nat) : Bool :=
  cmd = CMD_OPEN ∨ cmd = CMD_RECORD ∨ cmd = CMD_PAUSE ∨ cmd = CMD_CLOSE

/-- The progress messages of type CANCELED in a trace of the command loop. -/
def cancel_notifications (trace : List LoopEvent) : List LoopEvent :=
  trace.filter (fun e => match e with
    | LoopEvent.progress GstProgressType.CANCELED _ _ => true
    | _ => false)

/-- The calls of `gst_rtsp_sink_connection_flush` in a trace of the command
loop. -/
def connection_flushes (trace : List LoopEvent) : List LoopEvent :=
  trace.filter (fun e => match e with
    | LoopEvent.connection_flush _ => true
    | _ => false)

/-- A sink with the pending command, the busy command and the trace of the
command loop given, a task, and a connection that is not flushing. -/
def exampleLoopSink (pending_cmd busy_cmd : Nat) : GstRTSPSink :=
  { exampleSink GST_RTSP_LOWER_TRANS_UDP [] [] with
    pending_cmd := pending_cmd, busy_cmd := busy_cmd, task := true }

/-! ## Notions used to state the assignment of the payload types -/

/-- A sequence of calls of `gst_rtsp_sink_create_stream`, one for each of the
contexts: the sink and, for each call, the context and whether a stream was
returned. -/
def create_streams :
    GstRTSPSink → List GstRTSPStreamContext → GstRTSPSink × List (GstRTSPStreamContext × Bool)
  | sink, [] => (sink, [])
  | sink, context :: rest =>
    let c := gst_rtsp_sink_create_stream sink context
    let r := create_streams c.1 rest
    (r.1, (c.2.1, c.2.2) :: r.2)

/-- The payload types in use by the streams that were created: the payload
type of the payloader and the retransmission payload type of each. -/
def payload_types (streams : List (GstRTSPStreamContext × Bool)) : List Nat :=
  (streams.filter (fun s => s.2)).flatMap (fun s => [s.1.payloader_pt, s.1.retransmission_pt])

/-- The stream `exampleContext index AVP` with a payloader that reports the
payload type `pt`. -/
def examplePayloader (index pt : Nat) : GstRTSPStreamContext :=
  { exampleContext index GST_RTSP_PROFILE_AVP with payloader_pt := pt, stream := false }

/-! ## Notions used to state the counter of the interleaved channels -/

/-- The rule of the counter in the words of the specification: the maximum of
the two channels of the response and of the previous counter, plus one, in
the integers. -/
def next_free_channel (free_channel : Int) (interleaved : GstRTSPRange) : Int :=
  max (max interleaved.min interleaved.max) free_channel + 1

/-- The counter after the event, by the rule `next_free_channel`: the event
counts when it is the configuration of a stream with a TCP transport. -/
def SinkEvent.next_channel (free_channel : Int) : SinkEvent → Int
  | .stream_transport _ transport =>
    if transport.lower_transport = GST_RTSP_LOWER_TRANS_TCP then
      next_free_channel free_channel transport.interleaved
    else free_channel
  | _ => free_channel

/-- The counter after the events, by the rule `next_free_channel`. -/
def free_channel_after : Int → List SinkEvent → Int
  | free_channel, [] => free_channel
  | free_channel, e :: rest => free_channel_after (e.next_channel free_channel) rest

/-- The channels the server assigned in the events: the interleaved channels
of the TCP transports configured. -/
def assigned_channels (evs : List SinkEvent) : List Int :=
  evs.flatMap (fun e => match e with
    | SinkEvent.stream_transport _ transport =>
      if transport.lower_transport = GST_RTSP_LOWER_TRANS_TCP then
        [transport.interleaved.min, transport.interleaved.max]
      else []
    | _ => [])

/-- The lower transport of an offer, if the event is one. -/
def SinkEvent.offer (lower : Nat) : SinkEvent → Nat
  | .create_transports _ protocols _ => protocols
  | _ => lower

/-- The lower transport of the last offer in the events, `lower` when there
is none. -/
def last_offer : Nat → List SinkEvent → Nat
  | lower, [] => lower
  | lower, e :: rest => last_offer (e.offer lower) rest

/-- The Transport header of the request offers TCP with the interleaved
channels `a` and `b`. -/
def offers_interleaved (request : GstRTSPMessage) (a b : Int) : Prop :=
  ∃ pre post, gst_rtsp_message_get_header request.headers GstRTSPHeaderField.TRANSPORT 0
    = some (pre ++ "/TCP;unicast;interleaved=".toList ++ fmt_int a ++ "-".toList ++ fmt_int b
        ++ post)

/-- Every request tried among the events after an offer of TCP offers the
interleaved channels `c` and `c + 1`, where `c` is the counter after the
events before it by the rule `next_free_channel`; `free_channel` and `lower`
are the counter and the lower transport of the last offer before the
events. -/
def offers_free_channel : Int → Nat → List SinkEvent → Prop
  | _, _, [] => True
  | free_channel, lower, e :: rest =>
    (∀ request, e = SinkEvent.try_send request → lower = GST_RTSP_LOWER_TRANS_TCP →
        offers_interleaved request free_channel (free_channel + 1))
      ∧ offers_free_channel (e.next_channel free_channel) (e.offer lower) rest

/-- Between the sink `s` and the sink `s'` every call of
`gst_rtsp_sink_try_send` was for the request, no event of the negotiation of
`gst_rtsp_sink_setup_streams` happened, and the counter of the interleaved
channels was left alone. -/
def TryStep (request : GstRTSPMessage) (s s' : GstRTSPSink) : Prop :=
  ∃ evs, SinkTrace s s' evs
    ∧ (∀ e ∈ evs, e.is_setup = false
        ∧ (e.is_try_send = true → e = SinkEvent.try_send request))
    ∧ s'.free_channel = s.free_channel

/-- Between the sink `s` and the sink `s'`, as long as the counter by the
rule `next_free_channel` stays in the range of a `gint` with room for the
channel after it: the counter of the sink is the one the rule gives, and
every request tried after an offer of TCP offers the counter. -/
def ChannelStep (s s' : GstRTSPSink) : Prop :=
  ∃ evs, SinkTrace s s' evs
    ∧ ∀ lower, -2 ^ 31 ≤ s.free_channel →
        free_channel_after s.free_channel evs < 2 ^ 31 - 1 →
        s'.free_channel = free_channel_after s.free_channel evs
          ∧ offers_free_channel s.free_channel lower evs

/-- The sink `exampleSink` allowed TCP only, with two AVP streams, on a
server that answers both SETUP requests 200 with the TCP transport
`interleaved=0-1`. -/
def exampleTcpSink : GstRTSPSink :=
  exampleSink GST_RTSP_LOWER_TRANS_TCP
    [exampleContext 0 GST_RTSP_PROFILE_AVP, exampleContext 1 GST_RTSP_PROFILE_AVP]
    [exampleResponse 200 "OK"
      [(GstRTSPHeaderField.TRANSPORT, "RTP/AVP/TCP;unicast;interleaved=0-1")],
     exampleResponse 200 "OK"
      [(GstRTSPHeaderField.TRANSPORT, "RTP/AVP/TCP;unicast;interleaved=0-1")]]

/-! ## A session of the sink, used to evaluate open, record, pause and close -/

/-- A sink that was not opened yet (state Invalid, no connection, one stream
without stream object), for `rtsp://host/test`, on a server that answers 200
to OPTIONS (with a Public header that includes PAUSE), to ANNOUNCE, to SETUP
(with a UDP transport) and to RECORD. -/
def exampleClosedSink : GstRTSPSink :=
  { exampleSink (GST_RTSP_LOWER_TRANS_UDP ||| GST_RTSP_LOWER_TRANS_TCP)
      [{ exampleContext 0 GST_RTSP_PROFILE_AVP with stream := false }]
      [exampleResponse 200 "OK"
        [(GstRTSPHeaderField.PUBLIC, "OPTIONS, ANNOUNCE, SETUP, RECORD, PAUSE, TEARDOWN")],
       exampleResponse 200 "OK" [],
       exampleResponse 200 "OK"
        [(GstRTSPHeaderField.TRANSPORT,
          "RTP/AVP/UDP;unicast;client_port=5000-5001;server_port=6000-6001")],
       exampleResponse 200 "OK" []] with
    conninfo := { location := some "rtsp://host/test".toList,
                  url := some (exampleSinkUrl none none), url_str := none,
                  connection := none, connected := false },
    methods := 0, state := GST_RTSP_STATE_INVALID }

/-- The library of `exampleSinkLib` with a handler connected to the signal
`handle-request` that turns the prepared reply into 501 "Not Implemented". -/
def exampleHandlerLib : SinkLib :=
  { exampleSinkLib with
    handle_request_signal := fun _ response =>
      match response with
      | GstRTSPMessage.response _ _ headers body =>
        GstRTSPMessage.response 501 "Not Implemented".toList headers body
      | m => m }

/-! ## Notions used to state which credentials come first on a connection -/

/-- Between the sink `s` and the sink `s'` no credentials were passed to the
connection and the flag `tried_url_auth` was left alone. -/
def AuthQuiet (s s' : GstRTSPSink) : Prop :=
  ∃ evs, SinkTrace s s' evs ∧ credentials_passed evs = []
    ∧ s'.tried_url_auth = s.tried_url_auth

/-- The sink `exampleClosedSink` on a server that answers 200 to every
request of a session: OPTIONS, ANNOUNCE, SETUP and RECORD, then OPTIONS again
and PAUSE, then ANNOUNCE, SETUP and RECORD, then TEARDOWN. -/
def exampleSessionSink : GstRTSPSink :=
  { exampleClosedSink with
    inbox :=
      [exampleResponse 200 "OK"
        [(GstRTSPHeaderField.PUBLIC, "OPTIONS, ANNOUNCE, SETUP, RECORD, PAUSE, TEARDOWN")],
       exampleResponse 200 "OK" [],
       exampleResponse 200 "OK"
        [(GstRTSPHeaderField.TRANSPORT,
          "RTP/AVP/UDP;unicast;client_port=5000-5001;server_port=6000-6001")],
       exampleResponse 200 "OK" [],
       exampleResponse 200 "OK"
        [(GstRTSPHeaderField.PUBLIC, "OPTIONS, ANNOUNCE, SETUP, RECORD, PAUSE, TEARDOWN")],
       exampleResponse 200 "OK" [],
       exampleResponse 200 "OK" [],
       exampleResponse 200 "OK"
        [(GstRTSPHeaderField.TRANSPORT,
          "RTP/AVP/UDP;unicast;client_port=5000-5001;server_port=6000-6001")],
       exampleResponse 200 "OK" [],
       exampleResponse 200 "OK" []].map (fun m => (GST_RTSP_OK, m)) }

/-- The library of `exampleSinkLib` with a `gst_rtsp_transport_parse` that
also knows the TCP transport with the interleaved channels 2147483646 and
2147483647. -/
def exampleWrapLib : SinkLib :=
  { exampleSinkLib with
    rtsp :=
      { exampleSinkLib.rtsp with
        transport_parse := fun s =>
          if s = "RTP/AVP/TCP;unicast;interleaved=2147483646-2147483647".toList then
            some { exampleTransport GST_RTSP_TRANS_RTP GST_RTSP_PROFILE_AVP
                    GST_RTSP_LOWER_TRANS_TCP "" with interleaved := ⟨2147483646, 2147483647⟩ }
          else exampleSinkLib.rtsp.transport_parse s } }

/-- The sink `exampleSink` allowed TCP only, with two AVP streams, on a
server that answers the first SETUP request 200 with the TCP transport
`interleaved=2147483646-2147483647` and the second with `interleaved=0-1`. -/
def exampleWrapSink : GstRTSPSink :=
  exampleSink GST_RTSP_LOWER_TRANS_TCP
    [exampleContext 0 GST_RTSP_PROFILE_AVP, exampleContext 1 GST_RTSP_PROFILE_AVP]
    [exampleResponse 200 "OK"
      [(GstRTSPHeaderField.TRANSPORT, "RTP/AVP/TCP;unicast;interleaved=2147483646-2147483647")],
     exampleResponse 200 "OK"
      [(GstRTSPHeaderField.TRANSPORT, "RTP/AVP/TCP;unicast;interleaved=0-1")]]

/-! # Theorems -/

/-! ## `santize_uri` -/

theorem santize_loop_inv : ∀ (n i : Nat) (buf : CString) (d : Nat) (prev : Bool),
    d ≤ i → i + n = buf.length →
    (santize_loop n i buf d prev).2 = d + (keptChars prev (buf.drop i)).length ∧
    (santize_loop n i buf d prev).1.take (santize_loop n i buf d prev).2
      = buf.take d ++ keptChars prev (buf.drop i) := by
  intro n
  induction n with
  | zero =>
    intro i buf d prev hd hi
    have : buf.drop i = [] := by
      apply List.drop_eq_nil_of_le; omega
    simp [santize_loop, this, keptChars]
  | succ n ih =>
    intro i buf d prev hd hi
    have hlt : i < buf.length := by omega
    have hdrop : buf.drop i = buf[i] :: buf.drop (i + 1) := List.drop_eq_getElem_cons hlt
    have hget : buf.getD i '\x00' = buf[i] := by
      simp [List.getD_eq_getElem?_getD, List.getElem?_eq_getElem hlt]
    have hdrop' : ∀ x, (buf.set d x).drop (i + 1) = buf.drop (i + 1) := fun x =>
      List.drop_set_of_lt x buf (by omega)
    have htake : ∀ x, (buf.set d x).take d = buf.take d := fun x => by
      rw [List.set_take, List.set_eq_of_length_le]
      simp
    have htake1 : ∀ x, (buf.set d x).take (d + 1) = buf.take d ++ [x] := fun x => by
      rw [List.take_succ, htake, List.getElem?_set_self (by omega)]; rfl
    simp only [santize_loop, hget]
    rw [hdrop, keptChars]
    by_cases hk : (!(buf[i] == '/') || !prev) = true
    · simp only [hk, if_true]
      have := ih (i + 1) (buf.set d buf[i]) (d + 1) (buf[i] == '/') (by omega)
        (by simp; omega)
      rw [hdrop', htake1] at this
      refine ⟨?_, ?_⟩
      · rw [this.1]; simp; omega
      · rw [this.2]; simp
    · simp only [hk]
      have := ih (i + 1) (buf.set d buf[i]) d (buf[i] == '/') (by omega)
        (by simp; omega)
      rw [hdrop', htake] at this
      simpa using this

theorem take_strip (buf : CString) (d : Nat) (hd : d ≤ buf.length) :
    buf.take (if d > 1 && buf.getD (d - 1) '\x00' == '/' then d - 1 else d)
      = stripTrailingSlash (buf.take d) := by
  unfold stripTrailingSlash
  have hlen : (buf.take d).length = d := by simp [hd]
  by_cases h1 : 1 < d
  · have hlt : d - 1 < buf.length := by omega
    have hlast : (buf.take d).getLast? = some buf[d - 1] := by
      rw [List.getLast?_eq_getElem?, hlen, List.getElem?_take_of_lt (by omega),
        List.getElem?_eq_getElem hlt]
    have hget : buf.getD (d - 1) '\x00' = buf[d - 1] := by
      simp [List.getD_eq_getElem?_getD, List.getElem?_eq_getElem hlt]
    rw [hlast, hget, hlen]
    by_cases hs : buf[d - 1] = '/'
    · simp [hs, h1, List.dropLast_eq_take, List.take_take, hd]
    · simp [hs, h1]
  · have : ¬ (1 < (buf.take d).length) := by rw [hlen]; exact h1
    simp [h1, this]

theorem santize_uri_eq_kept (p : CString) :
    santize_uri p = stripTrailingSlash (keptChars false p) := by
  have h := santize_loop_inv p.length 0 p 0 false (le_refl _) (by simp)
  simp only [List.drop_zero, List.take_zero, List.nil_append, Nat.zero_add] at h
  obtain ⟨h1, h2⟩ := h
  have hle : (santize_loop p.length 0 p 0 false).2 ≤ (santize_loop p.length 0 p 0 false).1.length := by
    have := congrArg List.length h2
    rw [List.length_take, ← h1] at this
    omega
  unfold santize_uri
  simp only []
  rw [take_strip _ _ hle, h2]

/-- `keptChars` after a '/' skips the rest of the run of '/'. -/
theorem keptChars_true (l : CString) :
    keptChars true l = keptChars false (l.dropWhile (· == '/')) := by
  induction l with
  | nil => simp [keptChars]
  | cons c rest ih =>
    by_cases hc : c = '/'
    · subst hc
      simp [keptChars, List.dropWhile_cons, ih]
    · have : (c == '/') = false := by simpa using hc
      simp [keptChars, List.dropWhile_cons, this]

theorem keptChars_eq_collapse : ∀ (n : Nat) (l : CString), l.length ≤ n →
    keptChars false l = collapseSlashes l := by
  intro n
  induction n with
  | zero =>
    intro l hl
    have : l = [] := List.length_eq_zero.mp (by omega)
    subst this
    simp [keptChars, collapseSlashes]
  | succ n ih =>
    intro l hl
    cases l with
    | nil => simp [keptChars, collapseSlashes]
    | cons c rest =>
      rw [collapseSlashes]
      by_cases hc : c = '/'
      · subst hc
        have hlen : (rest.dropWhile (· == '/')).length ≤ n :=
          le_trans (List.dropWhile_suffix _).length_le (by simpa using hl)
        simp [keptChars, keptChars_true, ih _ hlen]
      · have hb : (c == '/') = false := by simpa using hc
        have hlen : rest.length ≤ n := by simpa using hl
        simp [keptChars, hb, hc, ih _ hlen]

theorem santize_uri_eq_spec (p : CString) : santize_uri p = sanitizeSpec p := by
  rw [santize_uri_eq_kept, keptChars_eq_collapse p.length p (le_refl _)]
  rfl

theorem keptChars_chain (x : Char) (l : CString) :
    List.Chain (fun a b => ¬ (a = '/' ∧ b = '/')) x (keptChars (x == '/') l) := by
  induction l generalizing x with
  | nil => simp [keptChars]
  | cons c rest ih =>
    rw [keptChars]
    by_cases hk : (!(c == '/') || !(x == '/')) = true
    · rw [if_pos hk]
      refine List.Chain.cons ?_ (ih c)
      intro ⟨hx, hc⟩
      simp [hx, hc] at hk
    · rw [if_neg hk]
      have hc : c = '/' := by
        by_contra hne
        simp [hne] at hk
      have hx : x = '/' := by
        by_contra hne
        simp [hne] at hk
      have := ih c
      rw [hc] at this
      rw [hc, hx]
      exact this

theorem keptChars_noDouble (p : CString) : NoDoubleSlash (keptChars false p) := by
  cases p with
  | nil => simp [keptChars, NoDoubleSlash]
  | cons c rest =>
    simp only [keptChars, Bool.not_false, Bool.or_true, if_true]
    exact keptChars_chain c rest

theorem keptChars_of_chain (x : Char) (l : CString)
    (h : List.Chain (fun a b => ¬ (a = '/' ∧ b = '/')) x l) :
    keptChars (x == '/') l = l := by
  induction l generalizing x with
  | nil => simp [keptChars]
  | cons c rest ih =>
    rw [List.chain_cons] at h
    rw [keptChars, ih c h.2]
    have hk : (!(c == '/') || !(x == '/')) = true := by
      by_contra hk
      apply h.1
      constructor
      · by_contra hne
        simp [hne] at hk
      · by_contra hne
        simp [hne] at hk
    rw [if_pos hk]

theorem keptChars_of_noDouble (l : CString) (h : NoDoubleSlash l) :
    keptChars false l = l := by
  cases l with
  | nil => simp [keptChars]
  | cons c rest =>
    simp only [keptChars, Bool.not_false, Bool.or_true, if_true]
    rw [keptChars_of_chain c rest h]

theorem stripTrailingSlash_noDouble (l : CString) (h : NoDoubleSlash l) :
    NoDoubleSlash (stripTrailingSlash l) := by
  unfold stripTrailingSlash
  split
  · exact List.Chain'.prefix h (List.dropLast_prefix l)
  · exact h

theorem stripTrailingSlash_idem (l : CString) (h : NoDoubleSlash l) :
    stripTrailingSlash (stripTrailingSlash l) = stripTrailingSlash l := by
  by_cases hc : 1 < l.length ∧ l.getLast? = some '/'
  · have hs : stripTrailingSlash l = l.dropLast := by
      unfold stripTrailingSlash; rw [if_pos hc]
    rw [hs]
    unfold stripTrailingSlash
    rw [if_neg]
    rintro ⟨hlen, hlast⟩
    -- l = (l.dropLast.dropLast ++ ['/']) ++ ['/'] contradicts the chain
    have hne : l ≠ [] := by
      intro h0; rw [h0] at hc; simp at hc
    have hne' : l.dropLast ≠ [] := by
      intro h0; rw [h0] at hlen; simp at hlen
    have e1 : l = l.dropLast ++ ['/'] := by
      have := List.dropLast_append_getLast? '/' (by simpa using hc.2)
      exact this.symm
    have e2 : l.dropLast = l.dropLast.dropLast ++ ['/'] := by
      have := List.dropLast_append_getLast? '/' (by simpa using hlast)
      exact this.symm
    rw [e1, e2] at h
    unfold NoDoubleSlash at h
    rw [List.append_assoc] at h
    have := (List.chain'_append.mp h).2.1
    simp at this
  · have hs : stripTrailingSlash l = l := by
      unfold stripTrailingSlash; rw [if_neg hc]
    rw [hs, hs]

theorem keptChars_filter (prev : Bool) (l : CString) :
    (keptChars prev l).filter (fun c => c != '/') = l.filter (fun c => c != '/') := by
  induction l generalizing prev with
  | nil => simp [keptChars]
  | cons c rest ih =>
    rw [keptChars]
    by_cases hk : (!(c == '/') || !prev) = true
    · rw [if_pos hk]
      simp [List.filter_cons, ih]
    · rw [if_neg hk, ih]
      have hc : c = '/' := by
        by_contra hne
        simp [hne] at hk
      simp [List.filter_cons, hc]

theorem stripTrailingSlash_filter (l : CString) :
    (stripTrailingSlash l).filter (fun c => c != '/') = l.filter (fun c => c != '/') := by
  unfold stripTrailingSlash
  split
  · next h =>
    have e : l = l.dropLast ++ ['/'] :=
      (List.dropLast_append_getLast? '/' (by simpa using h.2)).symm
    conv_rhs => rw [e]
    simp
  · rfl

/-- C1: sanitizing is idempotent: for every path `p`, applying `santize_uri`
twice gives the same path as applying it once. -/
theorem santize_uri_idempotent (p : CString) :
    santize_uri (santize_uri p) = santize_uri p := by
  have hK := keptChars_noDouble p
  rw [santize_uri_eq_kept (santize_uri p), santize_uri_eq_kept p,
    keptChars_of_noDouble _ (stripTrailingSlash_noDouble _ hK),
    stripTrailingSlash_idem _ hK]

/-- C2: for every path `p`, `santize_uri` rewrites `p` to the string obtained
by replacing every maximal run of '/' by one '/' and then deleting the final
'/' of a result that is longer than one character and ends in '/'; the
characters other than '/' are kept in order; "/a//b///c/" becomes "/a/b/c"
and "/" stays "/". -/
theorem santize_uri_collapses_and_strips (p : CString) :
    santize_uri p = stripTrailingSlash (collapseSlashes p)
    ∧ (santize_uri p).filter (fun c => c != '/') = p.filter (fun c => c != '/')
    ∧ santize_uri "/a//b///c/".toList = "/a/b/c".toList
    ∧ santize_uri "/".toList = "/".toList := by
  refine ⟨santize_uri_eq_spec p, ?_, by decide, by decide⟩
  rw [santize_uri_eq_kept, stripTrailingSlash_filter, keptChars_filter]

/-! ## The handlers: basic facts -/

@[simp] theorem log_trace (client : GstRTSPClient) (e : Event) :
    (client.log e).trace = client.trace ++ [e] := rfl
@[simp] theorem log_session_pool (client : GstRTSPClient) (e : Event) :
    (client.log e).session_pool = client.session_pool := rfl
@[simp] theorem log_media_mapping (client : GstRTSPClient) (e : Event) :
    (client.log e).media_mapping = client.media_mapping := rfl
@[simp] theorem log_address (client : GstRTSPClient) (e : Event) :
    (client.log e).address = client.address := rfl

theorem generic_response_eq (client : GstRTSPClient) (code : GstRTSPStatusCode)
    (request : GstRTSPRequest) :
    handle_generic_response client code request
      = client.log (Event.send ⟨code, request, [], none⟩) :=
  rfl

theorem TraceExt.refl (P : Event → Prop) (c : GstRTSPClient) : TraceExt P c c :=
  ⟨[], by simp, by simp⟩

theorem TraceExt.trans {P : Event → Prop} {a b c : GstRTSPClient}
    (h1 : TraceExt P a b) (h2 : TraceExt P b c) : TraceExt P a c := by
  obtain ⟨e1, h1, p1⟩ := h1
  obtain ⟨e2, h2, p2⟩ := h2
  refine ⟨e1 ++ e2, by rw [h2, h1, List.append_assoc], ?_⟩
  intro e he
  rcases List.mem_append.mp he with he | he
  · exact p1 e he
  · exact p2 e he

theorem TraceExt.log {P : Event → Prop} {a b : GstRTSPClient} (h : TraceExt P a b)
    (e : Event) (he : P e) : TraceExt P a (b.log e) :=
  h.trans ⟨[e], rfl, by simpa using he⟩

theorem TraceExt.of_trace_eq {P : Event → Prop} {a b c : GstRTSPClient} (h : TraceExt P a b)
    (hc : c.trace = b.trace) : TraceExt P a c := by
  obtain ⟨e1, h1, p1⟩ := h
  exact ⟨e1, by rw [hc, h1], p1⟩

theorem TraceExt.mono {P Q : Event → Prop} {a b : GstRTSPClient} (h : TraceExt P a b)
    (hpq : ∀ e, P e → Q e) : TraceExt Q a b := by
  obtain ⟨e1, h1, p1⟩ := h
  exact ⟨e1, h1, fun e he => hpq e (p1 e he)⟩

/-! ## `find_media` -/

/-- The four outcomes of `find_media`. -/
theorem find_media_cases (client : GstRTSPClient) (uri : GstRTSPUrl) (request : GstRTSPRequest) :
    (gst_rtsp_media_mapping_find_factory client.media_mapping uri = none
      ∧ find_media client uri request
        = ((client.log (Event.find_factory uri)).log
            (Event.send ⟨GST_RTSP_STS_NOT_FOUND, request, [], none⟩), none))
    ∨ (gst_rtsp_media_mapping_find_factory client.media_mapping uri = some ⟨none⟩
      ∧ find_media client uri request
        = (((client.log (Event.find_factory uri)).log (Event.factory_construct uri)).log
            (Event.send ⟨GST_RTSP_STS_SERVICE_UNAVAILABLE, request, [], none⟩), none))
    ∨ (∃ m, gst_rtsp_media_mapping_find_factory client.media_mapping uri = some ⟨some m⟩
      ∧ m.prepares = false
      ∧ find_media client uri request
        = ((((client.log (Event.find_factory uri)).log (Event.factory_construct uri)).log
            (Event.media_prepare uri)).log
            (Event.send ⟨GST_RTSP_STS_SERVICE_UNAVAILABLE, request, [], none⟩), none))
    ∨ (∃ m, gst_rtsp_media_mapping_find_factory client.media_mapping uri = some ⟨some m⟩
      ∧ m.prepares = true
      ∧ find_media client uri request
        = (((client.log (Event.find_factory uri)).log (Event.factory_construct uri)).log
            (Event.media_prepare uri), some m)) := by
  unfold find_media
  simp only [log_media_mapping, generic_response_eq]
  rcases hf : gst_rtsp_media_mapping_find_factory client.media_mapping uri with _ | ⟨_ | m⟩
  · simp
  · simp [gst_rtsp_media_factory_construct]
  · cases hp : m.prepares
    · simp [gst_rtsp_media_factory_construct, gst_rtsp_media_prepare, hp]
    · simp [gst_rtsp_media_factory_construct, gst_rtsp_media_prepare, hp]

theorem find_media_some_inv (client : GstRTSPClient) (uri : GstRTSPUrl)
    (request : GstRTSPRequest) (cf : GstRTSPClient) (m : GstRTSPMedia)
    (h : find_media client uri request = (cf, some m)) :
    cf = ((client.log (Event.find_factory uri)).log (Event.factory_construct uri)).log
          (Event.media_prepare uri)
    ∧ gst_rtsp_media_mapping_find_factory client.media_mapping uri = some ⟨some m⟩
    ∧ m.prepares = true := by
  rcases find_media_cases client uri request with ⟨_, h1⟩ | ⟨_, h1⟩ | ⟨_, _, _, h1⟩ |
    ⟨m', hf, hp, h1⟩
  · rw [h1] at h; simp at h
  · rw [h1] at h; simp at h
  · rw [h1] at h; simp at h
  · rw [h1] at h
    simp only [Prod.mk.injEq, Option.some.injEq] at h
    obtain ⟨h2, h3⟩ := h
    subst h3
    exact ⟨h2.symm, hf, hp⟩

theorem find_media_pool (client : GstRTSPClient) (uri : GstRTSPUrl) (request : GstRTSPRequest) :
    (find_media client uri request).1.session_pool = client.session_pool
    ∧ (find_media client uri request).1.media_mapping = client.media_mapping
    ∧ (find_media client uri request).1.address = client.address := by
  rcases find_media_cases client uri request with ⟨_, h1⟩ | ⟨_, h1⟩ | ⟨_, _, _, h1⟩ |
    ⟨_, _, _, h1⟩ <;> rw [h1] <;> simp

theorem find_media_events (client : GstRTSPClient) (uri : GstRTSPUrl)
    (request : GstRTSPRequest) (streamid : Nat) (ct : GstRTSPTransport) :
    TraceExt (SetupEvent uri streamid ct) client (find_media client uri request).1 := by
  rcases find_media_cases client uri request with ⟨_, h1⟩ | ⟨_, h1⟩ | ⟨_, _, _, h1⟩ |
    ⟨_, _, _, h1⟩ <;> rw [h1] <;> dsimp only
  · refine ((TraceExt.refl _ _).log _ ?_).log _ ?_ <;>
      simp [SetupEvent, GST_RTSP_STS_NOT_FOUND, GST_RTSP_STS_UNSUPPORTED_TRANSPORT]
  · refine (((TraceExt.refl _ _).log _ ?_).log _ ?_).log _ ?_ <;>
      simp [SetupEvent, GST_RTSP_STS_SERVICE_UNAVAILABLE, GST_RTSP_STS_UNSUPPORTED_TRANSPORT]
  · refine ((((TraceExt.refl _ _).log _ ?_).log _ ?_).log _ ?_).log _ ?_ <;>
      simp [SetupEvent, GST_RTSP_STS_SERVICE_UNAVAILABLE, GST_RTSP_STS_UNSUPPORTED_TRANSPORT]
  · refine (((TraceExt.refl _ _).log _ ?_).log _ ?_).log _ ?_ <;> simp [SetupEvent]

/-! ## `handle_setup_response` -/

/-- The three outcomes of lines 416-443. -/
theorem setup_stream_cases (lib : RtspLib) (client : GstRTSPClient) (uri : GstRTSPUrl)
    (request : GstRTSPRequest) (streamid : Nat) (ct : GstRTSPTransport)
    (session : GstRTSPSession) (need : Bool) :
    (gst_rtsp_session_get_media session uri = none
      ∧ handle_setup_stream lib client uri request streamid ct session need
        = ((client.log (Event.get_media session.sessionid uri)).log
            (Event.send ⟨GST_RTSP_STS_NOT_FOUND, request, [], none⟩), false))
    ∨ (∃ media, gst_rtsp_session_get_media session uri = some media
      ∧ gst_rtsp_session_media_get_stream media streamid = none
      ∧ handle_setup_stream lib client uri request streamid ct session need
        = (((client.log (Event.get_media session.sessionid uri)).log
            (Event.get_stream session.sessionid uri streamid)).log
            (Event.send ⟨GST_RTSP_STS_NOT_FOUND, request, [], none⟩), false))
    ∨ (∃ media stream, gst_rtsp_session_get_media session uri = some media
      ∧ gst_rtsp_session_media_get_stream media streamid = some stream
      ∧ handle_setup_stream lib client uri request streamid ct session need
        = ({ client with
              session_pool := pool_store client.session_pool
                (session_store session (session_media_set_transport media streamid ct)),
              trace := client.trace ++
                [Event.get_media session.sessionid uri,
                 Event.get_stream session.sessionid uri streamid,
                 Event.set_transport session.sessionid uri streamid ct,
                 Event.send ⟨GST_RTSP_STS_OK, request,
                   (if need then [(GstRTSPHeaderField.SESSION, session.sessionid)] else [])
                     ++ [(GstRTSPHeaderField.TRANSPORT,
                          lib.transport_as_text (lib.server_transport stream ct))],
                   none⟩] }, true)) := by
  unfold handle_setup_stream
  simp only [generic_response_eq]
  rcases hm : gst_rtsp_session_get_media session uri with _ | media
  · simp
  · rcases hs : gst_rtsp_session_media_get_stream media streamid with _ | stream
    · simp [hs]
    · cases need <;>
        simp [hs, handle_response, GstRTSPClient.log, gst_rtsp_message_init_response,
          gst_rtsp_message_add_header, session_store]

theorem setup_stream_events (lib : RtspLib) (client : GstRTSPClient) (uri : GstRTSPUrl)
    (request : GstRTSPRequest) (streamid : Nat) (ct : GstRTSPTransport)
    (session : GstRTSPSession) (need : Bool) :
    TraceExt (SetupEvent uri streamid ct) client
      (handle_setup_stream lib client uri request streamid ct session need).1 := by
  rcases setup_stream_cases lib client uri request streamid ct session need with
    ⟨_, h⟩ | ⟨_, _, _, h⟩ | ⟨_, _, _, _, h⟩ <;> rw [h] <;> dsimp only
  · refine ((TraceExt.refl _ _).log _ ?_).log _ ?_ <;>
      simp [SetupEvent, GST_RTSP_STS_NOT_FOUND, GST_RTSP_STS_UNSUPPORTED_TRANSPORT]
  · refine (((TraceExt.refl _ _).log _ ?_).log _ ?_).log _ ?_ <;>
      simp [SetupEvent, GST_RTSP_STS_NOT_FOUND, GST_RTSP_STS_UNSUPPORTED_TRANSPORT]
  · refine ⟨_, rfl, ?_⟩
    simp [SetupEvent, GST_RTSP_STS_OK, GST_RTSP_STS_UNSUPPORTED_TRANSPORT]

theorem setup_media_events (lib : RtspLib) (client : GstRTSPClient) (uri : GstRTSPUrl)
    (request : GstRTSPRequest) (streamid : Nat) (ct : GstRTSPTransport)
    (session : GstRTSPSession) (need : Bool) :
    TraceExt (SetupEvent uri streamid ct) client
      (handle_setup_media lib client uri request streamid ct session need).1 := by
  unfold handle_setup_media
  cases need
  · simp only [Bool.false_eq_true, if_false]
    exact setup_stream_events _ _ _ _ _ _ _ _
  · simp only [if_true]
    have hf := find_media_events client uri request streamid ct
    rcases hfm : find_media client uri request with ⟨cf, _ | m⟩
    · rw [hfm] at hf
      exact hf.trans (setup_stream_events _ _ _ _ _ _ _ _)
    · rw [hfm] at hf
      dsimp only
      refine TraceExt.trans ?_ (setup_stream_events _ _ _ _ _ _ _ _)
      exact (hf.log (Event.manage_media session.sessionid uri) rfl).of_trace_eq rfl

theorem setup_session_events (lib : RtspLib) (client : GstRTSPClient) (uri : GstRTSPUrl)
    (request : GstRTSPRequest) (streamid : Nat) (ct : GstRTSPTransport) :
    TraceExt (SetupEvent uri streamid ct) client
      (handle_setup_session lib client uri request streamid ct).1 := by
  unfold handle_setup_session
  split
  · dsimp only
    split
    · refine ((TraceExt.refl _ _).log _ ?_).log _ ?_ <;>
        simp [SetupEvent, gst_rtsp_message_init_response, GST_RTSP_STS_SESSION_NOT_FOUND,
          GST_RTSP_STS_UNSUPPORTED_TRANSPORT]
    · exact TraceExt.trans ((TraceExt.refl _ _).log _ (by simp [SetupEvent]))
        (setup_media_events _ _ _ _ _ _ _ _)
  · dsimp only
    split
    · refine TraceExt.log (TraceExt.of_trace_eq
        ((TraceExt.refl _ client).log Event.pool_create ?_) rfl) _ ?_ <;>
        simp [SetupEvent, gst_rtsp_message_init_response, GST_RTSP_STS_SERVICE_UNAVAILABLE,
          GST_RTSP_STS_UNSUPPORTED_TRANSPORT]
    · refine TraceExt.trans (TraceExt.of_trace_eq
        ((TraceExt.refl _ client).log Event.pool_create ?_) rfl)
        (setup_media_events _ _ _ _ _ _ _ _)
      simp [SetupEvent]

theorem parse_transports_none (lib : RtspLib) (alts : List CString) :
    parse_transports lib alts = none ↔ ∀ a ∈ alts, lib.transport_parse a = none := by
  induction alts with
  | nil => simp [parse_transports]
  | cons a rest ih =>
    rw [parse_transports]
    cases h : lib.transport_parse a with
    | none => simp [ih, h]
    | some ct => simp [h]

theorem parse_transports_leftmost (lib : RtspLib) (pre : List CString) (a : CString)
    (post : List CString) (ct : GstRTSPTransport)
    (hpre : ∀ b ∈ pre, lib.transport_parse b = none) (ha : lib.transport_parse a = some ct) :
    parse_transports lib (pre ++ a :: post) = some ct := by
  induction pre with
  | nil => simp [parse_transports, ha]
  | cons b rest ih =>
    have hb : lib.transport_parse b = none := hpre b (by simp)
    simp only [List.cons_append, parse_transports, hb]
    exact ih (fun x hx => hpre x (by simp [hx]))

theorem setup_transport_unsupported (lib : RtspLib) (client : GstRTSPClient) (uri : GstRTSPUrl)
    (request : GstRTSPRequest) (streamid : Nat) (transport : CString) (ct : GstRTSPTransport)
    (ht : gst_rtsp_message_get_header request.headers .TRANSPORT 0 = some transport)
    (hp : parse_transports lib (g_strsplit transport ',') = some ct)
    (hs : ¬ Supported ct) :
    handle_setup_transport lib client uri request streamid
      = (handle_generic_response client GST_RTSP_STS_UNSUPPORTED_TRANSPORT request, false) := by
  simp only [handle_setup_transport, ht, hp]
  unfold Supported at hs
  by_cases h1 : ct.trans = GST_RTSP_TRANS_RTP
  · by_cases h2 : ct.profile = GST_RTSP_PROFILE_AVP
    · have h3 : ct.lower_transport &&& supported = 0 := by
        by_contra h3
        exact hs ⟨h1, h2, h3⟩
      simp [h1, h2, h3]
    · simp [h1, h2]
  · simp [h1]

theorem setup_transport_supported (lib : RtspLib) (client : GstRTSPClient) (uri : GstRTSPUrl)
    (request : GstRTSPRequest) (streamid : Nat) (transport : CString) (ct : GstRTSPTransport)
    (ht : gst_rtsp_message_get_header request.headers .TRANSPORT 0 = some transport)
    (hp : parse_transports lib (g_strsplit transport ',') = some ct)
    (hs : Supported ct) :
    handle_setup_transport lib client uri request streamid
      = handle_setup_session lib client uri request streamid
          { ct with destination := client.address } := by
  simp only [handle_setup_transport, ht, hp]
  obtain ⟨h1, h2, h3⟩ := hs
  simp [h1, h2, h3]

theorem setup_transport_true_inv (lib : RtspLib) (client : GstRTSPClient) (uri : GstRTSPUrl)
    (request : GstRTSPRequest) (streamid : Nat) (c' : GstRTSPClient)
    (h : handle_setup_transport lib client uri request streamid = (c', true)) :
    ∃ ct, handle_setup_session lib client uri request streamid ct = (c', true) := by
  unfold handle_setup_transport at h
  split at h
  · simp at h
  · dsimp only at h
    split at h
    · simp at h
    · split at h
      · simp at h
      · split at h
        · simp at h
        · split at h
          · simp at h
          · exact ⟨_, h⟩

theorem setup_response_true_inv (lib : RtspLib) (client : GstRTSPClient) (uri : GstRTSPUrl)
    (request : GstRTSPRequest) (c' : GstRTSPClient)
    (h : handle_setup_response lib client uri request = some (c', true)) :
    ∃ uri' streamid ct, handle_setup_session lib client uri' request streamid ct = (c', true) := by
  unfold handle_setup_response at h
  simp only [] at h
  split at h
  · simp at h
  · simp at h
  · split at h
    · simp at h
    · simp only [Option.some.injEq] at h
      obtain ⟨ct, hct⟩ := setup_transport_true_inv _ _ _ _ _ _ h
      exact ⟨_, _, ct, hct⟩

theorem replaceFirst_map {α β : Type} (f : α → β) (p : α → Bool) (new : α)
    (hp : ∀ x, p x = true → f x = f new) (l : List α) :
    (replaceFirst p new l).map f = l.map f := by
  induction l with
  | nil => rfl
  | cons x xs ih =>
    rw [replaceFirst]
    by_cases hx : p x = true
    · simp [hx, hp x hx]
    · simp [hx, ih]

theorem pool_store_ids (pool : GstRTSPSessionPool) (session : GstRTSPSession) :
    (pool_store pool session).sessions.map (fun s => s.sessionid)
      = pool.sessions.map (fun s => s.sessionid) := by
  unfold pool_store
  exact replaceFirst_map _ _ _ (fun x hx => by simpa using hx) _

@[simp] theorem pool_store_fresh (pool : GstRTSPSessionPool) (session : GstRTSPSession) :
    (pool_store pool session).fresh = pool.fresh := rfl

@[simp] theorem session_store_id (session : GstRTSPSession) (media : GstRTSPSessionMedia) :
    (session_store session media).sessionid = session.sessionid := rfl

@[simp] theorem manage_media_id (session : GstRTSPSession) (uri : GstRTSPUrl)
    (m : GstRTSPMedia) : (gst_rtsp_session_manage_media session uri m).sessionid
      = session.sessionid := rfl

theorem pool_find_id (pool : GstRTSPSessionPool) (sessid : CString) (session : GstRTSPSession)
    (h : gst_rtsp_session_pool_find pool sessid = some session) :
    session.sessionid = sessid := by
  have := List.find?_some h
  simpa using this

theorem get_media_manage_media (session : GstRTSPSession) (uri : GstRTSPUrl) (m : GstRTSPMedia) :
    gst_rtsp_session_get_media (gst_rtsp_session_manage_media session uri m) uri
      = some { url := uri, media := m, state := MediaState.Init, transports := [] } := by
  simp [gst_rtsp_session_get_media, gst_rtsp_session_manage_media]

theorem setup_media_true_existing (lib : RtspLib) (client : GstRTSPClient) (uri : GstRTSPUrl)
    (request : GstRTSPRequest) (streamid : Nat) (ct : GstRTSPTransport)
    (session : GstRTSPSession) (c' : GstRTSPClient)
    (h : handle_setup_media lib client uri request streamid ct session false = (c', true)) :
    ∃ media stream, gst_rtsp_session_get_media session uri = some media
      ∧ gst_rtsp_session_media_get_stream media streamid = some stream
      ∧ c' = { client with
          session_pool := pool_store client.session_pool
            (session_store session (session_media_set_transport media streamid ct)),
          trace := client.trace ++
            [Event.get_media session.sessionid uri,
             Event.get_stream session.sessionid uri streamid,
             Event.set_transport session.sessionid uri streamid ct,
             Event.send ⟨GST_RTSP_STS_OK, request,
               [(GstRTSPHeaderField.TRANSPORT,
                 lib.transport_as_text (lib.server_transport stream ct))], none⟩] } := by
  unfold handle_setup_media at h
  simp only [Bool.false_eq_true, if_false] at h
  rcases setup_stream_cases lib client uri request streamid ct session false with
    ⟨_, h1⟩ | ⟨_, _, _, h1⟩ | ⟨media, stream, hm, hs, h1⟩
  · rw [h1] at h; simp at h
  · rw [h1] at h; simp at h
  · rw [h1] at h
    simp only [Prod.mk.injEq, and_true] at h
    exact ⟨media, stream, hm, hs, by rw [← h]; simp⟩

theorem setup_media_true_new (lib : RtspLib) (client : GstRTSPClient) (uri : GstRTSPUrl)
    (request : GstRTSPRequest) (streamid : Nat) (ct : GstRTSPTransport)
    (session : GstRTSPSession) (c' : GstRTSPClient) (hnew : session.medias = [])
    (h : handle_setup_media lib client uri request streamid ct session true = (c', true)) :
    ∃ m stream,
      gst_rtsp_media_mapping_find_factory client.media_mapping uri = some ⟨some m⟩
      ∧ m.prepares = true
      ∧ gst_rtsp_media_get_stream m streamid = some stream
      ∧ c' = { client with
          session_pool := pool_store
            (pool_store client.session_pool (gst_rtsp_session_manage_media session uri m))
            (session_store (gst_rtsp_session_manage_media session uri m)
              (session_media_set_transport ⟨uri, m, MediaState.Init, []⟩ streamid ct)),
          trace := client.trace ++
            [Event.find_factory uri, Event.factory_construct uri, Event.media_prepare uri,
             Event.manage_media session.sessionid uri,
             Event.get_media session.sessionid uri,
             Event.get_stream session.sessionid uri streamid,
             Event.set_transport session.sessionid uri streamid ct,
             Event.send ⟨GST_RTSP_STS_OK, request,
               [(GstRTSPHeaderField.SESSION, session.sessionid),
                 (GstRTSPHeaderField.TRANSPORT,
                   lib.transport_as_text (lib.server_transport stream ct))], none⟩] } := by
  unfold handle_setup_media at h
  simp only [if_true] at h
  rcases hfm : find_media client uri request with ⟨cf, _ | m⟩
  · rw [hfm] at h
    dsimp only at h
    rcases setup_stream_cases lib cf uri request streamid ct session true with
      ⟨_, h1⟩ | ⟨media, hm, _, _⟩ | ⟨media, _, hm, _, _⟩
    · rw [h1] at h; simp at h
    · simp [gst_rtsp_session_get_media, hnew] at hm
    · simp [gst_rtsp_session_get_media, hnew] at hm
  · rw [hfm] at h
    obtain ⟨hcf, hfac, hprep⟩ := find_media_some_inv _ _ _ _ _ hfm
    dsimp only at h
    rcases setup_stream_cases lib
        { cf.log (Event.manage_media session.sessionid uri) with
          session_pool := pool_store (cf.log (Event.manage_media session.sessionid uri)).session_pool
            (gst_rtsp_session_manage_media session uri m) }
        uri request streamid ct (gst_rtsp_session_manage_media session uri m) true with
      ⟨_, h1⟩ | ⟨_, _, _, h1⟩ | ⟨media, stream, hm, hs, h1⟩
    · rw [h1] at h; simp at h
    · rw [h1] at h; simp at h
    · rw [h1] at h
      rw [get_media_manage_media] at hm
      simp only [Option.some.injEq] at hm
      subst hm
      simp only [Prod.mk.injEq, and_true] at h
      refine ⟨m, stream, hfac, hprep, hs, ?_⟩
      rw [← h, hcf]
      simp

theorem pool_create_some_inv (pool pool' : GstRTSPSessionPool) (session : GstRTSPSession)
    (h : gst_rtsp_session_pool_create pool = (pool', some session)) :
    ∃ id rest, pool.fresh = some id :: rest
      ∧ session = { sessionid := id, medias := [] }
      ∧ pool' = { sessions := { sessionid := id, medias := [] } :: pool.sessions, fresh := rest } := by
  unfold gst_rtsp_session_pool_create at h
  split at h
  · simp at h
  · simp at h
  · next id rest hf =>
    simp only [Prod.mk.injEq, Option.some.injEq] at h
    exact ⟨id, rest, hf, h.2.symm, h.1.symm⟩

/-- The outcome of a successful `handle_setup_session`. -/
theorem setup_session_true_inv (lib : RtspLib) (client : GstRTSPClient) (uri : GstRTSPUrl)
    (request : GstRTSPRequest) (streamid : Nat) (ct : GstRTSPTransport) (c' : GstRTSPClient)
    (h : handle_setup_session lib client uri request streamid ct = (c', true)) :
    (∃ sessid session,
        gst_rtsp_message_get_header request.headers GstRTSPHeaderField.SESSION 0 = some sessid
        ∧ gst_rtsp_session_pool_find client.session_pool sessid = some session
        ∧ handle_setup_media lib (client.log (Event.pool_find sessid)) uri request streamid ct
            session false = (c', true))
    ∨ (∃ id rest,
        gst_rtsp_message_get_header request.headers GstRTSPHeaderField.SESSION 0 = none
        ∧ client.session_pool.fresh = some id :: rest
        ∧ handle_setup_media lib
            { client.log Event.pool_create with
              session_pool := { sessions := { sessionid := id, medias := [] }
                                  :: client.session_pool.sessions, fresh := rest } }
            uri request streamid ct { sessionid := id, medias := [] } true = (c', true)) := by
  unfold handle_setup_session at h
  split at h
  · next sessid hh =>
    dsimp only at h
    split at h
    · simp [generic_response_eq] at h
    · next session hf =>
      exact Or.inl ⟨sessid, session, hh, hf, h⟩
  · next hh =>
    dsimp only at h
    split at h
    · simp [generic_response_eq] at h
    · next pool session hc =>
      obtain ⟨id, rest, hfresh, hs, hp⟩ := pool_create_some_inv _ _ _ hc
      subst hs hp
      exact Or.inr ⟨id, rest, hh, hfresh, h⟩


/-! ## `strstr`, `sscanf` and the stream index -/

theorem isPrefixOf_iff (m s : CString) : m.isPrefixOf s = true ↔ m <+: s := by
  simp [List.isPrefixOf_iff_prefix]

theorem strstr_none_iff (hay needle : CString) :
    strstr hay needle = none ↔ ¬ needle <:+: hay := by
  induction hay with
  | nil =>
    cases needle with
    | nil => simp [strstr]
    | cons c cs => simp [strstr]
  | cons c rest ih =>
    rw [strstr]
    by_cases hp : needle.isPrefixOf (c :: rest) = true
    · rw [if_pos hp]
      simp only [reduceCtorEq, false_iff, not_not]
      exact ((isPrefixOf_iff _ _).mp hp).isInfix
    · rw [if_neg hp]
      simp only [Option.map_eq_none']
      rw [ih]
      have hp' : ¬ needle <+: c :: rest := fun h => hp ((isPrefixOf_iff _ _).mpr h)
      rw [List.infix_cons_iff]
      tauto

/-- `strstr` finds the first occurrence. -/
theorem strstr_first (needle pre text : CString)
    (hfirst : ¬ needle <:+: pre ++ needle.dropLast) :
    strstr (pre ++ needle ++ text) needle = some pre.length := by
  induction pre with
  | nil =>
    cases needle with
    | nil => exact absurd List.nil_infix hfirst
    | cons n ns =>
      simp only [List.nil_append, List.cons_append, strstr]
      rw [if_pos]
      · rfl
      · rw [isPrefixOf_iff]
        exact List.prefix_append _ _
  | cons c pre' ih =>
    rw [List.cons_append, List.cons_append, strstr]
    have hnp : ¬ (needle.isPrefixOf (c :: (pre' ++ needle ++ text)) = true) := by
      rw [isPrefixOf_iff]
      intro hpre
      apply hfirst
      -- needle is a prefix of c :: pre' ++ needle ++ text, and
      -- c :: pre' ++ needle.dropLast is a prefix of it that is at least as long
      have h2 : (c :: pre') ++ needle.dropLast <+: c :: (pre' ++ needle ++ text) := by
        have : c :: (pre' ++ needle ++ text)
            = ((c :: pre') ++ needle.dropLast) ++ (needle.drop (needle.length - 1) ++ text) := by
          have hn : needle = needle.dropLast ++ needle.drop (needle.length - 1) := by
            rw [List.dropLast_eq_take]; exact (List.take_append_drop _ _).symm
          conv_lhs => rw [hn]
          simp
        rw [this]
        exact List.prefix_append _ _
      have hlen : needle.length ≤ ((c :: pre') ++ needle.dropLast).length := by
        simp; omega
      exact (List.prefix_of_prefix_length_le hpre h2 hlen).isInfix
    rw [if_neg hnp]
    have := ih (fun h => hfirst (by
      rw [List.cons_append]
      exact List.infix_cons h))
    rw [this]
    rfl

theorem strstr_some (hay needle : CString) (pos : Nat) (h : strstr hay needle = some pos) :
    hay = hay.take pos ++ needle ++ hay.drop (pos + needle.length) := by
  induction hay generalizing pos with
  | nil =>
    cases needle with
    | nil => simp [strstr] at h; subst h; simp
    | cons c cs => simp [strstr] at h
  | cons c rest ih =>
    rw [strstr] at h
    by_cases hp : needle.isPrefixOf (c :: rest) = true
    · rw [if_pos hp] at h
      simp only [Option.some.injEq] at h
      subst h
      obtain ⟨t, ht⟩ := (isPrefixOf_iff _ _).mp hp
      simp only [List.take_zero, List.nil_append, Nat.zero_add]
      rw [← ht]
      simp
    · rw [if_neg hp] at h
      simp only [Option.map_eq_some'] at h
      obtain ⟨p, hp1, hp2⟩ := h
      subst hp2
      have := ih p hp1
      simp only [List.take_succ_cons, List.cons_append, List.cons.injEq, true_and]
      rw [Nat.add_right_comm, List.drop_succ_cons]
      exact this

theorem isspace_not_digit (c : Char) (h : isspace c = true) : c.isDigit = false := by
  simp only [isspace, Bool.or_eq_true, beq_iff_eq] at h
  rcases h with ((((h | h) | h) | h) | h) | h <;> subst h <;> decide

theorem takeWhile_digits (ds rest : CString) (hds : ∀ c ∈ ds, c.isDigit = true)
    (hrest : ∀ c, rest.head? = some c → c.isDigit = false) :
    (ds ++ rest).takeWhile Char.isDigit = ds := by
  induction ds with
  | nil =>
    cases rest with
    | nil => rfl
    | cons c cs => simp [List.takeWhile_cons, hrest c rfl]
  | cons d ds ih =>
    simp only [List.cons_append, List.takeWhile_cons, hds d (by simp), if_true]
    rw [ih (fun c hc => hds c (by simp [hc]))]

/-- An unsigned decimal number that fits a `guint` is read as itself. -/
theorem sscanf_u_unsigned (ds rest : CString) (hne : ds ≠ [])
    (hds : ∀ c ∈ ds, c.isDigit = true)
    (hrest : ∀ c, rest.head? = some c → c.isDigit = false)
    (hfit : digitsValue ds < 2 ^ 32) :
    sscanf_u (ds ++ rest) = some (digitsValue ds) := by
  obtain ⟨d, ds', rfl⟩ := List.exists_cons_of_ne_nil hne
  have hd : d.isDigit = true := hds d (by simp)
  have hsp : isspace d = false := by
    cases h : isspace d
    · rfl
    · rw [isspace_not_digit d h] at hd; cases hd
  have hplus : d ≠ '+' := by rintro rfl; revert hd; decide
  have hminus : d ≠ '-' := by rintro rfl; revert hd; decide
  have htw := takeWhile_digits (d :: ds') rest hds hrest
  unfold sscanf_u
  simp only [List.cons_append, List.dropWhile_cons, hsp]
  simp only [List.cons_append] at htw
  have hfit' : digitsValue (d :: ds') < 4294967296 := hfit
  simp [hplus, hminus, htw, Nat.mod_eq_of_lt hfit']

/-- A text that starts with neither white space, a sign nor a digit is not
read as a number. -/
theorem sscanf_u_no_number (text : CString)
    (h : ∀ c, text.head? = some c →
      isspace c = false ∧ c ≠ '+' ∧ c ≠ '-' ∧ c.isDigit = false) :
    sscanf_u text = none := by
  cases text with
  | nil => simp [sscanf_u]
  | cons c cs =>
    obtain ⟨h1, h2, h3, h4⟩ := h c rfl
    unfold sscanf_u
    simp [List.dropWhile_cons, h1, h2, h3, List.takeWhile_cons, h4]

theorem setup_response_in_path (lib : RtspLib) (client : GstRTSPClient) (uri : GstRTSPUrl)
    (request : GstRTSPRequest) (pos : Nat)
    (hpos : strstr uri.abspath stream_marker = some pos) :
    (sscanf_u (uri.abspath.drop (pos + stream_marker.length)) = none →
      handle_setup_response lib client uri request
        = some (handle_generic_response client GST_RTSP_STS_BAD_REQUEST request, false))
    ∧ ∀ streamid, sscanf_u (uri.abspath.drop (pos + stream_marker.length)) = some streamid →
      handle_setup_response lib client uri request
        = some (handle_setup_transport lib client
            { uri with abspath := uri.abspath.take pos } request streamid) := by
  unfold handle_setup_response
  refine ⟨fun hn => ?_, fun streamid hs => ?_⟩
  · simp only [hpos, hn]
  · simp only [hpos, hs]

theorem setup_response_in_query (lib : RtspLib) (client : GstRTSPClient) (uri : GstRTSPUrl)
    (request : GstRTSPRequest) (query : CString) (pos : Nat)
    (hpath : strstr uri.abspath stream_marker = none) (hq : uri.query = some query)
    (hpos : strstr query stream_marker = some pos) :
    (sscanf_u (query.drop (pos + stream_marker.length)) = none →
      handle_setup_response lib client uri request
        = some (handle_generic_response client GST_RTSP_STS_BAD_REQUEST request, false))
    ∧ ∀ streamid, sscanf_u (query.drop (pos + stream_marker.length)) = some streamid →
      handle_setup_response lib client uri request
        = some (handle_setup_transport lib client
            { uri with query := some (query.take pos) } request streamid) := by
  unfold handle_setup_response
  refine ⟨fun hn => ?_, fun streamid hs => ?_⟩
  · simp only [hpath, hq, hpos, hn]
  · simp only [hpath, hq, hpos, hs]

theorem setup_response_no_marker (lib : RtspLib) (client : GstRTSPClient) (uri : GstRTSPUrl)
    (request : GstRTSPRequest) (query : CString)
    (hpath : strstr uri.abspath stream_marker = none) (hq : uri.query = some query)
    (hpos : strstr query stream_marker = none) :
    handle_setup_response lib client uri request =
      some (handle_generic_response client GST_RTSP_STS_BAD_REQUEST request, false) := by
  unfold handle_setup_response
  simp only [hpath, hq, hpos]

/-- Without "/stream=" in the path and with a NULL query, `strstr` is called on
NULL: the handler has no defined behaviour. -/
theorem setup_response_null_query (lib : RtspLib) (client : GstRTSPClient) (uri : GstRTSPUrl)
    (request : GstRTSPRequest)
    (hpath : strstr uri.abspath stream_marker = none) (hq : uri.query = none) :
    handle_setup_response lib client uri request = none := by
  unfold handle_setup_response
  simp only [hpath, hq]


theorem generic_response_answered (client : GstRTSPClient) (code : GstRTSPStatusCode)
    (request : GstRTSPRequest) :
    handle_generic_response client code request = answered client code request := rfl

theorem SetupEvent.call {uri : GstRTSPUrl} {streamid : Nat} {ct : GstRTSPTransport} {e : Event}
    (h : SetupEvent uri streamid ct e) : SetupCall uri streamid e := by
  cases e <;> simp_all [SetupEvent, SetupCall]

theorem setup_transport_calls (lib : RtspLib) (client : GstRTSPClient) (uri : GstRTSPUrl)
    (request : GstRTSPRequest) (streamid : Nat) :
    TraceExt (SetupCall uri streamid) client
      (handle_setup_transport lib client uri request streamid).1 := by
  have h461 : TraceExt (SetupCall uri streamid) client
      (handle_generic_response client GST_RTSP_STS_UNSUPPORTED_TRANSPORT request) :=
    (TraceExt.refl _ _).log _ (by simp [SetupCall])
  unfold handle_setup_transport
  split
  · exact h461
  · dsimp only
    split
    · exact h461
    · split
      · exact h461
      · split
        · exact h461
        · split
          · exact h461
          · exact (setup_session_events _ _ _ _ _ _).mono (fun e he => he.call)

/-! ## The claims on the dispatcher and on SETUP -/

/-- C4 (amended): `handle_setup_response` takes the leftmost alternative of
the Transport header that parses.  If it is supported (RTP, AVP, and UDP, UDP
multicast or TCP) the SETUP goes on with it, with the client address as
destination, and no 461 is sent; if it is not supported the response is 461
Unsupported Transport whatever alternatives follow it; and the response is
461 when no alternative parses or when the request has no Transport header. -/
theorem setup_takes_leftmost_parsable (lib : RtspLib) (client : GstRTSPClient)
    (request : GstRTSPRequest) :
    (∀ uri0, handle_setup_response lib client uri0 request = none
      ∨ handle_setup_response lib client uri0 request
          = some (answered client GST_RTSP_STS_BAD_REQUEST request, false)
      ∨ ∃ uri streamid, handle_setup_response lib client uri0 request
          = some (handle_setup_transport lib client uri request streamid))
    ∧ ∀ uri streamid,
      (gst_rtsp_message_get_header request.headers GstRTSPHeaderField.TRANSPORT 0 = none →
        handle_setup_transport lib client uri request streamid
          = (answered client GST_RTSP_STS_UNSUPPORTED_TRANSPORT request, false))
      ∧ ∀ transport,
        gst_rtsp_message_get_header request.headers GstRTSPHeaderField.TRANSPORT 0
          = some transport →
        ((∀ a ∈ g_strsplit transport ',', lib.transport_parse a = none) →
          handle_setup_transport lib client uri request streamid
            = (answered client GST_RTSP_STS_UNSUPPORTED_TRANSPORT request, false))
        ∧ ∀ pre a post ct, g_strsplit transport ',' = pre ++ a :: post →
            (∀ b ∈ pre, lib.transport_parse b = none) → lib.transport_parse a = some ct →
            (¬ Supported ct →
              handle_setup_transport lib client uri request streamid
                = (answered client GST_RTSP_STS_UNSUPPORTED_TRANSPORT request, false))
            ∧ (Supported ct →
              handle_setup_transport lib client uri request streamid
                = handle_setup_session lib client uri request streamid
                    { ct with destination := client.address }
              ∧ TraceExt (SetupEvent uri streamid { ct with destination := client.address })
                  client (handle_setup_transport lib client uri request streamid).1) := by
  refine ⟨fun uri0 => ?_, fun uri streamid =>
    ⟨fun hno => ?_, fun transport ht => ⟨fun hnone => ?_, ?_⟩⟩⟩
  · unfold handle_setup_response
    dsimp only
    split
    · exact Or.inl rfl
    · exact Or.inr (Or.inl rfl)
    · split
      · exact Or.inr (Or.inl rfl)
      · exact Or.inr (Or.inr ⟨_, _, rfl⟩)
  · simp only [handle_setup_transport, hno, generic_response_answered]
  · have hp := (parse_transports_none lib _).mpr hnone
    simp only [handle_setup_transport, ht, hp, generic_response_answered]
  · intro pre a post ct halts hpre ha
    have hp : parse_transports lib (g_strsplit transport ',') = some ct := by
      rw [halts]; exact parse_transports_leftmost lib pre a post ct hpre ha
    refine ⟨fun hs => ?_, fun hs => ?_⟩
    · rw [setup_transport_unsupported lib client uri request streamid transport ct ht hp hs,
        generic_response_answered]
    · have he := setup_transport_supported lib client uri request streamid transport ct ht hp hs
      refine ⟨he, ?_⟩
      rw [he]
      exact setup_session_events _ _ _ _ _ _

/-- C4, witness: the single alternative `RTP/AVP;unicast;client_port=5000-5001`
parses and is supported, and the SETUP goes on with it; a SETUP without
Transport header is answered 461. -/
theorem setup_takes_leftmost_parsable_witness :
    handle_setup_transport exampleLib exampleClient (exampleUrl "/test") exampleSetup 0
      = handle_setup_session exampleLib exampleClient (exampleUrl "/test") exampleSetup 0
          { exampleTransport GST_RTSP_TRANS_RTP GST_RTSP_PROFILE_AVP GST_RTSP_LOWER_TRANS_UDP
              "client_port=5000-5001" with destination := exampleClient.address }
    ∧ handle_setup_transport exampleLib exampleClient (exampleUrl "/test")
        (exampleRequest .SETUP "rtsp://host/test/stream=0" []) 0
      = (answered exampleClient GST_RTSP_STS_UNSUPPORTED_TRANSPORT
          (exampleRequest .SETUP "rtsp://host/test/stream=0" []), false) :=
  ⟨((((((setup_takes_leftmost_parsable exampleLib exampleClient exampleSetup).2
      (exampleUrl "/test") 0).2
      "RTP/AVP;unicast;client_port=5000-5001".toList (by decide)).2
      [] "RTP/AVP;unicast;client_port=5000-5001".toList [] _ (by decide) (by simp)
      (by decide)).2 (by decide)).1),
    (((setup_takes_leftmost_parsable exampleLib exampleClient
      (exampleRequest .SETUP "rtsp://host/test/stream=0" [])).2
      (exampleUrl "/test") 0).1 (by decide))⟩

/-- C4, counterexample: the Transport header
`RTP/SAVP;unicast;client_port=5000-5001,RTP/AVP;unicast;client_port=5000-5001`
has a second alternative that parses and is supported, and still the response
is 461: the first alternative parses and is not supported. -/
theorem setup_supported_alternative_not_reached :
    g_strsplit
        "RTP/SAVP;unicast;client_port=5000-5001,RTP/AVP;unicast;client_port=5000-5001".toList ','
      = ["RTP/SAVP;unicast;client_port=5000-5001".toList,
         "RTP/AVP;unicast;client_port=5000-5001".toList]
    ∧ (∃ ct, exampleLib.transport_parse "RTP/AVP;unicast;client_port=5000-5001".toList = some ct
        ∧ Supported ct)
    ∧ handle_setup_response exampleLib exampleClient (exampleUrl "/test/stream=0")
        (exampleRequest .SETUP "rtsp://host/test/stream=0"
          [(.TRANSPORT,
            "RTP/SAVP;unicast;client_port=5000-5001,RTP/AVP;unicast;client_port=5000-5001")])
      = some (answered exampleClient GST_RTSP_STS_UNSUPPORTED_TRANSPORT
          (exampleRequest .SETUP "rtsp://host/test/stream=0"
            [(.TRANSPORT,
              "RTP/SAVP;unicast;client_port=5000-5001,RTP/AVP;unicast;client_port=5000-5001")]),
          false) := by
  refine ⟨by decide, ⟨_, rfl, by decide⟩, by decide⟩

@[simp] theorem responses_nil : responses [] = [] := rfl

/-- C5: on every successful SETUP (the handler returns TRUE) exactly one
response is sent, a 200 for the request, and it carries a Session header added
by the handler if and only if the request had no Session header; in that case
a session was created in the pool and the header carries its id.  A SETUP
that names a session finds it in the pool and sets the transport in it,
creates no session (the ids in the pool and the pool's coming ids are as
before) and adds no Session header. -/
theorem setup_session_header_iff_new_session (lib : RtspLib) (client : GstRTSPClient)
    (uri : GstRTSPUrl) (request : GstRTSPRequest) (c' : GstRTSPClient)
    (h : handle_setup_response lib client uri request = some (c', true)) :
    ∃ evs r, c'.trace = client.trace ++ evs ++ [Event.send r]
      ∧ responses evs = []
      ∧ r.code = GST_RTSP_STS_OK ∧ r.request = request
      ∧ ((∃ v, (GstRTSPHeaderField.SESSION, v) ∈ r.headers) ↔
          gst_rtsp_message_get_header request.headers GstRTSPHeaderField.SESSION 0 = none)
      ∧ (gst_rtsp_message_get_header request.headers GstRTSPHeaderField.SESSION 0 = none →
          ∃ id rest, client.session_pool.fresh = some id :: rest
            ∧ Event.pool_create ∈ evs
            ∧ r.headers.filter (fun h => h.1 = GstRTSPHeaderField.SESSION)
                = [(GstRTSPHeaderField.SESSION, id)]
            ∧ c'.session_pool.sessions.map (fun s => s.sessionid)
                = id :: client.session_pool.sessions.map (fun s => s.sessionid)
            ∧ c'.session_pool.fresh = rest)
      ∧ (∀ sessid,
          gst_rtsp_message_get_header request.headers GstRTSPHeaderField.SESSION 0 = some sessid →
          (∃ s, gst_rtsp_session_pool_find client.session_pool sessid = some s)
            ∧ Event.pool_create ∉ evs
            ∧ (∃ u n t, Event.set_transport sessid u n t ∈ evs)
            ∧ r.headers.filter (fun h => h.1 = GstRTSPHeaderField.SESSION) = []
            ∧ c'.session_pool.sessions.map (fun s => s.sessionid)
                = client.session_pool.sessions.map (fun s => s.sessionid)
            ∧ c'.session_pool.fresh = client.session_pool.fresh) := by
  obtain ⟨uri', streamid, ct, hs⟩ := setup_response_true_inv _ _ _ _ _ h
  rcases setup_session_true_inv _ _ _ _ _ _ _ hs with
    ⟨sessid, session, hh, hf, hm⟩ | ⟨id, rest, hh, hfresh, hm⟩
  · obtain ⟨media, stream, _, _, hc⟩ := setup_media_true_existing _ _ _ _ _ _ _ _ hm
    have hid := pool_find_id _ _ _ hf
    refine ⟨[Event.pool_find sessid, Event.get_media sessid uri',
      Event.get_stream sessid uri' streamid, Event.set_transport sessid uri' streamid ct],
      ⟨GST_RTSP_STS_OK, request, [(GstRTSPHeaderField.TRANSPORT,
        lib.transport_as_text (lib.server_transport stream ct))], none⟩,
      ?_, ?_, rfl, rfl, ?_, ?_, ?_⟩
    · rw [hc, hid]; simp
    · simp [responses]
    · simp [hh]
    · intro hn; rw [hh] at hn; cases hn
    · intro sessid' hs'
      rw [hh] at hs'
      cases hs'
      refine ⟨⟨session, hf⟩, by simp, ⟨uri', streamid, ct, by simp⟩, by simp, ?_, ?_⟩
      · rw [hc]; simp [pool_store_ids]
      · rw [hc]; simp
  · obtain ⟨m, stream, _, _, _, hc⟩ := setup_media_true_new _ _ _ _ _ _ _ _ rfl hm
    refine ⟨[Event.pool_create, Event.find_factory uri', Event.factory_construct uri',
      Event.media_prepare uri', Event.manage_media id uri', Event.get_media id uri',
      Event.get_stream id uri' streamid, Event.set_transport id uri' streamid ct],
      ⟨GST_RTSP_STS_OK, request, [(GstRTSPHeaderField.SESSION, id),
        (GstRTSPHeaderField.TRANSPORT,
          lib.transport_as_text (lib.server_transport stream ct))], none⟩,
      ?_, ?_, rfl, rfl, ?_, ?_, ?_⟩
    · rw [hc]; simp
    · simp [responses]
    · simp [hh]
    · intro _
      refine ⟨id, rest, hfresh, by simp, by simp, ?_, ?_⟩
      · rw [hc]; simp [pool_store_ids]
      · rw [hc]; simp
    · intro sessid' hs'
      rw [hh] at hs'
      cases hs'


/-- C5, witness: the SETUP of stream 0 of "/test" without a Session header. -/
theorem setup_session_header_iff_new_session_witness :
    handle_setup_response exampleLib exampleClient (exampleUrl "/test/stream=0") exampleSetup
      = some (exampleAfterSetup, true)
    ∧ ∃ evs r, exampleAfterSetup.trace = exampleClient.trace ++ evs ++ [Event.send r]
      ∧ r.code = GST_RTSP_STS_OK
      ∧ ((∃ v, (GstRTSPHeaderField.SESSION, v) ∈ r.headers) ↔
          gst_rtsp_message_get_header exampleSetup.headers GstRTSPHeaderField.SESSION 0 = none) := by
  have h : handle_setup_response exampleLib exampleClient (exampleUrl "/test/stream=0")
      exampleSetup = some (exampleAfterSetup, true) := by decide
  obtain ⟨evs, r, h1, _, h3, _, h5, _⟩ := setup_session_header_iff_new_session exampleLib
    exampleClient (exampleUrl "/test/stream=0") exampleSetup exampleAfterSetup h
  exact ⟨h, evs, r, h1, h3, h5⟩

theorem take_left_append (pre m text : CString) : (pre ++ m ++ text).take pre.length = pre := by
  rw [List.append_assoc, List.take_left]

theorem drop_left_append (pre m text : CString) :
    (pre ++ m ++ text).drop (pre.length + m.length) = text := by
  rw [← List.length_append, List.drop_left]

/-- C6 (amended): for a SETUP whose URL has a query part or has "/stream=" in
its path: if neither the path nor the query contains "/stream=", or `sscanf`
reads no number with `%u` from the text right after the first "/stream="
(searched in the path first, then in the query), the response is 400 Bad
Request and nothing else happens; otherwise the handler goes on with the
number `%u` reads as stream index and with the path (or query) cut off at
"/stream=", and every later call into the mapping, the session and the media
names that url and that stream.  `%u` reads an unsigned decimal number below
2^32 as itself; it reads nothing from a text that starts with neither white
space, a sign nor a digit. -/
theorem setup_stream_index (lib : RtspLib) (client : GstRTSPClient) (uri : GstRTSPUrl)
    (request : GstRTSPRequest) :
    (∀ query, uri.query = some query → ¬ stream_marker <:+: uri.abspath →
        ¬ stream_marker <:+: query →
        handle_setup_response lib client uri request
          = some (answered client GST_RTSP_STS_BAD_REQUEST request, false))
    ∧ (∀ pre text, uri.abspath = pre ++ stream_marker ++ text →
        ¬ stream_marker <:+: pre ++ stream_marker.dropLast →
        (sscanf_u text = none →
          handle_setup_response lib client uri request
            = some (answered client GST_RTSP_STS_BAD_REQUEST request, false))
        ∧ ∀ streamid, sscanf_u text = some streamid →
          handle_setup_response lib client uri request
            = some (handle_setup_transport lib client { uri with abspath := pre } request streamid)
          ∧ TraceExt (SetupCall { uri with abspath := pre } streamid) client
              (handle_setup_transport lib client { uri with abspath := pre } request streamid).1)
    ∧ (∀ query pre text, uri.query = some query → ¬ stream_marker <:+: uri.abspath →
        query = pre ++ stream_marker ++ text →
        ¬ stream_marker <:+: pre ++ stream_marker.dropLast →
        (sscanf_u text = none →
          handle_setup_response lib client uri request
            = some (answered client GST_RTSP_STS_BAD_REQUEST request, false))
        ∧ ∀ streamid, sscanf_u text = some streamid →
          handle_setup_response lib client uri request
            = some (handle_setup_transport lib client { uri with query := some pre } request
                streamid)
          ∧ TraceExt (SetupCall { uri with query := some pre } streamid) client
              (handle_setup_transport lib client { uri with query := some pre } request
                streamid).1)
    ∧ (∀ ds rest : CString, ds ≠ [] → (∀ c ∈ ds, c.isDigit = true) →
        (∀ c, rest.head? = some c → c.isDigit = false) → digitsValue ds < 2 ^ 32 →
        sscanf_u (ds ++ rest) = some (digitsValue ds))
    ∧ (∀ text : CString,
        (∀ c, text.head? = some c →
          isspace c = false ∧ c ≠ '+' ∧ c ≠ '-' ∧ c.isDigit = false) →
        sscanf_u text = none) := by
  refine ⟨?_, ?_, ?_, sscanf_u_unsigned, sscanf_u_no_number⟩
  · intro query hq hpath hquery
    exact setup_response_no_marker lib client uri request query
      ((strstr_none_iff _ _).mpr hpath) hq ((strstr_none_iff _ _).mpr hquery)
  · intro pre text hpath hfirst
    have hpos : strstr uri.abspath stream_marker = some pre.length := by
      rw [hpath]; exact strstr_first _ _ _ hfirst
    have h := setup_response_in_path lib client uri request pre.length hpos
    rw [hpath, take_left_append, drop_left_append] at h
    exact ⟨fun hn => h.1 hn, fun streamid hsome =>
      ⟨h.2 streamid hsome, setup_transport_calls _ _ _ _ _⟩⟩
  · intro query pre text hq hpath hquery hfirst
    have hpos : strstr query stream_marker = some pre.length := by
      rw [hquery]; exact strstr_first _ _ _ hfirst
    have h := setup_response_in_query lib client uri request query pre.length
      ((strstr_none_iff _ _).mpr hpath) hq hpos
    rw [hquery, take_left_append, drop_left_append] at h
    exact ⟨fun hn => h.1 hn, fun streamid hsome =>
      ⟨h.2 streamid hsome, setup_transport_calls _ _ _ _ _⟩⟩

/-- C6, witness: "/test/stream=1": the path is cut to "/test" and the stream
index is 1. -/
theorem setup_stream_index_witness :
    handle_setup_response exampleLib exampleClient (exampleUrl "/test/stream=1") exampleSetup
      = some (handle_setup_transport exampleLib exampleClient (exampleUrl "/test")
          exampleSetup 1) :=
  (((setup_stream_index exampleLib exampleClient (exampleUrl "/test/stream=1")
      exampleSetup).2.1 "/test".toList "1".toList (by decide) (by decide)).2 1 (by decide)).1

/-- C6, counterexample: in "/test/stream=+1" the text after "/stream=" starts
with '+', not with an unsigned decimal number; the SETUP is not answered 400:
it succeeds for stream 1 with the response 200. -/
theorem setup_signed_stream_index_accepted :
    ("+1".toList.head?.map Char.isDigit) = some false
    ∧ handle_setup_response exampleLib exampleClient (exampleUrl "/test/stream=+1") exampleSetup
        = some (exampleAfterSetupPlus, true)
    ∧ (responses exampleAfterSetupPlus.trace).map (fun r => r.code) = [200]
    ∧ Event.get_stream "s1".toList (exampleUrl "/test") 1 ∈ exampleAfterSetupPlus.trace := by
  refine ⟨by decide, by decide, by decide, by decide⟩

/-- The stages of `handle_setup_response`: it has no defined behaviour, or
answers 400 or 461 and nothing else happens, or it is `handle_setup_session`
for some url, stream index and transport. -/
theorem setup_response_stages (lib : RtspLib) (client : GstRTSPClient) (uri0 : GstRTSPUrl)
    (request : GstRTSPRequest) :
    handle_setup_response lib client uri0 request = none
    ∨ handle_setup_response lib client uri0 request
        = some (answered client GST_RTSP_STS_BAD_REQUEST request, false)
    ∨ handle_setup_response lib client uri0 request
        = some (answered client GST_RTSP_STS_UNSUPPORTED_TRANSPORT request, false)
    ∨ ∃ uri streamid ct, handle_setup_response lib client uri0 request
        = some (handle_setup_session lib client uri request streamid ct) := by
  have ht : ∀ uri streamid,
      handle_setup_transport lib client uri request streamid
        = (answered client GST_RTSP_STS_UNSUPPORTED_TRANSPORT request, false)
      ∨ ∃ ct, handle_setup_transport lib client uri request streamid
        = handle_setup_session lib client uri request streamid ct := by
    intro uri streamid
    unfold handle_setup_transport
    split
    · exact Or.inl rfl
    · dsimp only
      split
      · exact Or.inl rfl
      · split
        · exact Or.inl rfl
        · split
          · exact Or.inl rfl
          · split
            · exact Or.inl rfl
            · exact Or.inr ⟨_, rfl⟩
  unfold handle_setup_response
  dsimp only
  split
  · exact Or.inl rfl
  · exact Or.inr (Or.inl rfl)
  · split
    · exact Or.inr (Or.inl rfl)
    · rename_i uri _ _ _ streamid _
      rcases ht uri streamid with h | ⟨ct, h⟩
      · exact Or.inr (Or.inr (Or.inl (by rw [h])))
      · exact Or.inr (Or.inr (Or.inr ⟨uri, streamid, ct, by rw [h]⟩))

@[simp] theorem pool_store_head (s s' : GstRTSPSession) (rest : List GstRTSPSession)
    (fresh : List (Option CString)) (h : s.sessionid = s'.sessionid) :
    pool_store ⟨s :: rest, fresh⟩ s' = ⟨s' :: rest, fresh⟩ := by
  simp [pool_store, replaceFirst, h]

/-- C7 (amended): a SETUP gets past the stream index and the transport, or is
answered 400 or 461.  Past them, if it names an existing session that has no
session media for the url, nothing is looked up in the media mapping and the
response is 404 Not Found; if it has no Session header, the pool creates a
session, and the mapping has a factory for the url whose media is constructed
and prepared and has the stream, then the media is found through the factory,
constructed, prepared, attached to the new session before the session media
and the stream are fetched, and the response is 200. -/
theorem setup_manages_media_for_new_session (lib : RtspLib) (client : GstRTSPClient)
    (request : GstRTSPRequest) :
    (∀ uri0, handle_setup_response lib client uri0 request = none
      ∨ handle_setup_response lib client uri0 request
          = some (answered client GST_RTSP_STS_BAD_REQUEST request, false)
      ∨ handle_setup_response lib client uri0 request
          = some (answered client GST_RTSP_STS_UNSUPPORTED_TRANSPORT request, false)
      ∨ ∃ uri streamid ct, handle_setup_response lib client uri0 request
          = some (handle_setup_session lib client uri request streamid ct))
    ∧ ∀ uri streamid ct,
      (∀ sessid session,
        gst_rtsp_message_get_header request.headers GstRTSPHeaderField.SESSION 0 = some sessid →
        gst_rtsp_session_pool_find client.session_pool sessid = some session →
        gst_rtsp_session_get_media session uri = none →
        handle_setup_session lib client uri request streamid ct
          = ({ client with trace := client.trace ++
                [Event.pool_find sessid, Event.get_media sessid uri,
                 Event.send ⟨GST_RTSP_STS_NOT_FOUND, request, [], none⟩] }, false))
      ∧ (∀ id rest m stream,
        gst_rtsp_message_get_header request.headers GstRTSPHeaderField.SESSION 0 = none →
        client.session_pool.fresh = some id :: rest →
        gst_rtsp_media_mapping_find_factory client.media_mapping uri = some ⟨some m⟩ →
        gst_rtsp_media_prepare m = true →
        gst_rtsp_media_get_stream m streamid = some stream →
        handle_setup_session lib client uri request streamid ct
          = ({ client with
                session_pool :=
                  ⟨⟨id, [⟨uri, m, MediaState.Init, [(streamid, ct)]⟩]⟩
                    :: client.session_pool.sessions, rest⟩,
                trace := client.trace ++
                  [Event.pool_create, Event.find_factory uri, Event.factory_construct uri,
                   Event.media_prepare uri, Event.manage_media id uri, Event.get_media id uri,
                   Event.get_stream id uri streamid, Event.set_transport id uri streamid ct,
                   Event.send ⟨GST_RTSP_STS_OK, request,
                     [(GstRTSPHeaderField.SESSION, id),
                      (GstRTSPHeaderField.TRANSPORT,
                        lib.transport_as_text (lib.server_transport stream ct))],
                     none⟩] }, true)) := by
  refine ⟨fun uri0 => setup_response_stages lib client uri0 request, fun uri streamid ct =>
    ⟨?_, ?_⟩⟩
  · intro sessid session hh hf hm
    have hid := pool_find_id _ _ _ hf
    unfold handle_setup_session
    simp only [hh, log_session_pool, hf]
    unfold handle_setup_media
    simp only [Bool.false_eq_true, if_false]
    rcases setup_stream_cases lib (client.log (Event.pool_find sessid)) uri request streamid ct
        session false with ⟨_, h1⟩ | ⟨_, hm', _, _⟩ | ⟨_, _, hm', _, _⟩
    · rw [h1, hid]
      simp [GstRTSPClient.log]
    · rw [hm] at hm'; cases hm'
    · rw [hm] at hm'; cases hm'
  · intro id rest m stream hh hfresh hfac hprep hstream
    unfold handle_setup_session
    simp only [hh, log_session_pool, gst_rtsp_session_pool_create, hfresh]
    unfold handle_setup_media
    simp only [if_true]
    rcases find_media_cases ({ client.log Event.pool_create with
        session_pool := ⟨⟨id, []⟩ :: client.session_pool.sessions, rest⟩ }) uri request with
      ⟨hf, _⟩ | ⟨hf, _⟩ | ⟨m', hf, hp, _⟩ | ⟨m', hf, hp, h1⟩
    · simp only [log_media_mapping] at hf; rw [hfac] at hf; cases hf
    · simp only [log_media_mapping] at hf; rw [hfac] at hf; cases hf
    · simp only [log_media_mapping] at hf; rw [hfac] at hf
      simp only [Option.some.injEq, GstRTSPMediaFactory.mk.injEq] at hf
      subst hf
      simp only [gst_rtsp_media_prepare] at hprep
      rw [hprep] at hp; cases hp
    · simp only [log_media_mapping] at hf; rw [hfac] at hf
      simp only [Option.some.injEq, GstRTSPMediaFactory.mk.injEq] at hf
      subst hf
      rw [h1]
      dsimp only
      rcases setup_stream_cases lib
          { (((({ client.log Event.pool_create with
              session_pool := ⟨⟨id, []⟩ :: client.session_pool.sessions, rest⟩ } :
              GstRTSPClient).log (Event.find_factory uri)).log (Event.factory_construct uri)).log
              (Event.media_prepare uri)).log (Event.manage_media id uri) with
            session_pool := pool_store ⟨⟨id, []⟩ :: client.session_pool.sessions, rest⟩
              (gst_rtsp_session_manage_media ⟨id, []⟩ uri m) }
          uri request streamid ct (gst_rtsp_session_manage_media ⟨id, []⟩ uri m) true with
        ⟨hm, _⟩ | ⟨media, hm, hs, _⟩ | ⟨media, stream', hm, hs, h2⟩
      · rw [get_media_manage_media] at hm; cases hm
      · rw [get_media_manage_media] at hm
        simp only [Option.some.injEq] at hm
        subst hm
        simp only [gst_rtsp_session_media_get_stream] at hs
        rw [hstream] at hs; cases hs
      · rw [get_media_manage_media] at hm
        simp only [Option.some.injEq] at hm
        subst hm
        simp only [gst_rtsp_session_media_get_stream] at hs
        rw [hstream] at hs
        simp only [Option.some.injEq] at hs
        subst hs
        simp only [log_session_pool, log_trace] at h2 ⊢
        rw [h2]
        simp [gst_rtsp_session_manage_media, session_store, replaceFirst,
          session_media_set_transport, GstRTSPClient.log]

/-- C7, witness: `exampleSetup` on `exampleClient` creates the session "s1"
and attaches the media of "/test" to it. -/
theorem setup_manages_media_for_new_session_witness :
    (handle_setup_session exampleLib exampleClient (exampleUrl "/test") exampleSetup 0
      (exampleTransport 1 1 1 "client_port=5000-5001")).2 = true :=
  congrArg Prod.snd
    (((setup_manages_media_for_new_session exampleLib exampleClient exampleSetup).2
      (exampleUrl "/test") 0 (exampleTransport 1 1 1 "client_port=5000-5001")).2
      "s1".toList [] exampleMedia ⟨100, 9000⟩ (by decide) (by decide) (by decide) (by decide)
      (by decide))

/-- C7, counterexample: the session "s0" exists and has no session media for
"/test", the mapping has a factory for "/test" whose media prepares and has
stream 0; the SETUP of "/test/stream=0" in session "s0" is answered 404
without any call into the mapping, and the session is left without media. -/
theorem setup_existing_session_media_not_resolved :
    gst_rtsp_session_pool_find exampleClientIdle.session_pool "s0".toList
      = some ⟨"s0".toList, []⟩
    ∧ gst_rtsp_media_mapping_find_factory exampleClientIdle.media_mapping (exampleUrl "/test")
      = some ⟨some exampleMedia⟩
    ∧ gst_rtsp_media_prepare exampleMedia = true
    ∧ (gst_rtsp_media_get_stream exampleMedia 0).isSome = true
    ∧ handle_setup_response exampleLib exampleClientIdle (exampleUrl "/test/stream=0")
        exampleSetupIdle
      = some ({ exampleClientIdle with trace :=
          [Event.pool_find "s0".toList, Event.get_media "s0".toList (exampleUrl "/test"),
           Event.send ⟨GST_RTSP_STS_NOT_FOUND, exampleSetupIdle, [], none⟩] }, false) := by
  refine ⟨by decide, by decide, by decide, by decide, by decide⟩

/-! ## `ensure_session`, PLAY, PAUSE and TEARDOWN -/

/-- The three outcomes of `ensure_session`. -/
theorem ensure_session_cases (client : GstRTSPClient) (request : GstRTSPRequest) :
    (gst_rtsp_message_get_header request.headers GstRTSPHeaderField.SESSION 0 = none
      ∧ ensure_session client request
        = (answered client GST_RTSP_STS_SERVICE_UNAVAILABLE request, none))
    ∨ (∃ sessid,
      gst_rtsp_message_get_header request.headers GstRTSPHeaderField.SESSION 0 = some sessid
      ∧ gst_rtsp_session_pool_find client.session_pool sessid = none
      ∧ ensure_session client request
        = ({ client with trace := client.trace ++
              [Event.pool_find sessid,
               Event.send ⟨GST_RTSP_STS_SESSION_NOT_FOUND, request, [], none⟩] }, none))
    ∨ (∃ sessid session,
      gst_rtsp_message_get_header request.headers GstRTSPHeaderField.SESSION 0 = some sessid
      ∧ gst_rtsp_session_pool_find client.session_pool sessid = some session
      ∧ session.sessionid = sessid
      ∧ ensure_session client request = (client.log (Event.pool_find sessid), some session)) := by
  unfold ensure_session
  rcases hh : gst_rtsp_message_get_header request.headers GstRTSPHeaderField.SESSION 0 with
    _ | sessid
  · exact Or.inl ⟨rfl, rfl⟩
  · dsimp only
    rcases hf : gst_rtsp_session_pool_find (client.log (Event.pool_find sessid)).session_pool
      sessid with _ | session
    · refine Or.inr (Or.inl ⟨sessid, rfl, hf, ?_⟩)
      simp [generic_response_eq, GstRTSPClient.log]
    · exact Or.inr (Or.inr ⟨sessid, session, rfl, hf, pool_find_id _ _ _ hf, rfl⟩)

/-- PLAY, PAUSE and TEARDOWN when `ensure_session` gives no session. -/
theorem control_no_session (lib : RtspLib) (client : GstRTSPClient) (uri : GstRTSPUrl)
    (request : GstRTSPRequest) (c' : GstRTSPClient)
    (h : ensure_session client request = (c', none)) :
    handle_play_response lib client uri request = (c', false)
    ∧ handle_pause_response client uri request = (c', false)
    ∧ handle_teardown_response client uri request = (c', false) := by
  simp [handle_play_response, handle_pause_response, handle_teardown_response, h]

/-- PLAY, PAUSE and TEARDOWN when the session has no media for the url. -/
theorem control_no_media (lib : RtspLib) (client : GstRTSPClient) (uri : GstRTSPUrl)
    (request : GstRTSPRequest) (c' : GstRTSPClient) (session : GstRTSPSession)
    (h : ensure_session client request = (c', some session))
    (hm : gst_rtsp_session_get_media session uri = none) :
    handle_play_response lib client uri request
      = ((c'.log (Event.get_media session.sessionid uri)).log
          (Event.send ⟨GST_RTSP_STS_NOT_FOUND, request, [], none⟩), false)
    ∧ handle_pause_response client uri request
      = ((c'.log (Event.get_media session.sessionid uri)).log
          (Event.send ⟨GST_RTSP_STS_NOT_FOUND, request, [], none⟩), false)
    ∧ handle_teardown_response client uri request
      = ((c'.log (Event.get_media session.sessionid uri)).log
          (Event.send ⟨GST_RTSP_STS_NOT_FOUND, request, [], none⟩), false) := by
  simp [handle_play_response, handle_pause_response, handle_teardown_response, h, hm,
    generic_response_eq]

/-- C8 (amended): a PLAY, PAUSE or TEARDOWN of version 1.0 whose URL parses
is answered 503 Service Unavailable when it has no Session header, 454
Session Not Found when its Session id is not in the pool, and 404 Not Found
when the session exists but holds no session media for the sanitized URL; in
each case nothing else happens than the lookups and the response: the media
is not played, paused or stopped and the pool is unchanged. -/
theorem control_without_session_or_media (lib : RtspLib) (client : GstRTSPClient)
    (request : GstRTSPRequest) (uri0 : GstRTSPUrl)
    (hv : request.version = GST_RTSP_VERSION_1_0)
    (hu : lib.url_parse request.uri = some uri0)
    (hmeth : request.method = GstRTSPMethod.PLAY ∨ request.method = GstRTSPMethod.PAUSE
      ∨ request.method = GstRTSPMethod.TEARDOWN) :
    (gst_rtsp_message_get_header request.headers GstRTSPHeaderField.SESSION 0 = none →
      handle_request lib client request
        = some (answered client GST_RTSP_STS_SERVICE_UNAVAILABLE request))
    ∧ (∀ sessid,
      gst_rtsp_message_get_header request.headers GstRTSPHeaderField.SESSION 0 = some sessid →
      gst_rtsp_session_pool_find client.session_pool sessid = none →
      handle_request lib client request
        = some { client with trace := client.trace ++
            [Event.pool_find sessid,
             Event.send ⟨GST_RTSP_STS_SESSION_NOT_FOUND, request, [], none⟩] })
    ∧ (∀ sessid session,
      gst_rtsp_message_get_header request.headers GstRTSPHeaderField.SESSION 0 = some sessid →
      gst_rtsp_session_pool_find client.session_pool sessid = some session →
      gst_rtsp_session_get_media session { uri0 with abspath := santize_uri uri0.abspath }
        = none →
      handle_request lib client request
        = some { client with trace := client.trace ++
            [Event.pool_find sessid,
             Event.get_media sessid { uri0 with abspath := santize_uri uri0.abspath },
             Event.send ⟨GST_RTSP_STS_NOT_FOUND, request, [], none⟩] }) := by
  have hreq : ∀ c', 
      (handle_play_response lib client { uri0 with abspath := santize_uri uri0.abspath } request
          = (c', false)
        ∧ handle_pause_response client { uri0 with abspath := santize_uri uri0.abspath } request
          = (c', false)
        ∧ handle_teardown_response client { uri0 with abspath := santize_uri uri0.abspath }
            request = (c', false)) →
      handle_request lib client request = some c' := by
    intro c' ⟨h1, h2, h3⟩
    unfold handle_request
    rcases hmeth with hm | hm | hm <;> simp [hv, hu, hm, h1, h2, h3]
  refine ⟨fun hh => ?_, fun sessid hh hf => ?_, fun sessid session hh hf hm => ?_⟩
  · rcases ensure_session_cases client request with ⟨_, he⟩ | ⟨_, hh', _⟩ | ⟨_, _, hh', _⟩
    · exact hreq _ (control_no_session lib client _ request _ he)
    · rw [hh] at hh'; cases hh'
    · rw [hh] at hh'; cases hh'
  · rcases ensure_session_cases client request with ⟨hh', _⟩ | ⟨s', hh', _, he⟩ |
      ⟨s', _, hh', hf', _⟩
    · rw [hh] at hh'; cases hh'
    · rw [hh] at hh'; cases hh'
      exact hreq _ (control_no_session lib client _ request _ he)
    · rw [hh] at hh'; cases hh'
      rw [hf] at hf'; cases hf'
  · rcases ensure_session_cases client request with ⟨hh', _⟩ | ⟨s', hh', hf', _⟩ |
      ⟨s', session', hh', hf', hid, he⟩
    · rw [hh] at hh'; cases hh'
    · rw [hh] at hh'; cases hh'
      rw [hf] at hf'; cases hf'
    · rw [hh] at hh'; cases hh'
      rw [hf] at hf'; cases hf'
      have := control_no_media lib client _ request _ session he hm
      rw [hid] at this
      exact hreq _ (by simpa [GstRTSPClient.log] using this)

/-- C8, witness: a PLAY that names a session that is not in the pool. -/
theorem control_without_session_or_media_witness :
    handle_request exampleLib exampleClient
        (exampleRequest .PLAY "rtsp://host/test" [(.SESSION, "nope")])
      = some { exampleClient with trace := exampleClient.trace ++
          [Event.pool_find "nope".toList,
           Event.send ⟨GST_RTSP_STS_SESSION_NOT_FOUND,
             exampleRequest .PLAY "rtsp://host/test" [(.SESSION, "nope")], [], none⟩] } :=
  (control_without_session_or_media exampleLib exampleClient
    (exampleRequest .PLAY "rtsp://host/test" [(.SESSION, "nope")]) (exampleUrl "/test")
    (by decide) (by decide) (by decide)).2.1 "nope".toList (by decide) (by decide)

/-- C8, counterexample: a PLAY without Session header is answered 503 Service
Unavailable, not 454 Session Not Found. -/
theorem play_without_session_header_503 :
    gst_rtsp_message_get_header (exampleRequest .PLAY "rtsp://host/test" []).headers
        GstRTSPHeaderField.SESSION 0 = none
    ∧ handle_request exampleLib exampleClient (exampleRequest .PLAY "rtsp://host/test" [])
      = some (answered exampleClient 503 (exampleRequest .PLAY "rtsp://host/test" [])) := by
  refine ⟨by decide, by decide⟩

/-! ## PLAY: the RTP-Info header -/

theorem intercalate_cons (sep a : CString) (l : List CString) :
    sep.intercalate (a :: l) = a ++ (l.map (fun e => sep ++ e)).flatten := by
  induction l generalizing a with
  | nil => simp [List.intercalate]
  | cons b l ih =>
    have h := ih b
    simp only [List.intercalate] at h ⊢
    rw [List.intersperse_cons_cons, List.flatten_cons, List.flatten_cons, h]
    simp

theorem fmt_d_small (i : Nat) (h : i < 2 ^ 31) : fmt_d i = Nat.toDigits 10 i := by
  have h1 : i % 2 ^ 32 = i := Nat.mod_eq_of_lt (by omega)
  simp only [fmt_d, h1, h, if_true]

theorem rtpinfo_entry_small (uristr : CString) (i seqnum timestamp : Nat) (h : i < 2 ^ 31) :
    rtpinfo_entry uristr i seqnum timestamp = rtpinfo_text uristr i seqnum timestamp := by
  simp only [rtpinfo_entry, rtpinfo_text, fmt_d_small i h, fmt_u]

/-- The loop of `handle_play_response` from a positive index on. -/
theorem rtpinfo_loop_from (lib : RtspLib) (uri : GstRTSPUrl) (media : GstRTSPMedia) :
    ∀ (n i : Nat) (acc : CString), 0 < i → i + n = media.streams.length → i + n ≤ 2 ^ 31 →
      rtpinfo_loop lib uri media n i acc
        = acc ++ (((media.streams.drop i).enumFrom i).map (fun p => ", ".toList ++
            rtpinfo_text (lib.url_get_request_uri uri) p.1 p.2.seqnum p.2.timestamp)).flatten := by
  intro n
  induction n with
  | zero =>
    intro i acc _ hlen _
    have : media.streams.drop i = [] := List.drop_eq_nil_of_le (by omega)
    simp [rtpinfo_loop, this]
  | succ n ih =>
    intro i acc hi hlen hmax
    have hlt : i < media.streams.length := by omega
    have hdrop : media.streams.drop i = media.streams[i] :: media.streams.drop (i + 1) :=
      List.drop_eq_getElem_cons hlt
    have hget : gst_rtsp_media_get_stream media i = some media.streams[i] := by
      simp [gst_rtsp_media_get_stream, List.getElem?_eq_getElem hlt]
    rw [rtpinfo_loop]
    simp only [hget, Option.getD_some, hi, if_true]
    rw [ih (i + 1) _ (by omega) (by omega) (by omega), hdrop, List.enumFrom_cons,
      rtpinfo_entry_small _ _ _ _ (by omega)]
    simp

/-- The loop of `handle_play_response` builds the entries joined by ", ". -/
theorem rtpinfo_loop_eq (lib : RtspLib) (uri : GstRTSPUrl) (media : GstRTSPMedia)
    (hmax : gst_rtsp_media_n_streams media ≤ 2 ^ 31) :
    rtpinfo_loop lib uri media (gst_rtsp_media_n_streams media) 0 []
      = ", ".toList.intercalate (rtpinfo_entries (lib.url_get_request_uri uri) media.streams) := by
  unfold gst_rtsp_media_n_streams at hmax ⊢
  rcases hs : media.streams with _ | ⟨s, rest⟩
  · simp [rtpinfo_loop, rtpinfo_entries, List.intercalate]
  · rw [hs] at hmax
    have hget : gst_rtsp_media_get_stream media 0 = some s := by
      simp [gst_rtsp_media_get_stream, hs]
    simp only [List.length_cons, rtpinfo_loop, hget, Option.getD_some, Nat.lt_irrefl, if_false,
      List.nil_append]
    rw [rtpinfo_loop_from lib uri media rest.length (0 + 1) _ (by omega)
      (by rw [hs]; simp; omega) (by simp at hmax; omega)]
    rw [hs, rtpinfo_entry_small _ _ _ _ (by omega)]
    simp only [rtpinfo_entries, List.enum_cons, List.map_cons, intercalate_cons, List.map_map]
    rfl

/-- C9: a PLAY that names a session of the pool which has a session media for
the url, with n streams (n at most 2^31, so that `%d` prints each index as
written), sends one response, 200, whose RTP-Info header is the n entries
`url=<request-uri>/stream=<i>;seq=<seqnum of stream i>;rtptime=<timestamp of
stream i>` for i = 0, ..., n-1 in this order, joined by ", "; the media is
set to play after the response is sent. -/
theorem play_rtp_info (lib : RtspLib) (client : GstRTSPClient) (uri : GstRTSPUrl)
    (request : GstRTSPRequest) (sessid : CString) (session : GstRTSPSession)
    (media : GstRTSPSessionMedia)
    (hh : gst_rtsp_message_get_header request.headers GstRTSPHeaderField.SESSION 0 = some sessid)
    (hf : gst_rtsp_session_pool_find client.session_pool sessid = some session)
    (hm : gst_rtsp_session_get_media session uri = some media)
    (hmax : gst_rtsp_media_n_streams media.media ≤ 2 ^ 31) :
    handle_play_response lib client uri request
      = ({ client with
            session_pool := pool_store client.session_pool
              (session_store session { media with state := MediaState.Playing }),
            trace := client.trace ++
              [Event.pool_find sessid, Event.get_media sessid uri,
               Event.send ⟨GST_RTSP_STS_OK, request,
                 [(GstRTSPHeaderField.RTP_INFO,
                   ", ".toList.intercalate
                     (rtpinfo_entries (lib.url_get_request_uri uri) media.media.streams))],
                 none⟩,
               Event.media_play sessid uri] }, false)
    ∧ (rtpinfo_entries (lib.url_get_request_uri uri) media.media.streams).length
        = gst_rtsp_media_n_streams media.media
    ∧ ∀ i (hi : i < media.media.streams.length),
        (rtpinfo_entries (lib.url_get_request_uri uri) media.media.streams)[i]?
          = some (rtpinfo_text (lib.url_get_request_uri uri) i
              (media.media.streams.get ⟨i, hi⟩).seqnum
              (media.media.streams.get ⟨i, hi⟩).timestamp) := by
  refine ⟨?_, by simp [rtpinfo_entries, gst_rtsp_media_n_streams], ?_⟩
  · rcases ensure_session_cases client request with ⟨hh', _⟩ | ⟨s', hh', hf', _⟩ |
      ⟨s', session', hh', hf', hid, he⟩
    · rw [hh] at hh'; cases hh'
    · rw [hh] at hh'; cases hh'
      rw [hf] at hf'; cases hf'
    · rw [hh] at hh'; cases hh'
      rw [hf] at hf'; cases hf'
      unfold handle_play_response
      simp only [he, hm, rtpinfo_loop_eq lib uri media.media hmax, hid]
      simp [handle_response, set_media_state, GstRTSPClient.log,
        gst_rtsp_message_init_response, gst_rtsp_message_add_header]
  · intro i hi
    simp [rtpinfo_entries, List.getElem?_enum, List.getElem?_eq_getElem hi]

/-- C9, witness: PLAY of "/test" in the session "s1", whose media has two
streams: the RTP-Info header has two entries. -/
theorem play_rtp_info_witness :
    (handle_play_response exampleLib exampleClientReady (exampleUrl "/test")
        (exampleRequest .PLAY "rtsp://host/test" [(.SESSION, "s1")])).1.trace
      = [Event.pool_find "s1".toList, Event.get_media "s1".toList (exampleUrl "/test"),
         Event.send ⟨GST_RTSP_STS_OK, exampleRequest .PLAY "rtsp://host/test" [(.SESSION, "s1")],
           [(GstRTSPHeaderField.RTP_INFO,
             ("url=rtsp://host:554/test/stream=0;seq=100;rtptime=9000, " ++
              "url=rtsp://host:554/test/stream=1;seq=7;rtptime=42").toList)], none⟩,
         Event.media_play "s1".toList (exampleUrl "/test")] := by
  have h := (play_rtp_info exampleLib exampleClientReady (exampleUrl "/test")
    (exampleRequest .PLAY "rtsp://host/test" [(.SESSION, "s1")]) "s1".toList exampleSessionTest
    ⟨exampleUrl "/test", exampleMedia, MediaState.Init, []⟩
    (by decide) (by decide) (by decide) (by decide)).1
  rw [h]
  decide

/-! ## Properties of the pool that every request keeps -/

@[simp] theorem answered_session_pool (client : GstRTSPClient) (code : GstRTSPStatusCode)
    (request : GstRTSPRequest) :
    (answered client code request).session_pool = client.session_pool := rfl

theorem setup_stream_pool {P : GstRTSPSessionPool → Prop} (hP : PoolInvariant P)
    (lib : RtspLib) (client : GstRTSPClient) (uri : GstRTSPUrl)
    (request : GstRTSPRequest) (streamid : Nat) (ct : GstRTSPTransport)
    (session : GstRTSPSession) (need : Bool) (h : P client.session_pool) :
    P (handle_setup_stream lib client uri request streamid ct session need).1.session_pool := by
  rcases setup_stream_cases lib client uri request streamid ct session need with
    ⟨_, h1⟩ | ⟨_, _, _, h1⟩ | ⟨_, _, _, _, h1⟩ <;> rw [h1]
  · exact h
  · exact h
  · exact hP.store _ _ h

theorem setup_media_pool {P : GstRTSPSessionPool → Prop} (hP : PoolInvariant P)
    (lib : RtspLib) (client : GstRTSPClient) (uri : GstRTSPUrl)
    (request : GstRTSPRequest) (streamid : Nat) (ct : GstRTSPTransport)
    (session : GstRTSPSession) (need : Bool) (h : P client.session_pool) :
    P (handle_setup_media lib client uri request streamid ct session need).1.session_pool := by
  unfold handle_setup_media
  cases need
  · simp only [Bool.false_eq_true, if_false]
    exact setup_stream_pool hP _ _ _ _ _ _ _ _ h
  · simp only [if_true]
    have hfp := (find_media_pool client uri request).1
    rcases hfm : find_media client uri request with ⟨cf, _ | m⟩
    · rw [hfm] at hfp
      exact setup_stream_pool hP _ _ _ _ _ _ _ _ (by rw [hfp]; exact h)
    · rw [hfm] at hfp
      dsimp only
      refine setup_stream_pool hP _ _ _ _ _ _ _ _ ?_
      exact hP.store _ _ (by rw [log_session_pool, hfp]; exact h)

theorem setup_session_pool {P : GstRTSPSessionPool → Prop} (hP : PoolInvariant P)
    (lib : RtspLib) (client : GstRTSPClient) (uri : GstRTSPUrl)
    (request : GstRTSPRequest) (streamid : Nat) (ct : GstRTSPTransport)
    (h : P client.session_pool) :
    P (handle_setup_session lib client uri request streamid ct).1.session_pool := by
  unfold handle_setup_session
  split
  · dsimp only
    split
    · exact h
    · exact setup_media_pool hP _ _ _ _ _ _ _ _ h
  · dsimp only
    have hc := hP.create _ h
    split
    · next pool hcr =>
      simp only [log_session_pool] at hcr
      rw [hcr] at hc
      exact hc
    · next pool session hcr =>
      simp only [log_session_pool] at hcr
      rw [hcr] at hc
      exact setup_media_pool hP _ _ _ _ _ _ _ _ hc

theorem setup_response_pool {P : GstRTSPSessionPool → Prop} (hP : PoolInvariant P)
    (lib : RtspLib) (client : GstRTSPClient) (uri : GstRTSPUrl)
    (request : GstRTSPRequest) (r : GstRTSPClient × Bool) (h : P client.session_pool)
    (hr : handle_setup_response lib client uri request = some r) :
    P r.1.session_pool := by
  rcases setup_response_stages lib client uri request with h1 | h1 | h1 |
    ⟨uri', streamid, ct, h1⟩ <;> rw [h1] at hr
  · cases hr
  · cases hr; exact h
  · cases hr; exact h
  · cases hr; exact setup_session_pool hP _ _ _ _ _ _ h

theorem ensure_session_pool (client : GstRTSPClient) (request : GstRTSPRequest) :
    (ensure_session client request).1.session_pool = client.session_pool := by
  rcases ensure_session_cases client request with ⟨_, h⟩ | ⟨_, _, _, h⟩ | ⟨_, _, _, _, _, h⟩ <;>
    rw [h] <;> rfl

theorem control_pool {P : GstRTSPSessionPool → Prop} (hP : PoolInvariant P)
    (lib : RtspLib) (client : GstRTSPClient) (uri : GstRTSPUrl)
    (request : GstRTSPRequest) (h : P client.session_pool) :
    P (handle_play_response lib client uri request).1.session_pool
    ∧ P (handle_pause_response client uri request).1.session_pool
    ∧ P (handle_teardown_response client uri request).1.session_pool := by
  have hep := ensure_session_pool client request
  rcases he : ensure_session client request with ⟨c1, _ | session⟩
  · rw [he] at hep
    obtain ⟨h1, h2, h3⟩ := control_no_session lib client uri request c1 he
    rw [h1, h2, h3]
    exact ⟨by rw [hep]; exact h, by rw [hep]; exact h, by rw [hep]; exact h⟩
  · rw [he] at hep
    have hc1 : P c1.session_pool := by rw [hep]; exact h
    rcases hm : gst_rtsp_session_get_media session uri with _ | media
    · obtain ⟨h1, h2, h3⟩ := control_no_media lib client uri request c1 session he hm
      rw [h1, h2, h3]
      exact ⟨hc1, hc1, hc1⟩
    · refine ⟨?_, ?_, ?_⟩
      · simp only [handle_play_response, he, hm]
        exact hP.store _ _ hc1
      · simp only [handle_pause_response, he, hm]
        exact hP.store _ _ hc1
      · simp only [handle_teardown_response, he, hm]
        exact hP.remove _ _ (hP.store _ _ hc1)

theorem describe_pool (client : GstRTSPClient) (uri : GstRTSPUrl) (request : GstRTSPRequest) :
    (handle_describe_response client uri request).1.session_pool = client.session_pool := by
  have hfp := (find_media_pool client uri request).1
  unfold handle_describe_response
  rcases hfm : find_media client uri request with ⟨cf, _ | m⟩
  · rw [hfm] at hfp; exact hfp
  · rw [hfm] at hfp
    dsimp only
    split
    · exact hfp
    · exact hfp

/-- Every request keeps a property of the pool that the pool operations keep. -/
theorem handle_request_pool {P : GstRTSPSessionPool → Prop} (hP : PoolInvariant P)
    (lib : RtspLib) (client : GstRTSPClient) (request : GstRTSPRequest) (c' : GstRTSPClient)
    (h : P client.session_pool) (hr : handle_request lib client request = some c') :
    P c'.session_pool := by
  unfold handle_request at hr
  split at hr
  · cases hr; exact h
  · split at hr
    · cases hr; exact h
    · next uri _ =>
      obtain ⟨h1, h2, h3⟩ := control_pool hP lib client
        { uri with abspath := santize_uri uri.abspath } request h
      split at hr
      · cases hr; exact h
      · cases hr; rw [describe_pool]; exact h
      · simp only [Option.map_eq_some'] at hr
        obtain ⟨r, hr1, hr2⟩ := hr
        subst hr2
        exact setup_response_pool hP _ _ _ _ _ h hr1
      · cases hr; exact h1
      · cases hr; exact h2
      · cases hr; exact h3
      all_goals (cases hr; exact h)

/-- The loop of `handle_client` keeps such a property. -/
theorem handle_client_pool {P : GstRTSPSessionPool → Prop} (hP : PoolInvariant P)
    (lib : RtspLib) (requests : List (Option GstRTSPRequest)) :
    ∀ (client c' : GstRTSPClient), P client.session_pool →
      handle_client lib client requests = some c' → P c'.session_pool := by
  induction requests with
  | nil =>
    intro client c' h hr
    simp only [handle_client, Option.some.injEq] at hr
    subst hr; exact h
  | cons o rest ih =>
    intro client c' h hr
    cases o with
    | none =>
      simp only [handle_client, Option.some.injEq] at hr
      subst hr; exact h
    | some request =>
      simp only [handle_client] at hr
      split at hr
      · cases hr
      · next c1 h1 => exact ih c1 c' (handle_request_pool hP lib client request c1 h h1) hr

/-! ## TEARDOWN -/

theorem find_replaceFirst_none {α : Type} (p q : α → Bool) (new : α) (l : List α)
    (hq : ∀ x, q x = true → p x = p new) (h : l.find? p = none) :
    (replaceFirst q new l).find? p = none := by
  induction l with
  | nil => rfl
  | cons x xs ih =>
    rw [List.find?_cons] at h
    rw [replaceFirst]
    cases hx : p x
    · rw [hx] at h
      by_cases hqx : q x = true
      · rw [if_pos hqx, List.find?_cons, ← hq x hqx, hx]
        exact h
      · rw [if_neg hqx, List.find?_cons, hx]
        exact ih h
    · rw [hx] at h; cases h

theorem sessionGone_invariant (sessid : CString) : PoolInvariant (SessionGone sessid) where
  store := by
    intro pool session ⟨h1, h2⟩
    refine ⟨?_, h2⟩
    unfold gst_rtsp_session_pool_find pool_store at *
    exact find_replaceFirst_none _ _ _ _ (fun x hx => by
      have : x.sessionid = session.sessionid := by simpa using hx
      simp [this]) h1
  create := by
    intro pool ⟨h1, h2⟩
    unfold gst_rtsp_session_pool_create
    split
    · exact ⟨h1, h2⟩
    · next rest hf =>
      exact ⟨h1, fun o ho => h2 o (by rw [hf]; simp [ho])⟩
    · next id rest hf =>
      refine ⟨?_, fun o ho => h2 o (by rw [hf]; simp [ho])⟩
      have hne : id ≠ sessid := fun he => h2 (some id) (by rw [hf]; simp) (by rw [he])
      unfold gst_rtsp_session_pool_find at *
      simp only [List.find?_cons]
      simp [hne, h1]
  remove := by
    intro pool session ⟨h1, h2⟩
    refine ⟨?_, h2⟩
    unfold gst_rtsp_session_pool_find gst_rtsp_session_pool_remove at *
    simp only [List.find?_eq_none] at h1 ⊢
    intro x hx
    exact h1 x (List.mem_filter.mp hx).1

theorem pool_find_remove (pool : GstRTSPSessionPool) (session : GstRTSPSession) :
    gst_rtsp_session_pool_find (gst_rtsp_session_pool_remove pool session) session.sessionid
      = none := by
  unfold gst_rtsp_session_pool_find gst_rtsp_session_pool_remove
  simp only [List.find?_eq_none]
  intro x hx
  simpa using (List.mem_filter.mp hx).2

/-- C10: a TEARDOWN that names a session of the pool which has a session
media for the url stops the media, removes the session from the pool and
then sends 200 for the request from which the Session header was removed.
Afterwards the pool finds no session for this id, and after any further
requests on the connection (the pool never creating this id again) a PLAY
with this Session id is answered 454 Session Not Found. -/
theorem teardown_removes_session (lib : RtspLib) (client : GstRTSPClient) (uri : GstRTSPUrl)
    (request : GstRTSPRequest) (sessid : CString) (session : GstRTSPSession)
    (media : GstRTSPSessionMedia)
    (hh : gst_rtsp_message_get_header request.headers GstRTSPHeaderField.SESSION 0 = some sessid)
    (hf : gst_rtsp_session_pool_find client.session_pool sessid = some session)
    (hm : gst_rtsp_session_get_media session uri = some media) :
    ∃ c', handle_teardown_response client uri request = (c', false)
      ∧ c'.trace = client.trace ++
          [Event.pool_find sessid, Event.get_media sessid uri, Event.media_stop sessid uri,
           Event.pool_remove sessid,
           Event.send ⟨GST_RTSP_STS_OK,
             gst_rtsp_message_remove_header request GstRTSPHeaderField.SESSION, [], none⟩]
      ∧ gst_rtsp_message_get_header
          (gst_rtsp_message_remove_header request GstRTSPHeaderField.SESSION).headers
          GstRTSPHeaderField.SESSION 0 = none
      ∧ c'.session_pool = gst_rtsp_session_pool_remove
          (pool_store client.session_pool
            (session_store session { media with state := MediaState.Stopped })) session
      ∧ gst_rtsp_session_pool_find c'.session_pool sessid = none
      ∧ ∀ (later : List GstRTSPRequest) (c'' : GstRTSPClient) (play : GstRTSPRequest)
          (playuri : GstRTSPUrl),
          (∀ o ∈ client.session_pool.fresh, o ≠ some sessid) →
          handle_client lib c' (later.map some) = some c'' →
          play.method = GstRTSPMethod.PLAY → play.version = GST_RTSP_VERSION_1_0 →
          lib.url_parse play.uri = some playuri →
          gst_rtsp_message_get_header play.headers GstRTSPHeaderField.SESSION 0 = some sessid →
          handle_request lib c'' play
            = some { c'' with trace := c''.trace ++
                [Event.pool_find sessid,
                 Event.send ⟨GST_RTSP_STS_SESSION_NOT_FOUND, play, [], none⟩] } := by
  have hid : session.sessionid = sessid := pool_find_id _ _ _ hf
  have he : ensure_session client request = (client.log (Event.pool_find sessid), some session) := by
    rcases ensure_session_cases client request with ⟨hh', _⟩ | ⟨s', hh', hf', _⟩ |
      ⟨s', session', hh', hf', _, he⟩
    · rw [hh] at hh'; cases hh'
    · rw [hh] at hh'; cases hh'
      rw [hf] at hf'; cases hf'
    · rw [hh] at hh'; cases hh'
      rw [hf] at hf'; cases hf'
      exact he
  have hgone : gst_rtsp_session_pool_find (gst_rtsp_session_pool_remove
      (pool_store client.session_pool
        (session_store session { media with state := MediaState.Stopped })) session) sessid
      = none := by
    have := pool_find_remove (pool_store client.session_pool
      (session_store session { media with state := MediaState.Stopped })) session
    rw [hid] at this
    exact this
  have hres : handle_teardown_response client uri request
      = ({ client with
            session_pool := gst_rtsp_session_pool_remove
              (pool_store client.session_pool
                (session_store session { media with state := MediaState.Stopped })) session,
            trace := client.trace ++
              [Event.pool_find sessid, Event.get_media sessid uri, Event.media_stop sessid uri,
               Event.pool_remove sessid,
               Event.send ⟨GST_RTSP_STS_OK,
                 gst_rtsp_message_remove_header request GstRTSPHeaderField.SESSION, [],
                 none⟩] }, false) := by
    simp only [handle_teardown_response, he, hm]
    simp [handle_response, set_media_state, GstRTSPClient.log, hid,
      gst_rtsp_message_init_response]
  refine ⟨_, hres, rfl, ?_, rfl, hgone, ?_⟩
  · simp [gst_rtsp_message_get_header, gst_rtsp_message_remove_header]
  · intro later c'' play playuri hfresh hlater hmeth hver hurl hplay
    have hinv : SessionGone sessid c''.session_pool := by
      refine handle_client_pool (sessionGone_invariant sessid) lib _ _ c'' ?_ hlater
      exact ⟨hgone, hfresh⟩
    rcases ensure_session_cases c'' play with ⟨hh', _⟩ | ⟨s', hh', _, he'⟩ |
      ⟨s', _, hh', hf', _, _⟩
    · rw [hplay] at hh'; cases hh'
    · rw [hplay] at hh'; cases hh'
      have := (control_no_session lib c'' { playuri with abspath := santize_uri playuri.abspath }
        play _ he').1
      simp [handle_request, hver, hurl, hmeth, this]
    · rw [hplay] at hh'; cases hh'
      rw [hinv.1] at hf'; cases hf'

/-- C10, witness: TEARDOWN of "/test" in the session "s1"; and on one
connection a SETUP, a TEARDOWN with the session id the SETUP returned and a
PLAY with this id are answered 200, 200 and 454. -/
theorem teardown_removes_session_witness :
    (∃ c', handle_teardown_response exampleClientReady (exampleUrl "/test")
          (exampleRequest .TEARDOWN "rtsp://host/test" [(.SESSION, "s1")]) = (c', false)
        ∧ gst_rtsp_session_pool_find c'.session_pool "s1".toList = none)
    ∧ (handle_client exampleLib exampleClient
        [some exampleSetup,
         some (exampleRequest .TEARDOWN "rtsp://host/test" [(.SESSION, "s1")]),
         some (exampleRequest .PLAY "rtsp://host/test" [(.SESSION, "s1")])]).map
        (fun c => (responses c.trace).map (fun r => r.code)) = some [200, 200, 454] := by
  obtain ⟨c', h1, _, _, _, h5, _⟩ := teardown_removes_session exampleLib exampleClientReady
    (exampleUrl "/test") (exampleRequest .TEARDOWN "rtsp://host/test" [(.SESSION, "s1")])
    "s1".toList exampleSessionTest ⟨exampleUrl "/test", exampleMedia, MediaState.Init, []⟩
    (by decide) (by decide) (by decide)
  exact ⟨⟨c', h1, h5⟩, by decide⟩

/-! ## DESCRIBE -/

theorem responses_log_send (client : GstRTSPClient) (r : GstRTSPResponse) :
    responses (client.log (Event.send r)).trace = responses client.trace ++ [r] := by
  simp [responses, List.filterMap_append]

theorem responses_log_find_factory (client : GstRTSPClient) (u : GstRTSPUrl) :
    responses (client.log (Event.find_factory u)).trace = responses client.trace := by
  simp [responses, List.filterMap_append]

theorem responses_log_factory_construct (client : GstRTSPClient) (u : GstRTSPUrl) :
    responses (client.log (Event.factory_construct u)).trace = responses client.trace := by
  simp [responses, List.filterMap_append]

theorem responses_log_media_prepare (client : GstRTSPClient) (u : GstRTSPUrl) :
    responses (client.log (Event.media_prepare u)).trace = responses client.trace := by
  simp [responses, List.filterMap_append]

/-- The response of `handle_describe_response`, by the outcome of the lookup:
one response is sent, and the pool is left as it was. -/
theorem describe_cases (client : GstRTSPClient) (u : GstRTSPUrl) (request : GstRTSPRequest) :
    ∃ r, responses (handle_describe_response client u request).1.trace
        = responses client.trace ++ [r]
      ∧ r.request = request
      ∧ (gst_rtsp_media_mapping_find_factory client.media_mapping u = none →
          r = ⟨GST_RTSP_STS_NOT_FOUND, request, [], none⟩)
      ∧ (∀ f, gst_rtsp_media_mapping_find_factory client.media_mapping u = some f →
          (gst_rtsp_media_factory_construct f u = none
            ∨ ∃ m, gst_rtsp_media_factory_construct f u = some m
                ∧ (gst_rtsp_media_prepare m = false ∨ gst_rtsp_sdp_from_media m = none)) →
          r = ⟨GST_RTSP_STS_SERVICE_UNAVAILABLE, request, [], none⟩)
      ∧ (∀ f m sdp, gst_rtsp_media_mapping_find_factory client.media_mapping u = some f →
          gst_rtsp_media_factory_construct f u = some m →
          gst_rtsp_media_prepare m = true → gst_rtsp_sdp_from_media m = some sdp →
          r = ⟨GST_RTSP_STS_OK, request,
                [(GstRTSPHeaderField.CONTENT_TYPE, "application/sdp".toList),
                 (GstRTSPHeaderField.CONTENT_BASE,
                  "rtsp://".toList ++ u.host ++ ":".toList ++ Nat.toDigits 10 u.port
                    ++ u.abspath ++ "/".toList)],
                some sdp⟩) := by
  unfold handle_describe_response
  rcases find_media_cases client u request with ⟨hf, h1⟩ | ⟨hf, h1⟩ | ⟨m, hf, hp, h1⟩ |
    ⟨m, hf, hp, h1⟩
  · rw [h1]
    refine ⟨⟨GST_RTSP_STS_NOT_FOUND, request, [], none⟩, ?_, rfl, fun _ => rfl, ?_, ?_⟩
    · simp [generic_response_eq, responses, List.filterMap_append]
    · intro f hf'; rw [hf] at hf'; cases hf'
    · intro f m sdp hf'; rw [hf] at hf'; cases hf'
  · rw [h1]
    refine ⟨⟨GST_RTSP_STS_SERVICE_UNAVAILABLE, request, [], none⟩, ?_, rfl, ?_, fun _ _ _ => rfl,
      ?_⟩
    · simp [generic_response_eq, responses, List.filterMap_append]
    · intro hf'; rw [hf] at hf'; cases hf'
    · intro f m sdp hf' hc; rw [hf] at hf'; cases hf'
      simp [gst_rtsp_media_factory_construct] at hc
  · rw [h1]
    refine ⟨⟨GST_RTSP_STS_SERVICE_UNAVAILABLE, request, [], none⟩, ?_, rfl, ?_, fun _ _ _ => rfl,
      ?_⟩
    · simp [generic_response_eq, responses, List.filterMap_append]
    · intro hf'; rw [hf] at hf'; cases hf'
    · intro f m' sdp hf' hc hp'; rw [hf] at hf'; cases hf'
      simp only [gst_rtsp_media_factory_construct, Option.some.injEq] at hc
      subst hc
      simp [gst_rtsp_media_prepare, hp] at hp'
  · rw [h1]
    dsimp only
    rcases hs : gst_rtsp_sdp_from_media m with _ | sdp
    · refine ⟨⟨GST_RTSP_STS_SERVICE_UNAVAILABLE, request, [], none⟩, ?_, rfl, ?_,
        fun _ _ _ => rfl, ?_⟩
      · simp [generic_response_eq, responses, List.filterMap_append]
      · intro hf'; rw [hf] at hf'; cases hf'
      · intro f m' sdp hf' hc _ hs'; rw [hf] at hf'; cases hf'
        simp only [gst_rtsp_media_factory_construct, Option.some.injEq] at hc
        subst hc
        rw [hs] at hs'; cases hs'
    · refine ⟨⟨GST_RTSP_STS_OK, request,
          [(GstRTSPHeaderField.CONTENT_TYPE, "application/sdp".toList),
           (GstRTSPHeaderField.CONTENT_BASE,
            "rtsp://".toList ++ u.host ++ ":".toList ++ Nat.toDigits 10 u.port
              ++ u.abspath ++ "/".toList)], some sdp⟩, ?_, ?_, ?_, ?_, ?_⟩
      · simp only [handle_response, responses_log_send, responses_log_find_factory,
          responses_log_factory_construct, responses_log_media_prepare]
        rfl
      · rfl
      · intro hf'; rw [hf] at hf'; cases hf'
      · intro f hf' hc; rw [hf] at hf'; cases hf'
        rcases hc with hc | ⟨m', hc, hc'⟩
        · simp [gst_rtsp_media_factory_construct] at hc
        · simp only [gst_rtsp_media_factory_construct, Option.some.injEq] at hc
          subst hc
          rcases hc' with hc' | hc'
          · simp [gst_rtsp_media_prepare, hp] at hc'
          · rw [hs] at hc'; cases hc'
      · intro f m' sdp' hf' hc _ hs'; rw [hf] at hf'; cases hf'
        simp only [gst_rtsp_media_factory_construct, Option.some.injEq] at hc
        subst hc
        rw [hs] at hs'; cases hs'
        rfl

theorem handle_request_describe (lib : RtspLib) (client : GstRTSPClient)
    (request : GstRTSPRequest) (uri : GstRTSPUrl)
    (hv : request.version = GST_RTSP_VERSION_1_0)
    (hm : request.method = GstRTSPMethod.DESCRIBE)
    (hu : lib.url_parse request.uri = some uri) :
    handle_request lib client request
      = some (handle_describe_response client
          { uri with abspath := santize_uri uri.abspath } request).1 := by
  unfold handle_request
  simp [hv, hu, hm]

/-- C11: a DESCRIBE of version 1.0 whose URL parses is answered by exactly one
response: 404 Not Found if no factory matches the sanitized URL; 503 Service
Unavailable if the factory constructs no media, the media fails to prepare or
gives no SDP; otherwise 200 with Content-Type "application/sdp", Content-Base
"rtsp://<host>:<port><sanitized path>/" and the SDP text as body.  The
request enters the response only as the message it answers: a DESCRIBE for the
same URL with any other headers (Accept headers included) gets the same status,
headers and body. -/
theorem describe_outcome (lib : RtspLib) (client : GstRTSPClient)
    (request : GstRTSPRequest) (uri : GstRTSPUrl)
    (hv : request.version = GST_RTSP_VERSION_1_0)
    (hm : request.method = GstRTSPMethod.DESCRIBE)
    (hu : lib.url_parse request.uri = some uri) :
    ∃ c' r, handle_request lib client request = some c'
      ∧ responses c'.trace = responses client.trace ++ [r]
      ∧ r.request = request
      ∧ (gst_rtsp_media_mapping_find_factory client.media_mapping
            { uri with abspath := santize_uri uri.abspath } = none →
          r = ⟨GST_RTSP_STS_NOT_FOUND, request, [], none⟩)
      ∧ (∀ f, gst_rtsp_media_mapping_find_factory client.media_mapping
            { uri with abspath := santize_uri uri.abspath } = some f →
          (gst_rtsp_media_factory_construct f { uri with abspath := santize_uri uri.abspath }
              = none
            ∨ ∃ m, gst_rtsp_media_factory_construct f
                  { uri with abspath := santize_uri uri.abspath } = some m
                ∧ (gst_rtsp_media_prepare m = false ∨ gst_rtsp_sdp_from_media m = none)) →
          r = ⟨GST_RTSP_STS_SERVICE_UNAVAILABLE, request, [], none⟩)
      ∧ (∀ f m sdp, gst_rtsp_media_mapping_find_factory client.media_mapping
            { uri with abspath := santize_uri uri.abspath } = some f →
          gst_rtsp_media_factory_construct f { uri with abspath := santize_uri uri.abspath }
            = some m →
          gst_rtsp_media_prepare m = true → gst_rtsp_sdp_from_media m = some sdp →
          r = ⟨GST_RTSP_STS_OK, request,
                [(GstRTSPHeaderField.CONTENT_TYPE, "application/sdp".toList),
                 (GstRTSPHeaderField.CONTENT_BASE,
                  "rtsp://".toList ++ uri.host ++ ":".toList ++ Nat.toDigits 10 uri.port
                    ++ santize_uri uri.abspath ++ "/".toList)],
                some sdp⟩)
      ∧ ∀ request' : GstRTSPRequest, request'.version = GST_RTSP_VERSION_1_0 →
          request'.method = GstRTSPMethod.DESCRIBE → request'.uri = request.uri →
          ∃ c'', handle_request lib client request' = some c''
            ∧ responses c''.trace = responses client.trace ++ [{ r with request := request' }] := by
  obtain ⟨r, h1, h2, h3, h4, h5⟩ :=
    describe_cases client { uri with abspath := santize_uri uri.abspath } request
  refine ⟨_, r, handle_request_describe lib client request uri hv hm hu, h1, h2, h3, h4, h5, ?_⟩
  intro request' hv' hm' hu'
  obtain ⟨r', g1, _, g3, g4, g5⟩ :=
    describe_cases client { uri with abspath := santize_uri uri.abspath } request'
  refine ⟨_, handle_request_describe lib client request' uri hv' hm' (hu' ▸ hu), ?_⟩
  rw [g1]
  congr 2
  rcases hf : gst_rtsp_media_mapping_find_factory client.media_mapping
      { uri with abspath := santize_uri uri.abspath } with _ | f
  · rw [g3 hf, h3 hf]
  · rcases hc : gst_rtsp_media_factory_construct f
        { uri with abspath := santize_uri uri.abspath } with _ | m
    · rw [g4 f hf (Or.inl hc), h4 f hf (Or.inl hc)]
    · cases hp : gst_rtsp_media_prepare m
      · rw [g4 f hf (Or.inr ⟨m, hc, Or.inl hp⟩), h4 f hf (Or.inr ⟨m, hc, Or.inl hp⟩)]
      · rcases hs : gst_rtsp_sdp_from_media m with _ | sdp
        · rw [g4 f hf (Or.inr ⟨m, hc, Or.inr hs⟩), h4 f hf (Or.inr ⟨m, hc, Or.inr hs⟩)]
        · rw [g5 f m sdp hf hc hp hs, h5 f m sdp hf hc hp hs]

/-- C11, witness: a DESCRIBE of "//test/" with an Accept header the server
cannot serve is answered 200 with the SDP of "/test". -/
theorem describe_outcome_witness :
    (handle_request exampleLib exampleClient
        (exampleRequest .DESCRIBE "rtsp://host//test/" [(.ACCEPT, "text/html")])).map
      (fun c => responses c.trace)
      = some [⟨GST_RTSP_STS_OK,
          exampleRequest .DESCRIBE "rtsp://host//test/" [(.ACCEPT, "text/html")],
          [(GstRTSPHeaderField.CONTENT_TYPE, "application/sdp".toList),
           (GstRTSPHeaderField.CONTENT_BASE, "rtsp://host:554/test/".toList)],
          some "v=0".toList⟩] := by
  obtain ⟨c', r, h1, h2, _, _, _, h5, _⟩ := describe_outcome exampleLib exampleClient
    (exampleRequest .DESCRIBE "rtsp://host//test/" [(.ACCEPT, "text/html")])
    (exampleUrl "//test/") (by decide) (by decide) (by decide)
  rw [h1, Option.map_some', h2,
    h5 ⟨some exampleMedia⟩ exampleMedia "v=0".toList (by decide) (by decide) (by decide)
      (by decide)]
  decide

/-! ## OPTIONS -/

/-- C12 (amended): an OPTIONS request of version 1.0 whose URL parses is
answered 200 with one Public header, the text of the method set OPTIONS,
DESCRIBE, SETUP, PLAY and TEARDOWN - PAUSE is not in the set, although it is
routed to a dedicated handler - whatever the URL, the headers and the session
pool; the response is the only thing that happens: no session or media lookup
is performed. -/
theorem options_public_methods (lib : RtspLib) (client : GstRTSPClient)
    (request : GstRTSPRequest) (uri : GstRTSPUrl)
    (hv : request.version = GST_RTSP_VERSION_1_0)
    (hm : request.method = GstRTSPMethod.OPTIONS)
    (hu : lib.url_parse request.uri = some uri) :
    ∃ options : Nat,
      handle_request lib client request
        = some { client with trace := client.trace ++
            [Event.send ⟨GST_RTSP_STS_OK, request,
              [(GstRTSPHeaderField.PUBLIC, lib.options_as_text options)], none⟩] }
      ∧ ∀ m : GstRTSPMethod, options &&& m.bit ≠ 0 ↔
          (m = .OPTIONS ∨ m = .DESCRIBE ∨ m = .SETUP ∨ m = .PLAY ∨ m = .TEARDOWN) := by
  refine ⟨GstRTSPMethod.DESCRIBE.bit ||| GstRTSPMethod.OPTIONS.bit |||
    GstRTSPMethod.PLAY.bit ||| GstRTSPMethod.SETUP.bit ||| GstRTSPMethod.TEARDOWN.bit, ?_, ?_⟩
  · unfold handle_request
    simp only [hv, hu, hm]
    rfl
  · intro m
    cases m <;> decide

/-- C12, witness: the Public header of an OPTIONS request that names a
session the pool does not have. -/
theorem options_public_methods_witness :
    ∃ options : Nat,
      handle_request exampleLib exampleClient
          (exampleRequest .OPTIONS "rtsp://host/test" [(.SESSION, "nope")])
        = some { exampleClient with trace := exampleClient.trace ++
            [Event.send ⟨GST_RTSP_STS_OK,
              exampleRequest .OPTIONS "rtsp://host/test" [(.SESSION, "nope")],
              [(GstRTSPHeaderField.PUBLIC, exampleLib.options_as_text options)], none⟩] }
      ∧ ∀ m : GstRTSPMethod, options &&& m.bit ≠ 0 ↔
          (m = .OPTIONS ∨ m = .DESCRIBE ∨ m = .SETUP ∨ m = .PLAY ∨ m = .TEARDOWN) :=
  options_public_methods exampleLib exampleClient
    (exampleRequest .OPTIONS "rtsp://host/test" [(.SESSION, "nope")]) (exampleUrl "/test")
    (by decide) (by decide) (by decide)

/-- C12, counterexample: the Public header of the response to an OPTIONS
request does not list PAUSE, while a PAUSE request for a media of a session is
served by its handler and answered 200; and an OPTIONS request whose URL does
not parse is answered 400. -/
theorem options_public_omits_pause :
    (handle_request exampleLib exampleClientReady
        (exampleRequest .OPTIONS "rtsp://host/test" [])).map (fun c => responses c.trace)
      = some [⟨GST_RTSP_STS_OK, exampleRequest .OPTIONS "rtsp://host/test" [],
          [(GstRTSPHeaderField.PUBLIC, "OPTIONS, DESCRIBE, PLAY, SETUP, TEARDOWN".toList)],
          none⟩]
    ∧ (handle_request exampleLib exampleClientReady
        (exampleRequest .PAUSE "rtsp://host/test" [(.SESSION, "s1")])).map
          (fun c => (responses c.trace).map (fun r => r.code))
      = some [200]
    ∧ (handle_request exampleLib exampleClientReady
        (exampleRequest .OPTIONS "http://host/test" [])).map
          (fun c => (responses c.trace).map (fun r => r.code))
      = some [400] := by
  decide

/-! ## One response per request -/

/-- C13: a SETUP without Session header for a URL that has no factory, on a
pool that creates the session: `find_media` sends 404, and the `not_found`
exit of `handle_setup_response` sends a second 404 for the same request
before the next request (an OPTIONS) is read and answered. -/
theorem setup_lookup_failure_sends_two_responses :
    gst_rtsp_media_mapping_find_factory exampleClient.media_mapping
        (exampleUrl "/nope") = none
    ∧ (handle_client exampleLib exampleClient
        [some (exampleRequest .SETUP "rtsp://host/nope/stream=0"
                [(.TRANSPORT, "RTP/AVP;unicast;client_port=5000-5001")]),
         some (exampleRequest .OPTIONS "rtsp://host/nope" [])]).map
          (fun c => (responses c.trace).map (fun r => (r.code, r.request.method)))
      = some [(404, GstRTSPMethod.SETUP), (404, GstRTSPMethod.SETUP),
              (200, GstRTSPMethod.OPTIONS)] := by
  decide

/-! ## The sink: basic facts -/

@[simp] theorem sink_log_trace (sink : GstRTSPSink) (e : SinkEvent) :
    (sink.log e).trace = sink.trace ++ [e] := rfl

theorem headD_all_ok (l : List GstRTSPResult) (hs : ∀ r ∈ l, r = GST_RTSP_OK) :
    l.headD GST_RTSP_OK = GST_RTSP_OK := by
  cases l with
  | nil => rfl
  | cons a l => exact hs a (List.mem_cons_self _ _)

theorem tail_all_ok (l : List GstRTSPResult) (hs : ∀ r ∈ l, r = GST_RTSP_OK) :
    ∀ r ∈ l.tail, r = GST_RTSP_OK :=
  fun r hr => hs r (List.mem_of_mem_tail hr)

theorem connection_send_ok (sink : GstRTSPSink) (message : GstRTSPMessage)
    (hs : ∀ r ∈ sink.send_results, r = GST_RTSP_OK) :
    gst_rtsp_sink_connection_send sink true message
      = ({ sink with send_results := sink.send_results.tail,
                     trace := sink.trace ++ [SinkEvent.send message GST_RTSP_OK] },
         GST_RTSP_OK) := by
  unfold gst_rtsp_sink_connection_send
  rw [headD_all_ok _ hs]
  rfl

theorem handle_request_ok (lib : SinkLib) (sink : GstRTSPSink) (request : GstRTSPMessage)
    (hs : ∀ r ∈ sink.send_results, r = GST_RTSP_OK) :
    gst_rtsp_sink_handle_request lib sink true request
      = ({ sink with send_results := sink.send_results.tail,
                     trace := sink.trace
                       ++ [SinkEvent.send (server_request_reply lib request) GST_RTSP_OK] },
         GST_RTSP_OK) := by
  unfold gst_rtsp_sink_handle_request
  simp only [connection_send_ok _ _ hs, server_request_reply]
  simp [GST_RTSP_OK]

theorem try_send_next_request (lib : SinkLib) (request : GstRTSPMessage) (want_code : Bool)
    (res : GstRTSPResult) (hres : 0 ≤ res) (method : GstRTSPMethod) (uri : CString)
    (hdrs : List (GstRTSPHeaderField × CString))
    (rest : List (GstRTSPResult × GstRTSPMessage)) (sink : GstRTSPSink) (try_ : Nat)
    (response : Option GstRTSPMessage) :
    try_send_next lib true request want_code ((res, GstRTSPMessage.request method uri hdrs) :: rest)
        sink try_ response
      = if (gst_rtsp_sink_handle_request lib { sink with inbox := rest } true
              (GstRTSPMessage.request method uri hdrs)).2 = GST_RTSP_EEOF then
          { sink := (gst_rtsp_sink_handle_request lib { sink with inbox := rest } true
                (GstRTSPMessage.request method uri hdrs)).1.log
              (SinkEvent.element_warning "READ: The server closed the connection."),
            res := (gst_rtsp_sink_handle_request lib { sink with inbox := rest } true
                (GstRTSPMessage.request method uri hdrs)).2,
            response := none, code := none }
        else if (gst_rtsp_sink_handle_request lib { sink with inbox := rest } true
              (GstRTSPMessage.request method uri hdrs)).2 < 0 then
          { sink := (gst_rtsp_sink_handle_request lib { sink with inbox := rest } true
                (GstRTSPMessage.request method uri hdrs)).1,
            res := (gst_rtsp_sink_handle_request lib { sink with inbox := rest } true
                (GstRTSPMessage.request method uri hdrs)).2,
            response := none, code := none }
        else try_send_next lib true request want_code rest
          (gst_rtsp_sink_handle_request lib { sink with inbox := rest } true
            (GstRTSPMessage.request method uri hdrs)).1 try_
          (some (GstRTSPMessage.request method uri hdrs)) := by
  rw [try_send_next.eq_def]
  simp [not_lt.mpr hres]

theorem try_send_next_data (lib : SinkLib) (request : GstRTSPMessage) (want_code : Bool)
    (res : GstRTSPResult) (hres : 0 ≤ res) (channel : Nat) (b : CString)
    (rest : List (GstRTSPResult × GstRTSPMessage)) (sink : GstRTSPSink) (try_ : Nat)
    (response : Option GstRTSPMessage) :
    try_send_next lib true request want_code ((res, GstRTSPMessage.data channel b) :: rest)
        sink try_ response
      = try_send_next lib true request want_code rest { sink with inbox := rest } try_
          (some (GstRTSPMessage.data channel b)) := by
  rw [try_send_next.eq_def]
  simp [not_lt.mpr hres]

theorem try_send_next_response (lib : SinkLib) (request : GstRTSPMessage) (want_code : Bool)
    (res : GstRTSPResult) (hres : 0 ≤ res) (code : GstRTSPStatusCode) (reason : CString)
    (headers : List (GstRTSPHeaderField × CString)) (body : Option CString)
    (rest : List (GstRTSPResult × GstRTSPMessage)) (sink : GstRTSPSink) (try_ : Nat)
    (response : Option GstRTSPMessage) :
    try_send_next lib true request want_code
        ((res, GstRTSPMessage.response code reason headers body) :: rest) sink try_ response
      = { sink :=
            { sink with
              inbox := rest,
              content_base :=
                if code = GST_RTSP_STS_OK then
                  (gst_rtsp_message_get_header headers GstRTSPHeaderField.CONTENT_BASE 0).orElse
                    (fun _ => sink.content_base)
                else sink.content_base },
          res := GST_RTSP_OK,
          response := some (GstRTSPMessage.response code reason headers body),
          code := if want_code then some code else none } := by
  rw [try_send_next.eq_def]
  by_cases hc : code = GST_RTSP_STS_OK
  · cases hh : gst_rtsp_message_get_header headers GstRTSPHeaderField.CONTENT_BASE 0 <;>
      simp [not_lt.mpr hres, hc, hh]
  · simp [not_lt.mpr hres, hc]

/-! ## Steps of the sink -/

theorem SinkKeeps.keeps_refl (s : GstRTSPSink) : SinkKeeps s s :=
  ⟨rfl, rfl, rfl, rfl, rfl, rfl, rfl⟩

theorem SinkKeeps.keeps_trans {a b c : GstRTSPSink} (h1 : SinkKeeps a b) (h2 : SinkKeeps b c) :
    SinkKeeps a c := by
  obtain ⟨a1, a2, a3, a4, a5, a6, a7⟩ := h1
  obtain ⟨b1, b2, b3, b4, b5, b6, b7⟩ := h2
  exact ⟨b1.trans a1, b2.trans a2, b3.trans a3, b4.trans a4, b5.trans a5, b6.trans a6,
    b7.trans a7⟩

theorem SinkStep.step_refl (s : GstRTSPSink) : SinkStep 0 0 s s :=
  ⟨[], by simp [SinkTrace], by simp, by simp, by simp, SinkKeeps.keeps_refl s⟩

theorem SinkStep.step_trans {a b c : GstRTSPSink} {n1 n2 m1 m2 : Nat}
    (h1 : SinkStep n1 m1 a b) (h2 : SinkStep n2 m2 b c) : SinkStep (n1 + n2) (m1 + m2) a c := by
  obtain ⟨e1, t1, p1, c1, d1, k1⟩ := h1
  obtain ⟨e2, t2, p2, c2, d2, k2⟩ := h2
  refine ⟨e1 ++ e2, ?_, ?_, ?_, ?_, k1.keeps_trans k2⟩
  · unfold SinkTrace at *; rw [t2, t1, List.append_assoc]
  · intro e he
    rcases List.mem_append.mp he with he | he
    · exact p1 e he
    · exact p2 e he
  · rw [List.countP_append]; omega
  · rw [List.countP_append]; omega

theorem SinkStep.step_mono {a b : GstRTSPSink} {n1 n2 m1 m2 : Nat} (h : SinkStep n1 m1 a b)
    (hn : n1 ≤ n2) (hm : m1 ≤ m2) : SinkStep n2 m2 a b := by
  obtain ⟨e1, t1, p1, c1, d1, k1⟩ := h
  exact ⟨e1, t1, p1, by omega, by omega, k1⟩

theorem SinkStep.step_of_eq {a b c : GstRTSPSink} {n m : Nat} (h : SinkStep n m a b)
    (ht : c.trace = b.trace) (hk : SinkKeeps b c) : SinkStep n m a c := by
  obtain ⟨e1, t1, p1, c1, d1, k1⟩ := h
  exact ⟨e1, by unfold SinkTrace at *; rw [ht, t1], p1, c1, d1, k1.keeps_trans hk⟩

theorem SinkStep.step_log {a b : GstRTSPSink} {n m : Nat} (h : SinkStep n m a b) (e : SinkEvent)
    (he : e.is_transfer = true) :
    SinkStep (n + (if e.is_again then 1 else 0)) (m + (if e.is_connect then 1 else 0)) a
      (b.log e) := by
  refine h.step_trans ⟨[e], rfl, by simpa using he, ?_, ?_, SinkKeeps.keeps_refl _⟩
  · cases h1 : e.is_again <;> simp [List.countP_cons, h1]
  · cases h1 : e.is_connect <;> simp [List.countP_cons, h1]

theorem connection_send_step (sink : GstRTSPSink) (conn : Bool) (message : GstRTSPMessage) :
    SinkStep 0 0 sink (gst_rtsp_sink_connection_send sink conn message).1 := by
  unfold gst_rtsp_sink_connection_send
  cases conn
  · exact SinkStep.step_refl _
  · exact ((SinkStep.step_refl sink).step_of_eq (c := { sink with send_results := sink.send_results.tail })
      rfl (SinkKeeps.keeps_refl _)).step_log _ rfl

theorem handle_request_step (lib : SinkLib) (sink : GstRTSPSink) (conn : Bool)
    (request : GstRTSPMessage) :
    SinkStep 0 0 sink (gst_rtsp_sink_handle_request lib sink conn request).1 := by
  unfold gst_rtsp_sink_handle_request
  dsimp only
  split <;> exact connection_send_step _ _ _

theorem handle_request_res (lib : SinkLib) (sink : GstRTSPSink) (conn : Bool)
    (request : GstRTSPMessage) :
    (gst_rtsp_sink_handle_request lib sink conn request).2 < 0
      ∨ (gst_rtsp_sink_handle_request lib sink conn request).2 = GST_RTSP_OK := by
  unfold gst_rtsp_sink_handle_request
  dsimp only
  split
  · left; assumption
  · right; rfl

theorem receive_error_step (sink : GstRTSPSink) (res : GstRTSPResult)
    (response : Option GstRTSPMessage) :
    SinkStep 0 0 sink (try_send_receive_error sink res response).sink := by
  unfold try_send_receive_error
  dsimp only
  split
  · exact (SinkStep.step_refl sink).step_log _ rfl
  · exact SinkStep.step_refl _

theorem send_error_step (sink : GstRTSPSink) (res : GstRTSPResult)
    (response : Option GstRTSPMessage) :
    SinkStep 0 0 sink (try_send_send_error sink res response).sink := by
  unfold try_send_send_error
  dsimp only
  split
  · exact (SinkStep.step_refl sink).step_log _ rfl
  · exact SinkStep.step_refl _

theorem conninfo_connect_step (lib : SinkLib) (sink : GstRTSPSink) (info : GstRTSPConnInfo) :
    SinkStep 0 1 sink (gst_rtsp_conninfo_connect lib sink info).1
      ∧ ((gst_rtsp_conninfo_connect lib sink info).2.2 < 0
          ∨ (gst_rtsp_conninfo_connect lib sink info).2.2 = GST_RTSP_OK) := by
  unfold gst_rtsp_conninfo_connect
  dsimp only
  split
  · exact ⟨(SinkStep.step_refl _).step_mono (le_refl _) (by omega), Or.inl (by assumption)⟩
  · split
    · split
      · refine ⟨?_, Or.inl (by assumption)⟩
        exact ((SinkStep.step_refl sink).step_of_eq
          (c := { sink with connect_results := sink.connect_results.tail }) rfl
          (SinkKeeps.keeps_refl _)).step_log _ rfl
      · refine ⟨?_, Or.inr rfl⟩
        exact ((SinkStep.step_refl sink).step_of_eq
          (c := { sink with connect_results := sink.connect_results.tail }) rfl
          (SinkKeeps.keeps_refl _)).step_log _ rfl
    · exact ⟨(SinkStep.step_refl _).step_mono (le_refl _) (by omega), Or.inr rfl⟩

theorem conninfo_reconnect_step (lib : SinkLib) (sink : GstRTSPSink) (info : GstRTSPConnInfo) :
    SinkStep 0 1 sink (gst_rtsp_conninfo_reconnect lib sink info).1
      ∧ ((gst_rtsp_conninfo_reconnect lib sink info).2.2 < 0
          ∨ (gst_rtsp_conninfo_reconnect lib sink info).2.2 = GST_RTSP_OK) := by
  unfold gst_rtsp_conninfo_reconnect
  dsimp only
  have hc : SinkStep 0 0 sink (gst_rtsp_conninfo_close sink info false).1 := by
    unfold gst_rtsp_conninfo_close
    dsimp only
    split
    · exact (SinkStep.step_refl sink).step_log _ rfl
    · exact SinkStep.step_refl _
  obtain ⟨h1, h2⟩ := conninfo_connect_step lib (gst_rtsp_conninfo_close sink info false).1
    (gst_rtsp_conninfo_close sink info false).2.1
  exact ⟨(hc.step_trans h1).step_mono (by omega) (by omega), h2⟩

@[simp] theorem receive_error_res (sink : GstRTSPSink) (res : GstRTSPResult)
    (response : Option GstRTSPMessage) :
    (try_send_receive_error sink res response).res = res := rfl

@[simp] theorem send_error_res (sink : GstRTSPSink) (res : GstRTSPResult)
    (response : Option GstRTSPMessage) :
    (try_send_send_error sink res response).res = res := rfl

theorem try_send_next_nil (lib : SinkLib) (request : GstRTSPMessage) (want_code : Bool)
    (sink : GstRTSPSink) (try_ : Nat) (response : Option GstRTSPMessage) :
    try_send_next lib true request want_code [] sink try_ response
      = try_send_receive_error sink GST_RTSP_ETIMEOUT response := by
  rw [try_send_next.eq_def]
  simp

theorem try_send_next_no_connection (lib : SinkLib) (request : GstRTSPMessage)
    (want_code : Bool) (inbox : List (GstRTSPResult × GstRTSPMessage)) (sink : GstRTSPSink)
    (try_ : Nat) (response : Option GstRTSPMessage) :
    try_send_next lib false request want_code inbox sink try_ response
      = try_send_receive_error sink GST_RTSP_ERROR response := by
  rw [try_send_next.eq_def]
  simp

theorem try_send_next_other (lib : SinkLib) (request : GstRTSPMessage) (want_code : Bool)
    (res : GstRTSPResult) (hres : 0 ≤ res)
    (rest : List (GstRTSPResult × GstRTSPMessage)) (sink : GstRTSPSink) (try_ : Nat)
    (response : Option GstRTSPMessage) :
    try_send_next lib true request want_code ((res, GstRTSPMessage.other) :: rest)
        sink try_ response
      = try_send_next lib true request want_code rest { sink with inbox := rest } try_
          (some GstRTSPMessage.other) := by
  rw [try_send_next.eq_def]
  simp [not_lt.mpr hres]

theorem sink_reconnect_step (lib : SinkLib) (sink : GstRTSPSink) :
    SinkStep 0 1 sink (sink_reconnect lib sink).1
      ∧ ((sink_reconnect lib sink).2 < 0 ∨ (sink_reconnect lib sink).2 = GST_RTSP_OK) := by
  unfold sink_reconnect
  obtain ⟨h1, h2⟩ := conninfo_reconnect_step lib sink sink.conninfo
  exact ⟨h1.step_of_eq rfl (SinkKeeps.keeps_refl _), h2⟩

/-- The receive loop of `gst_rtsp_sink_try_send` at a receive that fails. -/
theorem try_send_next_failure (lib : SinkLib) (request : GstRTSPMessage) (want_code : Bool)
    (res : GstRTSPResult) (hres : res < 0) (message : GstRTSPMessage)
    (rest : List (GstRTSPResult × GstRTSPMessage)) (sink : GstRTSPSink) (try_ : Nat)
    (response : Option GstRTSPMessage) :
    try_send_next lib true request want_code ((res, message) :: rest) sink try_ response
      = if res = GST_RTSP_EEOF ∧ try_ = 0 ∧ sink.interleaved = false
            ∧ sink.udp_reconnect = true then
          if (sink_reconnect lib { sink with inbox := rest }).2 = 0 then
            if (gst_rtsp_sink_connection_send
                  ((sink_reconnect lib { sink with inbox := rest }).1.log
                    (SinkEvent.again request)) true request).2 < 0 then
              try_send_send_error
                (gst_rtsp_sink_connection_send
                  ((sink_reconnect lib { sink with inbox := rest }).1.log
                    (SinkEvent.again request)) true request).1
                (gst_rtsp_sink_connection_send
                  ((sink_reconnect lib { sink with inbox := rest }).1.log
                    (SinkEvent.again request)) true request).2
                (some message)
            else
              try_send_next lib true request want_code rest
                (gst_rtsp_sink_connection_send
                  ((sink_reconnect lib { sink with inbox := rest }).1.log
                    (SinkEvent.again request)) true request).1
                (try_ + 1) (some message)
          else
            try_send_receive_error (sink_reconnect lib { sink with inbox := rest }).1
              (sink_reconnect lib { sink with inbox := rest }).2 (some message)
        else try_send_receive_error { sink with inbox := rest } res (some message) := by
  rw [try_send_next.eq_def]
  simp [hres]

/-- The receive loop of `gst_rtsp_sink_try_send`: only events of the transfer
happen; the request is sent again and the connection is reconnected at most
once, and not at all when `try` is not 0. -/
theorem try_send_next_step (lib : SinkLib) (conn : Bool) (request : GstRTSPMessage)
    (want_code : Bool) :
    ∀ (inbox : List (GstRTSPResult × GstRTSPMessage)) (sink : GstRTSPSink) (try_ : Nat)
      (response : Option GstRTSPMessage) (k : Nat), (try_ = 0 → 1 ≤ k) →
      SinkStep k k sink (try_send_next lib conn request want_code inbox sink try_ response).sink
        ∧ (try_send_next lib conn request want_code inbox sink try_ response).well want_code := by
  intro inbox
  cases conn
  · intro sink try_ response k _
    rw [try_send_next_no_connection]
    exact ⟨(receive_error_step _ _ _).step_mono (by omega) (by omega),
      Or.inl (by simp [GST_RTSP_ERROR])⟩
  induction inbox with
  | nil =>
    intro sink try_ response k _
    rw [try_send_next_nil]
    exact ⟨(receive_error_step _ _ _).step_mono (by omega) (by omega),
      Or.inl (by simp [GST_RTSP_ETIMEOUT])⟩
  | cons hd rest ih =>
    intro sink try_ response k hk
    obtain ⟨res, message⟩ := hd
    have h0 : SinkStep 0 0 sink { sink with inbox := rest } :=
      (SinkStep.step_refl sink).step_of_eq rfl (SinkKeeps.keeps_refl _)
    by_cases hneg : res < 0
    · rw [try_send_next_failure lib request want_code res hneg]
      by_cases hcond : res = GST_RTSP_EEOF ∧ try_ = 0 ∧ sink.interleaved = false
          ∧ sink.udp_reconnect = true
      · rw [if_pos hcond]
        obtain ⟨hc1, hc2⟩ := sink_reconnect_step lib { sink with inbox := rest }
        have h1 : SinkStep 0 1 sink (sink_reconnect lib { sink with inbox := rest }).1 :=
          (h0.step_trans hc1).step_mono (by omega) (by omega)
        have hk1 : 1 ≤ k := hk hcond.2.1
        have h2 := (h1.step_log (SinkEvent.again request) rfl).step_trans
          (connection_send_step _ true request)
        by_cases hrc : (sink_reconnect lib { sink with inbox := rest }).2 = 0
        · rw [if_pos hrc]
          by_cases hs : (gst_rtsp_sink_connection_send
                  ((sink_reconnect lib { sink with inbox := rest }).1.log
                    (SinkEvent.again request)) true request).2 < 0
          · rw [if_pos hs]
            exact ⟨(h2.step_trans (send_error_step _ _ _)).step_mono (by simpa using hk1)
              (by simpa using hk1), Or.inl hs⟩
          · rw [if_neg hs]
            obtain ⟨i1, i2⟩ := ih (gst_rtsp_sink_connection_send
                  ((sink_reconnect lib { sink with inbox := rest }).1.log
                    (SinkEvent.again request)) true request).1 (try_ + 1) (some message) 0
                  (by omega)
            exact ⟨(h2.step_trans i1).step_mono (by simpa using hk1) (by simpa using hk1), i2⟩
        · rw [if_neg hrc]
          refine ⟨(h1.step_trans (receive_error_step _ _ _)).step_mono (by omega) (by omega), Or.inl ?_⟩
          rcases hc2 with hc2 | hc2
          · exact hc2
          · exact absurd hc2 hrc
      · rw [if_neg hcond]
        exact ⟨(h0.step_trans (receive_error_step _ _ _)).step_mono (by omega) (by omega), Or.inl hneg⟩
    · have hres : 0 ≤ res := not_lt.mp hneg
      cases message with
      | request method uri hdrs =>
        rw [try_send_next_request lib request want_code res hres]
        have hh := handle_request_step lib { sink with inbox := rest } true
          (GstRTSPMessage.request method uri hdrs)
        by_cases he : (gst_rtsp_sink_handle_request lib { sink with inbox := rest } true
              (GstRTSPMessage.request method uri hdrs)).2 = GST_RTSP_EEOF
        · rw [if_pos he]
          refine ⟨((h0.step_trans hh).step_log
            (SinkEvent.element_warning "READ: The server closed the connection.") rfl).step_mono
            (by simp [SinkEvent.is_again]) (by simp [SinkEvent.is_connect]), Or.inl ?_⟩
          dsimp only
          rw [he]; decide
        · rw [if_neg he]
          by_cases hn : (gst_rtsp_sink_handle_request lib { sink with inbox := rest } true
              (GstRTSPMessage.request method uri hdrs)).2 < 0
          · rw [if_pos hn]
            exact ⟨(h0.step_trans hh).step_mono (by omega) (by omega), Or.inl hn⟩
          · rw [if_neg hn]
            obtain ⟨i1, i2⟩ := ih (gst_rtsp_sink_handle_request lib { sink with inbox := rest }
              true (GstRTSPMessage.request method uri hdrs)).1 try_
              (some (GstRTSPMessage.request method uri hdrs)) k hk
            exact ⟨((h0.step_trans hh).step_trans i1).step_mono (by omega) (by omega), i2⟩
      | response code reason headers body =>
        rw [try_send_next_response lib request want_code res hres]
        exact ⟨(h0.step_of_eq rfl (SinkKeeps.keeps_refl _)).step_mono (by omega) (by omega),
          Or.inr ⟨rfl, code, reason, headers, body, rfl, rfl⟩⟩
      | data channel b =>
        rw [try_send_next_data lib request want_code res hres]
        obtain ⟨i1, i2⟩ := ih { sink with inbox := rest } try_
          (some (GstRTSPMessage.data channel b)) k hk
        exact ⟨(h0.step_trans i1).step_mono (by omega) (by omega), i2⟩
      | other =>
        rw [try_send_next_other lib request want_code res hres]
        obtain ⟨i1, i2⟩ := ih { sink with inbox := rest } try_ (some GstRTSPMessage.other) k hk
        exact ⟨(h0.step_trans i1).step_mono (by omega) (by omega), i2⟩

/-- A call of `gst_rtsp_sink_try_send`: after the call is logged only events
of the transfer happen, with at most two passes of `again` and at most one
connect. -/
theorem try_send_step (lib : SinkLib) (sink : GstRTSPSink) (conn : Bool)
    (request : GstRTSPMessage) (want_response : Bool) (response : Option GstRTSPMessage)
    (want_code : Bool) :
    SinkStep 2 1 (sink.log (SinkEvent.try_send request))
        (gst_rtsp_sink_try_send lib sink conn request want_response response want_code).sink
      ∧ ((gst_rtsp_sink_try_send lib sink conn request want_response response want_code).res < 0
          ∨ ((gst_rtsp_sink_try_send lib sink conn request want_response response want_code).res
                = GST_RTSP_OK
              ∧ if want_response then
                  ∃ code reason headers body,
                    (gst_rtsp_sink_try_send lib sink conn request want_response response
                        want_code).response
                      = some (GstRTSPMessage.response code reason headers body)
                    ∧ (gst_rtsp_sink_try_send lib sink conn request want_response response
                        want_code).code = if want_code then some code else none
                else
                  (gst_rtsp_sink_try_send lib sink conn request want_response response
                      want_code).response = response
                    ∧ (gst_rtsp_sink_try_send lib sink conn request want_response response
                      want_code).code = none)) := by
  unfold gst_rtsp_sink_try_send
  dsimp only
  have h1 := ((SinkStep.step_refl (sink.log (SinkEvent.try_send request))).step_log
    (SinkEvent.again request) rfl).step_trans
    (connection_send_step ((sink.log (SinkEvent.try_send request)).log (SinkEvent.again request))
      conn request)
  by_cases hs : (gst_rtsp_sink_connection_send
      ((sink.log (SinkEvent.try_send request)).log (SinkEvent.again request)) conn request).2 < 0
  · rw [if_pos hs]
    exact ⟨(h1.step_trans (send_error_step _ _ _)).step_mono (by simp [SinkEvent.is_again])
      (by simp [SinkEvent.is_connect]), Or.inl hs⟩
  · rw [if_neg hs]
    cases want_response
    · simp only [Bool.not_false, ↓reduceIte, Bool.false_eq_true]
      exact ⟨h1.step_mono (by simp [SinkEvent.is_again]) (by simp [SinkEvent.is_connect]),
        by simp⟩
    · simp only [Bool.not_true, Bool.false_eq_true, ↓reduceIte]
      obtain ⟨i1, i2⟩ := try_send_next_step lib conn request want_code
        (gst_rtsp_sink_connection_send
          ((sink.log (SinkEvent.try_send request)).log (SinkEvent.again request)) conn
          request).1.inbox
        (gst_rtsp_sink_connection_send
          ((sink.log (SinkEvent.try_send request)).log (SinkEvent.again request)) conn
          request).1 0 response 1 (by omega)
      refine ⟨(h1.step_trans i1).step_mono (by simp [SinkEvent.is_again]) (by simp [SinkEvent.is_connect]),
        ?_⟩
      rcases i2 with i2 | ⟨i2, i3⟩
      · exact Or.inl i2
      · exact Or.inr ⟨i2, i3⟩

/-! ## `gst_rtsp_sink_send` -/

theorem SendStep.send_refl (s : GstRTSPSink) : SendStep 0 s s :=
  ⟨[], by simp [SinkTrace], by simp, by simp, SinkKeeps.keeps_refl s⟩

theorem SendStep.send_trans {a b c : GstRTSPSink} {n1 n2 : Nat}
    (h1 : SendStep n1 a b) (h2 : SendStep n2 b c) : SendStep (n1 + n2) a c := by
  obtain ⟨e1, t1, c1, p1, k1⟩ := h1
  obtain ⟨e2, t2, c2, p2, k2⟩ := h2
  refine ⟨e1 ++ e2, ?_, ?_, ?_, k1.keeps_trans k2⟩
  · unfold SinkTrace at *; rw [t2, t1, List.append_assoc]
  · rw [List.countP_append]; omega
  · intro e he
    rcases List.mem_append.mp he with he | he
    · exact p1 e he
    · exact p2 e he

theorem SendStep.send_mono {a b : GstRTSPSink} {n1 n2 : Nat} (h : SendStep n1 a b)
    (hn : n1 ≤ n2) : SendStep n2 a b := by
  obtain ⟨e1, t1, c1, p1, k1⟩ := h
  exact ⟨e1, t1, by omega, p1, k1⟩

theorem SendStep.send_of_eq {a b c : GstRTSPSink} {n : Nat} (h : SendStep n a b)
    (ht : c.trace = b.trace) (hk : SinkKeeps b c) : SendStep n a c := by
  obtain ⟨e1, t1, c1, p1, k1⟩ := h
  exact ⟨e1, by unfold SinkTrace at *; rw [ht, t1], c1, p1, k1.keeps_trans hk⟩

theorem SendStep.send_log {a b : GstRTSPSink} {n : Nat} (h : SendStep n a b) (e : SinkEvent)
    (he : e.is_setup = false) :
    SendStep (n + (if e.is_try_send then 1 else 0)) a (b.log e) := by
  refine h.send_trans ⟨[e], rfl, ?_, by simpa using he, SinkKeeps.keeps_refl _⟩
  cases h1 : e.is_try_send <;> simp [List.countP_cons, h1]

theorem is_transfer_not_try_send (e : SinkEvent) (h : e.is_transfer = true) :
    e.is_try_send = false ∧ e.is_setup = false := by
  cases e <;> simp_all [SinkEvent.is_transfer, SinkEvent.is_try_send, SinkEvent.is_setup]

theorem SinkStep.to_send {a b : GstRTSPSink} {n m : Nat} (h : SinkStep n m a b) :
    SendStep 0 a b := by
  obtain ⟨evs, t, p, _, _, k⟩ := h
  refine ⟨evs, t, ?_, fun e he => (is_transfer_not_try_send e (p e he)).2, k⟩
  rw [Nat.le_zero, List.countP_eq_zero]
  intro e he
  simp [(is_transfer_not_try_send e (p e he)).1]

theorem setup_auth_methods_step (lib : SinkLib) (avail_methods : Nat) (user pass : CString) :
    ∀ (methods : List Nat) (sink : GstRTSPSink),
      SendStep 0 sink (setup_auth_methods lib avail_methods user pass methods sink).1 := by
  intro methods
  induction methods with
  | nil => intro sink; exact SendStep.send_refl _
  | cons method rest ih =>
    intro sink
    rw [setup_auth_methods]
    split
    · exact ih sink
    · dsimp only
      have h1 : SendStep 0 sink
          (({ sink with conninfo := { sink.conninfo with
                connection := (gst_rtsp_connection_set_auth lib sink.conninfo.connection method
                  user pass).1 } } : GstRTSPSink).log
            (SinkEvent.set_auth method user pass
              (gst_rtsp_connection_set_auth lib sink.conninfo.connection method user pass).2)) :=
        ((SendStep.send_refl sink).send_of_eq (c := { sink with conninfo := { sink.conninfo with
                connection := (gst_rtsp_connection_set_auth lib sink.conninfo.connection method
                  user pass).1 } }) rfl (SinkKeeps.keeps_refl _)).send_log _ rfl
      split
      · exact h1
      · exact (h1.send_trans (ih _)).send_mono (by omega)

theorem setup_auth_credentials_step (sink : GstRTSPSink) :
    SendStep 0 sink (setup_auth_credentials sink).1 := by
  unfold setup_auth_credentials
  split
  · split
    · exact (SendStep.send_refl sink).send_of_eq rfl (SinkKeeps.keeps_refl _)
    · exact SendStep.send_refl _
  · exact SendStep.send_refl _

theorem setup_auth_install_step (lib : SinkLib) (avail_methods : Nat) (sink : GstRTSPSink) :
    SendStep 0 sink (setup_auth_install lib avail_methods sink).1 := by
  unfold setup_auth_install
  have h3 := setup_auth_credentials_step sink
  rcases hc : setup_auth_credentials sink with ⟨s1, _ | user, pass⟩
  · rw [hc] at h3; exact h3
  · cases pass with
    | none => rw [hc] at h3; exact h3
    | some pass =>
      rw [hc] at h3
      dsimp only
      have h4 := h3.send_trans (setup_auth_methods_step lib avail_methods user pass auth_methods s1)
      split
      · exact h4.send_log (SinkEvent.element_error
          "OPEN_READ: No supported authentication protocol was found") rfl
      · exact h4

theorem setup_auth_step (lib : SinkLib) (sink : GstRTSPSink) (response : GstRTSPMessage) :
    SendStep 0 sink (gst_rtsp_sink_setup_auth lib sink response).1 := by
  unfold gst_rtsp_sink_setup_auth
  dsimp only
  have h1 : SendStep 0 sink { sink with conninfo := { sink.conninfo with
      connection := (setup_auth_challenge sink response).2.1 } } :=
    (SendStep.send_refl sink).send_of_eq rfl (SinkKeeps.keeps_refl _)
  have h2 : SendStep 0 sink
      (if (setup_auth_challenge sink response).2.2 = true then
        { ({ sink with conninfo := { sink.conninfo with
              connection := (setup_auth_challenge sink response).2.1 } } : GstRTSPSink) with
          tried_url_auth := false }
       else { sink with conninfo := { sink.conninfo with
              connection := (setup_auth_challenge sink response).2.1 } }) := by
    split
    · exact h1.send_of_eq rfl (SinkKeeps.keeps_refl _)
    · exact h1
  by_cases ha : (setup_auth_challenge sink response).1 = GST_RTSP_AUTH_NONE
  · rw [if_pos ha]
    exact h1.send_log (SinkEvent.element_error
      "OPEN_READ: No supported authentication protocol was found") rfl
  · rw [if_neg ha]
    exact h2.send_trans (setup_auth_install_step lib _ _)

theorem try_send_send_step (lib : SinkLib) (sink : GstRTSPSink) (conn : Bool)
    (request : GstRTSPMessage) (want_response : Bool) (response : Option GstRTSPMessage)
    (want_code : Bool) :
    SendStep 1 sink
      (gst_rtsp_sink_try_send lib sink conn request want_response response want_code).sink :=
  ((SendStep.send_refl sink).send_log (SinkEvent.try_send request) rfl).send_trans
    (try_send_step lib sink conn request want_response response want_code).1.to_send

/-- The loop of `gst_rtsp_sink_send` calls `gst_rtsp_sink_try_send` at most
`9 - count` times and leaves the configuration and the protocol state alone;
it is left by `goto error` with a negative `res`, and otherwise with locals
that agree. -/
theorem send_loop_step (lib : SinkLib) (conn : Bool) (request : GstRTSPMessage)
    (want_response : Bool) :
    ∀ (fuel count : Nat) (sink : GstRTSPSink) (int_code : GstRTSPStatusCode)
      (res : GstRTSPResult) (response : Option GstRTSPMessage) (method : GstRTSPMethod),
      SendLocals request int_code res response method →
      SendStep (9 - count) sink
          (send_loop lib conn request want_response fuel count sink int_code res response
            method).sink
        ∧ ((send_loop lib conn request want_response fuel count sink int_code res response
              method).error = true →
            (send_loop lib conn request want_response fuel count sink int_code res response
              method).res < 0)
        ∧ ((send_loop lib conn request want_response fuel count sink int_code res response
              method).error = false →
            SendLocals request
              (send_loop lib conn request want_response fuel count sink int_code res response
                method).int_code
              (send_loop lib conn request want_response fuel count sink int_code res response
                method).res
              (send_loop lib conn request want_response fuel count sink int_code res response
                method).response
              (send_loop lib conn request want_response fuel count sink int_code res response
                method).method) := by
  intro fuel
  induction fuel with
  | zero =>
    intro count sink int_code res response method hJ
    rw [send_loop]
    exact ⟨(SendStep.send_refl _).send_mono (by omega), by simp, fun _ => hJ⟩
  | succ fuel ih =>
    intro count sink int_code res response method hJ
    rw [send_loop]
    by_cases hc : count > 8
    · rw [if_pos hc]
      exact ⟨(SendStep.send_refl _).send_mono (by omega), by simp, fun _ => hJ⟩
    · rw [if_neg hc]
      dsimp only
      have ht := try_send_send_step lib sink conn request want_response response true
      obtain ⟨-, hr⟩ := try_send_step lib sink conn request want_response response true
      by_cases hneg : (gst_rtsp_sink_try_send lib sink conn request want_response response
          true).res < 0
      · rw [if_pos hneg]
        exact ⟨ht.send_mono (by omega), fun _ => hneg, by simp⟩
      · rw [if_neg hneg]
        rcases hr with hr | ⟨hr1, hr2⟩
        · exact absurd hr hneg
        · have hJ' : SendLocals request
              ((gst_rtsp_sink_try_send lib sink conn request want_response response
                true).code.getD int_code)
              (gst_rtsp_sink_try_send lib sink conn request want_response response true).res
              (gst_rtsp_sink_try_send lib sink conn request want_response response true).response
              request.method := by
            cases want_response
            · simp only [Bool.false_eq_true, ↓reduceIte] at hr2
              rw [hr2.1, hr2.2, Option.getD_none]
              rcases hJ with hJ | ⟨_, _, hJ⟩
              · exact Or.inl hJ
              · exact Or.inr ⟨hr1, rfl, hJ⟩
            · simp only [↓reduceIte] at hr2
              obtain ⟨code, reason, headers, body, h1, h2⟩ := hr2
              rw [h1, h2, Option.getD_some]
              exact Or.inr ⟨hr1, rfl, reason, headers, body, rfl⟩
          have ha : SendStep 1 sink
              (send_switch lib
                (gst_rtsp_sink_try_send lib sink conn request want_response response true).sink
                ((gst_rtsp_sink_try_send lib sink conn request want_response response
                    true).code.getD int_code)
                (gst_rtsp_sink_try_send lib sink conn request want_response response
                    true).response).1 := by
            unfold send_switch
            split
            · split
              · exact (ht.send_trans (setup_auth_step lib _ _)).send_mono (by omega)
              · exact ht
            · exact ht
          by_cases hretry : (send_switch lib
                (gst_rtsp_sink_try_send lib sink conn request want_response response true).sink
                ((gst_rtsp_sink_try_send lib sink conn request want_response response
                    true).code.getD int_code)
                (gst_rtsp_sink_try_send lib sink conn request want_response response
                    true).response).2 = true
          · rw [if_pos hretry]
            obtain ⟨i1, i2, i3⟩ := ih (count + 1) _ _ _ _ _ hJ'
            exact ⟨(ha.send_trans i1).send_mono (by omega), i2, i3⟩
          · rw [if_neg hretry]
            exact ⟨ha.send_mono (by omega), by simp, fun _ => hJ'⟩

/-- The fuel of the loop of `gst_rtsp_sink_send` is not used up: the loop
gives the same with any other fuel that is enough. -/
theorem send_loop_fuel (lib : SinkLib) (conn : Bool) (request : GstRTSPMessage)
    (want_response : Bool) :
    ∀ (fuel fuel' count : Nat) (sink : GstRTSPSink) (int_code : GstRTSPStatusCode)
      (res : GstRTSPResult) (response : Option GstRTSPMessage) (method : GstRTSPMethod),
      9 < fuel + count → 9 < fuel' + count →
      send_loop lib conn request want_response fuel count sink int_code res response method
        = send_loop lib conn request want_response fuel' count sink int_code res response
            method := by
  intro fuel
  induction fuel with
  | zero =>
    intro fuel' count sink int_code res response method h1 h2
    cases fuel' with
    | zero => rfl
    | succ fuel' =>
      rw [send_loop, send_loop, if_pos (by omega)]
  | succ fuel ih =>
    intro fuel' count sink int_code res response method h1 h2
    cases fuel' with
    | zero =>
      rw [send_loop, send_loop, if_pos (by omega)]
    | succ fuel' =>
      rw [send_loop, send_loop]
      by_cases hc : count > 8
      · rw [if_pos hc, if_pos hc]
      · rw [if_neg hc, if_neg hc]
        dsimp only
        split
        · rfl
        · split
          · exact ih fuel' (count + 1) _ _ _ _ _ (by omega) (by omega)
          · rfl

/-! ## `gst_rtsp_sink_send`: the status of the final response -/

theorem and_not_testBit (a b i : Nat) :
    (and_not a b).testBit i = (a.testBit i && !b.testBit i) := by
  unfold and_not
  rw [Nat.testBit_xor, Nat.testBit_and]
  cases a.testBit i <;> cases b.testBit i <;> rfl

theorem and_not_and_self (a b : Nat) : and_not a b &&& b = 0 := by
  apply Nat.eq_of_testBit_eq
  intro i
  rw [Nat.testBit_and, and_not_testBit]
  cases a.testBit i <;> cases b.testBit i <;> simp

theorem and_not_and_other (a b c : Nat) (h : b &&& c = 0) : and_not a b &&& c = a &&& c := by
  apply Nat.eq_of_testBit_eq
  intro i
  have hi : (b &&& c).testBit i = false := by rw [h]; simp
  rw [Nat.testBit_and] at hi
  rw [Nat.testBit_and, Nat.testBit_and, and_not_testBit]
  cases a.testBit i <;> cases hb : b.testBit i <;> cases hc : c.testBit i <;> simp_all

theorem method_bits_disjoint (m m' : GstRTSPMethod) (h : m ≠ m') : m.bit &&& m'.bit = 0 := by
  cases m <;> cases m' <;> first | exact absurd rfl h | decide

theorem send_loop_exit_step (lib : SinkLib) (sink : GstRTSPSink) (conn : Bool)
    (request : GstRTSPMessage) (want_response : Bool) :
    SendStep 9 sink (send_loop_exit lib sink conn request want_response).sink
      ∧ ((send_loop_exit lib sink conn request want_response).error = true →
          (send_loop_exit lib sink conn request want_response).res < 0)
      ∧ ((send_loop_exit lib sink conn request want_response).error = false →
          SendLocals request (send_loop_exit lib sink conn request want_response).int_code
            (send_loop_exit lib sink conn request want_response).res
            (send_loop_exit lib sink conn request want_response).response
            (send_loop_exit lib sink conn request want_response).method) :=
  send_loop_step lib conn request want_response 10 0 sink GST_RTSP_STS_OK GST_RTSP_ERROR none
    GstRTSPMethod.INVALID (Or.inl rfl)

theorem uri_set_uri_trace (lib : SinkLib) (sink : GstRTSPSink) (uri : CString) :
    (gst_rtsp_sink_uri_set_uri lib sink uri).1.trace = sink.trace
      ∧ (gst_rtsp_sink_uri_set_uri lib sink uri).1.methods = sink.methods
      ∧ (gst_rtsp_sink_uri_set_uri lib sink uri).1.interleaved = sink.interleaved
      ∧ (gst_rtsp_sink_uri_set_uri lib sink uri).1.free_channel = sink.free_channel
      ∧ (gst_rtsp_sink_uri_set_uri lib sink uri).1.cur_protocols = sink.cur_protocols := by
  unfold gst_rtsp_sink_uri_set_uri
  split
  · exact ⟨rfl, rfl, rfl, rfl, rfl⟩
  · dsimp only
    split <;> exact ⟨rfl, rfl, rfl, rfl, rfl⟩

/-- The receive loop of `gst_rtsp_sink_try_send` on requests and data
messages followed by a response, when every transfer succeeds. -/
theorem try_send_next_requests (lib : SinkLib) (request : GstRTSPMessage) (want_code : Bool)
    (code : GstRTSPStatusCode) (reason : CString)
    (headers : List (GstRTSPHeaderField × CString)) (body : Option CString)
    (rest : List (GstRTSPResult × GstRTSPMessage)) :
    ∀ (msgs : List GstRTSPMessage) (sink : GstRTSPSink) (try_ : Nat)
      (response : Option GstRTSPMessage),
      (∀ m ∈ msgs, m.is_request_or_data = true) →
      (∀ r ∈ sink.send_results, r = GST_RTSP_OK) →
      try_send_next lib true request want_code
          (msgs.map (fun m => (GST_RTSP_OK, m))
            ++ (GST_RTSP_OK, GstRTSPMessage.response code reason headers body) :: rest)
          sink try_ response
        = { sink :=
              { sink with
                inbox := rest,
                send_results := sink.send_results.drop (msgs.filter (·.is_request)).length,
                trace := sink.trace ++ (msgs.filter (·.is_request)).map
                  (fun m => SinkEvent.send (server_request_reply lib m) GST_RTSP_OK),
                content_base :=
                  if code = GST_RTSP_STS_OK then
                    (gst_rtsp_message_get_header headers GstRTSPHeaderField.CONTENT_BASE 0).orElse
                      (fun _ => sink.content_base)
                  else sink.content_base },
            res := GST_RTSP_OK,
            response := some (GstRTSPMessage.response code reason headers body),
            code := if want_code then some code else none } := by
  intro msgs
  induction msgs with
  | nil =>
    intro sink try_ response _ _
    rw [List.map_nil, List.nil_append, try_send_next_response lib request want_code GST_RTSP_OK (by decide)]
    simp
  | cons m msgs ih =>
    intro sink try_ response hm hs
    have hm' : ∀ m ∈ msgs, m.is_request_or_data = true :=
      fun x hx => hm x (List.mem_cons_of_mem _ hx)
    have hm0 := hm m (List.mem_cons_self _ _)
    rw [List.map_cons, List.cons_append]
    cases m with
    | request method uri hdrs =>
      rw [try_send_next_request lib request want_code GST_RTSP_OK (by decide),
        handle_request_ok lib { sink with
          inbox := msgs.map (fun m => (GST_RTSP_OK, m))
            ++ (GST_RTSP_OK, GstRTSPMessage.response code reason headers body) :: rest } _ hs]
      simp only [GST_RTSP_OK, GST_RTSP_EEOF, Int.reduceNeg, Int.reduceEq, ↓reduceIte,
        lt_self_iff_false]
      have := ih { sink with
          inbox := msgs.map (fun m => (GST_RTSP_OK, m))
            ++ (GST_RTSP_OK, GstRTSPMessage.response code reason headers body) :: rest,
          send_results := sink.send_results.tail,
          trace := sink.trace ++ [SinkEvent.send (server_request_reply lib
            (GstRTSPMessage.request method uri hdrs)) GST_RTSP_OK] }
        try_ (some (GstRTSPMessage.request method uri hdrs)) hm' (tail_all_ok _ hs)
      simp only [GST_RTSP_OK] at this
      rw [this]
      simp [GstRTSPMessage.is_request, GST_RTSP_OK, List.drop_tail]
    | response c r h b => simp [GstRTSPMessage.is_request_or_data] at hm0
    | data channel b =>
      rw [try_send_next_data lib request want_code GST_RTSP_OK (by decide)]
      have := ih { sink with
        inbox := msgs.map (fun m => (GST_RTSP_OK, m))
          ++ (GST_RTSP_OK, GstRTSPMessage.response code reason headers body) :: rest }
        try_ (some (GstRTSPMessage.data channel b)) hm' hs
      rw [this]
      simp [GstRTSPMessage.is_request]
    | other => simp [GstRTSPMessage.is_request_or_data] at hm0

/-- A call of `gst_rtsp_sink_send`: at most nine calls of
`gst_rtsp_sink_try_send`, no event of the negotiation of the transports, and
the transport state of the sink is left alone. -/
theorem send_step (lib : SinkLib) (sink : GstRTSPSink) (conn : Bool)
    (request : GstRTSPMessage) (want_response want_code : Bool) :
    ∃ evs, SinkTrace sink (gst_rtsp_sink_send lib sink conn request want_response want_code).sink
        evs
      ∧ evs.countP SinkEvent.is_try_send ≤ 9
      ∧ (∀ e ∈ evs, e.is_setup = false)
      ∧ (gst_rtsp_sink_send lib sink conn request want_response want_code).sink.interleaved
          = sink.interleaved
      ∧ (gst_rtsp_sink_send lib sink conn request want_response want_code).sink.free_channel
          = sink.free_channel
      ∧ (gst_rtsp_sink_send lib sink conn request want_response want_code).sink.cur_protocols
          = sink.cur_protocols := by
  obtain ⟨⟨evs, ht, hc, hp, hk⟩, -, -⟩ := send_loop_exit_step lib sink conn request want_response
  obtain ⟨_, _, _, k4, _, k6, k7⟩ := hk
  have base : ∃ evs, SinkTrace sink (send_loop_exit lib sink conn request want_response).sink evs
      ∧ evs.countP SinkEvent.is_try_send ≤ 9 ∧ (∀ e ∈ evs, e.is_setup = false)
      ∧ (send_loop_exit lib sink conn request want_response).sink.interleaved = sink.interleaved
      ∧ (send_loop_exit lib sink conn request want_response).sink.free_channel
          = sink.free_channel
      ∧ (send_loop_exit lib sink conn request want_response).sink.cur_protocols
          = sink.cur_protocols := ⟨evs, ht, hc, hp, k4, k7, k6⟩
  have logged : ∀ text : String,
      ∃ evs, SinkTrace sink
          ((send_loop_exit lib sink conn request want_response).sink.log
            (SinkEvent.element_error text)) evs
        ∧ evs.countP SinkEvent.is_try_send ≤ 9 ∧ (∀ e ∈ evs, e.is_setup = false)
        ∧ (send_loop_exit lib sink conn request want_response).sink.interleaved
            = sink.interleaved
        ∧ (send_loop_exit lib sink conn request want_response).sink.free_channel
            = sink.free_channel
        ∧ (send_loop_exit lib sink conn request want_response).sink.cur_protocols
            = sink.cur_protocols := by
    intro text
    refine ⟨evs ++ [SinkEvent.element_error text], ?_, ?_, ?_, k4, k7, k6⟩
    · unfold SinkTrace at *; rw [sink_log_trace, ht, List.append_assoc]
    · rw [List.countP_append]; simpa [SinkEvent.is_try_send] using hc
    · intro e he
      rcases List.mem_append.mp he with he | he
      · exact hp e he
      · simp only [List.mem_singleton] at he
        subst he; rfl
  unfold gst_rtsp_sink_send
  dsimp only
  split
  · exact base
  · split
    · exact base
    · split
      · split
        · next response _ =>
          unfold send_error_response
          split
          · next code reason headers body =>
            split
            · exact logged _
            · split
              · exact logged _
              · split
                · split
                  · exact base
                  · next new_location _ =>
                    obtain ⟨u1, -, u3, u4, u5⟩ := uri_set_uri_trace lib
                      (send_loop_exit lib sink conn request want_response).sink new_location
                    refine ⟨evs, ?_, hc, hp, ?_, ?_, ?_⟩
                    · unfold SinkTrace at *
                      dsimp only
                      split
                      · split
                        · exact u1.trans ht
                        · exact u1.trans ht
                      · exact u1.trans ht
                    · dsimp only
                      split
                      · split
                        · exact u3.trans k4
                        · exact u3.trans k4
                      · exact u3.trans k4
                    · dsimp only
                      split
                      · split
                        · exact u4.trans k7
                        · exact u4.trans k7
                      · exact u4.trans k7
                    · dsimp only
                      split
                      · split
                        · exact u5.trans k6
                        · exact u5.trans k6
                      · exact u5.trans k6
                · split
                  · exact base
                  · exact logged _
          · exact base
        · exact base
      · exact base

/-! ## The negotiation of `gst_rtsp_sink_setup_streams` -/

theorem last_fixed_append (lock : Option Nat) (a b : List SinkEvent) :
    last_fixed lock (a ++ b) = last_fixed (last_fixed lock a) b := by
  induction a generalizing lock with
  | nil => rfl
  | cons e a ih => simp only [List.cons_append, last_fixed]; exact ih _

theorem offers_fixed_append (lock : Option Nat) (a b : List SinkEvent) :
    offers_fixed lock (a ++ b) ↔ offers_fixed lock a ∧ offers_fixed (last_fixed lock a) b := by
  induction a generalizing lock with
  | nil => simp [offers_fixed, last_fixed]
  | cons e a ih =>
    simp only [List.cons_append, offers_fixed, last_fixed, List.append_eq]
    rw [ih, and_assoc]

theorem last_fixed_quiet (lock : Option Nat) (evs : List SinkEvent)
    (h : ∀ e ∈ evs, e.fixes_transport = none) : last_fixed lock evs = lock := by
  induction evs with
  | nil => rfl
  | cons e evs ih =>
    simp only [last_fixed, h e (List.mem_cons_self _ _)]
    exact ih (fun x hx => h x (List.mem_cons_of_mem _ hx))

theorem fixes_of_not_setup (e : SinkEvent) (h : e.is_setup = false) :
    e.fixes_transport = none := by
  cases e <;> simp_all [SinkEvent.is_setup, SinkEvent.fixes_transport]

theorem offers_fixed_quiet (lock : Option Nat) (evs : List SinkEvent)
    (h : ∀ e ∈ evs, e.is_setup = false) : offers_fixed lock evs := by
  induction evs with
  | nil => trivial
  | cons e evs ih =>
    have he := h e (List.mem_cons_self _ _)
    simp only [offers_fixed, fixes_of_not_setup e he]
    refine ⟨?_, ih (fun x hx => h x (List.mem_cons_of_mem _ hx))⟩
    intro index protocols profiles T heq
    subst heq
    simp [SinkEvent.is_setup] at he

theorem SetupStep.setup_refl (s : GstRTSPSink) (p : Nat) : SetupStep s p s p :=
  ⟨[], by simp [SinkTrace], fun _ h => ⟨trivial, h⟩, id, by simp, rfl⟩

theorem SetupStep.setup_trans {a b c : GstRTSPSink} {p q r : Nat} (h1 : SetupStep a p b q)
    (h2 : SetupStep b q c r) : SetupStep a p c r := by
  obtain ⟨e1, t1, o1, i1, x1, c1⟩ := h1
  obtain ⟨e2, t2, o2, i2, x2, c2⟩ := h2
  refine ⟨e1 ++ e2, ?_, ?_, fun h => i2 (i1 h), ?_, c2.trans c1⟩
  · unfold SinkTrace at *; rw [t2, t1, List.append_assoc]
  · intro lock hl
    obtain ⟨a1, a2⟩ := o1 lock hl
    obtain ⟨b1, b2⟩ := o2 _ a2
    exact ⟨(offers_fixed_append _ _ _).mpr ⟨a1, b1⟩, by rw [last_fixed_append]; exact b2⟩
  · rintro ⟨e, he, hf⟩
    rcases List.mem_append.mp he with he | he
    · exact i2 (x1 ⟨e, he, hf⟩)
    · exact x2 ⟨e, he, hf⟩

theorem SetupStep.setup_of_quiet {s s' : GstRTSPSink} (p : Nat)
    (h : ∃ evs, SinkTrace s s' evs ∧ (∀ e ∈ evs, e.is_setup = false)
      ∧ s'.interleaved = s.interleaved ∧ s'.cur_protocols = s.cur_protocols) :
    SetupStep s p s' p := by
  obtain ⟨evs, ht, hq, hi, hc⟩ := h
  have hf : ∀ e ∈ evs, e.fixes_transport = none := fun e he => fixes_of_not_setup e (hq e he)
  refine ⟨evs, ht, ?_, fun h => hi.trans h, ?_, hc⟩
  · intro lock hl
    exact ⟨offers_fixed_quiet lock evs hq, by rw [last_fixed_quiet lock evs hf]; exact hl⟩
  · rintro ⟨e, he, h⟩
    rw [hf e he] at h
    cases h

theorem SetupStep.setup_error (s : GstRTSPSink) (p : Nat) (text : String) :
    SetupStep s p (s.log (SinkEvent.element_error text)) p :=
  SetupStep.setup_of_quiet p ⟨[SinkEvent.element_error text], by simp [SinkTrace],
    by simp [SinkEvent.is_setup], rfl, rfl⟩

theorem SetupStep.setup_send (lib : SinkLib) (s : GstRTSPSink) (p : Nat) (conn : Bool)
    (request : GstRTSPMessage) (want_response want_code : Bool) :
    SetupStep s p (gst_rtsp_sink_send lib s conn request want_response want_code).sink p := by
  obtain ⟨evs, ht, -, hq, hi, -, hc⟩ := send_step lib s conn request want_response want_code
  exact SetupStep.setup_of_quiet p ⟨evs, ht, hq, hi, hc⟩

theorem protocol_masks_index (mask : Nat) (h : protocol_masks.getD mask 0 ≠ 0) : mask ≤ 2 := by
  rcases mask with _ | _ | _ | _ | mask <;> simp [protocol_masks] at h ⊢

theorem profile_masks_index (mask : Nat) (h : profile_masks.getD mask 0 ≠ 0) : mask ≤ 3 := by
  rcases mask with _ | _ | _ | _ | _ | mask <;> simp [profile_masks] at h ⊢

theorem locked_offer (T p mask : Nat) (hm : mask ≤ 2) (hp : p = T)
    (hT : T = GST_RTSP_LOWER_TRANS_UDP ∨ T = GST_RTSP_LOWER_TRANS_UDP_MCAST
        ∨ T = GST_RTSP_LOWER_TRANS_TCP)
    (h : p &&& protocol_masks.getD mask 0 ≠ 0) : p &&& protocol_masks.getD mask 0 = T := by
  subst hp
  rcases hT with hT | hT | hT <;> subst hT <;>
    rcases mask with _ | _ | _ | mask <;>
    first
      | omega
      | (revert h; decide)

theorem SetupStep.setup_offer (s : GstRTSPSink) (p mask index profile : Nat)
    (hm : protocol_masks.getD mask 0 ≠ 0) (h : p &&& protocol_masks.getD mask 0 ≠ 0) :
    SetupStep s p (s.log (SinkEvent.create_transports index
      (p &&& protocol_masks.getD mask 0) profile)) p := by
  refine ⟨[SinkEvent.create_transports index (p &&& protocol_masks.getD mask 0) profile],
    by simp [SinkTrace], ?_, id, ?_, rfl⟩
  · intro lock hl
    refine ⟨⟨?_, trivial⟩, ?_⟩
    · intro i pr pf T heq hT
      obtain ⟨h1, h2⟩ := hl T hT
      injection heq with _ e2 _
      rw [← e2]
      exact locked_offer T p mask (protocol_masks_index mask hm) h1 h2 h
    · simpa [last_fixed, SinkEvent.fixes_transport] using hl
  · simp [SinkEvent.fixes_transport]

theorem skip_masks_loop_spec (allowed : Nat) : ∀ (l : List Nat) (i : Nat),
    i ≤ skip_masks_loop allowed l i
      ∧ (l.getD (skip_masks_loop allowed l i - i) 0 ≠ 0
          → allowed &&& l.getD (skip_masks_loop allowed l i - i) 0 ≠ 0)
  | [], i => by simp [skip_masks_loop]
  | m :: rest, i => by
    rw [skip_masks_loop]
    by_cases h : m ≠ 0 ∧ allowed &&& m = 0
    · rw [if_pos h]
      obtain ⟨h1, h2⟩ := skip_masks_loop_spec allowed rest (i + 1)
      refine ⟨by omega, ?_⟩
      have e : skip_masks_loop allowed rest (i + 1) - i
          = (skip_masks_loop allowed rest (i + 1) - (i + 1)) + 1 := by omega
      rw [e, List.getD_cons_succ]
      exact h2
    · rw [if_neg h]
      refine ⟨le_refl _, ?_⟩
      rw [Nat.sub_self, List.getD_cons_zero]
      intro hm hz
      exact h ⟨hm, hz⟩

/-- The loop `while (masks[i] && !(allowed & masks[i])) i++` does not go back,
and where it stops at a mask that is not the end marker, the mask is allowed. -/
theorem skip_masks_spec (masks : List Nat) (allowed i : Nat) :
    i ≤ skip_masks masks allowed i
      ∧ (masks.getD (skip_masks masks allowed i) 0 ≠ 0
          → allowed &&& masks.getD (skip_masks masks allowed i) 0 ≠ 0) := by
  obtain ⟨h1, h2⟩ := skip_masks_loop_spec allowed (masks.drop i) i
  unfold skip_masks
  refine ⟨h1, ?_⟩
  have e : (masks.drop i).getD (skip_masks_loop allowed (masks.drop i) i - i) 0
      = masks.getD (skip_masks_loop allowed (masks.drop i) i) 0 := by
    rw [List.getD_eq_getElem?_getD, List.getD_eq_getElem?_getD, List.getElem?_drop]
    congr 2
    omega
  rw [e] at h2
  exact h2

theorem SetupStep.setup_configured {s s' : GstRTSPSink} {p p' : Nat} (index : Nat)
    (t : GstRTSPTransport) (ht : s'.trace = s.trace ++ [SinkEvent.stream_transport index t])
    (hc : s'.cur_protocols = s.cur_protocols) (hi : s.interleaved = true → s'.interleaved = true)
    (h : (∃ T, (SinkEvent.stream_transport index t).fixes_transport = some T ∧ p' = T
            ∧ (T = GST_RTSP_LOWER_TRANS_UDP ∨ T = GST_RTSP_LOWER_TRANS_UDP_MCAST
                ∨ T = GST_RTSP_LOWER_TRANS_TCP)
            ∧ (T = GST_RTSP_LOWER_TRANS_TCP → s'.interleaved = true))
        ∨ ((SinkEvent.stream_transport index t).fixes_transport = none ∧ p' = p)) :
    SetupStep s p s' p' := by
  refine ⟨[SinkEvent.stream_transport index t], ht, ?_, hi, ?_, hc⟩
  · intro lock hl
    refine ⟨⟨?_, trivial⟩, ?_⟩
    · intro i pr pf T heq
      cases heq
    · rcases h with ⟨T, h1, h2, h3, -⟩ | ⟨h1, h2⟩
      · simp only [last_fixed, h1]
        intro T' hT'
        cases hT'
        exact ⟨h2, h3⟩
      · simp only [last_fixed, h1]
        rw [h2]
        exact hl
  · rintro ⟨e, he, hf⟩
    simp only [List.mem_singleton] at he
    subst he
    rcases h with ⟨T, h1, -, -, h4⟩ | ⟨h1, -⟩
    · rw [h1] at hf
      cases hf
      exact h4 rfl
    · rw [h1] at hf
      cases hf

/-- The handling of a 200 response: the transport configured is logged, and
the local `protocols` is the lower transport it fixes, if it fixes one. -/
theorem setup_stream_response_step (lib : SinkLib) (sink : GstRTSPSink)
    (context : GstRTSPStreamContext) (protocols : Nat) (res : GstRTSPResult)
    (response : Option GstRTSPMessage) :
    SetupStreamOk sink protocols
      (setup_stream_response lib sink context protocols res response) := by
  unfold setup_stream_response
  split
  · exact ⟨SetupStep.setup_error _ _ _, by simp [setup_streams_error]⟩
  · split
    · exact ⟨SetupStep.setup_refl _ _, by simp⟩
    · next transport _ =>
      dsimp only
      refine ⟨?_, by simp⟩
      by_cases h1 : transport.lower_transport = GST_RTSP_LOWER_TRANS_TCP
      · rw [if_pos h1]
        refine SetupStep.setup_configured context.index transport (by simp) rfl (fun _ => rfl)
          (Or.inl ⟨GST_RTSP_LOWER_TRANS_TCP, ?_, rfl, Or.inr (Or.inr rfl), fun _ => rfl⟩)
        simp [SinkEvent.fixes_transport, h1]
      · rw [if_neg h1]
        by_cases h2 : transport.lower_transport = GST_RTSP_LOWER_TRANS_UDP_MCAST
        · rw [if_pos h2]
          refine SetupStep.setup_configured context.index transport (by simp) rfl id
            (Or.inl ⟨GST_RTSP_LOWER_TRANS_UDP_MCAST, ?_, rfl, Or.inr (Or.inl rfl),
              fun h => absurd h (by decide)⟩)
          simp [SinkEvent.fixes_transport, h2]
        · rw [if_neg h2]
          by_cases h3 : transport.lower_transport = GST_RTSP_LOWER_TRANS_UDP
          · rw [if_pos h3]
            refine SetupStep.setup_configured context.index
              (if transport.destination = [] then
                { transport with destination := sink.server_ip } else transport)
              (by simp) rfl id
              (Or.inl ⟨GST_RTSP_LOWER_TRANS_UDP, ?_, rfl, Or.inl rfl,
                fun h => absurd h (by decide)⟩)
            by_cases hd : transport.destination = []
            · simp [SinkEvent.fixes_transport, h3, hd]
            · simp [SinkEvent.fixes_transport, h3, hd]
          · rw [if_neg h3]
            refine SetupStep.setup_configured context.index transport (by simp) rfl id
              (Or.inr ⟨?_, rfl⟩)
            simp [SinkEvent.fixes_transport, h1, h2, h3]

theorem SetupStreamOk.ok_after {a b : GstRTSPSink} {p q : Nat} {s : SetupStream}
    (h1 : SetupStep a p b q) (h2 : SetupStreamOk b q s) : SetupStreamOk a p s :=
  ⟨h1.setup_trans h2.1, h2.2⟩

theorem SetupStreamOk.ok_error (sink : GstRTSPSink) (context : GstRTSPStreamContext)
    (protocols : Nat) (res : GstRTSPResult) (text : String) :
    SetupStreamOk sink protocols (setup_streams_error sink context protocols res text) :=
  ⟨SetupStep.setup_error _ _ _, by simp [setup_streams_error]⟩

/-- The negotiation of one stream, from `next_protocol` or from `retry`: every
offer is for the lower transport fixed before it, and the fuel is enough: from
`retry` at most four rounds are made for each of the three protocol masks. -/
theorem setup_stream_loop_step (lib : SinkLib) (conn : Bool) (profiles : Nat)
    (location : CString) :
    ∀ (fuel : Nat) (at_retry : Bool) (profile_mask mask protocols : Nat) (res : GstRTSPResult)
      (sink : GstRTSPSink) (context : GstRTSPStreamContext),
      (at_retry = false → (3 - mask) * 5 < fuel) →
      (at_retry = true → profile_mask ≤ 3 ∧ protocol_masks.getD mask 0 ≠ 0
          ∧ protocols &&& protocol_masks.getD mask 0 ≠ 0
          ∧ (2 - mask) * 5 + (4 - profile_mask) < fuel) →
      SetupStreamOk sink protocols
        (setup_stream_loop lib conn profiles location fuel at_retry profile_mask mask protocols
          res sink context) := by
  intro fuel
  induction fuel with
  | zero =>
    intro at_retry profile_mask mask protocols res sink context h1 h2
    cases at_retry
    · have := h1 rfl
      omega
    · have := (h2 rfl).2.2.2
      omega
  | succ fuel ih =>
    intro at_retry profile_mask mask protocols res sink context h1 h2
    cases at_retry
    · have hf := h1 rfl
      rw [setup_stream_loop]
      dsimp only
      by_cases hp : profile_masks.getD (skip_masks profile_masks profiles profile_mask) 0 = 0
      · rw [if_pos hp]
        exact SetupStreamOk.ok_error _ _ _ _ _
      · rw [if_neg hp]
        by_cases hq : protocol_masks.getD (skip_masks protocol_masks protocols mask) 0 = 0
        · rw [if_pos hq]
          exact SetupStreamOk.ok_error _ _ _ _ _
        · rw [if_neg hq]
          apply ih
          · intro h; cases h
          · intro _
            have k1 := skip_masks_spec protocol_masks protocols mask
            have k2 := protocol_masks_index _ hq
            have k3 := profile_masks_index _ hp
            exact ⟨k3, hq, k1.2 hq, by omega⟩
    · obtain ⟨hpm, hm0, hpr, hf⟩ := h2 rfl
      have hm := protocol_masks_index _ hm0
      rw [setup_stream_loop]
      dsimp only
      refine SetupStreamOk.ok_after (SetupStep.setup_offer sink protocols mask context.index
        (profiles &&& profile_masks.getD profile_mask 0) hm0 hpr) ?_
      split
      · exact SetupStreamOk.ok_error _ _ _ _ _
      · next transports _ =>
        split
        · exact SetupStreamOk.ok_error _ _ _ _ _
        · split
          · apply ih
            · intro _; omega
            · intro h; cases h
          · refine SetupStreamOk.ok_after (SetupStep.setup_send lib _ protocols conn
              (setup_request
                (sink.log (SinkEvent.create_transports context.index
                  (protocols &&& protocol_masks.getD mask 0)
                  (profiles &&& profile_masks.getD profile_mask 0)))
                context location (profiles &&& profile_masks.getD profile_mask 0) transports)
              true true) ?_
            generalize gst_rtsp_sink_send lib _ conn _ true true = r
            split
            · split
              · exact SetupStreamOk.ok_error _ _ _ _ _
              · exact ⟨SetupStep.setup_refl _ _, by simp⟩
            · split
              · exact setup_stream_response_step _ _ _ _ _ _
              · split
                · split
                  · next hne =>
                    apply ih
                    · intro h; cases h
                    · intro _
                      have k1 := skip_masks_spec profile_masks profiles (profile_mask + 1)
                      have k3 := profile_masks_index _ hne
                      exact ⟨k3, hm0, hpr, by omega⟩
                  · split
                    · exact ⟨SetupStep.setup_refl _ _, by simp⟩
                    · next hne =>
                      apply ih
                      · intro h; cases h
                      · intro _
                        have k1 := skip_masks_spec protocol_masks protocols (mask + 1)
                        have k2 := protocol_masks_index _ hne
                        exact ⟨by omega, hne, k1.2 hne, by omega⟩
                · exact SetupStreamOk.ok_error _ _ _ _ _

theorem SetupStep.setup_of_step {n m : Nat} {s s' : GstRTSPSink} (p : Nat)
    (h : SinkStep n m s s') : SetupStep s p s' p := by
  obtain ⟨evs, ht, hq, -, -, hk⟩ := h
  obtain ⟨_, _, _, k4, _, k6, _⟩ := hk
  refine SetupStep.setup_of_quiet p ⟨evs, ht, ?_, k4, k6⟩
  intro e he
  have := hq e he
  cases e <;> simp_all [SinkEvent.is_transfer, SinkEvent.is_setup]

/-- The body of the loop over the streams, with the sixteen rounds the model
allows for one stream. -/
theorem setup_stream_step (lib : SinkLib) (sink : GstRTSPSink) (context : GstRTSPStreamContext)
    (protocols : Nat) (res : GstRTSPResult) :
    SetupStreamOk sink protocols (setup_stream lib sink context protocols res) := by
  unfold setup_stream
  dsimp only
  split
  · exact ⟨SetupStep.setup_refl _ _, by simp⟩
  · split
    · exact ⟨SetupStep.setup_refl _ _, by simp⟩
    · split
      · have hc := (conninfo_connect_step lib sink context.conninfo).1
        split
        · exact ⟨SetupStep.setup_of_step protocols hc, by simp⟩
        · exact SetupStreamOk.ok_after (SetupStep.setup_of_step protocols hc)
            (setup_stream_loop_step lib _ _ _ 16 false 0 0 protocols res _ _
              (fun _ => by decide) (fun h => by cases h))
      · exact setup_stream_loop_step lib _ _ _ 16 false 0 0 protocols res _ _
          (fun _ => by decide) (fun h => by cases h)

/-- The loop over the streams of `gst_rtsp_sink_setup_streams`. -/
theorem setup_streams_loop_step (lib : SinkLib) :
    ∀ (contexts done : List GstRTSPStreamContext) (sink : GstRTSPSink) (protocols : Nat)
      (res : GstRTSPResult),
      SetupStep sink protocols (setup_streams_loop lib contexts done sink protocols res).1
          (setup_streams_loop lib contexts done sink protocols res).2.1
        ∧ (setup_streams_loop lib contexts done sink protocols res).2.2.2
            ≠ SetupExit.out_of_fuel := by
  intro contexts
  induction contexts with
  | nil =>
    intro done sink protocols res
    rw [setup_streams_loop]
    exact ⟨SetupStep.setup_refl _ _, by simp⟩
  | cons context rest ih =>
    intro done sink protocols res
    obtain ⟨h1, h2⟩ := setup_stream_step lib sink context protocols res
    have h3 : SetupStep sink protocols
        { (setup_stream lib sink context protocols res).sink with
          contexts := done ++ (setup_stream lib sink context protocols res).context :: rest }
        (setup_stream lib sink context protocols res).protocols :=
      h1.setup_trans (SetupStep.setup_of_quiet _ ⟨[], by simp [SinkTrace], by simp, rfl, rfl⟩)
    generalize hl : setup_streams_loop lib (context :: rest) done sink protocols res = l
    rw [setup_streams_loop] at hl
    dsimp only at hl
    split at hl
    · subst hl
      obtain ⟨i1, i2⟩ := ih (done ++ [(setup_stream lib sink context protocols res).context])
        { (setup_stream lib sink context protocols res).sink with
          contexts := done ++ (setup_stream lib sink context protocols res).context :: rest }
        (setup_stream lib sink context protocols res).protocols
        (setup_stream lib sink context protocols res).res
      exact ⟨h3.setup_trans i1, i2⟩
    · subst hl
      exact ⟨h3, h2⟩

/-- What `SetupStep` says about the events after a response that fixes the
lower transport `T`. -/
theorem setup_step_fixed {s s' : GstRTSPSink} {p p' : Nat} (h : SetupStep s p s' p') :
    ∃ evs, s'.trace = s.trace ++ evs
      ∧ ∀ pre post e T, evs = pre ++ e :: post → e.fixes_transport = some T →
        (∀ mid index protocols profiles rest,
            post = mid ++ SinkEvent.create_transports index protocols profiles :: rest →
            (∀ x ∈ mid, x.fixes_transport = none) → protocols = T)
        ∧ ((∀ x ∈ post, x.fixes_transport = none) → p' = T)
        ∧ (T = GST_RTSP_LOWER_TRANS_TCP → s'.interleaved = true) := by
  obtain ⟨evs, ht, ho, -, hx, -⟩ := h
  refine ⟨evs, ht, ?_⟩
  intro pre post e T hevs hfix
  obtain ⟨o, l⟩ := ho none (fun T h => by cases h)
  subst hevs
  rw [offers_fixed_append] at o
  rw [last_fixed_append] at l
  have o2 := o.2.2
  simp only [last_fixed, hfix] at l
  simp only [hfix] at o2
  refine ⟨?_, ?_, ?_⟩
  · intro mid index protocols profiles rest hpost hmid
    subst hpost
    rw [offers_fixed_append, last_fixed_quiet _ _ hmid] at o2
    exact o2.2.1 index protocols profiles T rfl rfl
  · intro hpost
    rw [last_fixed_quiet _ _ hpost] at l
    exact (l T rfl).1
  · intro hT
    subst hT
    exact hx ⟨e, by simp, hfix⟩

/-! ## The parser of Digest challenges -/

theorem decode_quoted_loop_quote (rest : CString) : decode_quoted_loop ('"' :: rest) = [] := by
  rw [decode_quoted_loop.eq_def]
  simp

theorem decode_quoted_loop_escaped (d : Char) (rest : CString) :
    decode_quoted_loop ('\\' :: d :: rest) = d :: decode_quoted_loop rest := by
  rw [decode_quoted_loop.eq_def]
  simp

theorem decode_quoted_loop_plain (c : Char) (rest : CString) (h1 : c ≠ '"') (h2 : c ≠ '\\') :
    decode_quoted_loop (c :: rest) = c :: decode_quoted_loop rest := by
  rw [decode_quoted_loop.eq_def]
  simp [h1, h2]

theorem decode_quoted_loop_escape (s rest : CString) :
    decode_quoted_loop (escape_quoted s ++ '"' :: rest) = s := by
  induction s with
  | nil => exact decode_quoted_loop_quote rest
  | cons c s ih =>
    by_cases h : c = '"' ∨ c = '\\'
    · rw [escape_quoted, if_pos h, List.cons_append, List.cons_append,
        decode_quoted_loop_escaped, ih]
    · rw [escape_quoted, if_neg h, List.cons_append,
        decode_quoted_loop_plain c _ (fun e => h (Or.inl e)) (fun e => h (Or.inr e)), ih]

theorem decode_quoted_loop_length : ∀ (n : Nat) (s : CString), s.length ≤ n →
    (decode_quoted_loop s).length ≤ s.length := by
  intro n
  induction n with
  | zero =>
    intro s hs
    have : s = [] := List.eq_nil_of_length_eq_zero (by omega)
    subst this
    simp [decode_quoted_loop]
  | succ n ih =>
    intro s hs
    match s with
    | [] => simp [decode_quoted_loop]
    | c :: rest =>
      by_cases h1 : c = '"'
      · subst h1
        rw [decode_quoted_loop_quote]; simp
      · by_cases h2 : c = '\\'
        · subst h2
          match rest with
          | [] => rw [decode_quoted_loop.eq_def]; simp
          | d :: rest' =>
            rw [decode_quoted_loop_escaped]
            have := ih rest' (by simp at hs; omega)
            simp only [List.length_cons]
            omega
        · rw [decode_quoted_loop_plain c rest h1 h2]
          have := ih rest (by simp at hs; omega)
          simp only [List.length_cons]
          omega

theorem split_commas_piece : ∀ (n : Nat) (s : CString), s.length ≤ n →
    ∀ (quoted : Bool) (piece : CString),
      split_commas quoted piece s
        = (piece ++ (split_commas quoted [] s).headD []) :: (split_commas quoted [] s).tail := by
  intro n
  induction n with
  | zero =>
    intro s hs quoted piece
    have : s = [] := List.eq_nil_of_length_eq_zero (by omega)
    subst this
    simp [split_commas]
  | succ n ih =>
    intro s hs quoted piece
    match s with
    | [] => simp [split_commas]
    | c :: rest =>
      have hr : rest.length ≤ n := by simp at hs; omega
      rw [split_commas.eq_def, split_commas.eq_def quoted []]
      dsimp only
      by_cases h1 : c = '"'
      · rw [if_pos h1, if_pos h1, ih rest hr, ih rest hr _ ([] ++ [c])]
        simp
      · rw [if_neg h1, if_neg h1]
        by_cases hq : quoted = true
        · rw [if_pos hq, if_pos hq]
          by_cases h2 : c = '\\'
          · rw [if_pos h2, if_pos h2]
            match rest with
            | [] => simp
            | d :: rest' =>
              have hr' : rest'.length ≤ n := by simp at hr; omega
              dsimp only
              rw [ih rest' hr', ih rest' hr' _ ([] ++ [c, d])]
              simp
          · rw [if_neg h2, if_neg h2, ih rest hr, ih rest hr _ ([] ++ [c])]
            simp
        · rw [if_neg hq, if_neg hq]
          by_cases h3 : c = ','
          · rw [if_pos h3, if_pos h3]
            simp
          · rw [if_neg h3, if_neg h3, ih rest hr, ih rest hr _ ([] ++ [c])]
            simp

theorem split_commas_skip_item : ∀ (n : Nat) (s : CString), s.length ≤ n → ∀ (quoted : Bool),
    split_commas quoted [] s
        = s.take (skip_item_loop quoted s)
          :: (if skip_item_loop quoted s < s.length then
                split_commas false [] (s.drop (skip_item_loop quoted s + 1))
              else [])
      ∧ (s.drop (skip_item_loop quoted s) = []
          ∨ s.drop (skip_item_loop quoted s) = ',' :: s.drop (skip_item_loop quoted s + 1)) := by
  intro n
  induction n with
  | zero =>
    intro s hs quoted
    have : s = [] := List.eq_nil_of_length_eq_zero (by omega)
    subst this
    simp [split_commas, skip_item_loop]
  | succ n ih =>
    intro s hs quoted
    match s with
    | [] => simp [split_commas, skip_item_loop]
    | c :: rest =>
      have hr : rest.length ≤ n := by simp at hs; omega
      rw [split_commas.eq_def, skip_item_loop.eq_def]
      dsimp only
      by_cases h1 : c = '"'
      · rw [if_pos h1, if_pos h1, split_commas_piece rest.length rest (le_refl _)]
        obtain ⟨e1, e2⟩ := ih rest hr (!quoted)
        rw [e1]
        refine ⟨?_, ?_⟩
        · simp [Nat.add_comm 1]
        · simpa [Nat.add_comm 1] using e2
      · rw [if_neg h1, if_neg h1]
        by_cases hq : quoted = true
        · rw [if_pos hq, if_pos hq]
          by_cases h2 : c = '\\'
          · rw [if_pos h2, if_pos h2]
            match rest with
            | [] => simp
            | d :: rest' =>
              have hr' : rest'.length ≤ n := by simp at hr; omega
              dsimp only
              rw [split_commas_piece rest'.length rest' (le_refl _)]
              obtain ⟨e1, e2⟩ := ih rest' hr' quoted
              rw [e1]
              refine ⟨?_, ?_⟩
              · simp [Nat.add_comm 2]
              · simpa [Nat.add_comm 2] using e2
          · rw [if_neg h2, if_neg h2, split_commas_piece rest.length rest (le_refl _)]
            obtain ⟨e1, e2⟩ := ih rest hr quoted
            rw [e1]
            refine ⟨?_, ?_⟩
            · simp [Nat.add_comm 1]
            · simpa [Nat.add_comm 1] using e2
        · rw [if_neg hq, if_neg hq]
          by_cases h3 : c = ','
          · rw [if_pos h3, if_pos h3]
            subst h3
            simp
          · rw [if_neg h3, if_neg h3, split_commas_piece rest.length rest (le_refl _)]
            obtain ⟨e1, e2⟩ := ih rest hr quoted
            rw [e1]
            refine ⟨?_, ?_⟩
            · simp [Nat.add_comm 1]
            · simpa [Nat.add_comm 1] using e2

theorem skip_commas_skip (c : Char) (rest : CString) (h : g_ascii_isspace c = true ∨ c = ',') :
    gst_rtsp_sink_skip_commas (c :: rest) = gst_rtsp_sink_skip_commas rest := by
  unfold gst_rtsp_sink_skip_commas
  rw [List.dropWhile_cons_of_pos]
  rcases h with h | h <;> simp [h]

theorem skip_commas_stop (c : Char) (rest : CString) (h1 : g_ascii_isspace c = false)
    (h2 : c ≠ ',') : gst_rtsp_sink_skip_commas (c :: rest) = c :: rest := by
  unfold gst_rtsp_sink_skip_commas
  rw [List.dropWhile_cons_of_neg]
  simp [h1, h2]

theorem skip_commas_lws (w rest : CString) (h : ∀ x ∈ w, g_ascii_isspace x = true) :
    gst_rtsp_sink_skip_commas (w ++ rest) = gst_rtsp_sink_skip_commas rest := by
  induction w with
  | nil => rfl
  | cons c w ih =>
    rw [List.cons_append, skip_commas_skip c _ (Or.inl (h c (List.mem_cons_self _ _)))]
    exact ih (fun x hx => h x (List.mem_cons_of_mem _ hx))

theorem skip_commas_length (s : CString) : (gst_rtsp_sink_skip_commas s).length ≤ s.length := by
  unfold gst_rtsp_sink_skip_commas
  exact (List.dropWhile_suffix _).length_le

theorem unskip_lws_append (l : CString) :
    ∃ w, l = gst_rtsp_sink_unskip_lws l ++ w ∧ ∀ x ∈ w, g_ascii_isspace x = true := by
  refine ⟨(l.reverse.takeWhile g_ascii_isspace).reverse, ?_, ?_⟩
  · unfold gst_rtsp_sink_unskip_lws
    rw [← List.reverse_append, List.takeWhile_append_dropWhile, List.reverse_reverse]
  · intro x hx
    exact List.mem_takeWhile_imp (List.mem_reverse.mp hx)

theorem unskip_lws_ne_nil (c : Char) (l : CString) (h : g_ascii_isspace c = false) :
    gst_rtsp_sink_unskip_lws (c :: l) ≠ [] := by
  unfold gst_rtsp_sink_unskip_lws
  intro e
  rw [List.reverse_eq_nil_iff, List.dropWhile_eq_nil_iff] at e
  have := e c (by simp)
  rw [h] at this
  cases this

theorem skip_lws_stop (c : Char) (l : CString) (h : g_ascii_isspace c = false) :
    gst_rtsp_sink_skip_lws (c :: l) = c :: l := by
  unfold gst_rtsp_sink_skip_lws
  rw [List.dropWhile_cons_of_neg]
  simp [h]

theorem skip_lws_skip (c : Char) (l : CString) (h : g_ascii_isspace c = true) :
    gst_rtsp_sink_skip_lws (c :: l) = gst_rtsp_sink_skip_lws l := by
  unfold gst_rtsp_sink_skip_lws
  rw [List.dropWhile_cons_of_pos h]

theorem digest_items_nil (fuel : Nat) : digest_items fuel [] = [] := by
  cases fuel <;> simp [digest_items]

theorem challenge_items_nil : challenge_items [] = [] := by
  simp [challenge_items, split_commas, trim_lws, gst_rtsp_sink_skip_lws,
    gst_rtsp_sink_unskip_lws]

theorem challenge_items_comma (rest : CString) :
    challenge_items (',' :: rest) = challenge_items rest := by
  unfold challenge_items
  rw [split_commas.eq_def]
  simp [trim_lws, gst_rtsp_sink_skip_lws, gst_rtsp_sink_unskip_lws]

theorem challenge_items_lws (c : Char) (rest : CString) (h : g_ascii_isspace c = true) :
    challenge_items (c :: rest) = challenge_items rest := by
  have h1 : c ≠ '"' := by rintro rfl; revert h; decide
  have h2 : c ≠ ',' := by rintro rfl; revert h; decide
  unfold challenge_items
  rw [split_commas.eq_def]
  dsimp only
  rw [if_neg h1, if_neg (by simp), if_neg h2,
    split_commas_piece rest.length rest (le_refl _)]
  cases hs : split_commas false [] rest with
  | nil =>
    simp [trim_lws, skip_lws_skip c _ h, gst_rtsp_sink_skip_lws, gst_rtsp_sink_unskip_lws,
      List.dropWhile, h]
  | cons p tl => simp [trim_lws, skip_lws_skip c _ h]

theorem drop_length_of_append {a b l : CString} (h : l = a ++ b) : l.drop a.length = b := by
  subst h
  exact List.drop_left _ _

theorem skip_item_loop_pos (c : Char) (rest : CString) (h : c ≠ ',') :
    1 ≤ skip_item_loop false (c :: rest) := by
  rw [skip_item_loop.eq_def]
  dsimp only
  by_cases h1 : c = '"'
  · rw [if_pos h1]; omega
  · rw [if_neg h1, if_neg (by simp), if_neg h]; omega

theorem digest_items_eq : ∀ (n : Nat) (text : CString), text.length ≤ n →
    ∀ fuel, (gst_rtsp_sink_skip_commas text).length ≤ fuel →
      digest_items fuel (gst_rtsp_sink_skip_commas text) = challenge_items text := by
  intro n
  induction n with
  | zero =>
    intro text hs fuel _
    have : text = [] := List.eq_nil_of_length_eq_zero (by omega)
    subst this
    rw [challenge_items_nil]
    exact digest_items_nil fuel
  | succ n ih =>
    intro text hs fuel hf
    match text with
    | [] =>
      rw [challenge_items_nil]
      exact digest_items_nil fuel
    | c :: rest =>
      have hr : rest.length ≤ n := by simp at hs; omega
      by_cases hw : g_ascii_isspace c = true
      · rw [skip_commas_skip c rest (Or.inl hw)] at hf ⊢
        rw [challenge_items_lws c rest hw]
        exact ih rest hr fuel hf
      · by_cases hc : c = ','
        · subst hc
          rw [skip_commas_skip ',' rest (Or.inr rfl)] at hf ⊢
          rw [challenge_items_comma]
          exact ih rest hr fuel hf
        · have hw' : g_ascii_isspace c = false := by simpa using hw
          rw [skip_commas_stop c rest hw' hc] at hf ⊢
          obtain ⟨k1, k2⟩ := split_commas_skip_item (c :: rest).length (c :: rest) (le_refl _)
            false
          have kpos := skip_item_loop_pos c rest hc
          obtain ⟨w, e1, e2⟩ := unskip_lws_append
            ((c :: rest).take (skip_item_loop false (c :: rest)))
          have htake : (c :: rest).take (skip_item_loop false (c :: rest))
              = c :: rest.take (skip_item_loop false (c :: rest) - 1) := by
            obtain ⟨m, hm⟩ : ∃ m, skip_item_loop false (c :: rest) = m + 1 :=
              ⟨skip_item_loop false (c :: rest) - 1, by omega⟩
            rw [hm]; simp
          have hitem : gst_rtsp_sink_skip_item (c :: rest) ≠ [] := by
            unfold gst_rtsp_sink_skip_item
            rw [htake]
            exact unskip_lws_ne_nil c _ hw'
          have htrim : trim_lws ((c :: rest).take (skip_item_loop false (c :: rest)))
              = gst_rtsp_sink_skip_item (c :: rest) := by
            unfold trim_lws gst_rtsp_sink_skip_item
            rw [htake, skip_lws_stop c _ hw']
          have hdrop : (c :: rest).drop (gst_rtsp_sink_skip_item (c :: rest)).length
              = w ++ (c :: rest).drop (skip_item_loop false (c :: rest)) := by
            have e3 : c :: rest = gst_rtsp_sink_skip_item (c :: rest)
                ++ (w ++ (c :: rest).drop (skip_item_loop false (c :: rest))) := by
              rw [← List.append_assoc]
              unfold gst_rtsp_sink_skip_item
              rw [← e1, List.take_append_drop]
            exact drop_length_of_append e3
          obtain ⟨f, rfl⟩ : ∃ f, fuel = f + 1 := ⟨fuel - 1, by simp at hf; omega⟩
          rw [digest_items]
          rw [if_neg (by simp)]
          dsimp only
          rw [hdrop, skip_commas_lws w _ e2]
          unfold challenge_items
          rw [k1]
          rcases k2 with k2 | k2
          · have hk : ¬ skip_item_loop false (c :: rest) < (c :: rest).length := by
              intro hlt
              have := List.drop_eq_nil_iff.mp k2
              omega
            rw [if_neg hk, k2]
            have : gst_rtsp_sink_skip_commas [] = [] := rfl
            rw [this, digest_items_nil]
            simp [htrim, hitem]
          · have hk : skip_item_loop false (c :: rest) < (c :: rest).length := by
              by_contra hge
              rw [List.drop_eq_nil_iff.mpr (by omega)] at k2
              cases k2
            rw [if_pos hk, k2, skip_commas_skip ',' _ (Or.inr rfl)]
            have hlen : ((c :: rest).drop (skip_item_loop false (c :: rest) + 1)).length ≤ n := by
              simp only [List.length_drop, List.length_cons]
              omega
            rw [ih _ hlen f (by
              have := skip_commas_length ((c :: rest).drop (skip_item_loop false (c :: rest) + 1))
              simp only [List.length_drop, List.length_cons] at this hf ⊢
              omega)]
            simp [htrim, hitem, challenge_items]

theorem digest_params_eq : ∀ (items : List CString) (c : GstRTSPConnection) (stale : Bool),
    (digest_params items (some c) stale).1
      = some { c with auth_params := c.auth_params ++ items.filterMap digest_item_param } := by
  intro items
  induction items with
  | nil => intro c stale; simp [digest_params]
  | cons item items ih =>
    intro c stale
    rw [digest_params]
    cases h : digest_item_param item with
    | none => simp only [List.filterMap_cons, h]; exact ih c stale
    | some p =>
      obtain ⟨name, value⟩ := p
      simp only [List.filterMap_cons, h, gst_rtsp_connection_set_auth_param, Option.map_some']
      rw [ih]
      simp

theorem parse_digest_challenge_params (c : GstRTSPConnection) (header : CString) :
    (gst_rtsp_sink_parse_digest_challenge (some c) header).1
      = some { c with auth_params := (challenge_items header).filterMap digest_item_param } := by
  unfold gst_rtsp_sink_parse_digest_challenge
  simp only [gst_rtsp_connection_clear_auth_params, Option.map_some']
  rw [digest_params_eq, digest_items_eq header.length header (le_refl _) _ (le_refl _)]
  simp

theorem unskip_lws_trailing (name w : CString) (hne : name ≠ [])
    (hlast : g_ascii_isspace (name.getLast hne) = false)
    (hw : ∀ x ∈ w, g_ascii_isspace x = true) : gst_rtsp_sink_unskip_lws (name ++ w) = name := by
  unfold gst_rtsp_sink_unskip_lws
  rw [List.reverse_append, List.dropWhile_append]
  have h1 : List.dropWhile g_ascii_isspace w.reverse = [] := by
    rw [List.dropWhile_eq_nil_iff]
    intro x hx
    exact hw x (List.mem_reverse.mp hx)
  rw [h1]
  simp only [List.isEmpty_nil, ↓reduceIte]
  have e : name.reverse = name.getLast hne :: name.dropLast.reverse := by
    conv_lhs => rw [← List.dropLast_append_getLast hne]
    simp
  rw [e, List.dropWhile_cons_of_neg (by simp [hlast]), ← e, List.reverse_reverse]

theorem skip_lws_leading (w value : CString) (hw : ∀ x ∈ w, g_ascii_isspace x = true)
    (hv : ∀ c, value.head? = some c → g_ascii_isspace c = false) :
    gst_rtsp_sink_skip_lws (w ++ value) = value := by
  induction w with
  | nil =>
    cases value with
    | nil => rfl
    | cons c v => exact skip_lws_stop c v (hv c rfl)
  | cons x w ih =>
    rw [List.cons_append, skip_lws_skip x _ (hw x (List.mem_cons_self _ _))]
    exact ih (fun y hy => hw y (List.mem_cons_of_mem _ hy))

theorem lws_no_equals (w : CString) (hw : ∀ x ∈ w, g_ascii_isspace x = true) :
    ∀ x ∈ w, (x != '=') = true := by
  intro x hx
  have := hw x hx
  rw [bne_iff_ne]
  rintro rfl
  revert this
  decide

theorem digest_item_param_pair (name w1 w2 value : CString) (hne : name ≠ [])
    (hname : ∀ x ∈ name, x ≠ '=') (hlast : g_ascii_isspace (name.getLast hne) = false)
    (hw1 : ∀ x ∈ w1, g_ascii_isspace x = true) (hw2 : ∀ x ∈ w2, g_ascii_isspace x = true)
    (hv : ∀ c, value.head? = some c → g_ascii_isspace c = false) :
    digest_item_param (name ++ w1 ++ '=' :: (w2 ++ value))
      = some (name, some (if value.head? = some '"' then gst_rtsp_decode_quoted_string value
          else value)) := by
  have hpre : ∀ x ∈ name ++ w1, (x != '=') = true := by
    intro x hx
    rcases List.mem_append.mp hx with hx | hx
    · rw [bne_iff_ne]; exact hname x hx
    · exact lws_no_equals w1 hw1 x hx
  have ht : (name ++ w1 ++ '=' :: (w2 ++ value)).takeWhile (fun c => c != '=') = name ++ w1 := by
    rw [List.takeWhile_append_of_pos hpre]
    simp
  have hd : (name ++ w1 ++ '=' :: (w2 ++ value)).dropWhile (fun c => c != '=')
      = '=' :: (w2 ++ value) := by
    rw [List.dropWhile_append_of_pos hpre]
    simp
  unfold digest_item_param
  rw [if_pos (by simp)]
  dsimp only
  rw [ht, hd, unskip_lws_trailing name w1 hne hlast hw1, if_neg hne]
  simp only [List.drop_succ_cons, List.drop_zero]
  rw [skip_lws_leading w2 value hw2 hv]

theorem digest_item_param_no_name (w rest : CString)
    (hw : ∀ x ∈ w, g_ascii_isspace x = true) : digest_item_param (w ++ '=' :: rest) = none := by
  have ht : (w ++ '=' :: rest).takeWhile (fun c => c != '=') = w := by
    rw [List.takeWhile_append_of_pos (lws_no_equals w hw)]
    simp
  have hu : gst_rtsp_sink_unskip_lws w = [] := by
    unfold gst_rtsp_sink_unskip_lws
    rw [List.reverse_eq_nil_iff, List.dropWhile_eq_nil_iff]
    intro x hx
    exact hw x (List.mem_reverse.mp hx)
  unfold digest_item_param
  rw [if_pos (by simp)]
  dsimp only
  rw [ht, hu, if_pos rfl]

theorem digest_item_param_no_value (item : CString) (h : ∀ x ∈ item, x ≠ '=') :
    digest_item_param item = some (item, none) := by
  unfold digest_item_param
  rw [if_neg]
  simp only [List.contains_eq_any_beq, List.any_eq_true, beq_iff_eq, not_exists, not_and]
  intro x hx e
  exact h x hx e.symm

/-! ## The transports string -/

theorem create_transports_done (sink : GstRTSPSink) (context : GstRTSPStreamContext)
    (protocols fuel profiles : Nat) (result : CString) (first : Bool) (h : profiles = 0) :
    create_transports_loop sink context protocols fuel profiles result first
      = (result, first) := by
  subst h
  cases fuel <;> simp [create_transports_loop]

theorem create_transports_savpf (sink : GstRTSPSink) (context : GstRTSPStreamContext)
    (protocols fuel profiles : Nat) (result : CString) (first : Bool) (hf : 0 < fuel)
    (h : profiles &&& GST_RTSP_PROFILE_SAVPF ≠ 0) :
    create_transports_loop sink context protocols fuel profiles result first
      = create_transports_loop sink context protocols (fuel - 1)
          (and_not profiles GST_RTSP_PROFILE_SAVPF)
          ((if !first then result ++ ",RTP".toList else result) ++ "/SAVPF".toList
            ++ transport_lower sink context protocols ++ ";mode=RECORD".toList) false := by
  have h0 : profiles ≠ 0 := by rintro rfl; simp at h
  obtain ⟨f, rfl⟩ : ∃ f, fuel = f + 1 := ⟨fuel - 1, by omega⟩
  rw [create_transports_loop, if_neg h0, Nat.add_sub_cancel]
  simp only [if_pos h]
  congr 1
  unfold transport_lower
  by_cases hu : protocols &&& GST_RTSP_LOWER_TRANS_UDP ≠ 0
  · simp only [if_pos hu, List.append_assoc]
  · by_cases hm : protocols &&& GST_RTSP_LOWER_TRANS_UDP_MCAST ≠ 0
    · rcases ha : context.multicast_address with _ | ⟨port, n_ports⟩ <;>
        simp only [if_neg hu, if_pos hm, List.append_assoc, List.append_nil]
    · by_cases ht : protocols &&& GST_RTSP_LOWER_TRANS_TCP ≠ 0
      · simp only [if_neg hu, if_neg hm, if_pos ht, List.append_assoc]
      · simp only [if_neg hu, if_neg hm, if_neg ht, List.append_assoc, List.append_nil]

theorem create_transports_savp (sink : GstRTSPSink) (context : GstRTSPStreamContext)
    (protocols fuel profiles : Nat) (result : CString) (first : Bool) (hf : 0 < fuel)
    (h3 : ¬ profiles &&& GST_RTSP_PROFILE_SAVPF ≠ 0)
    (h : profiles &&& GST_RTSP_PROFILE_SAVP ≠ 0) :
    create_transports_loop sink context protocols fuel profiles result first
      = create_transports_loop sink context protocols (fuel - 1)
          (and_not profiles GST_RTSP_PROFILE_SAVP)
          ((if !first then result ++ ",RTP".toList else result) ++ "/SAVP".toList
            ++ transport_lower sink context protocols ++ ";mode=RECORD".toList) false := by
  have h0 : profiles ≠ 0 := by rintro rfl; simp at h
  obtain ⟨f, rfl⟩ : ∃ f, fuel = f + 1 := ⟨fuel - 1, by omega⟩
  rw [create_transports_loop, if_neg h0, Nat.add_sub_cancel]
  simp only [if_neg h3, if_pos h]
  congr 1
  unfold transport_lower
  by_cases hu : protocols &&& GST_RTSP_LOWER_TRANS_UDP ≠ 0
  · simp only [if_pos hu, List.append_assoc]
  · by_cases hm : protocols &&& GST_RTSP_LOWER_TRANS_UDP_MCAST ≠ 0
    · rcases ha : context.multicast_address with _ | ⟨port, n_ports⟩ <;>
        simp only [if_neg hu, if_pos hm, List.append_assoc, List.append_nil]
    · by_cases ht : protocols &&& GST_RTSP_LOWER_TRANS_TCP ≠ 0
      · simp only [if_neg hu, if_neg hm, if_pos ht, List.append_assoc]
      · simp only [if_neg hu, if_neg hm, if_neg ht, List.append_assoc, List.append_nil]

theorem create_transports_avpf (sink : GstRTSPSink) (context : GstRTSPStreamContext)
    (protocols fuel profiles : Nat) (result : CString) (first : Bool) (hf : 0 < fuel)
    (h3 : ¬ profiles &&& GST_RTSP_PROFILE_SAVPF ≠ 0)
    (h2 : ¬ profiles &&& GST_RTSP_PROFILE_SAVP ≠ 0)
    (h : profiles &&& GST_RTSP_PROFILE_AVPF ≠ 0) :
    create_transports_loop sink context protocols fuel profiles result first
      = create_transports_loop sink context protocols (fuel - 1)
          (and_not profiles GST_RTSP_PROFILE_AVPF)
          ((if !first then result ++ ",RTP".toList else result) ++ "/AVPF".toList
            ++ transport_lower sink context protocols ++ ";mode=RECORD".toList) false := by
  have h0 : profiles ≠ 0 := by rintro rfl; simp at h
  obtain ⟨f, rfl⟩ : ∃ f, fuel = f + 1 := ⟨fuel - 1, by omega⟩
  rw [create_transports_loop, if_neg h0, Nat.add_sub_cancel]
  simp only [if_neg h3, if_neg h2, if_pos h]
  congr 1
  unfold transport_lower
  by_cases hu : protocols &&& GST_RTSP_LOWER_TRANS_UDP ≠ 0
  · simp only [if_pos hu, List.append_assoc]
  · by_cases hm : protocols &&& GST_RTSP_LOWER_TRANS_UDP_MCAST ≠ 0
    · rcases ha : context.multicast_address with _ | ⟨port, n_ports⟩ <;>
        simp only [if_neg hu, if_pos hm, List.append_assoc, List.append_nil]
    · by_cases ht : protocols &&& GST_RTSP_LOWER_TRANS_TCP ≠ 0
      · simp only [if_neg hu, if_neg hm, if_pos ht, List.append_assoc]
      · simp only [if_neg hu, if_neg hm, if_neg ht, List.append_assoc, List.append_nil]

theorem create_transports_avp (sink : GstRTSPSink) (context : GstRTSPStreamContext)
    (protocols fuel profiles : Nat) (result : CString) (first : Bool) (hf : 0 < fuel)
    (h3 : ¬ profiles &&& GST_RTSP_PROFILE_SAVPF ≠ 0)
    (h2 : ¬ profiles &&& GST_RTSP_PROFILE_SAVP ≠ 0)
    (h1 : ¬ profiles &&& GST_RTSP_PROFILE_AVPF ≠ 0)
    (h : profiles &&& GST_RTSP_PROFILE_AVP ≠ 0) :
    create_transports_loop sink context protocols fuel profiles result first
      = create_transports_loop sink context protocols (fuel - 1)
          (and_not profiles GST_RTSP_PROFILE_AVP)
          ((if !first then result ++ ",RTP".toList else result) ++ "/AVP".toList
            ++ transport_lower sink context protocols ++ ";mode=RECORD".toList) false := by
  have h0 : profiles ≠ 0 := by rintro rfl; simp at h
  obtain ⟨f, rfl⟩ : ∃ f, fuel = f + 1 := ⟨fuel - 1, by omega⟩
  rw [create_transports_loop, if_neg h0, Nat.add_sub_cancel]
  simp only [if_neg h3, if_neg h2, if_neg h1, if_pos h]
  congr 1
  unfold transport_lower
  by_cases hu : protocols &&& GST_RTSP_LOWER_TRANS_UDP ≠ 0
  · simp only [if_pos hu, List.append_assoc]
  · by_cases hm : protocols &&& GST_RTSP_LOWER_TRANS_UDP_MCAST ≠ 0
    · rcases ha : context.multicast_address with _ | ⟨port, n_ports⟩ <;>
        simp only [if_neg hu, if_pos hm, List.append_assoc, List.append_nil]
    · by_cases ht : protocols &&& GST_RTSP_LOWER_TRANS_TCP ≠ 0
      · simp only [if_neg hu, if_neg hm, if_pos ht, List.append_assoc]
      · simp only [if_neg hu, if_neg hm, if_neg ht, List.append_assoc, List.append_nil]

theorem create_transports_unknown (sink : GstRTSPSink) (context : GstRTSPStreamContext)
    (protocols fuel profiles : Nat) (result : CString) (first : Bool) (hf : 0 < fuel)
    (h0 : profiles ≠ 0)
    (h3 : ¬ profiles &&& GST_RTSP_PROFILE_SAVPF ≠ 0)
    (h2 : ¬ profiles &&& GST_RTSP_PROFILE_SAVP ≠ 0)
    (h1 : ¬ profiles &&& GST_RTSP_PROFILE_AVPF ≠ 0)
    (h : ¬ profiles &&& GST_RTSP_PROFILE_AVP ≠ 0) :
    create_transports_loop sink context protocols fuel profiles result first
      = (if !first then result ++ ",RTP".toList else result, first) := by
  obtain ⟨f, rfl⟩ : ∃ f, fuel = f + 1 := ⟨fuel - 1, by omega⟩
  rw [create_transports_loop, if_neg h0]
  simp only [if_neg h3, if_neg h2, if_neg h1, if_neg h]

theorem credentials_passed_append (a b : List SinkEvent) :
    credentials_passed (a ++ b) = credentials_passed a ++ credentials_passed b := by
  unfold credentials_passed
  exact List.filterMap_append _ _ _

theorem cancel_notifications_append (a b : List LoopEvent) :
    cancel_notifications (a ++ b) = cancel_notifications a ++ cancel_notifications b :=
  List.filter_append _ _

theorem connection_flushes_append (a b : List LoopEvent) :
    connection_flushes (a ++ b) = connection_flushes a ++ connection_flushes b :=
  List.filter_append _ _

/-- What a function of the command loop that only posts messages leaves
alone. -/
theorem start_cmd_keeps (sink : GstRTSPSink) (cmd : Nat) :
    ∃ evs, (gst_rtsp_sink_loop_start_cmd sink cmd).loop_trace = sink.loop_trace ++ evs
      ∧ cancel_notifications evs = [] ∧ connection_flushes evs = []
      ∧ (gst_rtsp_sink_loop_start_cmd sink cmd).pending_cmd = sink.pending_cmd
      ∧ (gst_rtsp_sink_loop_start_cmd sink cmd).busy_cmd = sink.busy_cmd
      ∧ (gst_rtsp_sink_loop_start_cmd sink cmd).task = sink.task := by
  unfold gst_rtsp_sink_loop_start_cmd GST_ELEMENT_PROGRESS GstRTSPSink.note
  split_ifs
  · exact ⟨_, rfl, rfl, rfl, rfl, rfl, rfl⟩
  · exact ⟨_, rfl, rfl, rfl, rfl, rfl, rfl⟩
  · exact ⟨_, rfl, rfl, rfl, rfl, rfl, rfl⟩
  · exact ⟨_, rfl, rfl, rfl, rfl, rfl, rfl⟩
  · exact ⟨[], by simp, rfl, rfl, rfl, rfl, rfl⟩

theorem cancel_cmd_keeps (sink : GstRTSPSink) (cmd : Nat) :
    ∃ evs, (gst_rtsp_sink_loop_cancel_cmd sink cmd).loop_trace = sink.loop_trace ++ evs
      ∧ connection_flushes evs = []
      ∧ (cancel_notified cmd = true → ∃ code text,
          cancel_notifications evs = [LoopEvent.progress GstProgressType.CANCELED code text])
      ∧ (cancel_notified cmd = false → cancel_notifications evs = [])
      ∧ (gst_rtsp_sink_loop_cancel_cmd sink cmd).pending_cmd = sink.pending_cmd
      ∧ (gst_rtsp_sink_loop_cancel_cmd sink cmd).busy_cmd = sink.busy_cmd
      ∧ (gst_rtsp_sink_loop_cancel_cmd sink cmd).task = sink.task := by
  unfold gst_rtsp_sink_loop_cancel_cmd GST_ELEMENT_PROGRESS GstRTSPSink.note
  split_ifs with h1 h2 h3 h4
  · exact ⟨_, rfl, rfl, fun _ => ⟨_, _, rfl⟩, fun h => by simp [cancel_notified, h1] at h,
      rfl, rfl, rfl⟩
  · exact ⟨_, rfl, rfl, fun _ => ⟨_, _, rfl⟩, fun h => by simp [cancel_notified, h2] at h,
      rfl, rfl, rfl⟩
  · exact ⟨_, rfl, rfl, fun _ => ⟨_, _, rfl⟩, fun h => by simp [cancel_notified, h3] at h,
      rfl, rfl, rfl⟩
  · exact ⟨_, rfl, rfl, fun _ => ⟨_, _, rfl⟩, fun h => by simp [cancel_notified, h4] at h,
      rfl, rfl, rfl⟩
  · exact ⟨[], by simp, rfl, fun h => by simp [cancel_notified, h1, h2, h3, h4] at h,
      fun _ => rfl, rfl, rfl, rfl⟩

theorem connection_flush_eq (sink : GstRTSPSink) (flush : Bool) :
    (gst_rtsp_sink_connection_flush sink flush).loop_trace
        = sink.loop_trace ++ [LoopEvent.connection_flush flush]
      ∧ (gst_rtsp_sink_connection_flush sink flush).pending_cmd = sink.pending_cmd
      ∧ (gst_rtsp_sink_connection_flush sink flush).busy_cmd = sink.busy_cmd
      ∧ (gst_rtsp_sink_connection_flush sink flush).task = sink.task
      ∧ ((gst_rtsp_sink_connection_flush sink flush).conninfo.connection.isSome = true →
          (gst_rtsp_sink_connection_flush sink flush).conninfo.flushing = flush)
      ∧ (∀ stream ∈ (gst_rtsp_sink_connection_flush sink flush).contexts,
          stream.conninfo.connection.isSome = true → stream.conninfo.flushing = flush) := by
  unfold gst_rtsp_sink_connection_flush GstRTSPSink.note
  dsimp only
  by_cases h1 : sink.conninfo.connection.isSome = true ∧ sink.conninfo.flushing ≠ flush
  · rw [if_pos h1]
    refine ⟨rfl, rfl, rfl, rfl, fun _ => rfl, ?_⟩
    intro stream hs hsome
    rw [List.mem_map] at hs
    obtain ⟨s0, -, rfl⟩ := hs
    split_ifs at hsome ⊢ with h2
    · rfl
    · by_contra hne
      exact h2 ⟨hsome, hne⟩
  · rw [if_neg h1]
    refine ⟨rfl, rfl, rfl, rfl, ?_, ?_⟩
    · intro h
      by_contra hne
      exact h1 ⟨h, hne⟩
    · intro stream hs hsome
      rw [List.mem_map] at hs
      obtain ⟨s0, -, rfl⟩ := hs
      split_ifs at hsome ⊢ with h2
      · rfl
      · by_contra hne
        exact h2 ⟨hsome, hne⟩

theorem loop_send_cmd_pending_eq (sink : GstRTSPSink) (cmd : Nat) :
    ∃ evs, (loop_send_cmd_pending sink cmd).loop_trace = sink.loop_trace ++ evs
      ∧ connection_flushes evs = []
      ∧ (cancel_notified sink.pending_cmd = true → ∃ code text,
          cancel_notifications evs = [LoopEvent.progress GstProgressType.CANCELED code text])
      ∧ (cancel_notified sink.pending_cmd = false → cancel_notifications evs = [])
      ∧ (loop_send_cmd_pending sink cmd).pending_cmd
          = (if sink.pending_cmd = CMD_RECONNECT then CMD_RECONNECT else cmd)
      ∧ (loop_send_cmd_pending sink cmd).busy_cmd = sink.busy_cmd
      ∧ (loop_send_cmd_pending sink cmd).task = sink.task := by
  unfold loop_send_cmd_pending
  dsimp only
  by_cases hold : sink.pending_cmd = CMD_WAIT
  · rw [if_neg (not_not.mpr hold)]
    refine ⟨[], by simp, rfl, ?_, fun _ => rfl, rfl, rfl, rfl⟩
    intro h
    rw [hold] at h
    exact absurd h (by decide)
  · rw [if_pos hold]
    obtain ⟨evs, t, f, c, c', -, b, k⟩ := cancel_cmd_keeps
      { sink with pending_cmd := CMD_WAIT } sink.pending_cmd
    exact ⟨evs, t, f, c, c', rfl, b, k⟩

theorem loop_send_cmd_interrupt_eq (sink : GstRTSPSink) (mask : Nat) :
    ∃ evs, (loop_send_cmd_interrupt sink mask).1.loop_trace = sink.loop_trace ++ evs
      ∧ cancel_notifications evs = []
      ∧ connection_flushes evs
          = (if sink.busy_cmd &&& mask ≠ 0 then [LoopEvent.connection_flush true] else [])
      ∧ (loop_send_cmd_interrupt sink mask).1.pending_cmd = sink.pending_cmd
      ∧ (loop_send_cmd_interrupt sink mask).1.busy_cmd = sink.busy_cmd
      ∧ ((loop_send_cmd_interrupt sink mask).2 = true ↔ sink.busy_cmd &&& mask ≠ 0)
      ∧ (sink.busy_cmd &&& mask ≠ 0 →
          ((loop_send_cmd_interrupt sink mask).1.conninfo.connection.isSome = true →
            (loop_send_cmd_interrupt sink mask).1.conninfo.flushing = true)
          ∧ ∀ stream ∈ (loop_send_cmd_interrupt sink mask).1.contexts,
              stream.conninfo.connection.isSome = true → stream.conninfo.flushing = true) := by
  unfold loop_send_cmd_interrupt
  dsimp only
  by_cases hb : sink.busy_cmd &&& mask ≠ 0
  · rw [if_pos hb]
    dsimp only
    obtain ⟨g1, g2, g3, g4, g6, g7⟩ := connection_flush_eq sink true
    rw [g4]
    by_cases ht : sink.task = true
    · rw [if_pos ht, if_pos hb]
      refine ⟨[LoopEvent.connection_flush true, LoopEvent.task_start], ?_, rfl, rfl, g2, g3,
        by simp [hb], fun _ => ⟨g6, g7⟩⟩
      show (gst_rtsp_sink_connection_flush sink true).loop_trace ++ [LoopEvent.task_start] = _
      rw [g1]
      simp
    · rw [if_neg ht, if_pos hb]
      exact ⟨[LoopEvent.connection_flush true], g1, rfl, rfl, g2, g3, by simp [hb],
        fun _ => ⟨g6, g7⟩⟩
  · rw [if_neg hb]
    dsimp only
    by_cases ht : sink.task = true
    · rw [if_pos ht, if_neg hb]
      exact ⟨[LoopEvent.task_start], rfl, rfl, rfl, rfl, rfl, by simp [hb],
        fun h => absurd h hb⟩
    · rw [if_neg ht, if_neg hb]
      exact ⟨[], by simp, rfl, rfl, rfl, rfl, by simp [hb], fun h => absurd h hb⟩

theorem loop_send_cmd_eq (sink : GstRTSPSink) (cmd mask : Nat) :
    ∃ evs, (gst_rtsp_sink_loop_send_cmd sink cmd mask).1.loop_trace = sink.loop_trace ++ evs
      ∧ (gst_rtsp_sink_loop_send_cmd sink cmd mask).1.pending_cmd
          = (if sink.pending_cmd = CMD_RECONNECT then CMD_RECONNECT else cmd)
      ∧ (gst_rtsp_sink_loop_send_cmd sink cmd mask).1.busy_cmd = sink.busy_cmd
      ∧ (cancel_notified sink.pending_cmd = true →
          ∃ code text, cancel_notifications evs
            = [LoopEvent.progress GstProgressType.CANCELED code text])
      ∧ (cancel_notified sink.pending_cmd = false → cancel_notifications evs = [])
      ∧ connection_flushes evs
          = (if sink.busy_cmd &&& mask ≠ 0 then [LoopEvent.connection_flush true] else [])
      ∧ ((gst_rtsp_sink_loop_send_cmd sink cmd mask).2 = true ↔ sink.busy_cmd &&& mask ≠ 0)
      ∧ (sink.busy_cmd &&& mask ≠ 0 →
          ((gst_rtsp_sink_loop_send_cmd sink cmd mask).1.conninfo.connection.isSome = true →
            (gst_rtsp_sink_loop_send_cmd sink cmd mask).1.conninfo.flushing = true)
          ∧ ∀ stream ∈ (gst_rtsp_sink_loop_send_cmd sink cmd mask).1.contexts,
              stream.conninfo.connection.isSome = true → stream.conninfo.flushing = true) := by
  obtain ⟨e1, t1, c1, f1, p1, b1, -⟩ := start_cmd_keeps sink cmd
  obtain ⟨e2, t2, f2, c2, c2', p2, b2, -⟩ := loop_send_cmd_pending_eq
    (gst_rtsp_sink_loop_start_cmd sink cmd) cmd
  obtain ⟨e3, t3, c3, f3, p3, b3, r3, g3⟩ := loop_send_cmd_interrupt_eq
    (loop_send_cmd_pending (gst_rtsp_sink_loop_start_cmd sink cmd) cmd) mask
  rw [p1] at c2 c2' p2
  rw [b2, b1] at f3 b3 r3 g3
  unfold gst_rtsp_sink_loop_send_cmd
  dsimp only
  refine ⟨e1 ++ e2 ++ e3, ?_, ?_, b3, ?_, ?_, ?_, r3, g3⟩
  · rw [t3, t2, t1]
    simp only [List.append_assoc]
  · rw [p3, p2]
  · intro h
    obtain ⟨code, text, e⟩ := c2 h
    exact ⟨code, text, by
      rw [cancel_notifications_append, cancel_notifications_append, c1, e, c3]; rfl⟩
  · intro h
    rw [cancel_notifications_append, cancel_notifications_append, c1, c2' h, c3]
    rfl
  · rw [connection_flushes_append, connection_flushes_append, f1, f2, f3]
    rfl

/-! ## The proxy string -/

theorem strchr_mem (s : CString) (c : Char) (h : c ∈ s) : strchr s c = some (s.indexOf c) := by
  unfold strchr
  rw [if_pos h]

theorem strchr_http_colon (s : CString) : strchr ("http://".toList ++ s) ':' = some 4 := by
  unfold strchr
  rw [if_pos (by simp)]
  rfl

/-! ## The counter of the interleaved channels -/

theorem wrap32_id (v : Int) (h1 : -2 ^ 31 ≤ v) (h2 : v < 2 ^ 31) : wrap32 v = v := by
  unfold wrap32
  omega

theorem free_channel_after_append (fc : Int) (a b : List SinkEvent) :
    free_channel_after fc (a ++ b) = free_channel_after (free_channel_after fc a) b := by
  induction a generalizing fc with
  | nil => rfl
  | cons e a ih => exact ih _

theorem last_offer_append (lower : Nat) (a b : List SinkEvent) :
    last_offer lower (a ++ b) = last_offer (last_offer lower a) b := by
  induction a generalizing lower with
  | nil => rfl
  | cons e a ih => exact ih _

theorem offers_free_channel_append (fc : Int) (lower : Nat) (a b : List SinkEvent) :
    offers_free_channel fc lower (a ++ b)
      ↔ offers_free_channel fc lower a
        ∧ offers_free_channel (free_channel_after fc a) (last_offer lower a) b := by
  induction a generalizing fc lower with
  | nil => simp [offers_free_channel, free_channel_after, last_offer]
  | cons e a ih =>
    simp only [List.cons_append, offers_free_channel, free_channel_after, last_offer,
      List.append_eq]
    rw [ih, and_assoc]

theorem next_channel_le (fc : Int) (e : SinkEvent) : fc ≤ e.next_channel fc := by
  cases e <;> simp only [SinkEvent.next_channel, le_refl]
  split
  · unfold next_free_channel
    have := le_max_right (max ‹GstRTSPTransport›.interleaved.min
      ‹GstRTSPTransport›.interleaved.max) fc
    omega
  · exact le_refl _

theorem free_channel_after_le (fc : Int) (evs : List SinkEvent) :
    fc ≤ free_channel_after fc evs := by
  induction evs generalizing fc with
  | nil => exact le_refl _
  | cons e evs ih => exact le_trans (next_channel_le fc e) (ih _)

theorem next_channel_quiet (fc : Int) (e : SinkEvent) (h : e.is_setup = false) :
    e.next_channel fc = fc := by
  cases e <;> first | rfl | exact absurd h (by simp [SinkEvent.is_setup])

theorem offer_quiet (lower : Nat) (e : SinkEvent) (h : e.is_setup = false) :
    e.offer lower = lower := by
  cases e <;> first | rfl | exact absurd h (by simp [SinkEvent.is_setup])

theorem free_channel_after_quiet (fc : Int) (evs : List SinkEvent)
    (h : ∀ e ∈ evs, e.is_setup = false) : free_channel_after fc evs = fc := by
  induction evs with
  | nil => rfl
  | cons e evs ih =>
    rw [free_channel_after]
    have he := h e (List.mem_cons_self _ _)
    rw [next_channel_quiet fc e he]
    exact ih (fun x hx => h x (List.mem_cons_of_mem _ hx))

theorem last_offer_quiet (lower : Nat) (evs : List SinkEvent)
    (h : ∀ e ∈ evs, e.is_setup = false) : last_offer lower evs = lower := by
  induction evs with
  | nil => rfl
  | cons e evs ih =>
    rw [last_offer]
    have he := h e (List.mem_cons_self _ _)
    rw [offer_quiet lower e he]
    exact ih (fun x hx => h x (List.mem_cons_of_mem _ hx))

theorem offers_free_channel_quiet (fc : Int) (lower : Nat) (evs : List SinkEvent)
    (h : ∀ e ∈ evs, e.is_setup = false ∧ e.is_try_send = false) :
    offers_free_channel fc lower evs := by
  induction evs with
  | nil => trivial
  | cons e evs ih =>
    have he := h e (List.mem_cons_self _ _)
    rw [offers_free_channel]
    rw [next_channel_quiet fc e he.1, offer_quiet lower e he.1]
    refine ⟨?_, ih (fun x hx => h x (List.mem_cons_of_mem _ hx))⟩
    intro request hr
    rw [hr] at he
    exact absurd he.2 (by simp [SinkEvent.is_try_send])

/-- The requests tried for an offer: when the offer was TCP they offer the
counter. -/
theorem offers_free_channel_tries (fc : Int) (lower : Nat) (request : GstRTSPMessage)
    (evs : List SinkEvent)
    (h : ∀ e ∈ evs, e.is_setup = false ∧ (e.is_try_send = true → e = SinkEvent.try_send request))
    (ho : lower = GST_RTSP_LOWER_TRANS_TCP → offers_interleaved request fc (fc + 1)) :
    offers_free_channel fc lower evs := by
  induction evs with
  | nil => trivial
  | cons e evs ih =>
    have he := h e (List.mem_cons_self _ _)
    rw [offers_free_channel]
    rw [next_channel_quiet fc e he.1, offer_quiet lower e he.1]
    refine ⟨?_, ih (fun x hx => h x (List.mem_cons_of_mem _ hx))⟩
    intro request' hr hl
    have := he.2 (by rw [hr]; rfl)
    rw [hr] at this
    cases this
    exact ho hl

/-! ### The requests tried by `gst_rtsp_sink_send` -/

theorem TryStep.try_refl (request : GstRTSPMessage) (s : GstRTSPSink) : TryStep request s s :=
  ⟨[], by simp [SinkTrace], by simp, rfl⟩

theorem TryStep.try_trans {request : GstRTSPMessage} {a b c : GstRTSPSink}
    (h1 : TryStep request a b) (h2 : TryStep request b c) : TryStep request a c := by
  obtain ⟨e1, t1, p1, f1⟩ := h1
  obtain ⟨e2, t2, p2, f2⟩ := h2
  refine ⟨e1 ++ e2, ?_, ?_, f2.trans f1⟩
  · unfold SinkTrace at *; rw [t2, t1, List.append_assoc]
  · intro e he
    rcases List.mem_append.mp he with he | he
    · exact p1 e he
    · exact p2 e he

theorem TryStep.try_of_step {request : GstRTSPMessage} {n m : Nat} {s s' : GstRTSPSink}
    (h : SinkStep n m s s') : TryStep request s s' := by
  obtain ⟨evs, ht, hq, -, -, hk⟩ := h
  obtain ⟨-, -, -, -, -, -, k7⟩ := hk
  refine ⟨evs, ht, ?_, k7⟩
  intro e he
  have := hq e he
  cases e <;> simp_all [SinkEvent.is_transfer, SinkEvent.is_setup, SinkEvent.is_try_send]

theorem TryStep.try_of_send {request : GstRTSPMessage} {s s' : GstRTSPSink}
    (h : SendStep 0 s s') : TryStep request s s' := by
  obtain ⟨evs, ht, hc, hq, hk⟩ := h
  obtain ⟨-, -, -, -, -, -, k7⟩ := hk
  refine ⟨evs, ht, ?_, k7⟩
  intro e he
  refine ⟨hq e he, ?_⟩
  intro htry
  have h0 : evs.countP SinkEvent.is_try_send = 0 := by omega
  rw [List.countP_eq_zero] at h0
  exact absurd htry (h0 e he)

theorem TryStep.try_log (request : GstRTSPMessage) (s : GstRTSPSink) (text : String) :
    TryStep request s (s.log (SinkEvent.element_error text)) :=
  ⟨[SinkEvent.element_error text], by simp [SinkTrace],
    by simp [SinkEvent.is_setup, SinkEvent.is_try_send], rfl⟩

theorem try_send_tries (lib : SinkLib) (sink : GstRTSPSink) (conn : Bool)
    (request : GstRTSPMessage) (want_response : Bool) (response : Option GstRTSPMessage)
    (want_code : Bool) :
    TryStep request sink
      (gst_rtsp_sink_try_send lib sink conn request want_response response want_code).sink :=
  TryStep.try_trans
    (show TryStep request sink (sink.log (SinkEvent.try_send request)) from
      ⟨[SinkEvent.try_send request], by simp [SinkTrace],
        by simp [SinkEvent.is_setup], rfl⟩)
    (TryStep.try_of_step
      (try_send_step lib sink conn request want_response response want_code).1)

theorem send_loop_tries (lib : SinkLib) (conn : Bool) (request : GstRTSPMessage)
    (want_response : Bool) :
    ∀ (fuel count : Nat) (sink : GstRTSPSink) (int_code : GstRTSPStatusCode)
      (res : GstRTSPResult) (response : Option GstRTSPMessage) (method : GstRTSPMethod),
      TryStep request sink
        (send_loop lib conn request want_response fuel count sink int_code res response
          method).sink := by
  intro fuel
  induction fuel with
  | zero =>
    intro count sink int_code res response method
    rw [send_loop]
    exact TryStep.try_refl _ _
  | succ fuel ih =>
    intro count sink int_code res response method
    rw [send_loop]
    have ht := try_send_tries lib sink conn request want_response response true
    split
    · exact TryStep.try_refl _ _
    · dsimp only
      split
      · exact ht
      · have ha : TryStep request sink
            (send_switch lib
              (gst_rtsp_sink_try_send lib sink conn request want_response response true).sink
              ((gst_rtsp_sink_try_send lib sink conn request want_response response
                  true).code.getD int_code)
              (gst_rtsp_sink_try_send lib sink conn request want_response response
                  true).response).1 := by
          unfold send_switch
          split
          · split
            · exact ht.try_trans (TryStep.try_of_send (setup_auth_step lib _ _))
            · exact ht
          · exact ht
        split
        · exact ha.try_trans (ih _ _ _ _ _ _)
        · exact ha

theorem send_tries (lib : SinkLib) (sink : GstRTSPSink) (conn : Bool)
    (request : GstRTSPMessage) (want_response want_code : Bool) :
    TryStep request sink
      (gst_rtsp_sink_send lib sink conn request want_response want_code).sink := by
  have base : TryStep request sink (send_loop_exit lib sink conn request want_response).sink :=
    send_loop_tries lib conn request want_response 10 0 sink _ _ _ _
  unfold gst_rtsp_sink_send
  dsimp only
  split
  · exact base
  · split
    · exact base
    · split
      · split
        · next response _ =>
          unfold send_error_response
          split
          · split
            · exact base.try_trans (TryStep.try_log _ _ _)
            · split
              · exact base.try_trans (TryStep.try_log _ _ _)
              · split
                · split
                  · exact base
                  · next new_location _ =>
                    obtain ⟨u1, -, -, u4, -⟩ := uri_set_uri_trace lib
                      (send_loop_exit lib sink conn request want_response).sink new_location
                    obtain ⟨evs, ht, hp, hf⟩ := base
                    refine ⟨evs, ?_, hp, ?_⟩
                    · unfold SinkTrace at *
                      dsimp only
                      split
                      · split
                        · rw [← ht, ← u1]
                        · rw [← ht, ← u1]
                      · rw [← ht, ← u1]
                    · dsimp only
                      split
                      · split
                        · rw [← hf, ← u4]
                        · rw [← hf, ← u4]
                      · rw [← hf, ← u4]
                · split
                  · exact base
                  · exact base.try_trans (TryStep.try_log _ _ _)
          · exact base
        · exact base
      · exact base

/-! ### The channels in the Transport header -/

theorem transport_lower_of_tcp (sink : GstRTSPSink) (context : GstRTSPStreamContext)
    (protocols : Nat) (h : protocols = GST_RTSP_LOWER_TRANS_TCP) :
    transport_lower sink context protocols
      = "/TCP;unicast;interleaved=".toList ++ fmt_int sink.free_channel
        ++ "-".toList ++ fmt_int (wrap32 (sink.free_channel + 1)) := by
  subst h
  unfold transport_lower
  rw [if_neg (by decide), if_neg (by decide), if_pos (by decide)]

/-- Every alternative the loop appends has the lower transport part. -/
theorem create_transports_contains (sink : GstRTSPSink) (context : GstRTSPStreamContext)
    (protocols : Nat) :
    ∀ (fuel profiles : Nat) (result : CString) (first : Bool),
      (first = false → ∃ pre post,
        result = pre ++ transport_lower sink context protocols ++ post) →
      (create_transports_loop sink context protocols fuel profiles result first).2 = false →
      ∃ pre post, (create_transports_loop sink context protocols fuel profiles result first).1
        = pre ++ transport_lower sink context protocols ++ post := by
  intro fuel
  induction fuel with
  | zero =>
    intro profiles result first hP h2
    rw [create_transports_loop] at h2 ⊢
    exact hP h2
  | succ fuel ih =>
    intro profiles result first hP h2
    have next : ∀ (name : CString),
        ∃ pre post, (if !first then result ++ ",RTP".toList else result) ++ name
            ++ transport_lower sink context protocols ++ ";mode=RECORD".toList
          = pre ++ transport_lower sink context protocols ++ post :=
      fun name => ⟨(if !first then result ++ ",RTP".toList else result) ++ name,
        ";mode=RECORD".toList, rfl⟩
    by_cases h0 : profiles = 0
    · rw [create_transports_done _ _ _ _ _ _ _ h0] at h2 ⊢
      exact hP h2
    · by_cases h3 : profiles &&& GST_RTSP_PROFILE_SAVPF ≠ 0
      · rw [create_transports_savpf _ _ _ _ _ _ _ (by omega) h3] at h2 ⊢
        exact ih _ _ _ (fun _ => next _) h2
      · by_cases h2' : profiles &&& GST_RTSP_PROFILE_SAVP ≠ 0
        · rw [create_transports_savp _ _ _ _ _ _ _ (by omega) h3 h2'] at h2 ⊢
          exact ih _ _ _ (fun _ => next _) h2
        · by_cases h1 : profiles &&& GST_RTSP_PROFILE_AVPF ≠ 0
          · rw [create_transports_avpf _ _ _ _ _ _ _ (by omega) h3 h2' h1] at h2 ⊢
            exact ih _ _ _ (fun _ => next _) h2
          · by_cases ha : profiles &&& GST_RTSP_PROFILE_AVP ≠ 0
            · rw [create_transports_avp _ _ _ _ _ _ _ (by omega) h3 h2' h1 ha] at h2 ⊢
              exact ih _ _ _ (fun _ => next _) h2
            · rw [create_transports_unknown _ _ _ _ _ _ _ (by omega) h0 h3 h2' h1 ha] at h2 ⊢
              dsimp only at h2 ⊢
              obtain ⟨pre, post, e⟩ := hP h2
              rw [h2, e]
              exact ⟨pre, post ++ ",RTP".toList, by simp⟩

theorem create_transports_string_contains (sink : GstRTSPSink)
    (context : GstRTSPStreamContext) (protocols profiles : Nat) (transports : CString)
    (h : (gst_rtsp_sink_create_transports_string sink context protocols profiles).2
      = some transports) :
    ∃ pre post, transports = pre ++ transport_lower sink context protocols ++ post := by
  unfold gst_rtsp_sink_create_transports_string at h
  dsimp only at h
  split at h
  · cases h
  · next hf =>
    cases h
    exact create_transports_contains sink context protocols 5 profiles _ true
      (fun h => by cases h) (by simpa using hf)

theorem setup_request_transport (sink : GstRTSPSink) (context : GstRTSPStreamContext)
    (location : CString) (cur_profile : Nat) (transports : CString) :
    gst_rtsp_message_get_header (setup_request sink context location cur_profile
      transports).headers GstRTSPHeaderField.TRANSPORT 0 = some transports := by
  unfold setup_request gst_rtsp_sink_init_request gst_rtsp_message_get_header
  cases sink.user_agent <;> cases context.keymgmt <;> dsimp only <;> split_ifs <;>
    simp [GstRTSPMessage.add_header, GstRTSPMessage.headers]

/-- The SETUP request made for an offer of TCP offers the counter of the sink
and the channel after it. -/
theorem setup_request_offers (sink : GstRTSPSink) (context : GstRTSPStreamContext)
    (location : CString) (protocols cur_profile : Nat) (transports : CString)
    (h : (gst_rtsp_sink_create_transports_string sink context protocols cur_profile).2
      = some transports)
    (hp : protocols = GST_RTSP_LOWER_TRANS_TCP)
    (h1 : -2 ^ 31 ≤ sink.free_channel) (h2 : sink.free_channel < 2 ^ 31 - 1) :
    offers_interleaved (setup_request sink context location cur_profile transports)
      sink.free_channel (sink.free_channel + 1) := by
  obtain ⟨pre, post, e⟩ := create_transports_string_contains sink context protocols cur_profile
    transports h
  rw [transport_lower_of_tcp sink context protocols hp,
    wrap32_id _ (by omega) (by omega)] at e
  refine ⟨pre, post, ?_⟩
  rw [setup_request_transport, e]
  simp only [List.append_assoc]

/-! ### The counter through `gst_rtsp_sink_setup_streams` -/

theorem ChannelStep.channel_refl (s : GstRTSPSink) : ChannelStep s s :=
  ⟨[], by simp [SinkTrace], fun _ _ _ => ⟨rfl, trivial⟩⟩

theorem ChannelStep.channel_trans {a b c : GstRTSPSink} (h1 : ChannelStep a b)
    (h2 : ChannelStep b c) : ChannelStep a c := by
  obtain ⟨e1, t1, p1⟩ := h1
  obtain ⟨e2, t2, p2⟩ := h2
  refine ⟨e1 ++ e2, ?_, ?_⟩
  · unfold SinkTrace at *; rw [t2, t1, List.append_assoc]
  · intro lower h0 hb
    rw [free_channel_after_append] at hb
    have hm := free_channel_after_le (free_channel_after a.free_channel e1) e2
    obtain ⟨q1, q2⟩ := p1 lower h0 (by omega)
    have hle := free_channel_after_le a.free_channel e1
    obtain ⟨r1, r2⟩ := p2 (last_offer lower e1) (by rw [q1]; omega) (by rw [q1]; exact hb)
    rw [q1] at r1 r2
    exact ⟨by rw [free_channel_after_append]; exact r1,
      (offers_free_channel_append _ _ _ _).mpr ⟨q2, r2⟩⟩

theorem ChannelStep.channel_of_quiet {s s' : GstRTSPSink}
    (h : ∃ evs, SinkTrace s s' evs
      ∧ (∀ e ∈ evs, e.is_setup = false ∧ e.is_try_send = false)
      ∧ s'.free_channel = s.free_channel) : ChannelStep s s' := by
  obtain ⟨evs, ht, hq, hf⟩ := h
  refine ⟨evs, ht, fun lower _ _ => ⟨?_, offers_free_channel_quiet _ _ _ hq⟩⟩
  rw [free_channel_after_quiet _ _ (fun e he => (hq e he).1), hf]

theorem ChannelStep.channel_error (s : GstRTSPSink) (text : String) :
    ChannelStep s (s.log (SinkEvent.element_error text)) :=
  ChannelStep.channel_of_quiet ⟨[SinkEvent.element_error text], by simp [SinkTrace],
    by simp [SinkEvent.is_setup, SinkEvent.is_try_send], rfl⟩

theorem ChannelStep.channel_of_step {n m : Nat} {s s' : GstRTSPSink} (h : SinkStep n m s s') :
    ChannelStep s s' := by
  obtain ⟨evs, ht, hq, -, -, hk⟩ := h
  obtain ⟨-, -, -, -, -, -, k7⟩ := hk
  refine ChannelStep.channel_of_quiet ⟨evs, ht, ?_, k7⟩
  intro e he
  have := hq e he
  cases e <;> simp_all [SinkEvent.is_transfer, SinkEvent.is_setup, SinkEvent.is_try_send]

theorem ChannelStep.channel_offer (s : GstRTSPSink) (index protocols profiles : Nat) :
    ChannelStep s (s.log (SinkEvent.create_transports index protocols profiles)) :=
  ⟨[SinkEvent.create_transports index protocols profiles], by simp [SinkTrace],
    fun _ _ _ => ⟨rfl, ⟨fun _ h => (by cases h), trivial⟩⟩⟩

/-- An offer and the requests tried for it. -/
theorem ChannelStep.channel_offer_send (s s' : GstRTSPSink) (index protocols profiles : Nat)
    (request : GstRTSPMessage)
    (h : TryStep request (s.log (SinkEvent.create_transports index protocols profiles)) s')
    (ho : -2 ^ 31 ≤ s.free_channel → s.free_channel < 2 ^ 31 - 1 →
      protocols = GST_RTSP_LOWER_TRANS_TCP →
      offers_interleaved request s.free_channel (s.free_channel + 1)) :
    ChannelStep s s' := by
  obtain ⟨evs, ht, hp, hf⟩ := h
  refine ⟨SinkEvent.create_transports index protocols profiles :: evs, ?_, ?_⟩
  · unfold SinkTrace at *
    rw [ht, sink_log_trace, List.append_assoc]
    rfl
  · intro lower h0 hb
    have hq : free_channel_after s.free_channel
        (SinkEvent.create_transports index protocols profiles :: evs) = s.free_channel := by
      rw [free_channel_after]
      exact free_channel_after_quiet _ _ (fun e he => (hp e he).1)
    rw [hq] at hb ⊢
    refine ⟨hf, ⟨fun _ h => (by cases h), ?_⟩⟩
    exact offers_free_channel_tries _ _ request evs hp (ho h0 hb)

theorem next_free_channel_eq (fc : Int) (r : GstRTSPRange) :
    max r.max (max r.min fc) + 1 = next_free_channel fc r := by
  unfold next_free_channel
  rw [max_comm r.min r.max, max_assoc]

theorem ChannelStep.channel_configured (s s' : GstRTSPSink) (index : Nat)
    (t : GstRTSPTransport)
    (ht : s'.trace = s.trace ++ [SinkEvent.stream_transport index t])
    (hf : s'.free_channel
      = if t.lower_transport = GST_RTSP_LOWER_TRANS_TCP then
          wrap32 (max t.interleaved.max (max t.interleaved.min s.free_channel) + 1)
        else s.free_channel) :
    ChannelStep s s' := by
  refine ⟨[SinkEvent.stream_transport index t], ht, ?_⟩
  intro lower h0 hb
  refine ⟨?_, ⟨fun _ h => (by cases h), trivial⟩⟩
  rw [hf]
  simp only [free_channel_after, SinkEvent.next_channel] at hb ⊢
  split
  · next h1 =>
    rw [if_pos h1] at hb
    rw [next_free_channel_eq]
    have hle : s.free_channel ≤ next_free_channel s.free_channel t.interleaved := by
      unfold next_free_channel
      have := le_max_right (max t.interleaved.min t.interleaved.max) s.free_channel
      omega
    exact wrap32_id _ (by omega) (by omega)
  · rfl

theorem setup_stream_response_channel (lib : SinkLib) (sink : GstRTSPSink)
    (context : GstRTSPStreamContext) (protocols : Nat) (res : GstRTSPResult)
    (response : Option GstRTSPMessage) :
    ChannelStep sink (setup_stream_response lib sink context protocols res response).sink := by
  unfold setup_stream_response
  split
  · exact ChannelStep.channel_error _ _
  · split
    · exact ChannelStep.channel_refl _
    · next transport _ =>
      dsimp only
      by_cases h1 : transport.lower_transport = GST_RTSP_LOWER_TRANS_TCP
      · rw [if_pos h1]
        exact ChannelStep.channel_configured _ _ context.index transport (by simp)
          (by rw [if_pos h1]; rfl)
      · rw [if_neg h1]
        by_cases h2 : transport.lower_transport = GST_RTSP_LOWER_TRANS_UDP_MCAST
        · rw [if_pos h2]
          exact ChannelStep.channel_configured _ _ context.index transport (by simp)
            (by rw [if_neg h1]; rfl)
        · rw [if_neg h2]
          by_cases h3 : transport.lower_transport = GST_RTSP_LOWER_TRANS_UDP
          · rw [if_pos h3]
            refine ChannelStep.channel_configured _ _ context.index
              (if transport.destination = [] then
                { transport with destination := sink.server_ip } else transport)
              (by simp) ?_
            have hl : (if transport.destination = [] then
                ({ transport with destination := sink.server_ip } : GstRTSPTransport)
                else transport).lower_transport = transport.lower_transport := by
              split <;> rfl
            rw [hl, if_neg h1]
            rfl
          · rw [if_neg h3]
            exact ChannelStep.channel_configured _ _ context.index transport (by simp)
              (by rw [if_neg h1]; rfl)

theorem setup_stream_loop_channel (lib : SinkLib) (conn : Bool) (profiles : Nat)
    (location : CString) :
    ∀ (fuel : Nat) (at_retry : Bool) (profile_mask mask protocols : Nat) (res : GstRTSPResult)
      (sink : GstRTSPSink) (context : GstRTSPStreamContext),
      ChannelStep sink
        (setup_stream_loop lib conn profiles location fuel at_retry profile_mask mask protocols
          res sink context).sink := by
  intro fuel
  induction fuel with
  | zero =>
    intro at_retry profile_mask mask protocols res sink context
    rw [setup_stream_loop]
    exact ChannelStep.channel_refl _
  | succ fuel ih =>
    intro at_retry profile_mask mask protocols res sink context
    cases at_retry
    · rw [setup_stream_loop]
      dsimp only
      split
      · exact ChannelStep.channel_error _ _
      · split
        · exact ChannelStep.channel_error _ _
        · exact ih _ _ _ _ _ _ _
    · rw [setup_stream_loop]
      dsimp only
      have hoffer := ChannelStep.channel_offer sink context.index
        (protocols &&& protocol_masks.getD mask 0)
        (profiles &&& profile_masks.getD profile_mask 0)
      split
      · exact hoffer.channel_trans (ChannelStep.channel_error _ _)
      · next transports heq =>
        split
        · exact hoffer.channel_trans (ChannelStep.channel_error _ _)
        · split
          · exact hoffer.channel_trans (ih _ _ _ _ _ _ _)
          · have hsend := ChannelStep.channel_offer_send sink _ context.index
              (protocols &&& protocol_masks.getD mask 0)
              (profiles &&& profile_masks.getD profile_mask 0) _
              (send_tries lib
                (sink.log (SinkEvent.create_transports context.index
                  (protocols &&& protocol_masks.getD mask 0)
                  (profiles &&& profile_masks.getD profile_mask 0))) conn
                (setup_request
                  (sink.log (SinkEvent.create_transports context.index
                    (protocols &&& protocol_masks.getD mask 0)
                    (profiles &&& profile_masks.getD profile_mask 0)))
                  context location (profiles &&& profile_masks.getD profile_mask 0) transports)
                true true)
              (fun h1 h2 hp => setup_request_offers
                (sink.log (SinkEvent.create_transports context.index
                  (protocols &&& protocol_masks.getD mask 0)
                  (profiles &&& profile_masks.getD profile_mask 0)))
                context location _ _ transports heq hp h1 h2)
            generalize gst_rtsp_sink_send lib _ conn _ true true = r at hsend ⊢
            split
            · split
              · exact hsend.channel_trans (ChannelStep.channel_error _ _)
              · exact hsend
            · split
              · exact hsend.channel_trans (setup_stream_response_channel _ _ _ _ _ _)
              · split
                · split
                  · exact hsend.channel_trans (ih _ _ _ _ _ _ _)
                  · split
                    · exact hsend
                    · exact hsend.channel_trans (ih _ _ _ _ _ _ _)
                · exact hsend.channel_trans (ChannelStep.channel_error _ _)

theorem setup_stream_channel (lib : SinkLib) (sink : GstRTSPSink)
    (context : GstRTSPStreamContext) (protocols : Nat) (res : GstRTSPResult) :
    ChannelStep sink (setup_stream lib sink context protocols res).sink := by
  unfold setup_stream
  dsimp only
  split
  · exact ChannelStep.channel_refl _
  · split
    · exact ChannelStep.channel_refl _
    · split
      · have hc := ChannelStep.channel_of_step
          (conninfo_connect_step lib sink context.conninfo).1
        split
        · exact hc
        · exact hc.channel_trans (setup_stream_loop_channel lib _ _ _ 16 false 0 0 protocols
            res _ _)
      · exact setup_stream_loop_channel lib _ _ _ 16 false 0 0 protocols res _ _

theorem setup_streams_loop_channel (lib : SinkLib) :
    ∀ (contexts done : List GstRTSPStreamContext) (sink : GstRTSPSink) (protocols : Nat)
      (res : GstRTSPResult),
      ChannelStep sink (setup_streams_loop lib contexts done sink protocols res).1 := by
  intro contexts
  induction contexts with
  | nil =>
    intro done sink protocols res
    rw [setup_streams_loop]
    exact ChannelStep.channel_refl _
  | cons context rest ih =>
    intro done sink protocols res
    have h1 := setup_stream_channel lib sink context protocols res
    have h3 : ChannelStep sink
        { (setup_stream lib sink context protocols res).sink with
          contexts := done ++ (setup_stream lib sink context protocols res).context :: rest } :=
      h1.channel_trans (ChannelStep.channel_of_quiet ⟨[], by simp [SinkTrace], by simp, rfl⟩)
    generalize hl : setup_streams_loop lib (context :: rest) done sink protocols res = l
    rw [setup_streams_loop] at hl
    dsimp only at hl
    split at hl
    · subst hl
      exact h3.channel_trans (ih _ _ _ _)
    · subst hl
      exact h3

theorem setup_streams_channel (lib : SinkLib) (sink : GstRTSPSink) :
    ChannelStep sink (gst_rtsp_sink_setup_streams lib sink).1 := by
  unfold gst_rtsp_sink_setup_streams
  dsimp only
  split
  · exact ChannelStep.channel_error _ _
  · split
    · exact ChannelStep.channel_error _ _
    · have h := setup_streams_loop_channel lib sink.contexts [] sink
        (match sink.conninfo.connection with
          | some connection => connection.url.transports &&& sink.cur_protocols
          | none => sink.cur_protocols) GST_RTSP_ERROR
      split
      · exact h.channel_trans (ChannelStep.channel_of_quiet
          ⟨[], (List.append_nil _).symm, by simp, rfl⟩)
      · exact h

/-! ### The counter and the channels assigned -/

theorem assigned_channels_cons (e : SinkEvent) (evs : List SinkEvent) :
    assigned_channels (e :: evs) = assigned_channels [e] ++ assigned_channels evs := by
  simp [assigned_channels]

theorem assigned_channels_below (evs : List SinkEvent) :
    ∀ (fc : Int), ∀ c ∈ assigned_channels evs, c < free_channel_after fc evs := by
  induction evs with
  | nil => intro fc c hc; simp [assigned_channels] at hc
  | cons e evs ih =>
    intro fc c hc
    rw [assigned_channels_cons] at hc
    rw [free_channel_after]
    rcases List.mem_append.mp hc with hc | hc
    · have hle := free_channel_after_le (e.next_channel fc) evs
      have : c < e.next_channel fc := by
        cases e with
        | stream_transport index t =>
          simp [assigned_channels] at hc
          obtain ⟨h1, h2⟩ := hc
          simp only [SinkEvent.next_channel, if_pos h1, next_free_channel]
          have a1 := le_max_left (max t.interleaved.min t.interleaved.max) fc
          have a2 := le_max_left t.interleaved.min t.interleaved.max
          have a3 := le_max_right t.interleaved.min t.interleaved.max
          rcases h2 with h2 | h2 <;> omega
        | _ => simp [assigned_channels] at hc
      omega
    · exact ih _ c hc

theorem free_channel_after_tcp (fc : Int) (pre : List SinkEvent) (index : Nat)
    (t : GstRTSPTransport) (h : t.lower_transport = GST_RTSP_LOWER_TRANS_TCP) :
    free_channel_after fc (pre ++ [SinkEvent.stream_transport index t])
      = max (max t.interleaved.min t.interleaved.max) (free_channel_after fc pre) + 1 := by
  rw [free_channel_after_append]
  simp [free_channel_after, SinkEvent.next_channel, h, next_free_channel]

theorem offers_free_channel_at (fc : Int) (lower : Nat) (evs pre post : List SinkEvent)
    (request : GstRTSPMessage) (h : offers_free_channel fc lower evs)
    (he : evs = pre ++ SinkEvent.try_send request :: post)
    (hl : last_offer lower pre = GST_RTSP_LOWER_TRANS_TCP) :
    offers_interleaved request (free_channel_after fc pre) (free_channel_after fc pre + 1) := by
  subst he
  have := ((offers_free_channel_append _ _ _ _).mp h).2
  rw [offers_free_channel] at this
  exact this.1 request rfl hl

/-! ## The protocol state of the sink -/

theorem loop_end_cmd_state (sink : GstRTSPSink) (cmd : Nat) (ret : GstRTSPResult) :
    (gst_rtsp_sink_loop_end_cmd sink cmd ret).state = sink.state := by
  unfold gst_rtsp_sink_loop_end_cmd gst_rtsp_sink_loop_complete_cmd
    gst_rtsp_sink_loop_cancel_cmd gst_rtsp_sink_loop_error_cmd GST_ELEMENT_PROGRESS
    GstRTSPSink.note
  split_ifs <;> rfl

/-- The loop of `gst_rtsp_sink_pause` is left by `goto send_error` with a
negative `res` only. -/
theorem pause_streams_error (lib : SinkLib) (async : Bool) (control : CString) :
    ∀ (streams : List GstRTSPStreamContext) (sink : GstRTSPSink) (res : GstRTSPResult),
      (pause_streams lib async control streams sink res).2.2 = true →
      (pause_streams lib async control streams sink res).2.1 < 0 := by
  intro streams
  induction streams with
  | nil => intro sink res h; simp [pause_streams] at h
  | cons stream rest ih =>
    intro sink res
    generalize hx : pause_streams lib async control (stream :: rest) sink res = x
    rw [pause_streams] at hx
    dsimp only at hx
    split at hx
    · subst hx
      exact ih _ _
    · generalize (if async = true then
          GST_ELEMENT_PROGRESS sink GstProgressType.CONTINUE "request" "Sending PAUSE request"
        else sink) = s1 at hx
      split at hx
      · next hneg =>
        subst hx
        intro _
        exact hneg
      · subst hx
        intro h
        simp at h

/-- The body of `gst_rtsp_sink_pause` before the label `done`: a result that
is not negative comes with the state Ready, unless PAUSE is not supported. -/
theorem pause_body_state (lib : SinkLib) (async : Bool) (o : GstRTSPSink × GstRTSPResult)
    (r : GstRTSPSink × GstRTSPResult)
    (hr : (if o.2 < 0 then o
      else if o.1.methods &&& GstRTSPMethod.PAUSE.bit = 0 then o
      else if o.1.state = GST_RTSP_STATE_READY then o
      else if o.1.conninfo.connection = none ∨ (!o.1.conninfo.connected) = true then
        ({ o.1 with state := GST_RTSP_STATE_READY }, o.2)
      else
        if (pause_streams lib async (get_aggregate_control o.1) o.1.contexts o.1 o.2).2.2
            = true then
          ((pause_streams lib async (get_aggregate_control o.1) o.1.contexts o.1 o.2).1,
           (pause_streams lib async (get_aggregate_control o.1) o.1.contexts o.1 o.2).2.1)
        else
          ({ gst_rtsp_sink_set_state
              (pause_streams lib async (get_aggregate_control o.1) o.1.contexts o.1 o.2).1
              "PAUSED" with state := GST_RTSP_STATE_READY },
           (pause_streams lib async (get_aggregate_control o.1) o.1.contexts o.1 o.2).2.1))
      = r)
    (hres : 0 ≤ r.2) (hm : o.1.methods &&& GstRTSPMethod.PAUSE.bit ≠ 0) :
    r.1.state = GST_RTSP_STATE_READY := by
  by_cases hneg : o.2 < 0
  · rw [if_pos hneg] at hr
    subst hr
    exact absurd hneg (not_lt.mpr hres)
  · rw [if_neg hneg, if_neg hm] at hr
    by_cases hs : o.1.state = GST_RTSP_STATE_READY
    · rw [if_pos hs] at hr
      subst hr
      exact hs
    · rw [if_neg hs] at hr
      by_cases hc : o.1.conninfo.connection = none ∨ (!o.1.conninfo.connected) = true
      · rw [if_pos hc] at hr
        subst hr
        rfl
      · rw [if_neg hc] at hr
        by_cases herr : (pause_streams lib async (get_aggregate_control o.1) o.1.contexts o.1
            o.2).2.2 = true
        · rw [if_pos herr] at hr
          subst hr
          exact absurd (pause_streams_error lib async _ _ _ _ herr) (not_lt.mpr hres)
        · rw [if_neg herr] at hr
          subst hr
          rfl

theorem pause_state (lib : SinkLib) (sink : GstRTSPSink) (async : Bool)
    (hres : 0 ≤ (gst_rtsp_sink_pause lib sink async).2)
    (hm : (gst_rtsp_sink_ensure_open lib sink async).1.methods &&& GstRTSPMethod.PAUSE.bit ≠ 0) :
    (gst_rtsp_sink_pause lib sink async).1.state = GST_RTSP_STATE_READY := by
  unfold gst_rtsp_sink_pause at hres ⊢
  dsimp only at hres ⊢
  have hst : ∀ (r : GstRTSPSink × GstRTSPResult),
      (if async = true then gst_rtsp_sink_loop_end_cmd r.1 CMD_PAUSE r.2 else r.1).state
        = r.1.state := by
    intro r
    split
    · exact loop_end_cmd_state _ _ _
    · rfl
  rw [hst]
  exact pause_body_state lib async (gst_rtsp_sink_ensure_open lib sink async) _ rfl hres hm

theorem close_state (lib : SinkLib) (sink : GstRTSPSink) (async only_close : Bool) :
    (gst_rtsp_sink_close lib sink async only_close).1.state = GST_RTSP_STATE_INVALID := by
  unfold gst_rtsp_sink_close
  dsimp only
  split
  · exact loop_end_cmd_state _ _ _
  · rfl

/-! ## The credentials of the url come first -/

theorem AuthQuiet.quiet_trans {a b c : GstRTSPSink} (h1 : AuthQuiet a b) (h2 : AuthQuiet b c) :
    AuthQuiet a c := by
  obtain ⟨e1, t1, q1, f1⟩ := h1
  obtain ⟨e2, t2, q2, f2⟩ := h2
  refine ⟨e1 ++ e2, ?_, ?_, f2.trans f1⟩
  · unfold SinkTrace at *; rw [t2, t1, List.append_assoc]
  · rw [credentials_passed_append, q1, q2]; rfl

theorem AuthQuiet.quiet_error (s : GstRTSPSink) (text : String) :
    AuthQuiet s (s.log (SinkEvent.element_error text)) :=
  ⟨[SinkEvent.element_error text], rfl, rfl, rfl⟩

/-- C14: a stream with the profile AVP only, the allowed lower transports UDP
and TCP, and a server that answers 461 to the first SETUP and would answer
200 to the next: after AVP over UDP was refused, the next call of
`gst_rtsp_sink_create_transports_string` is for TCP with the empty profile
set (the profile mask was reset to SAVPF, which the stream does not have),
it fails, and `gst_rtsp_sink_setup_streams` returns `GST_RTSP_ERROR` after a
single SETUP: AVP over TCP is never offered, and the second response is never
read. -/
theorem setup_streams_next_protocol_first_mask :
    offers (gst_rtsp_sink_setup_streams exampleSinkLib
        (exampleSink (GST_RTSP_LOWER_TRANS_UDP ||| GST_RTSP_LOWER_TRANS_TCP)
          [exampleContext 0 GST_RTSP_PROFILE_AVP]
          [exampleResponse 461 "Unsupported transport" [],
           exampleResponse 200 "OK" [(.TRANSPORT, "RTP/AVP/TCP;unicast;interleaved=0-1")]])).1.trace
      = [(0, GST_RTSP_LOWER_TRANS_UDP, GST_RTSP_PROFILE_AVP), (0, GST_RTSP_LOWER_TRANS_TCP, 0)]
    ∧ (gst_rtsp_sink_setup_streams exampleSinkLib
        (exampleSink (GST_RTSP_LOWER_TRANS_UDP ||| GST_RTSP_LOWER_TRANS_TCP)
          [exampleContext 0 GST_RTSP_PROFILE_AVP]
          [exampleResponse 461 "Unsupported transport" [],
           exampleResponse 200 "OK" [(.TRANSPORT, "RTP/AVP/TCP;unicast;interleaved=0-1")]])).2
      = GST_RTSP_ERROR
    ∧ sent (gst_rtsp_sink_setup_streams exampleSinkLib
        (exampleSink (GST_RTSP_LOWER_TRANS_UDP ||| GST_RTSP_LOWER_TRANS_TCP)
          [exampleContext 0 GST_RTSP_PROFILE_AVP]
          [exampleResponse 461 "Unsupported transport" [],
           exampleResponse 200 "OK" [(.TRANSPORT, "RTP/AVP/TCP;unicast;interleaved=0-1")]])).1.trace
      = [GstRTSPMessage.request .SETUP "rtsp://host/test/stream=0".toList
          [(.TRANSPORT, "RTP/AVP/UDP;unicast;client_port=5000-5001;mode=RECORD".toList)]]
    ∧ gst_rtsp_sink_create_transports_string
        (exampleSink (GST_RTSP_LOWER_TRANS_UDP ||| GST_RTSP_LOWER_TRANS_TCP) [] [])
        (exampleContext 0 GST_RTSP_PROFILE_AVP) GST_RTSP_LOWER_TRANS_TCP 0
      = (GST_RTSP_ERROR, none)
    ∧ (gst_rtsp_sink_setup_streams exampleSinkLib
        (exampleSink (GST_RTSP_LOWER_TRANS_UDP ||| GST_RTSP_LOWER_TRANS_TCP)
          [exampleContext 0 (GST_RTSP_PROFILE_SAVPF ||| GST_RTSP_PROFILE_AVP)]
          [exampleResponse 461 "Unsupported transport" [],
           exampleResponse 461 "Unsupported transport" [],
           exampleResponse 461 "Unsupported transport" [],
           exampleResponse 200 "OK" [(.TRANSPORT, "RTP/AVP/TCP;unicast;interleaved=0-1")]])).2
      = GST_RTSP_OK := by
  decide

/-- C15, as the code has it: three streams, TCP as the only allowed lower
transport, and a server that answers the SETUP of the first stream 200 with a
TCP transport, the SETUP of the second stream 200 with a UDP transport and
the SETUP of the third stream 404.  The third stream is offered UDP although
the first response fixed TCP, and `gst_rtsp_sink_setup_streams` returns
`GST_RTSP_ERROR` from the label `response_error` with `cur_protocols` still
TCP, not the UDP that the last such response fixed. -/
theorem setup_streams_relock_and_error_exit :
    negotiation (gst_rtsp_sink_setup_streams exampleSinkLib
        (exampleSink GST_RTSP_LOWER_TRANS_TCP
          [exampleContext 0 GST_RTSP_PROFILE_AVP, exampleContext 1 GST_RTSP_PROFILE_AVP,
           exampleContext 2 GST_RTSP_PROFILE_AVP]
          [exampleResponse 200 "OK" [(.TRANSPORT, "RTP/AVP/TCP;unicast;interleaved=0-1")],
           exampleResponse 200 "OK"
             [(.TRANSPORT, "RTP/AVP/UDP;unicast;client_port=5000-5001;server_port=6000-6001")],
           exampleResponse 404 "Not Found" []])).1.trace
      = [Sum.inl (0, GST_RTSP_LOWER_TRANS_TCP, GST_RTSP_PROFILE_AVP),
         Sum.inr (0, GST_RTSP_LOWER_TRANS_TCP),
         Sum.inl (1, GST_RTSP_LOWER_TRANS_TCP, GST_RTSP_PROFILE_AVP),
         Sum.inr (1, GST_RTSP_LOWER_TRANS_UDP),
         Sum.inl (2, GST_RTSP_LOWER_TRANS_UDP, GST_RTSP_PROFILE_AVP)]
    ∧ (gst_rtsp_sink_setup_streams exampleSinkLib
        (exampleSink GST_RTSP_LOWER_TRANS_TCP
          [exampleContext 0 GST_RTSP_PROFILE_AVP, exampleContext 1 GST_RTSP_PROFILE_AVP,
           exampleContext 2 GST_RTSP_PROFILE_AVP]
          [exampleResponse 200 "OK" [(.TRANSPORT, "RTP/AVP/TCP;unicast;interleaved=0-1")],
           exampleResponse 200 "OK"
             [(.TRANSPORT, "RTP/AVP/UDP;unicast;client_port=5000-5001;server_port=6000-6001")],
           exampleResponse 404 "Not Found" []])).1.cur_protocols
      = GST_RTSP_LOWER_TRANS_TCP
    ∧ (gst_rtsp_sink_setup_streams exampleSinkLib
        (exampleSink GST_RTSP_LOWER_TRANS_TCP
          [exampleContext 0 GST_RTSP_PROFILE_AVP, exampleContext 1 GST_RTSP_PROFILE_AVP,
           exampleContext 2 GST_RTSP_PROFILE_AVP]
          [exampleResponse 200 "OK" [(.TRANSPORT, "RTP/AVP/TCP;unicast;interleaved=0-1")],
           exampleResponse 200 "OK"
             [(.TRANSPORT, "RTP/AVP/UDP;unicast;client_port=5000-5001;server_port=6000-6001")],
           exampleResponse 404 "Not Found" []])).2
      = GST_RTSP_ERROR
    ∧ setup_streams_exit exampleSinkLib
        (exampleSink GST_RTSP_LOWER_TRANS_TCP
          [exampleContext 0 GST_RTSP_PROFILE_AVP, exampleContext 1 GST_RTSP_PROFILE_AVP,
           exampleContext 2 GST_RTSP_PROFILE_AVP]
          [exampleResponse 200 "OK" [(.TRANSPORT, "RTP/AVP/TCP;unicast;interleaved=0-1")],
           exampleResponse 200 "OK"
             [(.TRANSPORT, "RTP/AVP/UDP;unicast;client_port=5000-5001;server_port=6000-6001")],
           exampleResponse 404 "Not Found" []])
      = SetupExit.failed := by
  decide

/-- C15, amended: in every call of `gst_rtsp_sink_setup_streams` (the model
never gives up), when an event `e` of the call is the configuration of a
stream after a 200 response whose transport has the lower transport `T` (UDP,
UDP multicast or TCP), then every offer made afterwards in the call, up to
the next such response, is for the lower transport `T` only; when `e` is the
last such response and the call returns after the loop over the streams
(not at an error label), `cur_protocols` is `T` at the return; and for `T`
TCP the sink is interleaved at the return. -/
theorem setup_streams_transport_fixed (lib : SinkLib) (sink : GstRTSPSink) :
    setup_streams_exit lib sink ≠ SetupExit.out_of_fuel
    ∧ ∃ evs, (gst_rtsp_sink_setup_streams lib sink).1.trace = sink.trace ++ evs
      ∧ ∀ pre post e T, evs = pre ++ e :: post → e.fixes_transport = some T →
        (∀ mid index protocols profiles rest,
            post = mid ++ SinkEvent.create_transports index protocols profiles :: rest →
            (∀ x ∈ mid, x.fixes_transport = none) → protocols = T)
        ∧ ((∀ x ∈ post, x.fixes_transport = none) →
            setup_streams_exit lib sink = SetupExit.next →
            (gst_rtsp_sink_setup_streams lib sink).1.cur_protocols = T)
        ∧ (T = GST_RTSP_LOWER_TRANS_TCP →
            (gst_rtsp_sink_setup_streams lib sink).1.interleaved = true) := by
  have failed : ∀ text : String,
      ∃ evs, (sink.log (SinkEvent.element_error text)).trace = sink.trace ++ evs
        ∧ ∀ pre post e T, evs = pre ++ e :: post → e.fixes_transport = some T →
          (∀ mid index protocols profiles rest,
              post = mid ++ SinkEvent.create_transports index protocols profiles :: rest →
              (∀ x ∈ mid, x.fixes_transport = none) → protocols = T)
          ∧ ((∀ x ∈ post, x.fixes_transport = none) → SetupExit.failed = SetupExit.next →
              (sink.log (SinkEvent.element_error text)).cur_protocols = T)
          ∧ (T = GST_RTSP_LOWER_TRANS_TCP →
              (sink.log (SinkEvent.element_error text)).interleaved = true) := by
    intro text
    obtain ⟨evs, ht, h⟩ := setup_step_fixed (SetupStep.setup_error sink 0 text)
    refine ⟨evs, ht, fun pre post e T h1 h2 => ?_⟩
    obtain ⟨a, -, c⟩ := h pre post e T h1 h2
    exact ⟨a, fun _ h => (by cases h), c⟩
  unfold gst_rtsp_sink_setup_streams setup_streams_exit
  dsimp only
  rcases sink.conninfo.connection with _ | connection
  on_goal 1 => dsimp only; generalize sink.cur_protocols = protocols
  on_goal 2 =>
    dsimp only
    generalize connection.url.transports &&& sink.cur_protocols = protocols
  all_goals
    by_cases h0 : protocols = 0
    · rw [if_pos h0, if_pos h0]
      exact ⟨by decide, failed _⟩
    · rw [if_neg h0, if_neg h0]
      by_cases hc : sink.contexts = []
      · rw [if_pos hc, if_pos hc]
        exact ⟨by decide, failed _⟩
      · rw [if_neg hc, if_neg hc]
        obtain ⟨hs, hf⟩ := setup_streams_loop_step lib sink.contexts [] sink protocols
          GST_RTSP_ERROR
        refine ⟨hf, ?_⟩
        obtain ⟨evs, ht, h⟩ := setup_step_fixed hs
        generalize setup_streams_loop lib sink.contexts [] sink protocols GST_RTSP_ERROR = l
          at ht h hf
        obtain ⟨s', p', r', x'⟩ := l
        dsimp only at ht h hf ⊢
        cases x'
        · refine ⟨evs, ht, fun pre post e T h1 h2 => ?_⟩
          obtain ⟨a, b, c⟩ := h pre post e T h1 h2
          exact ⟨a, fun hp _ => b hp, c⟩
        · refine ⟨evs, ht, fun pre post e T h1 h2 => ?_⟩
          obtain ⟨a, -, c⟩ := h pre post e T h1 h2
          exact ⟨a, fun _ hx => (by cases hx), c⟩
        · exact absurd rfl hf

/-- C15 at work: two streams, all lower transports allowed, and a server that
answers both SETUP requests 200 with a UDP unicast transport.  The last event
of the call is the configuration of the second stream; the call returns after
the loop, and `cur_protocols` is UDP. -/
theorem setup_streams_transport_fixed_witness :
    setup_streams_exit exampleSinkLib
        (exampleSink 7 [exampleContext 0 GST_RTSP_PROFILE_AVP, exampleContext 1 GST_RTSP_PROFILE_AVP]
          [exampleResponse 200 "OK"
             [(.TRANSPORT, "RTP/AVP/UDP;unicast;client_port=5000-5001;server_port=6000-6001")],
           exampleResponse 200 "OK"
             [(.TRANSPORT, "RTP/AVP/UDP;unicast;client_port=5000-5001;server_port=6000-6001")]])
      = SetupExit.next
    ∧ (gst_rtsp_sink_setup_streams exampleSinkLib
        (exampleSink 7 [exampleContext 0 GST_RTSP_PROFILE_AVP, exampleContext 1 GST_RTSP_PROFILE_AVP]
          [exampleResponse 200 "OK"
             [(.TRANSPORT, "RTP/AVP/UDP;unicast;client_port=5000-5001;server_port=6000-6001")],
           exampleResponse 200 "OK"
             [(.TRANSPORT, "RTP/AVP/UDP;unicast;client_port=5000-5001;server_port=6000-6001")]])).1.cur_protocols
      = GST_RTSP_LOWER_TRANS_UDP := by
  obtain ⟨-, evs, ht, h⟩ := setup_streams_transport_fixed exampleSinkLib
    (exampleSink 7 [exampleContext 0 GST_RTSP_PROFILE_AVP, exampleContext 1 GST_RTSP_PROFILE_AVP]
      [exampleResponse 200 "OK"
         [(.TRANSPORT, "RTP/AVP/UDP;unicast;client_port=5000-5001;server_port=6000-6001")],
       exampleResponse 200 "OK"
         [(.TRANSPORT, "RTP/AVP/UDP;unicast;client_port=5000-5001;server_port=6000-6001")]])
  have hexit : setup_streams_exit exampleSinkLib
      (exampleSink 7 [exampleContext 0 GST_RTSP_PROFILE_AVP, exampleContext 1 GST_RTSP_PROFILE_AVP]
        [exampleResponse 200 "OK"
           [(.TRANSPORT, "RTP/AVP/UDP;unicast;client_port=5000-5001;server_port=6000-6001")],
         exampleResponse 200 "OK"
           [(.TRANSPORT, "RTP/AVP/UDP;unicast;client_port=5000-5001;server_port=6000-6001")]])
      = SetupExit.next := by decide
  refine ⟨hexit, ?_⟩
  have hevs : evs = (gst_rtsp_sink_setup_streams exampleSinkLib
      (exampleSink 7 [exampleContext 0 GST_RTSP_PROFILE_AVP, exampleContext 1 GST_RTSP_PROFILE_AVP]
        [exampleResponse 200 "OK"
           [(.TRANSPORT, "RTP/AVP/UDP;unicast;client_port=5000-5001;server_port=6000-6001")],
         exampleResponse 200 "OK"
           [(.TRANSPORT, "RTP/AVP/UDP;unicast;client_port=5000-5001;server_port=6000-6001")]])).1.trace := by
    rw [ht]
    rfl
  refine (h ((gst_rtsp_sink_setup_streams exampleSinkLib
      (exampleSink 7 [exampleContext 0 GST_RTSP_PROFILE_AVP, exampleContext 1 GST_RTSP_PROFILE_AVP]
        [exampleResponse 200 "OK"
           [(.TRANSPORT, "RTP/AVP/UDP;unicast;client_port=5000-5001;server_port=6000-6001")],
         exampleResponse 200 "OK"
           [(.TRANSPORT, "RTP/AVP/UDP;unicast;client_port=5000-5001;server_port=6000-6001")]])).1.trace.take 9)
    []
    (SinkEvent.stream_transport 1
      { exampleTransport GST_RTSP_TRANS_RTP GST_RTSP_PROFILE_AVP GST_RTSP_LOWER_TRANS_UDP
          "client_port=5000-5001;server_port=6000-6001" with destination := "10.0.0.2".toList })
    GST_RTSP_LOWER_TRANS_UDP ?_ (by decide)).2.1 (by simp) hexit
  rw [hevs]
  decide

/-! ## `gst_rtsp_sink_send`: the retry loop and the final status -/

theorem send_without_code (lib : SinkLib) (sink : GstRTSPSink) (conn : Bool)
    (request : GstRTSPMessage) (want_response : Bool)
    (hl : (send_loop_exit lib sink conn request want_response).error = false)
    (hs : (send_loop_exit lib sink conn request want_response).int_code ≠ GST_RTSP_STS_OK) :
    (send_loop_exit lib sink conn request want_response).res = GST_RTSP_OK
    ∧ (send_loop_exit lib sink conn request want_response).method = request.method
    ∧ ∃ reason headers body,
        (send_loop_exit lib sink conn request want_response).response
          = some (GstRTSPMessage.response
              (send_loop_exit lib sink conn request want_response).int_code reason headers body)
        ∧ gst_rtsp_sink_send lib sink conn request want_response false
          = send_error_response lib (send_loop_exit lib sink conn request want_response).sink
              (GstRTSPMessage.response
                (send_loop_exit lib sink conn request want_response).int_code reason headers body)
              request.method := by
  obtain ⟨-, -, hJ⟩ := send_loop_exit_step lib sink conn request want_response
  rcases hJ hl with hJ | ⟨h1, h2, reason, headers, body, h3⟩
  · exact absurd hJ hs
  · refine ⟨h1, h2, reason, headers, body, h3, ?_⟩
    unfold gst_rtsp_sink_send
    simp only [hl, Bool.false_eq_true, ↓reduceIte, ne_eq, hs, not_false_eq_true, h3, h2]

/-- C16 (amended): whatever the server does, one call of
`gst_rtsp_sink_send` calls `gst_rtsp_sink_try_send` at most 9 times; and when
the loop is left without a transfer error with the status 401 and no status
out-parameter was passed, the call returns `GST_RTSP_ERROR` with the response
unset. -/
theorem send_attempts_bounded (lib : SinkLib) (sink : GstRTSPSink) (conn : Bool)
    (request : GstRTSPMessage) (want_response want_code : Bool) :
    (∃ evs, SinkTrace sink
        (gst_rtsp_sink_send lib sink conn request want_response want_code).sink evs
      ∧ evs.countP SinkEvent.is_try_send ≤ 9)
    ∧ ((send_loop_exit lib sink conn request want_response).error = false →
        (send_loop_exit lib sink conn request want_response).int_code
          = GST_RTSP_STS_UNAUTHORIZED →
        want_code = false →
        (gst_rtsp_sink_send lib sink conn request want_response want_code).res = GST_RTSP_ERROR
        ∧ (gst_rtsp_sink_send lib sink conn request want_response want_code).response
          = none) := by
  constructor
  · obtain ⟨evs, h1, h2, -⟩ := send_step lib sink conn request want_response want_code
    exact ⟨evs, h1, h2⟩
  · intro hl hs hc
    subst hc
    obtain ⟨-, -, reason, headers, body, -, h⟩ :=
      send_without_code lib sink conn request want_response hl (by rw [hs]; decide)
    rw [h, hs]
    exact ⟨rfl, rfl⟩

/-- C16, witness: a server that answers 401 with a Basic challenge every
time, and credentials in the properties: the call without status
out-parameter returns `GST_RTSP_ERROR`. -/
theorem send_attempts_bounded_witness :
    (gst_rtsp_sink_send exampleSinkLib
        (exampleSink 7 [] (List.replicate 12
          (exampleResponse 401 "Unauthorized" [(.WWW_AUTHENTICATE, "Basic realm=\"r\"")])))
        true (GstRTSPMessage.request .OPTIONS "rtsp://host/test".toList []) true false).res
      = GST_RTSP_ERROR :=
  ((send_attempts_bounded exampleSinkLib
      (exampleSink 7 [] (List.replicate 12
        (exampleResponse 401 "Unauthorized" [(.WWW_AUTHENTICATE, "Basic realm=\"r\"")])))
      true (GstRTSPMessage.request .OPTIONS "rtsp://host/test".toList []) true false).2
    (by decide) (by decide) rfl).1

/-- C16, counterexample: a server that answers 401 with a Basic challenge
every time, and credentials in the properties: one call of
`gst_rtsp_sink_send` calls `gst_rtsp_sink_try_send` 9 times and reads 9
responses. -/
theorem send_ninth_attempt :
    (gst_rtsp_sink_send exampleSinkLib
        (exampleSink 7 [] (List.replicate 12
          (exampleResponse 401 "Unauthorized" [(.WWW_AUTHENTICATE, "Basic realm=\"r\"")])))
        true (GstRTSPMessage.request .OPTIONS "rtsp://host/test".toList []) true
        false).sink.trace.countP SinkEvent.is_try_send = 9
    ∧ (gst_rtsp_sink_send exampleSinkLib
        (exampleSink 7 [] (List.replicate 12
          (exampleResponse 401 "Unauthorized" [(.WWW_AUTHENTICATE, "Basic realm=\"r\"")])))
        true (GstRTSPMessage.request .OPTIONS "rtsp://host/test".toList []) true
        false).sink.inbox.length = 3 := by
  decide

/-- C17 (amended): when the loop of `gst_rtsp_sink_send` is left without a
transfer error and the status s of the final response is not 200, the method
set, `need_redirect` and the state are still those before the call, and: with
a status out-parameter the call returns `GST_RTSP_OK` with that parameter set
to s and changes nothing more; without one, for s = 301 or 302 and a response
with a Location header the call sets `need_redirect` and the state INIT and
returns `GST_RTSP_OK`, and the location and the url of the connection info
are those of the Location header when it is another location that parses as
an RTSP url, while for a response without Location header it returns
`GST_RTSP_ERROR` with the response unset; for s = 501, 405 or 406 the bit of
the method of the request is cleared from the method set, all other method
bits unchanged, and the call returns `GST_RTSP_OK`; for every other s the
call returns `GST_RTSP_ERROR` with the response unset. -/
theorem send_final_status (lib : SinkLib) (sink : GstRTSPSink) (conn : Bool)
    (request : GstRTSPMessage) (want_response want_code : Bool)
    (hl : (send_loop_exit lib sink conn request want_response).error = false)
    (hs : (send_loop_exit lib sink conn request want_response).int_code ≠ GST_RTSP_STS_OK) :
    SinkKeeps sink (send_loop_exit lib sink conn request want_response).sink
    ∧ (want_code = true →
        gst_rtsp_sink_send lib sink conn request want_response want_code
          = { sink := (send_loop_exit lib sink conn request want_response).sink,
              res := GST_RTSP_OK,
              response := (send_loop_exit lib sink conn request want_response).response,
              code := some (send_loop_exit lib sink conn request want_response).int_code })
    ∧ (want_code = false →
        ∃ reason headers body,
          (send_loop_exit lib sink conn request want_response).response
            = some (GstRTSPMessage.response
                (send_loop_exit lib sink conn request want_response).int_code reason headers
                body)
          ∧ (((send_loop_exit lib sink conn request want_response).int_code
                  = GST_RTSP_STS_MOVED_PERMANENTLY
                ∨ (send_loop_exit lib sink conn request want_response).int_code
                  = GST_RTSP_STS_MOVE_TEMPORARILY) →
              (gst_rtsp_message_get_header headers GstRTSPHeaderField.LOCATION 0 = none →
                gst_rtsp_sink_send lib sink conn request want_response want_code
                  = { sink := (send_loop_exit lib sink conn request want_response).sink,
                      res := GST_RTSP_ERROR, response := none, code := none })
              ∧ (∀ new_location,
                  gst_rtsp_message_get_header headers GstRTSPHeaderField.LOCATION 0
                    = some new_location →
                  (gst_rtsp_sink_send lib sink conn request want_response want_code).res
                    = GST_RTSP_OK
                  ∧ (gst_rtsp_sink_send lib sink conn request want_response
                      want_code).sink.need_redirect = true
                  ∧ (gst_rtsp_sink_send lib sink conn request want_response
                      want_code).sink.state = GST_RTSP_STATE_INIT
                  ∧ (gst_rtsp_sink_send lib sink conn request want_response
                      want_code).sink.methods = sink.methods
                  ∧ ((send_loop_exit lib sink conn request want_response).sink.conninfo.location
                        ≠ some new_location →
                      "rtsp-sdp://".toList.isPrefixOf new_location = false →
                      ∀ newurl, lib.rtsp.url_parse new_location = some newurl →
                        (gst_rtsp_sink_send lib sink conn request want_response
                            want_code).sink.conninfo.location = some new_location
                        ∧ (gst_rtsp_sink_send lib sink conn request want_response
                            want_code).sink.conninfo.url_str
                          = some (lib.rtsp.url_get_request_uri newurl)
                        ∧ ∃ transports,
                            (gst_rtsp_sink_send lib sink conn request want_response
                              want_code).sink.conninfo.url
                            = some { newurl with transports := transports })))
          ∧ (((send_loop_exit lib sink conn request want_response).int_code
                  = GST_RTSP_STS_NOT_IMPLEMENTED
                ∨ (send_loop_exit lib sink conn request want_response).int_code
                  = GST_RTSP_STS_METHOD_NOT_ALLOWED
                ∨ (send_loop_exit lib sink conn request want_response).int_code
                  = GST_RTSP_STS_NOT_ACCEPTABLE) →
              gst_rtsp_sink_send lib sink conn request want_response want_code
                = { sink := { (send_loop_exit lib sink conn request want_response).sink with
                        methods := and_not sink.methods request.method.bit },
                    res := GST_RTSP_OK,
                    response := (send_loop_exit lib sink conn request want_response).response,
                    code := none }
              ∧ and_not sink.methods request.method.bit &&& request.method.bit = 0
              ∧ ∀ m : GstRTSPMethod, m ≠ request.method →
                  and_not sink.methods request.method.bit &&& m.bit = sink.methods &&& m.bit)
          ∧ (¬ ((send_loop_exit lib sink conn request want_response).int_code
                  = GST_RTSP_STS_MOVED_PERMANENTLY
                ∨ (send_loop_exit lib sink conn request want_response).int_code
                  = GST_RTSP_STS_MOVE_TEMPORARILY
                ∨ (send_loop_exit lib sink conn request want_response).int_code
                  = GST_RTSP_STS_NOT_IMPLEMENTED
                ∨ (send_loop_exit lib sink conn request want_response).int_code
                  = GST_RTSP_STS_METHOD_NOT_ALLOWED
                ∨ (send_loop_exit lib sink conn request want_response).int_code
                  = GST_RTSP_STS_NOT_ACCEPTABLE) →
              (gst_rtsp_sink_send lib sink conn request want_response want_code).res
                = GST_RTSP_ERROR
              ∧ (gst_rtsp_sink_send lib sink conn request want_response want_code).response
                = none
              ∧ SinkKeeps sink
                  (gst_rtsp_sink_send lib sink conn request want_response want_code).sink)) := by
  obtain ⟨⟨_, _, _, _, hk⟩, -, -⟩ := send_loop_exit_step lib sink conn request want_response
  obtain ⟨hres, hmeth, reason, headers, body, hresp, hsend⟩ :=
    send_without_code lib sink conn request want_response hl hs
  refine ⟨hk, ?_, ?_⟩
  · intro hc
    subst hc
    unfold gst_rtsp_sink_send
    simp only [hl, Bool.false_eq_true, ↓reduceIte, hres]
  · intro hc
    subst hc
    refine ⟨reason, headers, body, hresp, ?_, ?_, ?_⟩
    · intro hcode
      have h404 : (send_loop_exit lib sink conn request want_response).int_code
          ≠ GST_RTSP_STS_NOT_FOUND := by
        rcases hcode with h | h <;> rw [h] <;> decide
      have h401 : (send_loop_exit lib sink conn request want_response).int_code
          ≠ GST_RTSP_STS_UNAUTHORIZED := by
        rcases hcode with h | h <;> rw [h] <;> decide
      constructor
      · intro hloc
        rw [hsend]
        unfold send_error_response
        dsimp only
        rw [if_neg h404, if_neg h401, if_pos hcode, hloc]
      · intro new_location hloc
        rw [hsend]
        unfold send_error_response
        dsimp only
        rw [if_neg h404, if_neg h401, if_pos hcode, hloc]
        dsimp only
        refine ⟨rfl, rfl, rfl, ?_, ?_⟩
        · dsimp only
          split
          · split
            · exact (uri_set_uri_trace lib _ _).2.1.trans hk.1
            · exact (uri_set_uri_trace lib _ _).2.1.trans hk.1
          · exact (uri_set_uri_trace lib _ _).2.1.trans hk.1
        · intro hne hsdp newurl hparse
          have hu : gst_rtsp_sink_uri_set_uri lib
              (send_loop_exit lib sink conn request want_response).sink new_location
              = ({ (send_loop_exit lib sink conn request want_response).sink with
                    conninfo := { (send_loop_exit lib sink conn request
                        want_response).sink.conninfo with
                      location := some new_location, url := some newurl,
                      url_str := some (lib.rtsp.url_get_request_uri newurl) },
                    sdp := none, from_sdp := false }, true) := by
            unfold gst_rtsp_sink_uri_set_uri
            rw [if_neg hne]
            simp only [hsdp, Bool.false_eq_true, ↓reduceIte, hparse, Option.map_some',
              Option.isSome_none]
          rw [hu]
          dsimp only
          split
          · exact ⟨rfl, rfl, _, rfl⟩
          · exact ⟨rfl, rfl, _, rfl⟩
    · intro hcode
      have h404 : (send_loop_exit lib sink conn request want_response).int_code
          ≠ GST_RTSP_STS_NOT_FOUND := by
        rcases hcode with h | h | h <;> rw [h] <;> decide
      have h401 : (send_loop_exit lib sink conn request want_response).int_code
          ≠ GST_RTSP_STS_UNAUTHORIZED := by
        rcases hcode with h | h | h <;> rw [h] <;> decide
      have h301 : ¬ ((send_loop_exit lib sink conn request want_response).int_code
            = GST_RTSP_STS_MOVED_PERMANENTLY
          ∨ (send_loop_exit lib sink conn request want_response).int_code
            = GST_RTSP_STS_MOVE_TEMPORARILY) := by
        rcases hcode with h | h | h <;> rw [h] <;> decide
      have hcode' : (send_loop_exit lib sink conn request want_response).int_code
            = GST_RTSP_STS_NOT_ACCEPTABLE
          ∨ (send_loop_exit lib sink conn request want_response).int_code
            = GST_RTSP_STS_NOT_IMPLEMENTED
          ∨ (send_loop_exit lib sink conn request want_response).int_code
            = GST_RTSP_STS_METHOD_NOT_ALLOWED := by
        rcases hcode with h | h | h
        · exact Or.inr (Or.inl h)
        · exact Or.inr (Or.inr h)
        · exact Or.inl h
      refine ⟨?_, and_not_and_self _ _, fun m hm =>
        and_not_and_other _ _ _ (method_bits_disjoint _ _ (Ne.symm hm))⟩
      rw [hsend]
      unfold send_error_response
      dsimp only
      rw [if_neg h404, if_neg h401, if_neg h301, if_pos hcode', hresp, hk.1]
    · intro hcode
      rw [hsend]
      unfold send_error_response
      have hkl : ∀ text : String, SinkKeeps sink
          ((send_loop_exit lib sink conn request want_response).sink.log
            (SinkEvent.element_error text)) :=
        fun text => hk.keeps_trans (SinkKeeps.keeps_refl _)
      by_cases h404 : (send_loop_exit lib sink conn request want_response).int_code
          = GST_RTSP_STS_NOT_FOUND
      · dsimp only
        rw [if_pos h404]
        exact ⟨rfl, rfl, hkl _⟩
      · by_cases h401 : (send_loop_exit lib sink conn request want_response).int_code
            = GST_RTSP_STS_UNAUTHORIZED
        · dsimp only
          rw [if_neg h404, if_pos h401]
          exact ⟨rfl, rfl, hkl _⟩
        · have h1 : ¬ ((send_loop_exit lib sink conn request want_response).int_code
                = GST_RTSP_STS_MOVED_PERMANENTLY
              ∨ (send_loop_exit lib sink conn request want_response).int_code
                = GST_RTSP_STS_MOVE_TEMPORARILY) := fun h => hcode (by tauto)
          have h2 : ¬ ((send_loop_exit lib sink conn request want_response).int_code
                = GST_RTSP_STS_NOT_ACCEPTABLE
              ∨ (send_loop_exit lib sink conn request want_response).int_code
                = GST_RTSP_STS_NOT_IMPLEMENTED
              ∨ (send_loop_exit lib sink conn request want_response).int_code
                = GST_RTSP_STS_METHOD_NOT_ALLOWED) := fun h => hcode (by tauto)
          dsimp only
          rw [if_neg h404, if_neg h401, if_neg h1, if_neg h2]
          exact ⟨rfl, rfl, hkl _⟩

/-- C17, witness: the response 404 to a request whose caller passed a status
out-parameter: the call returns `GST_RTSP_OK` with the status 404 stored. -/
theorem send_final_status_witness :
    (gst_rtsp_sink_send exampleSinkLib
        (exampleSink 7 [] [exampleResponse 404 "Not Found" []])
        true (GstRTSPMessage.request .OPTIONS "rtsp://host/test".toList []) true true).res
      = GST_RTSP_OK
    ∧ (gst_rtsp_sink_send exampleSinkLib
        (exampleSink 7 [] [exampleResponse 404 "Not Found" []])
        true (GstRTSPMessage.request .OPTIONS "rtsp://host/test".toList []) true true).code
      = some 404 := by
  have h := (send_final_status exampleSinkLib
    (exampleSink 7 [] [exampleResponse 404 "Not Found" []])
    true (GstRTSPMessage.request .OPTIONS "rtsp://host/test".toList []) true true
    (by decide) (by decide)).2.1 rfl
  rw [h]
  exact ⟨rfl, by decide⟩

/-- C17, counterexample: the response 301 without Location header to a
request whose caller passed no status out-parameter: the call returns
`GST_RTSP_ERROR`, `need_redirect` is not set and the location is unchanged. -/
theorem send_redirect_without_location :
    (gst_rtsp_sink_send exampleSinkLib
        (exampleSink 7 [] [exampleResponse 301 "Moved Permanently" []])
        true (GstRTSPMessage.request .OPTIONS "rtsp://host/test".toList []) true false).res
      = GST_RTSP_ERROR
    ∧ (gst_rtsp_sink_send exampleSinkLib
        (exampleSink 7 [] [exampleResponse 301 "Moved Permanently" []])
        true (GstRTSPMessage.request .OPTIONS "rtsp://host/test".toList []) true
        false).sink.need_redirect = false
    ∧ (gst_rtsp_sink_send exampleSinkLib
        (exampleSink 7 [] [exampleResponse 301 "Moved Permanently" []])
        true (GstRTSPMessage.request .OPTIONS "rtsp://host/test".toList []) true
        false).sink.conninfo.location = some "rtsp://host/test".toList := by
  decide

/-! ## `gst_rtsp_sink_try_send`: requests of the server, data messages, end of file -/

/-- C18 (amended): when every transfer succeeds, `gst_rtsp_sink_try_send` with
a `response` that is not NULL, on inbound requests and data messages in any
interleaving followed by a response R, sends the request once, then one reply
per inbound request, in arrival order - the response
`gst_rtsp_message_init_response` makes for it with status 200 and reason "OK",
as the handlers of the signal `handle-request` leave it - and nothing for the
data messages, reads the messages up to R and no further, and returns
`GST_RTSP_OK` with R in `*response` and the status code of R in `*code`; with
a NULL `response` it sends the request and returns `GST_RTSP_OK` without
receiving anything. -/
theorem try_send_answers_requests (lib : SinkLib) (sink : GstRTSPSink)
    (request : GstRTSPMessage) (msgs : List GstRTSPMessage) (code : GstRTSPStatusCode)
    (reason : CString) (headers : List (GstRTSPHeaderField × CString)) (body : Option CString)
    (rest : List (GstRTSPResult × GstRTSPMessage)) (response : Option GstRTSPMessage)
    (want_code : Bool)
    (hmsgs : ∀ m ∈ msgs, m.is_request_or_data = true)
    (hsend : ∀ r ∈ sink.send_results, r = GST_RTSP_OK)
    (hinbox : sink.inbox = msgs.map (fun m => (GST_RTSP_OK, m))
      ++ (GST_RTSP_OK, GstRTSPMessage.response code reason headers body) :: rest) :
    gst_rtsp_sink_try_send lib sink true request true response want_code
        = { sink :=
              { sink with
                inbox := rest,
                send_results := sink.send_results.drop ((msgs.filter (·.is_request)).length + 1),
                trace := sink.trace
                  ++ [SinkEvent.try_send request, SinkEvent.again request,
                      SinkEvent.send request GST_RTSP_OK]
                  ++ (msgs.filter (·.is_request)).map
                      (fun m => SinkEvent.send
                        (lib.handle_request_signal m
                          (lib.message_init_response GST_RTSP_STS_OK "OK".toList m))
                        GST_RTSP_OK),
                content_base :=
                  if code = GST_RTSP_STS_OK then
                    (gst_rtsp_message_get_header headers GstRTSPHeaderField.CONTENT_BASE 0).orElse
                      (fun _ => sink.content_base)
                  else sink.content_base },
            res := GST_RTSP_OK,
            response := some (GstRTSPMessage.response code reason headers body),
            code := if want_code then some code else none }
      ∧ gst_rtsp_sink_try_send lib sink true request false response want_code
        = { sink :=
              { sink with
                send_results := sink.send_results.tail,
                trace := sink.trace
                  ++ [SinkEvent.try_send request, SinkEvent.again request,
                      SinkEvent.send request GST_RTSP_OK] },
            res := GST_RTSP_OK, response := response, code := none } := by
  have hreply : ∀ m, server_request_reply lib m
      = lib.handle_request_signal m
          (lib.message_init_response GST_RTSP_STS_OK "OK".toList m) :=
    fun m => rfl
  have hs := connection_send_ok
    ((sink.log (SinkEvent.try_send request)).log (SinkEvent.again request)) request hsend
  constructor
  · unfold gst_rtsp_sink_try_send
    dsimp only
    rw [hs]
    dsimp only [GstRTSPSink.log]
    rw [if_neg (by decide), if_neg (by decide), hinbox,
      try_send_next_requests lib request want_code code reason headers body rest msgs _ 0
        response hmsgs (tail_all_ok _ hsend)]
    simp [hreply, List.drop_tail]
  · unfold gst_rtsp_sink_try_send
    dsimp only
    rw [hs]
    dsimp only [GstRTSPSink.log]
    rw [if_neg (by decide), if_pos (by decide)]
    simp

/-- C18, witness: a request of the server, a data message and a second
request arrive before the response 200 to an OPTIONS request; no handler of
`handle-request` is connected. -/
theorem try_send_answers_requests_witness :
    (gst_rtsp_sink_try_send exampleSinkLib
        (exampleSink 7 []
          [GstRTSPMessage.request .OPTIONS "*".toList [(.CSEQ, "1".toList)],
           GstRTSPMessage.data 0 "abc".toList,
           GstRTSPMessage.request .SET_PARAMETER "*".toList [(.CSEQ, "2".toList)],
           exampleResponse 200 "OK" []])
        true (GstRTSPMessage.request .OPTIONS "rtsp://host/test".toList []) true none true).res
      = GST_RTSP_OK
    ∧ sent (gst_rtsp_sink_try_send exampleSinkLib
        (exampleSink 7 []
          [GstRTSPMessage.request .OPTIONS "*".toList [(.CSEQ, "1".toList)],
           GstRTSPMessage.data 0 "abc".toList,
           GstRTSPMessage.request .SET_PARAMETER "*".toList [(.CSEQ, "2".toList)],
           exampleResponse 200 "OK" []])
        true (GstRTSPMessage.request .OPTIONS "rtsp://host/test".toList []) true none
          true).sink.trace
      = [GstRTSPMessage.request .OPTIONS "rtsp://host/test".toList [],
         GstRTSPMessage.response 200 "OK".toList [(.CSEQ, "1".toList)] none,
         GstRTSPMessage.response 200 "OK".toList [(.CSEQ, "2".toList)] none] := by
  have h := (try_send_answers_requests exampleSinkLib
    (exampleSink 7 []
      [GstRTSPMessage.request .OPTIONS "*".toList [(.CSEQ, "1".toList)],
       GstRTSPMessage.data 0 "abc".toList,
       GstRTSPMessage.request .SET_PARAMETER "*".toList [(.CSEQ, "2".toList)],
       exampleResponse 200 "OK" []])
    (GstRTSPMessage.request .OPTIONS "rtsp://host/test".toList [])
    [GstRTSPMessage.request .OPTIONS "*".toList [(.CSEQ, "1".toList)],
     GstRTSPMessage.data 0 "abc".toList,
     GstRTSPMessage.request .SET_PARAMETER "*".toList [(.CSEQ, "2".toList)]]
    200 "OK".toList [] none [] none true (by decide) (by decide)
    (by decide)).1
  rw [h]
  decide


/-- C18, counterexample: with a handler of `handle-request` that answers 501,
the reply sent to the request of the server is 501 "Not Implemented" and not
200 "OK"; every transfer succeeds and the response to the OPTIONS request is
returned. -/
theorem try_send_reply_from_handler :
    (gst_rtsp_sink_try_send exampleHandlerLib
        (exampleSink 7 []
          [GstRTSPMessage.request .SET_PARAMETER "*".toList [(.CSEQ, "1".toList)],
           exampleResponse 200 "OK" []])
        true (GstRTSPMessage.request .OPTIONS "rtsp://host/test".toList []) true none true).res
      = GST_RTSP_OK
    ∧ (gst_rtsp_sink_try_send exampleHandlerLib
        (exampleSink 7 []
          [GstRTSPMessage.request .SET_PARAMETER "*".toList [(.CSEQ, "1".toList)],
           exampleResponse 200 "OK" []])
        true (GstRTSPMessage.request .OPTIONS "rtsp://host/test".toList []) true none
          true).response
      = some (exampleResponse 200 "OK" [])
    ∧ sent (gst_rtsp_sink_try_send exampleHandlerLib
        (exampleSink 7 []
          [GstRTSPMessage.request .SET_PARAMETER "*".toList [(.CSEQ, "1".toList)],
           exampleResponse 200 "OK" []])
        true (GstRTSPMessage.request .OPTIONS "rtsp://host/test".toList []) true none
          true).sink.trace
      = [GstRTSPMessage.request .OPTIONS "rtsp://host/test".toList [],
         GstRTSPMessage.response 501 "Not Implemented".toList [(.CSEQ, "1".toList)] none] := by
  decide

/-- C19 (amended): in `gst_rtsp_sink_try_send`, when a receive fails with
EOF: if the sink is not interleaved, `udp_reconnect` is set and `try` is
still 0, the connection is reconnected; if the reconnect gives `GST_RTSP_OK`
the label `again` is passed, the request is sent again and the receive loop
goes on with `try` = 1; if the reconnect fails the call returns the result of
the reconnect, which is negative, and sends nothing more.  In every other
case, a second EOF after the retry included, the call returns
`GST_RTSP_EEOF` after posting the error.  In one call the label `again` is
passed at most twice and at most one connect is made. -/
theorem try_send_eof_reconnect (lib : SinkLib) (sink : GstRTSPSink)
    (request : GstRTSPMessage) (want_code : Bool) (message : GstRTSPMessage)
    (rest : List (GstRTSPResult × GstRTSPMessage)) (try_ : Nat)
    (response : Option GstRTSPMessage) :
    (try_ = 0 ∧ sink.interleaved = false ∧ sink.udp_reconnect = true →
      ((sink_reconnect lib { sink with inbox := rest }).2 = GST_RTSP_OK →
        try_send_next lib true request want_code ((GST_RTSP_EEOF, message) :: rest) sink try_
            response
          = if (gst_rtsp_sink_connection_send
                ((sink_reconnect lib { sink with inbox := rest }).1.log
                  (SinkEvent.again request)) true request).2 < 0 then
              try_send_send_error
                (gst_rtsp_sink_connection_send
                  ((sink_reconnect lib { sink with inbox := rest }).1.log
                    (SinkEvent.again request)) true request).1
                (gst_rtsp_sink_connection_send
                  ((sink_reconnect lib { sink with inbox := rest }).1.log
                    (SinkEvent.again request)) true request).2
                (some message)
            else
              try_send_next lib true request want_code rest
                (gst_rtsp_sink_connection_send
                  ((sink_reconnect lib { sink with inbox := rest }).1.log
                    (SinkEvent.again request)) true request).1
                1 (some message))
      ∧ ((sink_reconnect lib { sink with inbox := rest }).2 ≠ GST_RTSP_OK →
        (sink_reconnect lib { sink with inbox := rest }).2 < 0
        ∧ try_send_next lib true request want_code ((GST_RTSP_EEOF, message) :: rest) sink try_
            response
          = { sink :=
                if (sink_reconnect lib { sink with inbox := rest }).2 ≠ GST_RTSP_EINTR then
                  (sink_reconnect lib { sink with inbox := rest }).1.log
                    (SinkEvent.element_error "READ: Could not receive message. (%s)")
                else (sink_reconnect lib { sink with inbox := rest }).1,
              res := (sink_reconnect lib { sink with inbox := rest }).2,
              response := some message, code := none }))
    ∧ (¬ (try_ = 0 ∧ sink.interleaved = false ∧ sink.udp_reconnect = true) →
        try_send_next lib true request want_code ((GST_RTSP_EEOF, message) :: rest) sink try_
            response
          = { sink := { sink with
                inbox := rest,
                trace := sink.trace
                  ++ [SinkEvent.element_error "READ: Could not receive message. (%s)"] },
              res := GST_RTSP_EEOF, response := some message, code := none })
    ∧ ∀ (conn want_response : Bool),
        SinkStep 2 1 (sink.log (SinkEvent.try_send request))
          (gst_rtsp_sink_try_send lib sink conn request want_response response want_code).sink := by
  have hstep := try_send_next_failure lib request want_code GST_RTSP_EEOF (by decide) message
    rest sink try_ response
  refine ⟨fun hcond => ⟨fun hrc => ?_, fun hrc => ⟨?_, ?_⟩⟩, fun hcond => ?_,
    fun conn want_response =>
      (try_send_step lib sink conn request want_response response want_code).1⟩
  · have hrc' : (sink_reconnect lib { sink with inbox := rest }).2 = 0 := hrc
    rw [hstep, if_pos ⟨rfl, hcond⟩, if_pos hrc', hcond.1]
  · rcases (sink_reconnect_step lib { sink with inbox := rest }).2 with hres | hres
    · exact hres
    · exact absurd hres hrc
  · have hrc' : ¬ (sink_reconnect lib { sink with inbox := rest }).2 = 0 := hrc
    rw [hstep, if_pos ⟨rfl, hcond⟩, if_neg hrc']
    rfl
  · rw [hstep, if_neg (fun h => hcond h.2)]
    simp [try_send_receive_error, GST_RTSP_EEOF, GST_RTSP_EINTR, GstRTSPSink.log]

/-- C19, witness: a second EOF, after the retry (`try` = 1): the call returns
`GST_RTSP_EEOF` after posting the error, without reconnect. -/
theorem try_send_eof_reconnect_witness :
    try_send_next exampleSinkLib true
        (GstRTSPMessage.request .OPTIONS "rtsp://host/test".toList []) true
        [(GST_RTSP_EEOF, GstRTSPMessage.other)] (exampleSink 7 [] []) 1 none
      = { sink := { exampleSink 7 [] [] with
            inbox := [],
            trace := (exampleSink 7 [] []).trace
              ++ [SinkEvent.element_error "READ: Could not receive message. (%s)"] },
          res := GST_RTSP_EEOF, response := some GstRTSPMessage.other, code := none } :=
  (try_send_eof_reconnect exampleSinkLib (exampleSink 7 [] [])
    (GstRTSPMessage.request .OPTIONS "rtsp://host/test".toList []) true GstRTSPMessage.other
    [] 1 none).2.1 (by decide)

/-- C19, counterexample: the server closes the connection and the reconnect
fails with `GST_RTSP_ERROR`: the call returns `GST_RTSP_ERROR`, not
`GST_RTSP_EEOF`. -/
theorem try_send_reconnect_failure_not_eof :
    (gst_rtsp_sink_try_send exampleSinkLib
        { exampleSink 7 [] [] with
          inbox := [(GST_RTSP_EEOF, GstRTSPMessage.other)],
          connect_results := [GST_RTSP_ERROR] }
        true (GstRTSPMessage.request .OPTIONS "rtsp://host/test".toList []) true none true).res
      = GST_RTSP_ERROR
    ∧ GST_RTSP_ERROR ≠ GST_RTSP_EEOF
    ∧ (gst_rtsp_sink_try_send exampleSinkLib
        { exampleSink 7 [] [] with
          inbox := [(GST_RTSP_EEOF, GstRTSPMessage.other)],
          connect_results := [GST_RTSP_ERROR] }
        true (GstRTSPMessage.request .OPTIONS "rtsp://host/test".toList []) true none
          true).sink.trace
      = [SinkEvent.try_send (GstRTSPMessage.request .OPTIONS "rtsp://host/test".toList []),
         SinkEvent.again (GstRTSPMessage.request .OPTIONS "rtsp://host/test".toList []),
         SinkEvent.send (GstRTSPMessage.request .OPTIONS "rtsp://host/test".toList [])
           GST_RTSP_OK,
         SinkEvent.close, SinkEvent.connect GST_RTSP_ERROR,
         SinkEvent.element_error "READ: Could not receive message. (%s)"] := by
  decide

/-! ## `gst_rtsp_sink_setup_auth` -/

/-- C20: `gst_rtsp_sink_setup_auth` reads the `WWW-Authenticate` header of
index 0 only, and `gst_rtsp_sink_parse_auth_hdr` takes one method from it,
that of the challenge it starts with: the set of available methods never
holds both Basic and Digest, and two responses with the same first header
give the same result.  For a 401 response that offers Basic in its first
header value and Digest in the second, and for one that offers both in one
value, Basic first, Basic is installed on the connection with the credentials
of the properties, and the call returns TRUE. -/
theorem setup_auth_first_challenge_only :
    (∀ (sink : GstRTSPSink) (response : GstRTSPMessage),
      (setup_auth_challenge sink response).1 = GST_RTSP_AUTH_NONE
        ∨ (setup_auth_challenge sink response).1 = GST_RTSP_AUTH_BASIC
        ∨ (setup_auth_challenge sink response).1 = GST_RTSP_AUTH_DIGEST)
    ∧ (∀ (lib : SinkLib) (sink : GstRTSPSink) (response response' : GstRTSPMessage),
        gst_rtsp_message_get_header response.headers GstRTSPHeaderField.WWW_AUTHENTICATE 0
          = gst_rtsp_message_get_header response'.headers GstRTSPHeaderField.WWW_AUTHENTICATE 0 →
        gst_rtsp_sink_setup_auth lib sink response = gst_rtsp_sink_setup_auth lib sink response')
    ∧ (gst_rtsp_sink_setup_auth exampleSinkLib (exampleSink 7 [] [])
        (exampleResponse 401 "Unauthorized"
          [(.WWW_AUTHENTICATE, "Basic realm=\"r\""),
           (.WWW_AUTHENTICATE, "Digest realm=\"r\", nonce=\"n\"")])).2 = true
    ∧ ((gst_rtsp_sink_setup_auth exampleSinkLib (exampleSink 7 [] [])
        (exampleResponse 401 "Unauthorized"
          [(.WWW_AUTHENTICATE, "Basic realm=\"r\""),
           (.WWW_AUTHENTICATE, "Digest realm=\"r\", nonce=\"n\"")])).1.conninfo.connection.map
          (fun c => c.auth))
        = some (some (GST_RTSP_AUTH_BASIC, "user".toList, "secret".toList))
    ∧ ((gst_rtsp_sink_setup_auth exampleSinkLib (exampleSink 7 [] [])
        (exampleResponse 401 "Unauthorized"
          [(.WWW_AUTHENTICATE, "Basic realm=\"r\", Digest realm=\"r\", nonce=\"n\"")])
          ).1.conninfo.connection.map (fun c => c.auth))
        = some (some (GST_RTSP_AUTH_BASIC, "user".toList, "secret".toList)) := by
  refine ⟨?_, ?_, by decide, by decide, by decide⟩
  · intro sink response
    unfold setup_auth_challenge
    split
    · unfold gst_rtsp_sink_parse_auth_hdr
      dsimp only
      split
      · right; left; rfl
      · split
        · right; right; rfl
        · left; rfl
    · left; rfl
  · intro lib sink response response' h
    unfold gst_rtsp_sink_setup_auth setup_auth_challenge
    rw [h]

/-- C21: a Digest challenge with the parameter `stale=true` does not clear
`tried_url_auth`: `gst_rtsp_sink_parse_digest_challenge` compares the value
with the text `TRUE` by `strcmp`.  On the connection of `exampleUrlSink`,
whose url has the credentials "alice" and "wonder", with `tried_url_auth`
set and the properties "user" and "secret": for the challenge
`Digest realm="r", nonce="n", stale=true` the call reads no stale flag, leaves
`tried_url_auth` set and passes the properties; for the same challenge with
`stale=TRUE` it reads the flag and passes the credentials of the url
again. -/
theorem setup_auth_stale_lower_case_ignored :
    response_challenge (exampleResponse 401 "Unauthorized"
        [(GstRTSPHeaderField.WWW_AUTHENTICATE, "Digest realm=\"r\", nonce=\"n\", stale=true")])
      = (GST_RTSP_AUTH_DIGEST, false)
    ∧ (gst_rtsp_sink_setup_auth exampleSinkLib
        { exampleUrlSink [] with tried_url_auth := true }
        (exampleResponse 401 "Unauthorized"
          [(GstRTSPHeaderField.WWW_AUTHENTICATE,
            "Digest realm=\"r\", nonce=\"n\", stale=true")])).2 = true
    ∧ credentials_passed (gst_rtsp_sink_setup_auth exampleSinkLib
        { exampleUrlSink [] with tried_url_auth := true }
        (exampleResponse 401 "Unauthorized"
          [(GstRTSPHeaderField.WWW_AUTHENTICATE,
            "Digest realm=\"r\", nonce=\"n\", stale=true")])).1.trace
        = [("user".toList, "secret".toList)]
    ∧ response_challenge (exampleResponse 401 "Unauthorized"
        [(GstRTSPHeaderField.WWW_AUTHENTICATE, "Digest realm=\"r\", nonce=\"n\", stale=TRUE")])
      = (GST_RTSP_AUTH_DIGEST, true)
    ∧ credentials_passed (gst_rtsp_sink_setup_auth exampleSinkLib
        { exampleUrlSink [] with tried_url_auth := true }
        (exampleResponse 401 "Unauthorized"
          [(GstRTSPHeaderField.WWW_AUTHENTICATE,
            "Digest realm=\"r\", nonce=\"n\", stale=TRUE")])).1.trace
        = [("alice".toList, "wonder".toList)] := by
  refine ⟨?_, ?_, ?_, ?_, ?_⟩ <;> decide

/-- C23 (counterexample): with the command RECONNECT pending,
`gst_rtsp_sink_loop_send_cmd (sink, CMD_CLOSE, CMD_LOOP)` leaves RECONNECT
pending, not CLOSE; and RECONNECT, like LOOP, is superseded without a cancel
notification: the only message posted is the start of the new request. -/
theorem loop_send_cmd_reconnect_kept :
    (gst_rtsp_sink_loop_send_cmd (exampleLoopSink CMD_RECONNECT CMD_LOOP) CMD_CLOSE
        CMD_LOOP).1.pending_cmd = CMD_RECONNECT
    ∧ CMD_RECONNECT ≠ CMD_CLOSE
    ∧ (gst_rtsp_sink_loop_send_cmd (exampleLoopSink CMD_RECONNECT CMD_LOOP) CMD_CLOSE
        CMD_LOOP).1.loop_trace
        = [LoopEvent.progress GstProgressType.START "close" "Closing Stream",
           LoopEvent.connection_flush true, LoopEvent.task_start]
    ∧ (gst_rtsp_sink_loop_send_cmd (exampleLoopSink CMD_LOOP CMD_WAIT) CMD_RECORD
        CMD_LOOP).1.pending_cmd = CMD_RECORD
    ∧ (gst_rtsp_sink_loop_send_cmd (exampleLoopSink CMD_LOOP CMD_WAIT) CMD_RECORD
        CMD_LOOP).1.loop_trace
        = [LoopEvent.progress GstProgressType.START "request" "Sending RECORD request",
           LoopEvent.task_start] := by
  refine ⟨?_, ?_, ?_, ?_, ?_⟩ <;> decide

/-- C23 (amended): for every pending command, busy command, new command
`cmd` and mask, `gst_rtsp_sink_loop_send_cmd` leaves `cmd` pending, or
RECONNECT when RECONNECT was pending; among the events of the call there is
one cancel notification when the command that was pending is OPEN, RECORD,
PAUSE or CLOSE, and none otherwise; `gst_rtsp_sink_connection_flush (sink,
TRUE)` is called, once, if and only if the busy command and the mask have a
common bit, and then the connections of the sink and of its streams are
flushing; the busy command is left alone; and the result is TRUE exactly when
the flush was called. -/
theorem loop_send_cmd_supersedes (sink : GstRTSPSink) (cmd mask : Nat) :
    ∃ evs, (gst_rtsp_sink_loop_send_cmd sink cmd mask).1.loop_trace = sink.loop_trace ++ evs
      ∧ (gst_rtsp_sink_loop_send_cmd sink cmd mask).1.pending_cmd
          = (if sink.pending_cmd = CMD_RECONNECT then CMD_RECONNECT else cmd)
      ∧ (gst_rtsp_sink_loop_send_cmd sink cmd mask).1.busy_cmd = sink.busy_cmd
      ∧ (cancel_notified sink.pending_cmd = true →
          ∃ code text, cancel_notifications evs
            = [LoopEvent.progress GstProgressType.CANCELED code text])
      ∧ (cancel_notified sink.pending_cmd = false → cancel_notifications evs = [])
      ∧ connection_flushes evs
          = (if sink.busy_cmd &&& mask ≠ 0 then [LoopEvent.connection_flush true] else [])
      ∧ ((gst_rtsp_sink_loop_send_cmd sink cmd mask).2 = true ↔ sink.busy_cmd &&& mask ≠ 0)
      ∧ (sink.busy_cmd &&& mask ≠ 0 →
          ((gst_rtsp_sink_loop_send_cmd sink cmd mask).1.conninfo.connection.isSome = true →
            (gst_rtsp_sink_loop_send_cmd sink cmd mask).1.conninfo.flushing = true)
          ∧ ∀ stream ∈ (gst_rtsp_sink_loop_send_cmd sink cmd mask).1.contexts,
              stream.conninfo.connection.isSome = true → stream.conninfo.flushing = true) :=
  loop_send_cmd_eq sink cmd mask

/-- C23 (witness): with OPEN pending and the loop busy, a CLOSE sent with
the mask of the loop supersedes the OPEN with one cancel notification,
flushes the connection and gives TRUE. -/
theorem loop_send_cmd_supersedes_witness :
    ∃ evs, (gst_rtsp_sink_loop_send_cmd (exampleLoopSink CMD_OPEN CMD_LOOP) CMD_CLOSE
          CMD_LOOP).1.loop_trace = (exampleLoopSink CMD_OPEN CMD_LOOP).loop_trace ++ evs
      ∧ (gst_rtsp_sink_loop_send_cmd (exampleLoopSink CMD_OPEN CMD_LOOP) CMD_CLOSE
          CMD_LOOP).1.pending_cmd = CMD_CLOSE
      ∧ (∃ code text, cancel_notifications evs
          = [LoopEvent.progress GstProgressType.CANCELED code text])
      ∧ connection_flushes evs = [LoopEvent.connection_flush true]
      ∧ (gst_rtsp_sink_loop_send_cmd (exampleLoopSink CMD_OPEN CMD_LOOP) CMD_CLOSE
          CMD_LOOP).2 = true :=
  match loop_send_cmd_supersedes (exampleLoopSink CMD_OPEN CMD_LOOP) CMD_CLOSE CMD_LOOP with
  | ⟨evs, t, p, _, c, _, f, r, _⟩ =>
    ⟨evs, t, p.trans (by decide), c (by decide), f.trans (by decide), r.mpr (by decide)⟩

/-- C24: `gst_rtsp_sink_open` and `gst_rtsp_sink_record` never assign
`sink->state`, although `gst_rtsp_sink_ensure_open` and `gst_rtsp_sink_close`
test it.  On `exampleSessionSink`, a sink in the state Invalid whose server
answers 200 to every request: the open succeeds and leaves the state Invalid,
not Ready; the record after it succeeds and leaves the state Invalid, not
Playing; a close at that point finds a state below Ready and sends no
TEARDOWN; a pause at that point opens the stream again (a second OPTIONS
request) before it sends PAUSE, and leaves the state Ready; and a record from
that state Ready succeeds and leaves it Ready, not Playing.  The other two
sentences of the claim hold for every sink: a pause that succeeds leaves the
state Ready when the methods of the server, after
`gst_rtsp_sink_ensure_open`, include PAUSE (without PAUSE it returns
`GST_RTSP_OK` at the label `not_supported`), and `gst_rtsp_sink_close` leaves
the state Invalid whatever the result of the TEARDOWN exchange. -/
theorem open_and_record_leave_state :
    exampleSessionSink.state = GST_RTSP_STATE_INVALID
    ∧ (gst_rtsp_sink_open exampleSinkLib exampleSessionSink false).2 = GST_RTSP_OK
    ∧ (gst_rtsp_sink_open exampleSinkLib exampleSessionSink false).1.state
        = GST_RTSP_STATE_INVALID
    ∧ (gst_rtsp_sink_record exampleSinkLib
        (gst_rtsp_sink_open exampleSinkLib exampleSessionSink false).1 false).2 = GST_RTSP_OK
    ∧ (gst_rtsp_sink_record exampleSinkLib
        (gst_rtsp_sink_open exampleSinkLib exampleSessionSink false).1 false).1.state
        = GST_RTSP_STATE_INVALID
    ∧ (sent (gst_rtsp_sink_close exampleSinkLib
        (gst_rtsp_sink_record exampleSinkLib
          (gst_rtsp_sink_open exampleSinkLib exampleSessionSink false).1 false).1
        false false).1.trace).map (fun m => m.method)
        = [GstRTSPMethod.OPTIONS, GstRTSPMethod.ANNOUNCE, GstRTSPMethod.SETUP,
           GstRTSPMethod.RECORD]
    ∧ (gst_rtsp_sink_pause exampleSinkLib
        (gst_rtsp_sink_record exampleSinkLib
          (gst_rtsp_sink_open exampleSinkLib exampleSessionSink false).1 false).1
        false).2 = GST_RTSP_OK
    ∧ (gst_rtsp_sink_pause exampleSinkLib
        (gst_rtsp_sink_record exampleSinkLib
          (gst_rtsp_sink_open exampleSinkLib exampleSessionSink false).1 false).1
        false).1.state = GST_RTSP_STATE_READY
    ∧ (sent (gst_rtsp_sink_pause exampleSinkLib
        (gst_rtsp_sink_record exampleSinkLib
          (gst_rtsp_sink_open exampleSinkLib exampleSessionSink false).1 false).1
        false).1.trace).map (fun m => m.method)
        = [GstRTSPMethod.OPTIONS, GstRTSPMethod.ANNOUNCE, GstRTSPMethod.SETUP,
           GstRTSPMethod.RECORD, GstRTSPMethod.OPTIONS, GstRTSPMethod.PAUSE]
    ∧ (gst_rtsp_sink_record exampleSinkLib
        (gst_rtsp_sink_pause exampleSinkLib
          (gst_rtsp_sink_record exampleSinkLib
            (gst_rtsp_sink_open exampleSinkLib exampleSessionSink false).1 false).1
          false).1 false).2 = GST_RTSP_OK
    ∧ (gst_rtsp_sink_record exampleSinkLib
        (gst_rtsp_sink_pause exampleSinkLib
          (gst_rtsp_sink_record exampleSinkLib
            (gst_rtsp_sink_open exampleSinkLib exampleSessionSink false).1 false).1
          false).1 false).1.state = GST_RTSP_STATE_READY
    ∧ (∀ (lib : SinkLib) (sink : GstRTSPSink) (async : Bool),
        0 ≤ (gst_rtsp_sink_pause lib sink async).2 →
        (gst_rtsp_sink_ensure_open lib sink async).1.methods &&& GstRTSPMethod.PAUSE.bit ≠ 0 →
        (gst_rtsp_sink_pause lib sink async).1.state = GST_RTSP_STATE_READY)
    ∧ (∀ (lib : SinkLib) (sink : GstRTSPSink) (async only_close : Bool),
        (gst_rtsp_sink_close lib sink async only_close).1.state = GST_RTSP_STATE_INVALID) := by
  refine ⟨?_, ?_, ?_, ?_, ?_, ?_, ?_, ?_, ?_, ?_, ?_, fun lib sink async =>
    pause_state lib sink async, fun lib sink async only_close =>
    close_state lib sink async only_close⟩ <;> decide!

/-- C25: a payload type above the counter that a payloader reports is kept
but not reserved, and the counter hands it out again.  From a sink after
cleanup (`next_dyn_pt = 96`), calls of `gst_rtsp_sink_create_stream` for
payloaders that report 97 and 96 both succeed and give both streams the
payload type 97 (with the retransmission types 96 and 98); for payloaders
that report 100, 96 and 96 the third stream gets the retransmission type 100
of the first stream's payloader.  The counter itself does not wrap: for
every sink and context a call that succeeds leaves the counter at most 128
when it was, gives a retransmission type of at most 127, and gives the
payloader the type it reported or one of at most 127; a call that finds the
counter above 127 where it needs a new type fails with the error
`Ran out of dynamic payload types.` -/
theorem create_stream_reuses_kept_payload_type :
    (create_streams (exampleSink GST_RTSP_LOWER_TRANS_UDP [] [])
        [examplePayloader 0 97, examplePayloader 1 96]).2.map
          (fun s => (s.1.payloader_pt, s.1.retransmission_pt, s.2))
        = [(97, 96, true), (97, 98, true)]
    ∧ ¬ (payload_types (create_streams (exampleSink GST_RTSP_LOWER_TRANS_UDP [] [])
        [examplePayloader 0 97, examplePayloader 1 96]).2).Nodup
    ∧ (create_streams (exampleSink GST_RTSP_LOWER_TRANS_UDP [] [])
        [examplePayloader 0 100, examplePayloader 1 96, examplePayloader 2 96]).2.map
          (fun s => (s.1.payloader_pt, s.1.retransmission_pt, s.2))
        = [(100, 96, true), (97, 98, true), (99, 100, true)]
    ∧ (∀ (sink : GstRTSPSink) (context : GstRTSPStreamContext),
        (gst_rtsp_sink_create_stream sink context).2.2 = true →
          (sink.next_dyn_pt ≤ 128 →
            (gst_rtsp_sink_create_stream sink context).1.next_dyn_pt ≤ 128)
          ∧ sink.next_dyn_pt < (gst_rtsp_sink_create_stream sink context).1.next_dyn_pt
          ∧ (gst_rtsp_sink_create_stream sink context).2.1.retransmission_pt ≤ 127
          ∧ ((gst_rtsp_sink_create_stream sink context).2.1.payloader_pt = context.payloader_pt
              ∨ (gst_rtsp_sink_create_stream sink context).2.1.payloader_pt ≤ 127)
          ∧ (gst_rtsp_sink_create_stream sink context).1.trace = sink.trace)
    ∧ (∀ (sink : GstRTSPSink) (context : GstRTSPStreamContext),
        (gst_rtsp_sink_create_stream sink context).2.2 = false →
          (gst_rtsp_sink_create_stream sink context).1.trace = sink.trace
            ++ [SinkEvent.element_error "NO_SPACE_LEFT: Ran out of dynamic payload types."]
          ∧ 127 ≤ sink.next_dyn_pt
          ∧ (gst_rtsp_sink_create_stream sink context).2.1 = context) := by
  refine ⟨by decide, by decide, by decide, ?_, ?_⟩
  · intro sink context h
    unfold gst_rtsp_sink_create_stream create_stream_aux create_stream_no_free_pt at h ⊢
    dsimp only at h ⊢
    split_ifs at h ⊢ <;> simp_all <;> omega
  · intro sink context h
    unfold gst_rtsp_sink_create_stream create_stream_aux create_stream_no_free_pt at h ⊢
    dsimp only at h ⊢
    split_ifs at h ⊢ <;> simp_all [GstRTSPSink.log] <;> omega

/-- C26: a proxy string with `http://` in front and a user and a password is
not stored as written.  `gst_rtsp_sink_set_proxy` skips the prefix in `p` but
looks for the colon of `user:passwd` from the start of the string, so it
finds the colon of `http:` and calls `g_strndup (p, col - p)` with the
length -3: for every text with an `@` after `http://` the call has no defined
result.  Without the prefix the same text is stored as written, as is a text
with the prefix and without user and password; a NULL string clears the four
fields. -/
theorem set_proxy_http_prefix_with_user :
    (∀ (rtsp : GstRTSPSink) (s : CString), '@' ∈ s →
        gst_rtsp_sink_set_proxy rtsp (some ("http://".toList ++ s)) = none)
    ∧ gst_rtsp_sink_set_proxy (exampleSink GST_RTSP_LOWER_TRANS_UDP [] [])
        (some "http://user:pw@host:3128".toList) = none
    ∧ (gst_rtsp_sink_set_proxy (exampleSink GST_RTSP_LOWER_TRANS_UDP [] [])
        (some "user:pw@host:3128".toList)).map
          (fun r => (r.1.proxy_user, r.1.proxy_passwd, r.1.proxy_host, r.1.proxy_port, r.2))
        = some (some "user".toList, some "pw".toList, some "host".toList, 3128, true)
    ∧ (gst_rtsp_sink_set_proxy (exampleSink GST_RTSP_LOWER_TRANS_UDP [] [])
        (some "http://host:3128".toList)).map
          (fun r => (r.1.proxy_user, r.1.proxy_passwd, r.1.proxy_host, r.1.proxy_port, r.2))
        = some (none, none, some "host".toList, 3128, true)
    ∧ (gst_rtsp_sink_set_proxy
        { exampleSink GST_RTSP_LOWER_TRANS_UDP [] [] with
          prop_proxy_id := some "id".toList, prop_proxy_pw := some "word".toList }
        (some "host".toList)).map
          (fun r => (r.1.proxy_user, r.1.proxy_passwd, r.1.proxy_host, r.1.proxy_port, r.2))
        = some (some "id".toList, some "word".toList, some "host".toList, 8080, true)
    ∧ (gst_rtsp_sink_set_proxy
        { exampleSink GST_RTSP_LOWER_TRANS_UDP [] [] with
          proxy_user := some "user".toList, proxy_passwd := some "pw".toList,
          proxy_host := some "host".toList, proxy_port := 3128 } none).map
          (fun r => (r.1.proxy_user, r.1.proxy_passwd, r.1.proxy_host, r.1.proxy_port, r.2))
        = some (none, none, none, 0, true) := by
  refine ⟨?_, by decide, by decide, by decide, by decide, by decide⟩
  intro rtsp s hs
  unfold gst_rtsp_sink_set_proxy
  have hp : ("http://".toList.isPrefixOf ("http://".toList ++ s)) = true := by
    simp [List.isPrefixOf]
  have hd : ("http://".toList ++ s).drop 7 = s := by simp
  simp only [hp, if_true, hd, strchr_mem s '@' hs, Option.map_some', strchr_http_colon]
  rw [if_neg (by omega), if_pos (by decide)]

/-- C27: for every Digest challenge text, `gst_rtsp_sink_parse_digest_challenge`
(a total function: the round bound of its first loop, the length of the text,
is never reached) records the parameters of exactly the items of the text -
the pieces between the commas outside double-quoted strings, trimmed, without
the empty ones - in order.  An item `name = value` is recorded under its name
with its value, decoded when the value starts with a double quote; an item
with an empty name is dropped; an item without `=` is recorded with no
value. -/
theorem parse_digest_challenge_items :
    (∀ (c : GstRTSPConnection) (header : CString),
      (gst_rtsp_sink_parse_digest_challenge (some c) header).1
        = some { c with auth_params := (challenge_items header).filterMap digest_item_param })
    ∧ (∀ (name w1 w2 value : CString) (hne : name ≠ []),
        (∀ x ∈ name, x ≠ '=') → g_ascii_isspace (name.getLast hne) = false →
        (∀ x ∈ w1, g_ascii_isspace x = true) → (∀ x ∈ w2, g_ascii_isspace x = true) →
        (∀ c, value.head? = some c → g_ascii_isspace c = false) →
        digest_item_param (name ++ w1 ++ '=' :: (w2 ++ value))
          = some (name, some (if value.head? = some '"' then
              gst_rtsp_decode_quoted_string value else value)))
    ∧ (∀ w rest : CString, (∀ x ∈ w, g_ascii_isspace x = true) →
        digest_item_param (w ++ '=' :: rest) = none)
    ∧ (∀ item : CString, (∀ x ∈ item, x ≠ '=') → digest_item_param item = some (item, none)) :=
  ⟨parse_digest_challenge_params, digest_item_param_pair, digest_item_param_no_name,
    digest_item_param_no_value⟩

/-- C27 at work: the challenge text `realm="a, b", nonce="x\"y"` yields the
parameters realm = `a, b` and nonce = `x"y`; the item `nonce = "n"` is
recorded as nonce = `n`, the item ` =x` is dropped and the item `auth` is
recorded without value. -/
theorem parse_digest_challenge_items_witness :
    (gst_rtsp_sink_parse_digest_challenge
        (some { url := exampleSinkUrl none none, auth := none, auth_params := [] })
        "realm=\"a, b\", nonce=\"x\\\"y\"".toList).1
      = some { url := exampleSinkUrl none none, auth := none,
               auth_params := [("realm".toList, some "a, b".toList),
                               ("nonce".toList, some "x\"y".toList)] }
    ∧ digest_item_param "nonce = \"n\"".toList = some ("nonce".toList, some "n".toList)
    ∧ digest_item_param " =x".toList = none
    ∧ digest_item_param "auth".toList = some ("auth".toList, none) :=
  ⟨(parse_digest_challenge_items.1 _ _).trans (by decide),
    (parse_digest_challenge_items.2.1 "nonce".toList " ".toList " ".toList "\"n\"".toList
      (by decide) (by decide) (by decide) (by decide) (by decide) (by decide)).trans (by decide),
    parse_digest_challenge_items.2.2.1 " ".toList "x".toList (by decide),
    parse_digest_challenge_items.2.2.2 "auth".toList (by decide)⟩

/-- C28 (counterexample): on `exampleWrapSink` the server answers the SETUP
of the first stream with the TCP transport `interleaved=2147483646-2147483647`.
The handling of that response leaves the counter, which was 0, at -2147483648
(the increment of 2147483647 in a `gint`), not at 2147483648 and not above
the previous value; and the SETUP request of the second stream offers the
channels -2147483648 and -2147483647, which are below the channels
2147483646 and 2147483647 the server assigned to the first stream. -/
theorem setup_streams_free_channel_wraps :
    exampleWrapSink.free_channel = 0
    ∧ (setup_stream_response exampleWrapLib exampleWrapSink
        (exampleContext 0 GST_RTSP_PROFILE_AVP) GST_RTSP_LOWER_TRANS_TCP GST_RTSP_OK
        (some (exampleResponse 200 "OK"
          [(GstRTSPHeaderField.TRANSPORT,
            "RTP/AVP/TCP;unicast;interleaved=2147483646-2147483647")]))).sink.free_channel
        = -2147483648
    ∧ (gst_rtsp_sink_setup_streams exampleWrapLib exampleWrapSink).2 = GST_RTSP_OK
    ∧ assigned_channels
        ((gst_rtsp_sink_setup_streams exampleWrapLib exampleWrapSink).1.trace.take 6)
        = [2147483646, 2147483647]
    ∧ (gst_rtsp_sink_setup_streams exampleWrapLib exampleWrapSink).1.trace.get? 6
        = some (SinkEvent.try_send
            (GstRTSPMessage.request GstRTSPMethod.SETUP "rtsp://host/test/stream=1".toList
              [(GstRTSPHeaderField.TRANSPORT,
                "RTP/AVP/TCP;unicast;interleaved=-2147483648--2147483647;mode=RECORD".toList)]))
    ∧ (sent (gst_rtsp_sink_setup_streams exampleWrapLib exampleWrapSink).1.trace).get? 1
        = some (GstRTSPMessage.request GstRTSPMethod.SETUP "rtsp://host/test/stream=1".toList
            [(GstRTSPHeaderField.TRANSPORT,
              "RTP/AVP/TCP;unicast;interleaved=-2147483648--2147483647;mode=RECORD".toList)]) := by
  refine ⟨?_, ?_, ?_, ?_, ?_, ?_⟩ <;> decide!

/-- C28 (amended): the counter of the interleaved channels in
`gst_rtsp_sink_setup_streams`, as long as it stays in the range of a `gint`
(it starts at -2^31 or above, and by the rule below it stays below
2^31 - 1).
The handling of a 200 response with a TCP transport whose interleaved
channels are `min` and `max` sets `free_channel` to the maximum of `min`,
`max` and the previous `free_channel`, plus one.  For a call of
`gst_rtsp_sink_setup_streams` with the events `evs`: the counter after the
call is the one this rule gives over the TCP transports configured, in order;
the rule makes the counter larger at each of them; and every SETUP request
tried after an offer of TCP has a Transport header that offers the
interleaved channels `c` and `c + 1`, where `c` is the counter by the rule
after the events before the request, which is above every channel the server
assigned in those events. -/
theorem setup_streams_free_channel (lib : SinkLib) :
    (∀ (sink : GstRTSPSink) (context : GstRTSPStreamContext) (protocols : Nat)
        (res : GstRTSPResult) (response : GstRTSPMessage) (resptrans : CString)
        (transport : GstRTSPTransport),
        gst_rtsp_message_get_header response.headers GstRTSPHeaderField.TRANSPORT 0
          = some resptrans →
        lib.rtsp.transport_parse resptrans = some transport →
        transport.lower_transport = GST_RTSP_LOWER_TRANS_TCP →
        -2 ^ 31 ≤ sink.free_channel →
        max (max transport.interleaved.min transport.interleaved.max) sink.free_channel + 1
          < 2 ^ 31 →
        (setup_stream_response lib sink context protocols res (some response)).sink.free_channel
          = max (max transport.interleaved.min transport.interleaved.max) sink.free_channel
            + 1)
    ∧ (∀ (sink : GstRTSPSink) (evs : List SinkEvent),
        (gst_rtsp_sink_setup_streams lib sink).1.trace = sink.trace ++ evs →
        -2 ^ 31 ≤ sink.free_channel →
        free_channel_after sink.free_channel evs < 2 ^ 31 - 1 →
        (gst_rtsp_sink_setup_streams lib sink).1.free_channel
            = free_channel_after sink.free_channel evs
          ∧ (∀ pre index transport post,
              evs = pre ++ SinkEvent.stream_transport index transport :: post →
              transport.lower_transport = GST_RTSP_LOWER_TRANS_TCP →
              free_channel_after sink.free_channel
                  (pre ++ [SinkEvent.stream_transport index transport])
                = max (max transport.interleaved.min transport.interleaved.max)
                    (free_channel_after sink.free_channel pre) + 1
              ∧ free_channel_after sink.free_channel pre
                < free_channel_after sink.free_channel
                    (pre ++ [SinkEvent.stream_transport index transport]))
          ∧ (∀ pre request post, evs = pre ++ SinkEvent.try_send request :: post →
              last_offer GST_RTSP_LOWER_TRANS_UNKNOWN pre = GST_RTSP_LOWER_TRANS_TCP →
              offers_interleaved request (free_channel_after sink.free_channel pre)
                  (free_channel_after sink.free_channel pre + 1)
              ∧ ∀ c ∈ assigned_channels pre, c < free_channel_after sink.free_channel pre)) := by
  refine ⟨?_, ?_⟩
  · intro sink context protocols res response resptrans transport hh hp hl h0 hb
    unfold setup_stream_response
    simp only [Option.map_some', Option.getD_some, hh, hp, if_pos hl]
    rw [next_free_channel_eq]
    unfold next_free_channel
    have hle := le_max_right (max transport.interleaved.min transport.interleaved.max)
      sink.free_channel
    exact wrap32_id _ (by omega) hb
  · intro sink evs ht h0 hb
    obtain ⟨evs', ht', hp⟩ := setup_streams_channel lib sink
    have he : evs' = evs := by
      unfold SinkTrace at ht'
      rw [ht] at ht'
      exact (List.append_cancel_left ht').symm
    subst he
    obtain ⟨q1, q2⟩ := hp GST_RTSP_LOWER_TRANS_UNKNOWN h0 hb
    refine ⟨q1, ?_, ?_⟩
    · intro pre index transport post _ hl
      have e := free_channel_after_tcp sink.free_channel pre index transport hl
      refine ⟨e, ?_⟩
      rw [e]
      have hle := le_max_right (max transport.interleaved.min transport.interleaved.max)
        (free_channel_after sink.free_channel pre)
      omega
    · intro pre request post he hl
      exact ⟨offers_free_channel_at _ _ _ pre post request q2 he hl,
        assigned_channels_below pre sink.free_channel⟩

/-- C28 (witness): on `exampleTcpSink` the counter goes from 0 to 2 and,
although the server answers the second stream with the channels 0 and 1
again, to 3; the SETUP request of the second stream offers the channels 2
and 3. -/
theorem setup_streams_free_channel_witness :
    (gst_rtsp_sink_setup_streams exampleSinkLib exampleTcpSink).1.free_channel = 3
    ∧ (sent (gst_rtsp_sink_setup_streams exampleSinkLib exampleTcpSink).1.trace).get? 1
        = some (GstRTSPMessage.request GstRTSPMethod.SETUP "rtsp://host/test/stream=1".toList
            [(GstRTSPHeaderField.TRANSPORT,
              "RTP/AVP/TCP;unicast;interleaved=2-3;mode=RECORD".toList)])
    ∧ offers_interleaved
        (GstRTSPMessage.request GstRTSPMethod.SETUP "rtsp://host/test/stream=1".toList
          [(GstRTSPHeaderField.TRANSPORT,
            "RTP/AVP/TCP;unicast;interleaved=2-3;mode=RECORD".toList)]) 2 3 := by
  have h := (setup_streams_free_channel exampleSinkLib).2 exampleTcpSink
    (gst_rtsp_sink_setup_streams exampleSinkLib exampleTcpSink).1.trace
    (List.nil_append _).symm (by decide) (by decide)
  have h3 := (h.2.2
    ((gst_rtsp_sink_setup_streams exampleSinkLib exampleTcpSink).1.trace.take 6)
    (GstRTSPMessage.request GstRTSPMethod.SETUP "rtsp://host/test/stream=1".toList
      [(GstRTSPHeaderField.TRANSPORT,
        "RTP/AVP/TCP;unicast;interleaved=2-3;mode=RECORD".toList)])
    ((gst_rtsp_sink_setup_streams exampleSinkLib exampleTcpSink).1.trace.drop 7)
    (by decide) (by decide)).1
  have e : free_channel_after exampleTcpSink.free_channel
      ((gst_rtsp_sink_setup_streams exampleSinkLib exampleTcpSink).1.trace.take 6) = 2 := by
    decide
  rw [e] at h3
  exact ⟨h.1.trans (by decide), by decide, h3⟩

/-- C30: `gst_rtsp_decode_quoted_string` undoes RFC 2617 quoting: on the
quoted form of a text `s`, followed by any further text, it yields `s`; and
on every input that starts with a double quote the decoded text is strictly
shorter than the input. -/
theorem decode_quoted_string_unquotes :
    (∀ s rest : CString, gst_rtsp_decode_quoted_string (quoted_string s ++ rest) = s)
    ∧ (∀ input : CString, input.head? = some '"' →
        (gst_rtsp_decode_quoted_string input).length < input.length) := by
  constructor
  · intro s rest
    unfold gst_rtsp_decode_quoted_string quoted_string
    simp only [List.cons_append, List.drop_succ_cons, List.drop_zero, List.append_assoc,
      List.singleton_append]
    exact decode_quoted_loop_escape s rest
  · intro input h
    match input, h with
    | c :: rest, _ =>
      unfold gst_rtsp_decode_quoted_string
      have := decode_quoted_loop_length rest.length rest (le_refl _)
      simp only [List.drop_succ_cons, List.drop_zero, List.length_cons]
      omega

/-- C30 at work: the quoted form of `a"b\c`, followed by `, x`, decodes to
`a"b\c`, and the decoded text of `"ab"` is shorter than the input. -/
theorem decode_quoted_string_unquotes_witness :
    gst_rtsp_decode_quoted_string ("\"a\\\"b\\\\c\", x".toList) = "a\"b\\c".toList
    ∧ (gst_rtsp_decode_quoted_string "\"ab\"".toList).length < "\"ab\"".toList.length :=
  ⟨decode_quoted_string_unquotes.1 "a\"b\\c".toList ", x".toList,
    decode_quoted_string_unquotes.2 "\"ab\"".toList (by decide)⟩

end RtspServer
